import Mathlib

/-!
# Samsung S5P DisplayPort driver: EDID acquisition and link training

A shallow embedding of `drivers/video/s5p-dp-core.c` (the functions up to
`s5p_dp_set_link_train`) and theorems about it.

Conventions of the embedding.

* C integers are `Nat` / `Int`; a store into a `u8` object is written `% 256`,
  a store into a `u32` object `% 2 ^ 32`.
* C arrays (`link_status`, `adjust_request`, `edid`, `cr_loop`, `training_lane`, `buf`)
  are maps `Nat → Nat` from index to element.  The map has no length: an index past the
  C array's end simply reads the map there.  All theorems are stated for the
  range of indices the C arrays have.  The section on bounded arrays gives the training
  engine once more with arrays that have their C length, and shows that it agrees with
  these functions for up to 4 lanes.
* The counters `eq_loop` and `cr_loop[]` are natural numbers and `++` on them is `+ 1`,
  without the wrap-around of a C `int`.  The code does the same while the counter is
  below `INT_MAX`: in a run of the training loop the counters are reset in `START` and
  stay at most `MAX_CR_LOOP` and `MAX_EQ_LOOP + 1`; a theorem about a single pass from a
  state given from outside assumes the counter below `INT_MAX`.
* The driver's headers (`s5p-dp-core.h`, `video/s5p-dp.h`, the errno headers) are not
  among the sources.  Every constant and macro they define is a field of `Hdr`, and every
  function takes the header as its first argument.
* The register layer (`s5p-dp-reg.c`) is not among the sources.  A call into it is
  recorded in the device's `log`; when the call hands something back (a return value, a
  byte read, a register value) that answer is the next entry of the device's `aux`
  stream, which is arbitrary.
-/

namespace S5pDp

/-! ## Header constants -/

/-- Constants and function-like macros that the driver takes from headers which are not
among the sources.  Function-like macros are fields of type `Nat → Nat`. -/
structure Hdr where
  EIO : Int
  EINVAL : Int
  EREMOTEIO : Int
  DP_TIMEOUT_LOOP_COUNT : Nat
  MAX_CR_LOOP : Nat
  MAX_EQ_LOOP : Nat
  EDID_BLOCK_LENGTH : Nat
  EDID_HEADER_PATTERN : Nat
  EDID_EXTENSION_FLAG : Nat
  EDID_CHECKSUM : Nat
  I2C_EDID_DEVICE_ADDR : Nat
  DPCD_ADDR_DPCD_REV : Nat
  DPCD_ADDR_MAX_LINK_RATE : Nat
  DPCD_ADDR_MAX_LANE_COUNT : Nat
  DPCD_ADDR_LINK_BW_SET : Nat
  DPCD_ADDR_LANE_COUNT_SET : Nat
  DPCD_ADDR_TRAINING_PATTERN_SET : Nat
  DPCD_ADDR_TRAINING_LANE0_SET : Nat
  DPCD_ADDR_LANE0_1_STATUS : Nat
  DPCD_ADDR_ADJUST_REQUEST_LANE0_1 : Nat
  DPCD_ADDR_ADJUST_REQUEST_LANE2_3 : Nat
  DPCD_ADDR_TEST_REQUEST : Nat
  DPCD_ADDR_TEST_RESPONSE : Nat
  DPCD_ADDR_TEST_EDID_CHECKSUM : Nat
  DPCD_ADDR_SINK_POWER_STATE : Nat
  DPCD_TEST_EDID_READ : Nat
  DPCD_TEST_EDID_CHECKSUM_WRITE : Nat
  DPCD_SET_POWER_STATE_D0 : Nat
  DPCD_ENHANCED_FRAME_EN : Nat
  DPCD_LANE_COUNT_SET : Nat → Nat
  DPCD_ENHANCED_FRAME_CAP : Nat → Nat
  DPCD_MAX_LANE_COUNT : Nat → Nat
  DPCD_SCRAMBLING_DISABLED : Nat
  DPCD_TRAINING_PATTERN_DISABLED : Nat
  DPCD_TRAINING_PATTERN_1 : Nat
  DPCD_TRAINING_PATTERN_2 : Nat
  DPCD_PRE_EMPHASIS_PATTERN2_LEVEL0 : Nat
  DPCD_VOLTAGE_SWING_PATTERN1_LEVEL0 : Nat
  DPCD_LANE_CR_DONE : Nat
  DPCD_CHANNEL_EQ_BITS : Nat
  DPCD_INTERLANE_ALIGN_DONE : Nat
  DPCD_VOLTAGE_SWING_SET : Nat → Nat
  DPCD_PRE_EMPHASIS_SET : Nat → Nat
  DPCD_VOLTAGE_SWING_GET : Nat → Nat
  DPCD_PRE_EMPHASIS_GET : Nat → Nat
  DPCD_MAX_SWING_REACHED : Nat
  DPCD_MAX_PRE_EMPHASIS_REACHED : Nat
  LINK_RATE_1_62GBPS : Nat
  LINK_RATE_2_70GBPS : Nat
  LANE_COUNT1 : Nat
  VOLTAGE_LEVEL_3 : Nat
  PRE_EMPHASIS_LEVEL_0 : Nat
  PRE_EMPHASIS_LEVEL_3 : Nat
  DP_NONE : Nat
  TRAINING_PTN1 : Nat
  TRAINING_PTN2 : Nat
  POWER_ALL : Nat
  CH1_BLOCK : Nat

/-- A sample header, used to evaluate the functions on concrete inputs: the errno numbers
of Linux, the link rates `0x06` / `0x0a` and lane counts named in the comments of
`s5p_dp_get_max_rx_bandwidth` and `s5p_dp_get_max_rx_lane_count`, 128-byte EDID blocks, and
the DisplayPort 1.1 register map for the rest. -/
def sample_hdr : Hdr where
  EIO := 5
  EINVAL := 22
  EREMOTEIO := 121
  DP_TIMEOUT_LOOP_COUNT := 100
  MAX_CR_LOOP := 5
  MAX_EQ_LOOP := 4
  EDID_BLOCK_LENGTH := 0x80
  EDID_HEADER_PATTERN := 0x00
  EDID_EXTENSION_FLAG := 0x7e
  EDID_CHECKSUM := 0x7f
  I2C_EDID_DEVICE_ADDR := 0x50
  DPCD_ADDR_DPCD_REV := 0x0000
  DPCD_ADDR_MAX_LINK_RATE := 0x0001
  DPCD_ADDR_MAX_LANE_COUNT := 0x0002
  DPCD_ADDR_LINK_BW_SET := 0x0100
  DPCD_ADDR_LANE_COUNT_SET := 0x0101
  DPCD_ADDR_TRAINING_PATTERN_SET := 0x0102
  DPCD_ADDR_TRAINING_LANE0_SET := 0x0103
  DPCD_ADDR_LANE0_1_STATUS := 0x0202
  DPCD_ADDR_ADJUST_REQUEST_LANE0_1 := 0x0206
  DPCD_ADDR_ADJUST_REQUEST_LANE2_3 := 0x0207
  DPCD_ADDR_TEST_REQUEST := 0x0218
  DPCD_ADDR_TEST_RESPONSE := 0x0260
  DPCD_ADDR_TEST_EDID_CHECKSUM := 0x0261
  DPCD_ADDR_SINK_POWER_STATE := 0x0600
  DPCD_TEST_EDID_READ := 0x04
  DPCD_TEST_EDID_CHECKSUM_WRITE := 0x04
  DPCD_SET_POWER_STATE_D0 := 0x01
  DPCD_ENHANCED_FRAME_EN := 0x80
  DPCD_LANE_COUNT_SET := fun x => x &&& 0x1f
  DPCD_ENHANCED_FRAME_CAP := fun x => (x >>> 7) &&& 0x1
  DPCD_MAX_LANE_COUNT := fun x => x &&& 0x1f
  DPCD_SCRAMBLING_DISABLED := 0x20
  DPCD_TRAINING_PATTERN_DISABLED := 0x00
  DPCD_TRAINING_PATTERN_1 := 0x01
  DPCD_TRAINING_PATTERN_2 := 0x02
  DPCD_PRE_EMPHASIS_PATTERN2_LEVEL0 := 0x00
  DPCD_VOLTAGE_SWING_PATTERN1_LEVEL0 := 0x00
  DPCD_LANE_CR_DONE := 0x01
  DPCD_CHANNEL_EQ_BITS := 0x07
  DPCD_INTERLANE_ALIGN_DONE := 0x01
  DPCD_VOLTAGE_SWING_SET := fun x => x &&& 0x3
  DPCD_PRE_EMPHASIS_SET := fun x => (x &&& 0x3) <<< 3
  DPCD_VOLTAGE_SWING_GET := fun x => x &&& 0x3
  DPCD_PRE_EMPHASIS_GET := fun x => (x >>> 3) &&& 0x3
  DPCD_MAX_SWING_REACHED := 0x04
  DPCD_MAX_PRE_EMPHASIS_REACHED := 0x20
  LINK_RATE_1_62GBPS := 0x06
  LINK_RATE_2_70GBPS := 0x0a
  LANE_COUNT1 := 1
  VOLTAGE_LEVEL_3 := 3
  PRE_EMPHASIS_LEVEL_0 := 0
  PRE_EMPHASIS_LEVEL_3 := 3
  DP_NONE := 0
  TRAINING_PTN1 := 1
  TRAINING_PTN2 := 2
  POWER_ALL := 4
  CH1_BLOCK := 3

/-! ## Control-flow helpers -/

/-- The C loop `for (i = 0; i < n; i++) s = body(i, s);`. -/
def for_loop {σ : Type} (body : Nat → σ → σ) : Nat → σ → σ
  | 0, s => s
  | n + 1, s => body n (for_loop body n s)

/-- The C loop `for (; todo > 0; i++, todo--) if (body(i) returns r) return r;`: `some r` when
iteration `i` executes a `return r`, `none` when the loop runs to its end. -/
def for_return {ρ : Type} (body : Nat → Option ρ) : Nat → Nat → Option ρ
  | 0, _ => none
  | todo + 1, i =>
    match body i with
    | some r => some r
    | none => for_return body todo (i + 1)

/-! ## Device state -/

/-- The states of `enum link_training_state`. -/
inductive link_training_state where
  | START
  | CLOCK_RECOVERY
  | EQUALIZER_TRAINING
  | FINISHED
  | FAILED
  deriving DecidableEq, Repr

/-- The session `struct link_train` (the member `dp->link_train`). -/
structure link_train where
  eq_loop : Nat
  cr_loop : Nat → Nat
  link_rate : Nat
  lane_count : Nat
  training_lane : Nat → Nat
  lt_state : link_training_state

/-- What the register layer hands back for one call: the call's return value and the data
it stores through its output pointer (or returns). -/
structure Resp where
  retval : Int
  data : List Nat
  deriving DecidableEq, Repr

/-- One call into the register layer, with its arguments.  `reduce_link_rate` is not a
register-layer call: it marks an entry into `s5p_dp_reduce_link_rate`. -/
inductive Event where
  | read_byte_from_i2c (device_addr reg_addr : Nat)
  | read_bytes_from_i2c (device_addr reg_addr count : Nat)
  | read_byte_from_dpcd (reg_addr : Nat)
  | read_bytes_from_dpcd (reg_addr count : Nat)
  | write_byte_to_dpcd (reg_addr data : Nat)
  | write_bytes_to_dpcd (reg_addr count : Nat) (data : List Nat)
  | set_link_bandwidth (bwtype : Nat)
  | get_link_bandwidth
  | set_lane_count (count : Nat)
  | get_lane_count
  | set_lane_pre_emphasis (lane level : Nat)
  | set_lane_link_training (lane training_lane : Nat)
  | get_lane_link_training (lane : Nat)
  | set_training_pattern (pattern : Nat)
  | enable_enhanced_mode (enable : Bool)
  | reset_macro
  | set_analog_power_down (block : Nat) (enable : Bool)
  | udelay (usecs : Nat)
  | reduce_link_rate
  deriving DecidableEq, Repr

/-- The part of `struct s5p_dp_device` the functions below use, with the hardware around it:
`aux` is the stream of answers of the register layer, `tick` the number of answers
consumed so far, `log` the calls made so far, oldest first. -/
structure s5p_dp_device where
  link_train : link_train
  aux : Nat → Resp
  tick : Nat
  log : List Event

/-- Record a call. -/
def emit (dp : s5p_dp_device) (e : Event) : s5p_dp_device :=
  { dp with log := dp.log ++ [e] }

/-- Take the next answer of the register layer. -/
def answer (dp : s5p_dp_device) : Resp × s5p_dp_device :=
  (dp.aux dp.tick, { dp with tick := dp.tick + 1 })

/-- Assignment to `dp->link_train.lt_state`. -/
def set_lt_state (dp : s5p_dp_device) (v : link_training_state) : s5p_dp_device :=
  { dp with link_train := { dp.link_train with lt_state := v } }

/-- Assignment to `dp->link_train.link_rate` (a `u8`). -/
def set_link_rate (dp : s5p_dp_device) (v : Nat) : s5p_dp_device :=
  { dp with link_train := { dp.link_train with link_rate := v % 256 } }

/-- Assignment to `dp->link_train.lane_count` (a `u8`). -/
def set_lane_count_field (dp : s5p_dp_device) (v : Nat) : s5p_dp_device :=
  { dp with link_train := { dp.link_train with lane_count := v % 256 } }

/-- Assignment to `dp->link_train.eq_loop`. -/
def set_eq_loop (dp : s5p_dp_device) (v : Nat) : s5p_dp_device :=
  { dp with link_train := { dp.link_train with eq_loop := v } }

/-- Assignment to `dp->link_train.cr_loop[lane]`. -/
def set_cr_loop (dp : s5p_dp_device) (lane v : Nat) : s5p_dp_device :=
  { dp with link_train :=
      { dp.link_train with cr_loop := Function.update dp.link_train.cr_loop lane v } }

/-- Assignment to `dp->link_train.training_lane[lane]` (a `u8`). -/
def set_training_lane (dp : s5p_dp_device) (lane v : Nat) : s5p_dp_device :=
  { dp with link_train :=
      { dp.link_train with
        training_lane := Function.update dp.link_train.training_lane lane (v % 256) } }

/-! ## The register layer

These functions live in `s5p-dp-reg.c`, which is not among the sources; only their calls
are.  Each one records the call and, when it hands something back, takes the next answer. -/

/-- Modelled from the spec: `s5p_dp_read_byte_from_i2c` (`read_secondary`, one byte) is not
among the sources.  Hands back its return value and what `*data` (an `unsigned int`) holds
after the call. -/
def s5p_dp_read_byte_from_i2c (dp : s5p_dp_device) (device_addr reg_addr : Nat) :
    Int × Nat × s5p_dp_device :=
  let (r, dp) := answer (emit dp (.read_byte_from_i2c device_addr reg_addr))
  (r.retval, r.data.getD 0 0 % 2 ^ 32, dp)

/-- Modelled from the spec: `s5p_dp_read_bytes_from_i2c` (`read_secondary`) is not among the
sources.  Hands back its return value and the `count` bytes the destination holds after
the call. -/
def s5p_dp_read_bytes_from_i2c (dp : s5p_dp_device) (device_addr reg_addr count : Nat) :
    Int × (Nat → Nat) × s5p_dp_device :=
  let (r, dp) := answer (emit dp (.read_bytes_from_i2c device_addr reg_addr count))
  (r.retval, fun i => if i < count then r.data.getD i 0 % 256 else 0, dp)

/-- Modelled from the spec: `s5p_dp_read_byte_from_dpcd` (`read_capability`) is not among
the sources.  Hands back its return value and what `*data` (a `u8`) holds after the call. -/
def s5p_dp_read_byte_from_dpcd (dp : s5p_dp_device) (reg_addr : Nat) :
    Int × Nat × s5p_dp_device :=
  let (r, dp) := answer (emit dp (.read_byte_from_dpcd reg_addr))
  (r.retval, r.data.getD 0 0 % 256, dp)

/-- Modelled from the spec: `s5p_dp_read_bytes_from_dpcd` (`read_capability_block`) is not
among the sources.  Hands back its return value and the `count` bytes the destination
holds after the call. -/
def s5p_dp_read_bytes_from_dpcd (dp : s5p_dp_device) (reg_addr count : Nat) :
    Int × (Nat → Nat) × s5p_dp_device :=
  let (r, dp) := answer (emit dp (.read_bytes_from_dpcd reg_addr count))
  (r.retval, fun i => if i < count then r.data.getD i 0 % 256 else 0, dp)

/-- Modelled from the spec: `s5p_dp_write_byte_to_dpcd` (`write_capability`) is not among
the sources.  `data` is passed as an `unsigned char`.  Hands back its return value. -/
def s5p_dp_write_byte_to_dpcd (dp : s5p_dp_device) (reg_addr data : Nat) :
    Int × s5p_dp_device :=
  let (r, dp) := answer (emit dp (.write_byte_to_dpcd reg_addr (data % 256)))
  (r.retval, dp)

/-- Modelled from the spec: `s5p_dp_write_bytes_to_dpcd` (`write_capability_block`) is not
among the sources.  Writes `data[0 .. count-1]`.  Hands back its return value. -/
def s5p_dp_write_bytes_to_dpcd (dp : s5p_dp_device) (reg_addr count : Nat) (data : Nat → Nat) :
    Int × s5p_dp_device :=
  let (r, dp) := answer (emit dp
    (.write_bytes_to_dpcd reg_addr count ((List.range count).map data)))
  (r.retval, dp)

/-- Modelled from the spec: `s5p_dp_get_link_bandwidth` (`get_link_rate`) is not among the
sources.  Hands back what `*bwtype` (a `u32`) holds after the call. -/
def s5p_dp_get_link_bandwidth (dp : s5p_dp_device) : Nat × s5p_dp_device :=
  let (r, dp) := answer (emit dp .get_link_bandwidth)
  (r.data.getD 0 0 % 2 ^ 32, dp)

/-- Modelled from the spec: `s5p_dp_get_lane_count` (`get_lane_count`) is not among the
sources.  Hands back what `*count` (a `u32`) holds after the call. -/
def s5p_dp_get_lane_count (dp : s5p_dp_device) : Nat × s5p_dp_device :=
  let (r, dp) := answer (emit dp .get_lane_count)
  (r.data.getD 0 0 % 2 ^ 32, dp)

/-- Modelled from the spec: `s5p_dp_get_lane0_link_training` .. `s5p_dp_get_lane3_link_training`
(`get_lane_link_training`) are not among the sources.  Hands back the register value, a `u32`. -/
def s5p_dp_get_laneN_link_training (dp : s5p_dp_device) (lane : Nat) : Nat × s5p_dp_device :=
  let (r, dp) := answer (emit dp (.get_lane_link_training lane))
  (r.data.getD 0 0 % 2 ^ 32, dp)

/-- Modelled from the spec: `s5p_dp_set_link_bandwidth` (`set_link_rate`) is not among the
sources; it hands nothing back. -/
def s5p_dp_set_link_bandwidth (dp : s5p_dp_device) (bwtype : Nat) : s5p_dp_device :=
  emit dp (.set_link_bandwidth bwtype)

/-- Modelled from the spec: `s5p_dp_set_lane_count` (`set_lane_count`) is not among the
sources; it hands nothing back. -/
def s5p_dp_set_lane_count (dp : s5p_dp_device) (count : Nat) : s5p_dp_device :=
  emit dp (.set_lane_count count)

/-- Modelled from the spec: `s5p_dp_set_lane0_pre_emphasis` .. `s5p_dp_set_lane3_pre_emphasis`
(`set_lane_pre_emphasis`) are not among the sources; they hand nothing back. -/
def s5p_dp_set_laneN_pre_emphasis (dp : s5p_dp_device) (lane level : Nat) : s5p_dp_device :=
  emit dp (.set_lane_pre_emphasis lane level)

/-- Modelled from the spec: `s5p_dp_set_lane0_link_training` .. `s5p_dp_set_lane3_link_training`
(`set_lane_link_training`) are not among the sources; they hand nothing back. -/
def s5p_dp_set_laneN_link_training (dp : s5p_dp_device) (lane training_lane : Nat) :
    s5p_dp_device :=
  emit dp (.set_lane_link_training lane training_lane)

/-- Modelled from the spec: `s5p_dp_set_training_pattern` (`set_training_pattern`) is not
among the sources; it hands nothing back. -/
def s5p_dp_set_training_pattern (dp : s5p_dp_device) (pattern : Nat) : s5p_dp_device :=
  emit dp (.set_training_pattern pattern)

/-- Modelled from the spec: `s5p_dp_enable_enhanced_mode` (`enable_enhanced_framing`) is not
among the sources; it hands nothing back. -/
def s5p_dp_enable_enhanced_mode (dp : s5p_dp_device) (enable : Bool) : s5p_dp_device :=
  emit dp (.enable_enhanced_mode enable)

/-- Modelled from the spec: `s5p_dp_reset_macro` is not among the sources; it hands nothing
back. -/
def s5p_dp_reset_macro (dp : s5p_dp_device) : s5p_dp_device :=
  emit dp Event.reset_macro

/-- Modelled from the spec: `s5p_dp_set_analog_power_down` (`lane_power_down`) is not among
the sources; it hands nothing back. -/
def s5p_dp_set_analog_power_down (dp : s5p_dp_device) (block : Nat) (enable : Bool) :
    s5p_dp_device :=
  emit dp (.set_analog_power_down block enable)

/-- The kernel's busy wait `udelay(usecs)`. -/
def udelay (dp : s5p_dp_device) (usecs : Nat) : s5p_dp_device :=
  emit dp (.udelay usecs)

/-- The destination `&dst[off]` after `count` bytes `blk[0 .. count-1]` were stored there. -/
def store_at (dst : Nat → Nat) (off count : Nat) (blk : Nat → Nat) : Nat → Nat :=
  fun i => if off ≤ i ∧ i < off + count then blk (i - off) else dst i

/-- A two-element array holding `a`, `b` (the local `adjust_request[2]`). -/
def arr2 (a b : Nat) : Nat → Nat :=
  fun i => if i = 0 then a else if i = 1 then b else 0

/-! ## Bit-field decoding (pure functions of the source) -/

/-- Source lines 71-80: the 8-bit sum of the first `EDID_BLOCK_LENGTH` bytes. -/
def s5p_dp_calc_edid_check_sum (h : Hdr) (edid_data : Nat → Nat) : Nat :=
  for_loop (fun i sum => (sum + edid_data i) % 256) h.EDID_BLOCK_LENGTH 0

/-- Source lines 318-324. -/
def s5p_dp_get_lane_status (link_status : Nat → Nat) (lane : Nat) : Nat :=
  let shift := (lane &&& 1) * 4
  let link_value := link_status (lane >>> 1)
  (link_value >>> shift) &&& 0xf

/-- Source lines 326-337. -/
def s5p_dp_clock_recovery_ok (h : Hdr) (link_status : Nat → Nat) (lane_count : Nat) : Int :=
  match for_return (fun lane =>
      let lane_status := s5p_dp_get_lane_status link_status lane
      if lane_status &&& h.DPCD_LANE_CR_DONE = 0 then some (-h.EINVAL) else none)
    lane_count 0 with
  | some r => r
  | none => 0

/-- Source lines 339-356. -/
def s5p_dp_channel_eq_ok (h : Hdr) (link_status : Nat → Nat) (lane_count : Nat) : Int :=
  let lane_align := link_status 2
  if ¬ (lane_align = h.DPCD_INTERLANE_ALIGN_DONE) then -h.EINVAL
  else
    match for_return (fun lane =>
        let lane_status := s5p_dp_get_lane_status link_status lane
        let lane_status := (lane_status &&& h.DPCD_CHANNEL_EQ_BITS) % 256
        if lane_status ≠ h.DPCD_CHANNEL_EQ_BITS then some (-h.EINVAL) else none)
      lane_count 0 with
    | some r => r
    | none => 0

/-- Source lines 358-365. -/
def s5p_dp_get_adjust_request_voltage (adjust_request : Nat → Nat) (lane : Nat) : Nat :=
  let shift := (lane &&& 1) * 4
  let link_value := adjust_request (lane >>> 1)
  (link_value >>> shift) &&& 0x3

/-- Source lines 367-375. -/
def s5p_dp_get_adjust_request_pre_emphasis (adjust_request : Nat → Nat) (lane : Nat) : Nat :=
  let shift := (lane &&& 1) * 4
  let link_value := adjust_request (lane >>> 1)
  ((link_value >>> shift) &&& 0xc) >>> 2

/-! ## EDID acquisition -/

/-- Source lines 82-179.  The local `edid[]` is uninitialised in C and starts as the zero
map here; every byte the function reads from it has been stored by a block read first when
`EDID_HEADER_PATTERN = 0`.  The return values of the extension-flag read, of the
test-request read and of the two writes are dropped, as in the source. -/
def s5p_dp_read_edid (h : Hdr) (dp : s5p_dp_device) : Int × s5p_dp_device :=
  let edid : Nat → Nat := fun _ => 0
  let (_, extend_block, dp) :=
    s5p_dp_read_byte_from_i2c dp h.I2C_EDID_DEVICE_ADDR h.EDID_EXTENSION_FLAG
  if extend_block > 0 then
    let (retval, blk, dp) := s5p_dp_read_bytes_from_i2c dp h.I2C_EDID_DEVICE_ADDR
      h.EDID_HEADER_PATTERN h.EDID_BLOCK_LENGTH
    let edid := store_at edid h.EDID_HEADER_PATTERN h.EDID_BLOCK_LENGTH blk
    if retval ≠ 0 then (-h.EIO, dp)
    else
      let sum := s5p_dp_calc_edid_check_sum h edid
      if sum ≠ 0 then (-h.EIO, dp)
      else
        let (retval, blk, dp) := s5p_dp_read_bytes_from_i2c dp h.I2C_EDID_DEVICE_ADDR
          h.EDID_BLOCK_LENGTH h.EDID_BLOCK_LENGTH
        let edid := store_at edid h.EDID_BLOCK_LENGTH h.EDID_BLOCK_LENGTH blk
        if retval ≠ 0 then (-h.EIO, dp)
        else
          let sum := s5p_dp_calc_edid_check_sum h (fun i => edid (h.EDID_BLOCK_LENGTH + i))
          if sum ≠ 0 then (-h.EIO, dp)
          else
            let (_, test_vector, dp) := s5p_dp_read_byte_from_dpcd dp h.DPCD_ADDR_TEST_REQUEST
            if test_vector &&& h.DPCD_TEST_EDID_READ ≠ 0 then
              let (_, dp) := s5p_dp_write_byte_to_dpcd dp h.DPCD_ADDR_TEST_EDID_CHECKSUM
                (edid (h.EDID_BLOCK_LENGTH + h.EDID_CHECKSUM))
              let (_, dp) := s5p_dp_write_byte_to_dpcd dp h.DPCD_ADDR_TEST_RESPONSE
                h.DPCD_TEST_EDID_CHECKSUM_WRITE
              (0, dp)
            else (0, dp)
  else
    let (retval, blk, dp) := s5p_dp_read_bytes_from_i2c dp h.I2C_EDID_DEVICE_ADDR
      h.EDID_HEADER_PATTERN h.EDID_BLOCK_LENGTH
    let edid := store_at edid h.EDID_HEADER_PATTERN h.EDID_BLOCK_LENGTH blk
    if retval ≠ 0 then (-h.EIO, dp)
    else
      let sum := s5p_dp_calc_edid_check_sum h edid
      if sum ≠ 0 then (-h.EIO, dp)
      else
        let (_, test_vector, dp) := s5p_dp_read_byte_from_dpcd dp h.DPCD_ADDR_TEST_REQUEST
        if test_vector &&& h.DPCD_TEST_EDID_READ ≠ 0 then
          let (_, dp) := s5p_dp_write_byte_to_dpcd dp h.DPCD_ADDR_TEST_EDID_CHECKSUM
            (edid h.EDID_CHECKSUM)
          let (_, dp) := s5p_dp_write_byte_to_dpcd dp h.DPCD_ADDR_TEST_RESPONSE
            h.DPCD_TEST_EDID_CHECKSUM_WRITE
          (0, dp)
        else (0, dp)

/-- The loop of `s5p_dp_handle_edid` (source lines 193-197) with `todo = 3 - i` iterations
left and the current value of `retval`. -/
def s5p_dp_handle_edid_loop (h : Hdr) : Nat → Int → s5p_dp_device → Int × s5p_dp_device
  | 0, retval, dp => (retval, dp)
  | todo + 1, _, dp =>
    let (retval, dp) := s5p_dp_read_edid h dp
    if retval = 0 then (retval, dp) else s5p_dp_handle_edid_loop h todo retval dp

/-- Source lines 181-200.  `retval` is uninitialised before the loop; the loop body runs at
least once, so the value it starts with (written `0` here) is never returned. -/
def s5p_dp_handle_edid (h : Hdr) (dp : s5p_dp_device) : Int × s5p_dp_device :=
  let (_, _, dp) := s5p_dp_read_bytes_from_dpcd dp h.DPCD_ADDR_DPCD_REV 12
  s5p_dp_handle_edid_loop h 3 0 dp

/-! ## Link training: helpers -/

/-- Source lines 202-216.  `enable` is a C `bool`. -/
def s5p_dp_enable_rx_to_enhanced_mode (h : Hdr) (dp : s5p_dp_device) (enable : Bool) :
    s5p_dp_device :=
  let (_, data, dp) := s5p_dp_read_byte_from_dpcd dp h.DPCD_ADDR_LANE_COUNT_SET
  if enable then
    (s5p_dp_write_byte_to_dpcd dp h.DPCD_ADDR_LANE_COUNT_SET
      (h.DPCD_ENHANCED_FRAME_EN ||| h.DPCD_LANE_COUNT_SET data)).2
  else
    (s5p_dp_write_byte_to_dpcd dp h.DPCD_ADDR_LANE_COUNT_SET (h.DPCD_LANE_COUNT_SET data)).2

/-- Source lines 218-227. -/
def s5p_dp_is_enhanced_mode_available (h : Hdr) (dp : s5p_dp_device) : Nat × s5p_dp_device :=
  let (_, data, dp) := s5p_dp_read_byte_from_dpcd dp h.DPCD_ADDR_MAX_LANE_COUNT
  let retval := h.DPCD_ENHANCED_FRAME_CAP data
  (retval, dp)

/-- Source lines 229-236.  `data` is a `u8`, converted to `bool` at both calls. -/
def s5p_dp_set_enhanced_mode (h : Hdr) (dp : s5p_dp_device) : s5p_dp_device :=
  let (r, dp) := s5p_dp_is_enhanced_mode_available h dp
  let data := r % 256
  let dp := s5p_dp_enable_rx_to_enhanced_mode h dp (data != 0)
  s5p_dp_enable_enhanced_mode dp (data != 0)

/-- Source lines 238-245. -/
def s5p_dp_training_pattern_dis (h : Hdr) (dp : s5p_dp_device) : s5p_dp_device :=
  let dp := s5p_dp_set_training_pattern dp h.DP_NONE
  (s5p_dp_write_byte_to_dpcd dp h.DPCD_ADDR_TRAINING_PATTERN_SET
    h.DPCD_TRAINING_PATTERN_DISABLED).2

/-- Source lines 247-266: a `switch` with cases 0..3 and no default. -/
def s5p_dp_set_lane_lane_pre_emphasis (dp : s5p_dp_device) (pre_emphasis lane : Nat) :
    s5p_dp_device :=
  match lane with
  | 0 => s5p_dp_set_laneN_pre_emphasis dp 0 pre_emphasis
  | 1 => s5p_dp_set_laneN_pre_emphasis dp 1 pre_emphasis
  | 2 => s5p_dp_set_laneN_pre_emphasis dp 2 pre_emphasis
  | 3 => s5p_dp_set_laneN_pre_emphasis dp 3 pre_emphasis
  | _ => dp

/-- Source lines 377-396: a `switch` with cases 0..3 and no default. -/
def s5p_dp_set_lane_link_training (dp : s5p_dp_device) (training_lane_set lane : Nat) :
    s5p_dp_device :=
  match lane with
  | 0 => s5p_dp_set_laneN_link_training dp 0 training_lane_set
  | 1 => s5p_dp_set_laneN_link_training dp 1 training_lane_set
  | 2 => s5p_dp_set_laneN_link_training dp 2 training_lane_set
  | 3 => s5p_dp_set_laneN_link_training dp 3 training_lane_set
  | _ => dp

/-- Source lines 398-419: a `switch` with cases 0..3 and no default; past lane 3 the C
function returns the uninitialised `reg`, written `0` here. -/
def s5p_dp_get_lane_link_training (dp : s5p_dp_device) (lane : Nat) : Nat × s5p_dp_device :=
  match lane with
  | 0 => s5p_dp_get_laneN_link_training dp 0
  | 1 => s5p_dp_get_laneN_link_training dp 1
  | 2 => s5p_dp_get_laneN_link_training dp 2
  | 3 => s5p_dp_get_laneN_link_training dp 3
  | _ => (0, dp)

/-- Source lines 268-316.  The local `buf[5]` is uninitialised in C and starts as the zero
map here; the bytes written to the sink are `buf[0 .. count-1]`, all assigned before. -/
def s5p_dp_link_start (h : Hdr) (dp : s5p_dp_device) : s5p_dp_device :=
  let buf : Nat → Nat := fun _ => 0
  let lane_count := dp.link_train.lane_count
  let dp := set_lt_state dp .CLOCK_RECOVERY
  let dp := set_eq_loop dp 0
  let dp := for_loop (fun lane dp => set_cr_loop dp lane 0) lane_count dp
  let (_, dp) := s5p_dp_write_byte_to_dpcd dp h.DPCD_ADDR_SINK_POWER_STATE
    h.DPCD_SET_POWER_STATE_D0
  let dp := s5p_dp_set_link_bandwidth dp dp.link_train.link_rate
  let dp := s5p_dp_set_lane_count dp dp.link_train.lane_count
  let buf := Function.update buf 0 (dp.link_train.link_rate % 256)
  let buf := Function.update buf 1 (dp.link_train.lane_count % 256)
  let (_, dp) := s5p_dp_write_bytes_to_dpcd dp h.DPCD_ADDR_LINK_BW_SET 2 buf
  let dp := for_loop (fun lane dp =>
    s5p_dp_set_lane_lane_pre_emphasis dp h.PRE_EMPHASIS_LEVEL_0 lane) lane_count dp
  let dp := s5p_dp_set_training_pattern dp h.TRAINING_PTN1
  let buf := Function.update buf 0
    ((h.DPCD_SCRAMBLING_DISABLED ||| h.DPCD_TRAINING_PATTERN_1) % 256)
  let (_, dp) := s5p_dp_write_byte_to_dpcd dp h.DPCD_ADDR_TRAINING_PATTERN_SET (buf 0)
  let buf := for_loop (fun lane buf => Function.update buf lane
    ((h.DPCD_PRE_EMPHASIS_PATTERN2_LEVEL0 ||| h.DPCD_VOLTAGE_SWING_PATTERN1_LEVEL0) % 256))
    lane_count buf
  let (_, dp) := s5p_dp_write_bytes_to_dpcd dp h.DPCD_ADDR_TRAINING_PATTERN_SET lane_count buf
  dp

/-- Source lines 421-435. -/
def s5p_dp_reduce_link_rate (h : Hdr) (dp : s5p_dp_device) : s5p_dp_device :=
  let dp := emit dp Event.reduce_link_rate
  if dp.link_train.link_rate = h.LINK_RATE_2_70GBPS then
    let dp := set_link_rate dp h.LINK_RATE_1_62GBPS
    set_lt_state dp .START
  else
    let dp := s5p_dp_training_pattern_dis h dp
    let dp := s5p_dp_set_enhanced_mode h dp
    set_lt_state dp .FAILED

/-- Source lines 437-462. -/
def s5p_dp_get_adjust_train (h : Hdr) (dp : s5p_dp_device) (adjust_request : Nat → Nat) :
    s5p_dp_device :=
  let lane_count := dp.link_train.lane_count
  for_loop (fun lane dp =>
    let voltage_swing := s5p_dp_get_adjust_request_voltage adjust_request lane
    let pre_emphasis := s5p_dp_get_adjust_request_pre_emphasis adjust_request lane
    let training_lane :=
      (h.DPCD_VOLTAGE_SWING_SET voltage_swing ||| h.DPCD_PRE_EMPHASIS_SET pre_emphasis) % 256
    let training_lane :=
      if voltage_swing = h.VOLTAGE_LEVEL_3 ∨ pre_emphasis = h.PRE_EMPHASIS_LEVEL_3 then
        ((training_lane ||| h.DPCD_MAX_SWING_REACHED) % 256
          ||| h.DPCD_MAX_PRE_EMPHASIS_REACHED) % 256
      else training_lane
    set_training_lane dp lane training_lane) lane_count dp

/-- Source lines 464-476. -/
def s5p_dp_check_max_cr_loop (h : Hdr) (dp : s5p_dp_device) (voltage_swing : Nat) : Int :=
  let lane_count := dp.link_train.lane_count
  match for_return (fun lane =>
      if voltage_swing = h.VOLTAGE_LEVEL_3 ∨ dp.link_train.cr_loop lane = h.MAX_CR_LOOP then
        some (-h.EINVAL)
      else none)
    lane_count 0 with
  | some r => r
  | none => 0

/-- The loop that the source spells out three times (lines 512-520, 551-559, 614-622):
program each active lane's target into the source and write it to the sink. -/
def write_training_lanes (h : Hdr) (dp : s5p_dp_device) (lane_count : Nat) : s5p_dp_device :=
  for_loop (fun lane dp =>
    let dp := s5p_dp_set_lane_link_training dp (dp.link_train.training_lane lane) lane
    let buf_lane := dp.link_train.training_lane lane % 256
    (s5p_dp_write_byte_to_dpcd dp (h.DPCD_ADDR_TRAINING_LANE0_SET + lane) buf_lane).2)
    lane_count dp

/-- Source lines 478-564.  The local `voltage_swing` is uninitialised before the lane loop
(written `0` here); `s5p_dp_check_max_cr_loop` looks at it only when `lane_count > 0`, and
then the loop has assigned it.  `cr_loop[lane]++` is written `+ 1`: the value of the code
for a counter below `INT_MAX`. -/
def s5p_dp_process_clock_recovery (h : Hdr) (dp : s5p_dp_device) : Int × s5p_dp_device :=
  let dp := udelay dp 100
  let (_, link_status, dp) := s5p_dp_read_bytes_from_dpcd dp h.DPCD_ADDR_LANE0_1_STATUS 6
  let lane_count := dp.link_train.lane_count
  if s5p_dp_clock_recovery_ok h link_status lane_count = 0 then
    let dp := s5p_dp_set_training_pattern dp h.TRAINING_PTN2
    let adjust_request := arr2 (link_status 4) (link_status 5)
    let dp := s5p_dp_get_adjust_train h dp adjust_request
    let buf0 := (h.DPCD_SCRAMBLING_DISABLED ||| h.DPCD_TRAINING_PATTERN_2) % 256
    let (_, dp) := s5p_dp_write_byte_to_dpcd dp h.DPCD_ADDR_TRAINING_LANE0_SET buf0
    let dp := write_training_lanes h dp lane_count
    (0, set_lt_state dp .EQUALIZER_TRAINING)
  else
    let (_, data0, dp) := s5p_dp_read_byte_from_dpcd dp h.DPCD_ADDR_ADJUST_REQUEST_LANE0_1
    let (_, data1, dp) := s5p_dp_read_byte_from_dpcd dp h.DPCD_ADDR_ADJUST_REQUEST_LANE2_3
    let adjust_request := arr2 data0 data1
    let (dp, voltage_swing) := for_loop (fun lane (st : s5p_dp_device × Nat) =>
      let (reg, dp) := s5p_dp_get_lane_link_training st.1 lane
      let training_lane := reg % 256
      let voltage_swing := s5p_dp_get_adjust_request_voltage adjust_request lane
      let pre_emphasis := s5p_dp_get_adjust_request_pre_emphasis adjust_request lane
      let dp :=
        if h.DPCD_VOLTAGE_SWING_GET training_lane = voltage_swing ∧
            h.DPCD_PRE_EMPHASIS_GET training_lane = pre_emphasis then
          set_cr_loop dp lane (dp.link_train.cr_loop lane + 1)
        else dp
      (set_training_lane dp lane training_lane, voltage_swing)) lane_count (dp, 0)
    if s5p_dp_check_max_cr_loop h dp voltage_swing ≠ 0 then
      (0, s5p_dp_reduce_link_rate h dp)
    else
      let dp := s5p_dp_get_adjust_train h dp adjust_request
      (0, write_training_lanes h dp lane_count)

/-- Source lines 566-630.  `eq_loop++` is written `+ 1`: the value of the code for a
counter below `INT_MAX`. -/
def s5p_dp_process_equalizer_training (h : Hdr) (dp : s5p_dp_device) : Int × s5p_dp_device :=
  let dp := udelay dp 400
  let (_, link_status, dp) := s5p_dp_read_bytes_from_dpcd dp h.DPCD_ADDR_LANE0_1_STATUS 6
  let lane_count := dp.link_train.lane_count
  if s5p_dp_clock_recovery_ok h link_status lane_count = 0 then
    let adjust_request := arr2 (link_status 4) (link_status 5)
    if s5p_dp_channel_eq_ok h link_status lane_count = 0 then
      let dp := s5p_dp_training_pattern_dis h dp
      let (reg, dp) := s5p_dp_get_link_bandwidth dp
      let dp := set_link_rate dp reg
      let (reg, dp) := s5p_dp_get_lane_count dp
      let dp := set_lane_count_field dp reg
      let dp := s5p_dp_set_enhanced_mode h dp
      (0, set_lt_state dp .FINISHED)
    else
      let dp := set_eq_loop dp (dp.link_train.eq_loop + 1)
      if dp.link_train.eq_loop > h.MAX_EQ_LOOP then
        (0, s5p_dp_reduce_link_rate h dp)
      else
        let dp := s5p_dp_get_adjust_train h dp adjust_request
        (0, write_training_lanes h dp lane_count)
  else
    (0, s5p_dp_reduce_link_rate h dp)

/-! ## Link training: negotiation and the outer loops -/

/-- Source lines 632-643: the value stored through `bandwidth` (a `u8`). -/
def s5p_dp_get_max_rx_bandwidth (h : Hdr) (dp : s5p_dp_device) : Nat × s5p_dp_device :=
  let (_, data, dp) := s5p_dp_read_byte_from_dpcd dp h.DPCD_ADDR_MAX_LINK_RATE
  (data, dp)

/-- Source lines 645-656: the value stored through `lane_count` (a `u8`). -/
def s5p_dp_get_max_rx_lane_count (h : Hdr) (dp : s5p_dp_device) : Nat × s5p_dp_device :=
  let (_, data, dp) := s5p_dp_read_byte_from_dpcd dp h.DPCD_ADDR_MAX_LANE_COUNT
  (h.DPCD_MAX_LANE_COUNT data % 256, dp)

/-- Source lines 658-693. -/
def s5p_dp_init_training (h : Hdr) (dp : s5p_dp_device) (max_lane max_rate : Nat) :
    s5p_dp_device :=
  let dp := s5p_dp_reset_macro dp
  let (bandwidth, dp) := s5p_dp_get_max_rx_bandwidth h dp
  let dp := set_link_rate dp bandwidth
  let (lane_count, dp) := s5p_dp_get_max_rx_lane_count h dp
  let dp := set_lane_count_field dp lane_count
  let dp :=
    if dp.link_train.link_rate ≠ h.LINK_RATE_1_62GBPS ∧
        dp.link_train.link_rate ≠ h.LINK_RATE_2_70GBPS then
      set_link_rate dp h.LINK_RATE_1_62GBPS
    else dp
  let dp :=
    if dp.link_train.lane_count = 0 then set_lane_count_field dp h.LANE_COUNT1 else dp
  let dp :=
    if dp.link_train.lane_count > max_lane then set_lane_count_field dp max_lane else dp
  let dp :=
    if dp.link_train.link_rate > max_rate then set_link_rate dp max_rate else dp
  s5p_dp_set_analog_power_down dp h.POWER_ALL false

/-- One pass through the body of the `while` loop of `s5p_dp_sw_link_training` (source lines
710-725) in a state that is not terminal. -/
def sw_link_training_step (h : Hdr) (dp : s5p_dp_device) : s5p_dp_device :=
  match dp.link_train.lt_state with
  | .START => s5p_dp_link_start h dp
  | .CLOCK_RECOVERY => (s5p_dp_process_clock_recovery h dp).2
  | .EQUALIZER_TRAINING => (s5p_dp_process_equalizer_training h dp).2
  | .FINISHED => dp
  | .FAILED => dp

/-- The `while (!training_finished)` loop of `s5p_dp_sw_link_training` (source lines 709-728),
run for at most `fuel` passes: `none` when the passes run out before the loop is left.  In
`FINISHED` the loop ends and the function returns `retval`, which is still `0`; in `FAILED`
the function returns `-EREMOTEIO` from inside the loop. -/
def s5p_dp_sw_link_training_loop (h : Hdr) : Nat → s5p_dp_device → Option (Int × s5p_dp_device)
  | 0, _ => none
  | fuel + 1, dp =>
    match dp.link_train.lt_state with
    | .FINISHED => some (0, dp)
    | .FAILED => some (-h.EREMOTEIO, dp)
    | _ => s5p_dp_sw_link_training_loop h fuel (sw_link_training_step h dp)

/-- Source lines 695-729. -/
def s5p_dp_sw_link_training (h : Hdr) (fuel : Nat) (dp : s5p_dp_device) :
    Option (Int × s5p_dp_device) :=
  let dp :=
    if dp.link_train.lane_count = 1 then s5p_dp_set_analog_power_down dp h.CH1_BLOCK true
    else dp
  let dp := set_lt_state dp .START
  s5p_dp_sw_link_training_loop h fuel dp

/-- The loop of `s5p_dp_set_link_train` (source lines 738-745) with
`todo = DP_TIMEOUT_LOOP_COUNT - i` iterations left.  `retval` is `none` while the C variable
is still uninitialised; returning it in that state has no defined result (`none`). -/
def s5p_dp_set_link_train_loop (h : Hdr) (fuel count bwtype : Nat) :
    Nat → Option Int → s5p_dp_device → Option (Int × s5p_dp_device)
  | 0, retval, dp => retval.map (fun r => (r, dp))
  | todo + 1, _, dp =>
    let dp := s5p_dp_init_training h dp count bwtype
    match s5p_dp_sw_link_training h fuel dp with
    | none => none
    | some (retval, dp) =>
      if retval = 0 then some (retval, dp)
      else s5p_dp_set_link_train_loop h fuel count bwtype todo (some retval) (udelay dp 100)

/-- Source lines 731-748.  Each training attempt may take at most `fuel` passes of the
state machine; the result is `none` when an attempt does not end within them. -/
def s5p_dp_set_link_train (h : Hdr) (fuel : Nat) (dp : s5p_dp_device) (count bwtype : Nat) :
    Option (Int × s5p_dp_device) :=
  s5p_dp_set_link_train_loop h fuel count bwtype h.DP_TIMEOUT_LOOP_COUNT none dp

/-- The number of training attempts a log shows: every attempt begins with the one
`s5p_dp_reset_macro` call of `s5p_dp_init_training`. -/
def attempts (log : List Event) : Nat :=
  log.count Event.reset_macro

/-- The number of entries into `s5p_dp_reduce_link_rate` a log shows. -/
def downgrades (log : List Event) : Nat :=
  log.count Event.reduce_link_rate

/-- The number of EDID read attempts a log shows: every run of `s5p_dp_read_edid` begins
with its one read of the extension flag. -/
def edid_attempts (h : Hdr) (log : List Event) : Nat :=
  log.count (.read_byte_from_i2c h.I2C_EDID_DEVICE_ADDR h.EDID_EXTENSION_FLAG)

/-! ## Definitions used to state the theorems -/

/-- The sum of `block[0 .. n-1]` as a natural number, without reduction. -/
def byte_sum (block : Nat → Nat) : Nat → Nat
  | 0 => 0
  | n + 1 => byte_sum block n + block n

/-- The block of bytes answer number `k` delivers to a block read. -/
def answer_block (dp : s5p_dp_device) (k : Nat) : Nat → Nat :=
  fun i => (dp.aux k).data.getD i 0 % 256


/-- Whether a log entry is a block read over I2C (`s5p_dp_read_bytes_from_i2c`). -/
def Event.is_i2c_block_read : Event → Bool
  | .read_bytes_from_i2c _ _ _ => true
  | _ => false

/-- The number of I2C block reads a log shows. -/
def i2c_block_reads (log : List Event) : Nat :=
  log.countP Event.is_i2c_block_read

/-- A session before any training: all counters and fields zero, state `START`. -/
def link_train_zero : link_train :=
  { eq_loop := 0, cr_loop := fun _ => 0, link_rate := 0, lane_count := 0,
    training_lane := fun _ => 0, lt_state := .START }

/-- A device with the session `link_train_zero` and an empty log whose register layer answers
with the entries of `script`, in order, and with `⟨0, []⟩` (success, all data zero) once
the script is used up. -/
def scripted_device (script : List Resp) : s5p_dp_device :=
  { link_train := link_train_zero, aux := fun k => script.getD k ⟨0, []⟩, tick := 0, log := [] }

/-- The array whose first elements are the entries of `bytes` and whose other elements are
zero. -/
def block_of (bytes : List Nat) : Nat → Nat :=
  fun i => bytes.getD i 0
/-- A session with the given rate, lane count and state, all counters and targets zero. -/
def session_of (link_rate lane_count : Nat) (lt_state : link_training_state) : link_train :=
  { eq_loop := 0, cr_loop := fun _ => 0, link_rate := link_rate, lane_count := lane_count,
    training_lane := fun _ => 0, lt_state := lt_state }

/-- A device with the session `lt` and an empty log whose register layer answers with the
entries of `script`, in order, and with `⟨0, []⟩` once the script is used up. -/
def device_of (lt : link_train) (script : List Resp) : s5p_dp_device :=
  { link_train := lt, aux := fun k => script.getD k ⟨0, []⟩, tick := 0, log := [] }

/-- The device on which attempt number `k` (counting from 0) of `s5p_dp_set_link_train`
starts, when the `k` attempts before it all ended with a nonzero result within `fuel`
passes: after each of them the loop waits `udelay(100)` and goes on.  `none` when one of
those attempts returned 0 (the loop stopped there) or did not end within `fuel` passes. -/
def attempt_start (h : Hdr) (fuel count bwtype : Nat) : Nat → s5p_dp_device → Option s5p_dp_device
  | 0, dp => some dp
  | k + 1, dp =>
    match s5p_dp_sw_link_training h fuel (s5p_dp_init_training h dp count bwtype) with
    | none => none
    | some (retval, dp) =>
      if retval = 0 then none else attempt_start h fuel count bwtype k (udelay dp 100)
/-- The answers of a sink and source for which training succeeds at once with two lanes at
2.70 Gbps: the sink's maximum rate `0x0a` and lane count 2 (with the enhanced-framing bit),
four write acknowledgements of `s5p_dp_link_start`, a status block with CR done on lanes 0
and 1, three write acknowledgements, a status block with CR done, all equalizer bits and
the alignment code, one write acknowledgement, the source's rate and lane count read back,
and the two reads and one write of `s5p_dp_set_enhanced_mode`. -/
def happy_script : List Resp :=
  [⟨0, [0x0a]⟩, ⟨0, [0x82]⟩,
   ⟨0, []⟩, ⟨0, []⟩, ⟨0, []⟩, ⟨0, []⟩,
   ⟨0, [0x11, 0x00, 0x00, 0x00, 0x00, 0x00]⟩, ⟨0, []⟩, ⟨0, []⟩, ⟨0, []⟩,
   ⟨0, [0x77, 0x00, 0x01, 0x00, 0x00, 0x00]⟩, ⟨0, []⟩,
   ⟨0, [0x0a]⟩, ⟨0, [0x02]⟩,
   ⟨0, [0x82]⟩, ⟨0, [0x02]⟩, ⟨0, []⟩]

/-- The two counts read off a log together: training attempts and entries into
`s5p_dp_reduce_link_rate`. -/
def marks (log : List Event) : Nat × Nat :=
  (attempts log, downgrades log)

/-- The states the `while` loop of `s5p_dp_sw_link_training` sees at the start of its passes,
in order, for at most `fuel` passes. -/
def sw_link_training_states (h : Hdr) : Nat → s5p_dp_device → List link_training_state
  | 0, _ => []
  | fuel + 1, dp =>
    dp.link_train.lt_state ::
      (match dp.link_train.lt_state with
       | .FINISHED => []
       | .FAILED => []
       | _ => sw_link_training_states h fuel (sw_link_training_step h dp))

/-- The 6-byte lane status block that the device's next answer delivers to
`s5p_dp_read_bytes_from_dpcd(dp, DPCD_ADDR_LANE0_1_STATUS, 6, link_status)`. -/
def status_block (dp : s5p_dp_device) : Nat → Nat :=
  fun i => if i < 6 then (dp.aux dp.tick).data.getD i 0 % 256 else 0
/-- Whether a log entry is a write to the sink's DPCD (`s5p_dp_write_byte_to_dpcd` or
`s5p_dp_write_bytes_to_dpcd`). -/
def Event.is_dpcd_write : Event → Bool
  | .write_byte_to_dpcd _ _ => true
  | .write_bytes_to_dpcd _ _ _ => true
  | _ => false

/-- The writes to the sink's DPCD that a log shows, in order. -/
def dpcd_writes (log : List Event) : List Event :=
  log.filter Event.is_dpcd_write

/-- The body of the per-lane loop in the retry branch of `s5p_dp_process_clock_recovery`
(source lines 536-548), on the pair of the device and the local `voltage_swing`. -/
def clock_recovery_lane_body (h : Hdr) (adjust_request : Nat → Nat) (lane : Nat)
    (st : s5p_dp_device × Nat) : s5p_dp_device × Nat :=
  let (reg, dp) := s5p_dp_get_lane_link_training st.1 lane
  let training_lane := reg % 256
  let voltage_swing := s5p_dp_get_adjust_request_voltage adjust_request lane
  let pre_emphasis := s5p_dp_get_adjust_request_pre_emphasis adjust_request lane
  let dp :=
    if h.DPCD_VOLTAGE_SWING_GET training_lane = voltage_swing ∧
        h.DPCD_PRE_EMPHASIS_GET training_lane = pre_emphasis then
      set_cr_loop dp lane (dp.link_train.cr_loop lane + 1)
    else dp
  (set_training_lane dp lane training_lane, voltage_swing)

/-- The byte the per-lane loop of `s5p_dp_process_clock_recovery` reads back for `lane` when
the loop starts at answer number `k`: the low byte of answer `k + lane` for lanes 0 to 3
(each of them consumes one answer), and 0 past lane 3. -/
def lane_readback (dp : s5p_dp_device) (k lane : Nat) : Nat :=
  (if lane < 4 then (dp.aux (k + lane)).data.getD 0 0 % 2 ^ 32 else 0) % 256

/-- The adjust request the retry branch of `s5p_dp_process_clock_recovery` reads: the bytes
of the two answers after the status block. -/
def cr_adjust_request (dp : s5p_dp_device) : Nat → Nat :=
  arr2 ((dp.aux (dp.tick + 1)).data.getD 0 0 % 256) ((dp.aux (dp.tick + 2)).data.getD 0 0 % 256)

/-- Whether the retry branch of `s5p_dp_process_clock_recovery` counts `lane`: the levels
read back from the lane's register equal the levels the sink requests for it. -/
def cr_counted (h : Hdr) (dp : s5p_dp_device) (lane : Nat) : Bool :=
  decide (h.DPCD_VOLTAGE_SWING_GET (lane_readback dp (dp.tick + 3) lane)
      = s5p_dp_get_adjust_request_voltage (cr_adjust_request dp) lane ∧
    h.DPCD_PRE_EMPHASIS_GET (lane_readback dp (dp.tick + 3) lane)
      = s5p_dp_get_adjust_request_pre_emphasis (cr_adjust_request dp) lane)

/-- The counters `cr_loop` after the per-lane loop of the retry branch. -/
def cr_loop_after (h : Hdr) (dp : s5p_dp_device) : Nat → Nat :=
  fun lane =>
    if lane < dp.link_train.lane_count ∧ cr_counted h dp lane = true then
      dp.link_train.cr_loop lane + 1
    else dp.link_train.cr_loop lane

/-- The value of the local `voltage_swing` after the per-lane loop of the retry branch: the
request for the last active lane (0 when there is no active lane). -/
def cr_last_voltage (dp : s5p_dp_device) : Nat :=
  if dp.link_train.lane_count = 0 then 0
  else s5p_dp_get_adjust_request_voltage (cr_adjust_request dp) (dp.link_train.lane_count - 1)

/-- Whether `s5p_dp_check_max_cr_loop` stops the retry branch: there is an active lane, and
the last active lane's requested swing is `VOLTAGE_LEVEL_3` or some active lane's counter
equals `MAX_CR_LOOP` after the per-lane loop. -/
def cr_limit_hit (h : Hdr) (dp : s5p_dp_device) : Bool :=
  decide (∃ lane, lane < dp.link_train.lane_count ∧
    (cr_last_voltage dp = h.VOLTAGE_LEVEL_3 ∨ cr_loop_after h dp lane = h.MAX_CR_LOOP))

/-- The byte `s5p_dp_get_adjust_train` stores for a lane whose adjust request holds voltage
swing `v` and pre-emphasis `p`: `DPCD_VOLTAGE_SWING_SET(v) | DPCD_PRE_EMPHASIS_SET(p)`, with
both maximum-reached flags or-ed in when `v` is `VOLTAGE_LEVEL_3` or `p` is
`PRE_EMPHASIS_LEVEL_3`. -/
def adjust_target (h : Hdr) (adjust_request : Nat → Nat) (lane : Nat) : Nat :=
  (if s5p_dp_get_adjust_request_voltage adjust_request lane = h.VOLTAGE_LEVEL_3 ∨
      s5p_dp_get_adjust_request_pre_emphasis adjust_request lane = h.PRE_EMPHASIS_LEVEL_3 then
    h.DPCD_VOLTAGE_SWING_SET (s5p_dp_get_adjust_request_voltage adjust_request lane) |||
      h.DPCD_PRE_EMPHASIS_SET (s5p_dp_get_adjust_request_pre_emphasis adjust_request lane) |||
      h.DPCD_MAX_SWING_REACHED ||| h.DPCD_MAX_PRE_EMPHASIS_REACHED
  else
    h.DPCD_VOLTAGE_SWING_SET (s5p_dp_get_adjust_request_voltage adjust_request lane) |||
      h.DPCD_PRE_EMPHASIS_SET (s5p_dp_get_adjust_request_pre_emphasis adjust_request lane))
    % 256

/-- The answers of a run with one lane that meets a saturated sink on the first
clock-recovery poll after a restart: four write acknowledgements of `s5p_dp_link_start`; a status block with CR done on
lane 0 and two write acknowledgements; a status block with CR done, the equalizer bits
missing and a request for voltage swing 3 on lane 0, and the acknowledgement of the lane
write; a status block without CR done (the rate is reduced and `START` entered again); four
write acknowledgements of `s5p_dp_link_start`; a status block without CR done, the adjust
requests `0x03` (swing 3, pre-emphasis 0 for lane 0) and `0x00`, and the read-back `0x27`
of lane 0's register (the byte programmed during equalizer training). -/
def saturation_script : List Resp :=
  [⟨0, []⟩, ⟨0, []⟩, ⟨0, []⟩, ⟨0, []⟩,
   ⟨0, [0x01, 0, 0, 0, 0, 0]⟩, ⟨0, []⟩, ⟨0, []⟩,
   ⟨0, [0x01, 0, 0, 0, 0x03, 0]⟩, ⟨0, []⟩,
   ⟨0, [0, 0, 0, 0, 0, 0]⟩,
   ⟨0, []⟩, ⟨0, []⟩, ⟨0, []⟩, ⟨0, []⟩,
   ⟨0, [0, 0, 0, 0, 0, 0]⟩, ⟨0, [0x03]⟩, ⟨0, [0]⟩, ⟨0, [0x27]⟩]

/-- The device on which the loop of `s5p_dp_sw_link_training` starts (source lines 700-706):
channel 1 powered down when one lane is used, and the state set to `START`. -/
def sw_link_training_entry (h : Hdr) (dp : s5p_dp_device) : s5p_dp_device :=
  set_lt_state
    (if dp.link_train.lane_count = 1 then s5p_dp_set_analog_power_down dp h.CH1_BLOCK true
     else dp) .START

/-- The retries the counters `cr[0 .. n-1]` leave before one of them reaches `M`, summed
over the lanes. -/
def cr_slack (M : Nat) (cr : Nat → Nat) : Nat → Nat
  | 0 => 0
  | n + 1 => cr_slack M cr n + (M - cr n)

/-- An upper bound on the number of passes the training loop makes from `dp` before it
reaches `FINISHED` or `FAILED`, when every retrying clock-recovery pass counts a lane:
`lane_count * MAX_CR_LOOP + MAX_EQ_LOOP + 4` passes for each entry of `START`, of which
there is one more to come while the rate is `LINK_RATE_2_70GBPS`. -/
def pass_budget (h : Hdr) (dp : s5p_dp_device) : Nat :=
  let per_entry := dp.link_train.lane_count * h.MAX_CR_LOOP + h.MAX_EQ_LOOP + 4
  let restart := if dp.link_train.link_rate = h.LINK_RATE_2_70GBPS then per_entry else 0
  match dp.link_train.lt_state with
  | .START => restart + per_entry
  | .CLOCK_RECOVERY =>
    restart + cr_slack h.MAX_CR_LOOP dp.link_train.cr_loop dp.link_train.lane_count
      + (h.MAX_EQ_LOOP + 1 - dp.link_train.eq_loop) + 2
  | .EQUALIZER_TRAINING => restart + (h.MAX_EQ_LOOP + 1 - dp.link_train.eq_loop) + 1
  | .FINISHED => 0
  | .FAILED => 0

/-- The answers of a sink that never reports CR done on lane 0 and asks for voltage swing 1
and 0 in turn, with the source register reading back the swing programmed last.  The
stream repeats every ten answers; counted from the first clock-recovery poll (answer 4,
after the four write acknowledgements of `s5p_dp_link_start`) it is: a status block without
CR done, the adjust requests `0x01` and `0x00`, the read-back `0x00`, a write
acknowledgement; then a status block without CR done, the adjust requests `0x00` and
`0x00`, the read-back `0x01`, a write acknowledgement. -/
def wandering_sink : Nat → Resp :=
  fun k =>
    [⟨0, [0x00]⟩, ⟨0, [0x00]⟩, ⟨0, [0x01]⟩, ⟨0, []⟩,
     ⟨0, [0, 0, 0, 0, 0, 0]⟩, ⟨0, [0x01]⟩, ⟨0, [0x00]⟩, ⟨0, [0x00]⟩, ⟨0, []⟩,
     ⟨0, [0, 0, 0, 0, 0, 0]⟩].getD (k % 10) ⟨0, []⟩

/-- A device with one lane at rate `0x0a` in front of `wandering_sink`. -/
def wandering_device : s5p_dp_device :=
  { link_train := session_of 0x0a 1 .START, aux := wandering_sink, tick := 0, log := [] }

/-- The same device in front of a register layer that delivers the same data and reports
success (return value 0) for every transfer. -/
def succeed_all (dp : s5p_dp_device) : s5p_dp_device :=
  { dp with aux := fun k => ⟨0, (dp.aux k).data⟩ }

/-- The calls the lane loop `write_training_lanes` makes for lanes `0 .. n-1` when the
session's targets are `tl`: for each lane, the target programmed into the source's lane
register (lanes 0 to 3 only: the `switch` has no other case) and then written to the sink
register `DPCD_ADDR_TRAINING_LANE0_SET + lane`. -/
def lane_write_events (h : Hdr) (tl : Nat → Nat) : Nat → List Event
  | 0 => []
  | n + 1 =>
    lane_write_events h tl n ++
      ((if n < 4 then [Event.set_lane_link_training n (tl n)] else []) ++
        [Event.write_byte_to_dpcd (h.DPCD_ADDR_TRAINING_LANE0_SET + n) (tl n % 256)])

/-- The answers of a run with one lane at the low rate in which clock recovery succeeds at
once and the equalizer never completes: four write acknowledgements of
`s5p_dp_link_start`; a status block with CR done on lane 0 and two write acknowledgements;
then five times a status block with CR done and the equalizer bits missing, each of the
first four followed by the acknowledgement of the lane write. -/
def stuck_equalizer_script : List Resp :=
  [⟨0, []⟩, ⟨0, []⟩, ⟨0, []⟩, ⟨0, []⟩,
   ⟨0, [0x01, 0, 0, 0, 0, 0]⟩, ⟨0, []⟩, ⟨0, []⟩,
   ⟨0, [0x01, 0, 0, 0, 0, 0]⟩, ⟨0, []⟩,
   ⟨0, [0x01, 0, 0, 0, 0, 0]⟩, ⟨0, []⟩,
   ⟨0, [0x01, 0, 0, 0, 0, 0]⟩, ⟨0, []⟩,
   ⟨0, [0x01, 0, 0, 0, 0, 0]⟩, ⟨0, []⟩,
   ⟨0, [0x01, 0, 0, 0, 0, 0]⟩]

/-- The answers to a clock-recovery pass with two lanes in which no lane reports CR done:
a status block of zeros, the byte `adj` for `DPCD_ADDR_ADJUST_REQUEST_LANE0_1` (lane 0 in
bits 0-3, lane 1 in bits 4-7), `0` for `DPCD_ADDR_ADJUST_REQUEST_LANE2_3`, and `0x01` read
back from the registers of lanes 0 and 1 (swing 1, so no lane is counted). -/
def unequal_swing_script (adj : Nat) : List Resp :=
  [⟨0, [0, 0, 0, 0, 0, 0]⟩, ⟨0, [adj]⟩, ⟨0, [0]⟩, ⟨0, [0x01]⟩, ⟨0, [0x01]⟩]

/-- The effect of one log entry on a map from sink register address to the byte last
written there: a byte write sets its address, a block write of `count` bytes at `reg_addr`
sets the addresses `reg_addr .. reg_addr + count - 1`, any other entry leaves the map. -/
def dpcd_apply (m : Nat → Option Nat) : Event → Nat → Option Nat
  | .write_byte_to_dpcd reg_addr data => Function.update m reg_addr (some data)
  | .write_bytes_to_dpcd reg_addr count data =>
    fun a =>
      if reg_addr ≤ a ∧ a < reg_addr + count then some (data.getD (a - reg_addr) 0) else m a
  | _ => m

/-- The sink's capability registers as a map from address to the byte last written, after
the writes of `log` in order; `none` for an address no write of the log reaches. -/
def dpcd_registers (log : List Event) : Nat → Option Nat :=
  log.foldl dpcd_apply (fun _ => none)

/-- The answers to `s5p_dp_link_start` (four write acknowledgements) followed by a status
block with CR done on all four lanes. -/
def cr_done_script : List Resp :=
  [⟨0, []⟩, ⟨0, []⟩, ⟨0, []⟩, ⟨0, []⟩, ⟨0, [0x11, 0x11, 0, 0, 0, 0]⟩]

/-- The number of passes in state `START` a run of the training loop can still see from
`dp`: the pass at hand when `dp` is in `START`, and one more after a downgrade while the
rate is `LINK_RATE_2_70GBPS`; none once the loop has ended. -/
def start_budget (h : Hdr) (dp : s5p_dp_device) : Nat :=
  match dp.link_train.lt_state with
  | .START => 1 + (if dp.link_train.link_rate = h.LINK_RATE_2_70GBPS then 1 else 0)
  | .CLOCK_RECOVERY => if dp.link_train.link_rate = h.LINK_RATE_2_70GBPS then 1 else 0
  | .EQUALIZER_TRAINING => if dp.link_train.link_rate = h.LINK_RATE_2_70GBPS then 1 else 0
  | .FINISHED => 0
  | .FAILED => 0

/-- The answers of a run with one lane at the high rate in which clock recovery is lost
twice: four write acknowledgements of `s5p_dp_link_start`, a status block with CR done on
lane 0 and two write acknowledgements, then a status block without CR (the equalizer pass
downgrades to the low rate and restarts); the same again at the low rate, where the second
downgrade ends the run in `FAILED`. -/
def double_downgrade_script : List Resp :=
  [⟨0, []⟩, ⟨0, []⟩, ⟨0, []⟩, ⟨0, []⟩,
   ⟨0, [0x01, 0, 0, 0, 0, 0]⟩, ⟨0, []⟩, ⟨0, []⟩,
   ⟨0, [0x00, 0, 0, 0, 0, 0]⟩,
   ⟨0, []⟩, ⟨0, []⟩, ⟨0, []⟩, ⟨0, []⟩,
   ⟨0, [0x01, 0, 0, 0, 0, 0]⟩, ⟨0, []⟩, ⟨0, []⟩,
   ⟨0, [0x00, 0, 0, 0, 0, 0]⟩]

/-- The largest value of a C `int`.  The counters `eq_loop` and `cr_loop[]` are taken to be
`int`s (`struct link_train` is declared in a header that is not among the sources); the
embedding writes `++` on them as `+ 1`, which is what the code does below this value. -/
def INT_MAX : Nat := 2147483647

/-- Whether the pass the training loop makes from `dp` is an idle clock-recovery poll: the
state is `CLOCK_RECOVERY`, the status block does not show CR done on all active lanes,
`s5p_dp_check_max_cr_loop` does not stop the pass, and on no active lane the levels read
back equal the levels the sink requests, so that no counter `cr_loop[lane]` moves. -/
def idle_poll (h : Hdr) (dp : s5p_dp_device) : Bool :=
  decide (dp.link_train.lt_state = .CLOCK_RECOVERY ∧
    s5p_dp_clock_recovery_ok h (status_block dp) dp.link_train.lane_count ≠ 0 ∧
    cr_limit_hit h dp = false ∧
    ¬ ∃ lane, lane < dp.link_train.lane_count ∧ cr_counted h dp lane = true)

/-- The number of idle clock-recovery polls among the next `passes` passes of the training
loop from `dp`. -/
def idle_polls (h : Hdr) : Nat → s5p_dp_device → Nat
  | 0, _ => 0
  | passes + 1, dp =>
    (if idle_poll h dp = true then 1 else 0) + idle_polls h passes (sw_link_training_step h dp)

/-- The answers of a run with one lane in which the sink asks for one change of the levels:
four write acknowledgements of `s5p_dp_link_start`; a status block without CR done, the
adjust requests `0x01` (swing 1) and `0x00`, the read-back `0x00` and the acknowledgement
of the lane write; a status block with CR done and two write acknowledgements; a status
block with CR done, the equalizer bits and the alignment bit; then the answers of the
`FINISHED` branch: a write acknowledgement, and the rate `0x0a` and the lane count 1 read
back from the source. -/
def one_adjustment_script : List Resp :=
  [⟨0, []⟩, ⟨0, []⟩, ⟨0, []⟩, ⟨0, []⟩,
   ⟨0, [0x00, 0, 0, 0, 0, 0]⟩, ⟨0, [0x01]⟩, ⟨0, [0x00]⟩, ⟨0, [0x00]⟩, ⟨0, []⟩,
   ⟨0, [0x01, 0, 0, 0, 0, 0]⟩, ⟨0, []⟩, ⟨0, []⟩,
   ⟨0, [0x07, 0, 0x01, 0, 0, 0]⟩, ⟨0, []⟩, ⟨0, [0x0a]⟩, ⟨0, [0x01]⟩]

/-! ## The training engine with bounded arrays

The functions of the training engine once more, with the C arrays bounded: every indexed
access goes through `array_get`, `array_set` or `array_block`, which have no result
(`none`) for an index past the array's end, and the lane getter has no result where its
`switch` has no case.  A function of this section has a result only when every indexed
access it makes is in bounds.  The lengths are those of the declarations in the source
(`u8 buf[5]`, `u8 adjust_request[2]`, `u8 link_status[6]`) and, for the session arrays
`cr_loop` and `training_lane`, declared in a header that is not among the sources, the
number of lanes (4). -/

/-- The element `a[i]` of a C array of `len` elements. -/
def array_get (len : Nat) (a : Nat → Nat) (i : Nat) : Option Nat :=
  if i < len then some (a i) else none

/-- The C array of `len` elements after `a[i] = v`. -/
def array_set (len : Nat) (a : Nat → Nat) (i v : Nat) : Option (Nat → Nat) :=
  if i < len then some (Function.update a i v) else none

/-- A transfer of the `count` elements `a[0 .. count-1]` of a C array of `len` elements. -/
def array_block (len count : Nat) : Option Unit :=
  if count ≤ len then some () else none

/-- The element `dp->link_train.cr_loop[lane]`. -/
def cr_loop_get (dp : s5p_dp_device) (lane : Nat) : Option Nat :=
  array_get 4 dp.link_train.cr_loop lane

/-- The assignment `dp->link_train.cr_loop[lane] = v`. -/
def cr_loop_set (dp : s5p_dp_device) (lane v : Nat) : Option s5p_dp_device :=
  if lane < 4 then some (set_cr_loop dp lane v) else none

/-- The element `dp->link_train.training_lane[lane]`. -/
def training_lane_get (dp : s5p_dp_device) (lane : Nat) : Option Nat :=
  array_get 4 dp.link_train.training_lane lane

/-- The assignment `dp->link_train.training_lane[lane] = v`. -/
def training_lane_set (dp : s5p_dp_device) (lane v : Nat) : Option s5p_dp_device :=
  if lane < 4 then some (set_training_lane dp lane v) else none

/-- The loop `for_loop` with a body that may have no result. -/
def for_loop_checked {σ : Type} (body : Nat → σ → Option σ) : Nat → σ → Option σ
  | 0, s => some s
  | n + 1, s => (for_loop_checked body n s).bind (body n)

/-- The loop `for_return` with a body that may have no result: `some (some r)` when
iteration `i` executes a `return r`, `some none` when the loop runs to its end, `none`
when an iteration that is reached has no result. -/
def for_return_checked {ρ : Type} (body : Nat → Option (Option ρ)) :
    Nat → Nat → Option (Option ρ)
  | 0, _ => some none
  | todo + 1, i =>
    match body i with
    | none => none
    | some (some r) => some (some r)
    | some none => for_return_checked body todo (i + 1)

/-- Source lines 318-324, with `link_status[6]` bounded. -/
def s5p_dp_get_lane_status_checked (link_status : Nat → Nat) (lane : Nat) : Option Nat := do
  let shift := (lane &&& 1) * 4
  let link_value ← array_get 6 link_status (lane >>> 1)
  pure ((link_value >>> shift) &&& 0xf)

/-- Source lines 326-337, with `link_status[6]` bounded. -/
def s5p_dp_clock_recovery_ok_checked (h : Hdr) (link_status : Nat → Nat) (lane_count : Nat) :
    Option Int := do
  let r ← for_return_checked (fun lane => do
      let lane_status ← s5p_dp_get_lane_status_checked link_status lane
      pure (if lane_status &&& h.DPCD_LANE_CR_DONE = 0 then some (-h.EINVAL) else none))
    lane_count 0
  pure (match r with
    | some r => r
    | none => 0)

/-- Source lines 339-356, with `link_status[6]` bounded. -/
def s5p_dp_channel_eq_ok_checked (h : Hdr) (link_status : Nat → Nat) (lane_count : Nat) :
    Option Int := do
  let lane_align ← array_get 6 link_status 2
  if ¬ (lane_align = h.DPCD_INTERLANE_ALIGN_DONE) then pure (-h.EINVAL)
  else
    let r ← for_return_checked (fun lane => do
        let lane_status ← s5p_dp_get_lane_status_checked link_status lane
        let lane_status := (lane_status &&& h.DPCD_CHANNEL_EQ_BITS) % 256
        pure (if lane_status ≠ h.DPCD_CHANNEL_EQ_BITS then some (-h.EINVAL) else none))
      lane_count 0
    pure (match r with
      | some r => r
      | none => 0)

/-- Source lines 358-365, with `adjust_request[2]` bounded. -/
def s5p_dp_get_adjust_request_voltage_checked (adjust_request : Nat → Nat) (lane : Nat) :
    Option Nat := do
  let shift := (lane &&& 1) * 4
  let link_value ← array_get 2 adjust_request (lane >>> 1)
  pure ((link_value >>> shift) &&& 0x3)

/-- Source lines 367-375, with `adjust_request[2]` bounded. -/
def s5p_dp_get_adjust_request_pre_emphasis_checked (adjust_request : Nat → Nat) (lane : Nat) :
    Option Nat := do
  let shift := (lane &&& 1) * 4
  let link_value ← array_get 2 adjust_request (lane >>> 1)
  pure (((link_value >>> shift) &&& 0xc) >>> 2)

/-- Source lines 398-419: past lane 3 the `switch` has no case and the function returns the
uninitialised `reg`: no result. -/
def s5p_dp_get_lane_link_training_checked (dp : s5p_dp_device) (lane : Nat) :
    Option (Nat × s5p_dp_device) :=
  match lane with
  | 0 => some (s5p_dp_get_laneN_link_training dp 0)
  | 1 => some (s5p_dp_get_laneN_link_training dp 1)
  | 2 => some (s5p_dp_get_laneN_link_training dp 2)
  | 3 => some (s5p_dp_get_laneN_link_training dp 3)
  | _ => none

/-- The local `adjust_request[2]` after `adjust_request[0] = a; adjust_request[1] = b;`. -/
def adjust_request_checked (a b : Nat) : Option (Nat → Nat) := do
  let adjust_request : Nat → Nat := fun _ => 0
  let adjust_request ← array_set 2 adjust_request 0 a
  array_set 2 adjust_request 1 b

/-- Source lines 437-462, with `adjust_request[2]` and `training_lane[4]` bounded. -/
def s5p_dp_get_adjust_train_checked (h : Hdr) (dp : s5p_dp_device)
    (adjust_request : Nat → Nat) : Option s5p_dp_device :=
  let lane_count := dp.link_train.lane_count
  for_loop_checked (fun lane dp => do
    let voltage_swing ← s5p_dp_get_adjust_request_voltage_checked adjust_request lane
    let pre_emphasis ← s5p_dp_get_adjust_request_pre_emphasis_checked adjust_request lane
    let training_lane :=
      (h.DPCD_VOLTAGE_SWING_SET voltage_swing ||| h.DPCD_PRE_EMPHASIS_SET pre_emphasis) % 256
    let training_lane :=
      if voltage_swing = h.VOLTAGE_LEVEL_3 ∨ pre_emphasis = h.PRE_EMPHASIS_LEVEL_3 then
        ((training_lane ||| h.DPCD_MAX_SWING_REACHED) % 256
          ||| h.DPCD_MAX_PRE_EMPHASIS_REACHED) % 256
      else training_lane
    training_lane_set dp lane training_lane) lane_count dp

/-- Source lines 464-476, with `cr_loop[4]` bounded; `cr_loop[lane]` is read only when
`voltage_swing == VOLTAGE_LEVEL_3` is false. -/
def s5p_dp_check_max_cr_loop_checked (h : Hdr) (dp : s5p_dp_device) (voltage_swing : Nat) :
    Option Int := do
  let lane_count := dp.link_train.lane_count
  let r ← for_return_checked (fun lane =>
      if voltage_swing = h.VOLTAGE_LEVEL_3 then some (some (-h.EINVAL))
      else do
        let c ← cr_loop_get dp lane
        pure (if c = h.MAX_CR_LOOP then some (-h.EINVAL) else none))
    lane_count 0
  pure (match r with
    | some r => r
    | none => 0)

/-- The loop of source lines 512-520, 551-559 and 614-622, with `training_lane[4]` and the
local `buf[5]` bounded; the result is the device (the callers do not read `buf` after the
loop). -/
def write_training_lanes_checked (h : Hdr) (dp : s5p_dp_device) (buf : Nat → Nat)
    (lane_count : Nat) : Option s5p_dp_device :=
  Option.map Prod.fst <| for_loop_checked (fun lane (st : s5p_dp_device × (Nat → Nat)) => do
    let training_lane ← training_lane_get st.1 lane
    let dp := s5p_dp_set_lane_link_training st.1 training_lane lane
    let training_lane ← training_lane_get dp lane
    let buf ← array_set 5 st.2 lane (training_lane % 256)
    let buf_lane ← array_get 5 buf lane
    pure ((s5p_dp_write_byte_to_dpcd dp (h.DPCD_ADDR_TRAINING_LANE0_SET + lane) buf_lane).2, buf))
    lane_count (dp, buf)

/-- Source lines 268-316, with `cr_loop[4]` and the local `buf[5]` bounded. -/
def s5p_dp_link_start_checked (h : Hdr) (dp : s5p_dp_device) : Option s5p_dp_device := do
  let buf : Nat → Nat := fun _ => 0
  let lane_count := dp.link_train.lane_count
  let dp := set_lt_state dp .CLOCK_RECOVERY
  let dp := set_eq_loop dp 0
  let dp ← for_loop_checked (fun lane dp => cr_loop_set dp lane 0) lane_count dp
  let (_, dp) := s5p_dp_write_byte_to_dpcd dp h.DPCD_ADDR_SINK_POWER_STATE
    h.DPCD_SET_POWER_STATE_D0
  let dp := s5p_dp_set_link_bandwidth dp dp.link_train.link_rate
  let dp := s5p_dp_set_lane_count dp dp.link_train.lane_count
  let buf ← array_set 5 buf 0 (dp.link_train.link_rate % 256)
  let buf ← array_set 5 buf 1 (dp.link_train.lane_count % 256)
  array_block 5 2
  let (_, dp) := s5p_dp_write_bytes_to_dpcd dp h.DPCD_ADDR_LINK_BW_SET 2 buf
  let dp := for_loop (fun lane dp =>
    s5p_dp_set_lane_lane_pre_emphasis dp h.PRE_EMPHASIS_LEVEL_0 lane) lane_count dp
  let dp := s5p_dp_set_training_pattern dp h.TRAINING_PTN1
  let buf ← array_set 5 buf 0
    ((h.DPCD_SCRAMBLING_DISABLED ||| h.DPCD_TRAINING_PATTERN_1) % 256)
  let buf0 ← array_get 5 buf 0
  let (_, dp) := s5p_dp_write_byte_to_dpcd dp h.DPCD_ADDR_TRAINING_PATTERN_SET buf0
  let buf ← for_loop_checked (fun lane buf => array_set 5 buf lane
    ((h.DPCD_PRE_EMPHASIS_PATTERN2_LEVEL0 ||| h.DPCD_VOLTAGE_SWING_PATTERN1_LEVEL0) % 256))
    lane_count buf
  array_block 5 lane_count
  let (_, dp) := s5p_dp_write_bytes_to_dpcd dp h.DPCD_ADDR_TRAINING_PATTERN_SET lane_count buf
  pure dp

/-- The body of the per-lane loop in the retry branch of `s5p_dp_process_clock_recovery`
(source lines 536-548), with the lane getter, `adjust_request[2]`, `cr_loop[4]` and
`training_lane[4]` bounded. -/
def clock_recovery_lane_body_checked (h : Hdr) (adjust_request : Nat → Nat) (lane : Nat)
    (st : s5p_dp_device × Nat) : Option (s5p_dp_device × Nat) := do
  let (reg, dp) ← s5p_dp_get_lane_link_training_checked st.1 lane
  let training_lane := reg % 256
  let voltage_swing ← s5p_dp_get_adjust_request_voltage_checked adjust_request lane
  let pre_emphasis ← s5p_dp_get_adjust_request_pre_emphasis_checked adjust_request lane
  let dp ←
    if h.DPCD_VOLTAGE_SWING_GET training_lane = voltage_swing ∧
        h.DPCD_PRE_EMPHASIS_GET training_lane = pre_emphasis then do
      let c ← cr_loop_get dp lane
      cr_loop_set dp lane (c + 1)
    else pure dp
  let dp ← training_lane_set dp lane training_lane
  pure (dp, voltage_swing)

/-- Source lines 478-564, with all its arrays bounded. -/
def s5p_dp_process_clock_recovery_checked (h : Hdr) (dp : s5p_dp_device) :
    Option (Int × s5p_dp_device) := do
  let buf : Nat → Nat := fun _ => 0
  let dp := udelay dp 100
  array_block 6 6
  let (_, link_status, dp) := s5p_dp_read_bytes_from_dpcd dp h.DPCD_ADDR_LANE0_1_STATUS 6
  let lane_count := dp.link_train.lane_count
  let ok ← s5p_dp_clock_recovery_ok_checked h link_status lane_count
  if ok = 0 then
    let dp := s5p_dp_set_training_pattern dp h.TRAINING_PTN2
    let a ← array_get 6 link_status 4
    let b ← array_get 6 link_status 5
    let adjust_request ← adjust_request_checked a b
    let dp ← s5p_dp_get_adjust_train_checked h dp adjust_request
    let buf ← array_set 5 buf 0 ((h.DPCD_SCRAMBLING_DISABLED ||| h.DPCD_TRAINING_PATTERN_2) % 256)
    let buf0 ← array_get 5 buf 0
    let (_, dp) := s5p_dp_write_byte_to_dpcd dp h.DPCD_ADDR_TRAINING_LANE0_SET buf0
    let dp ← write_training_lanes_checked h dp buf lane_count
    pure (0, set_lt_state dp .EQUALIZER_TRAINING)
  else
    let (_, data0, dp) := s5p_dp_read_byte_from_dpcd dp h.DPCD_ADDR_ADJUST_REQUEST_LANE0_1
    let (_, data1, dp) := s5p_dp_read_byte_from_dpcd dp h.DPCD_ADDR_ADJUST_REQUEST_LANE2_3
    let adjust_request ← adjust_request_checked data0 data1
    let (dp, voltage_swing) ←
      for_loop_checked (clock_recovery_lane_body_checked h adjust_request) lane_count (dp, 0)
    let hit ← s5p_dp_check_max_cr_loop_checked h dp voltage_swing
    if hit ≠ 0 then pure (0, s5p_dp_reduce_link_rate h dp)
    else
      let dp ← s5p_dp_get_adjust_train_checked h dp adjust_request
      let dp ← write_training_lanes_checked h dp buf lane_count
      pure (0, dp)

/-- Source lines 566-630, with all its arrays bounded. -/
def s5p_dp_process_equalizer_training_checked (h : Hdr) (dp : s5p_dp_device) :
    Option (Int × s5p_dp_device) := do
  let buf : Nat → Nat := fun _ => 0
  let dp := udelay dp 400
  array_block 6 6
  let (_, link_status, dp) := s5p_dp_read_bytes_from_dpcd dp h.DPCD_ADDR_LANE0_1_STATUS 6
  let lane_count := dp.link_train.lane_count
  let ok ← s5p_dp_clock_recovery_ok_checked h link_status lane_count
  if ok = 0 then
    let a ← array_get 6 link_status 4
    let b ← array_get 6 link_status 5
    let adjust_request ← adjust_request_checked a b
    let eq ← s5p_dp_channel_eq_ok_checked h link_status lane_count
    if eq = 0 then
      let dp := s5p_dp_training_pattern_dis h dp
      let (reg, dp) := s5p_dp_get_link_bandwidth dp
      let dp := set_link_rate dp reg
      let (reg, dp) := s5p_dp_get_lane_count dp
      let dp := set_lane_count_field dp reg
      let dp := s5p_dp_set_enhanced_mode h dp
      pure (0, set_lt_state dp .FINISHED)
    else
      let dp := set_eq_loop dp (dp.link_train.eq_loop + 1)
      if dp.link_train.eq_loop > h.MAX_EQ_LOOP then pure (0, s5p_dp_reduce_link_rate h dp)
      else
        let dp ← s5p_dp_get_adjust_train_checked h dp adjust_request
        let dp ← write_training_lanes_checked h dp buf lane_count
        pure (0, dp)
  else pure (0, s5p_dp_reduce_link_rate h dp)

/-- One pass through the body of the loop of `s5p_dp_sw_link_training`, with the arrays
bounded. -/
def sw_link_training_step_checked (h : Hdr) (dp : s5p_dp_device) : Option s5p_dp_device :=
  match dp.link_train.lt_state with
  | .START => s5p_dp_link_start_checked h dp
  | .CLOCK_RECOVERY => (s5p_dp_process_clock_recovery_checked h dp).map Prod.snd
  | .EQUALIZER_TRAINING => (s5p_dp_process_equalizer_training_checked h dp).map Prod.snd
  | .FINISHED => some dp
  | .FAILED => some dp

end S5pDp

/-!
# TWL6040 audio codec: power reference counting

A shallow embedding of `twl6040_power` from `drivers/mfd/twl6040.c` and of the functions
it calls, in the conventions of the first part.

* The header `linux/mfd/twl6040.h` and the errno header are not among the sources: their
  constants are fields of `twl6040_hdr`.  The types of the fields of `struct twl6040` are
  declared there too; `power_count` and `pll` are taken to be `int`s, `sysclk` and `mclk`
  `unsigned int`s.  `power_count++` and `--power_count` are reduced to 32 bits in two's
  complement (`int_wrap`).
* The kernel services the functions call (`regmap_read`, `regmap_write`, `gpio_set_value`,
  `wait_for_completion_timeout`, `usleep_range`, the mutex) are not among the sources.  A
  call is recorded in the `log`; the result of a call that has one is the next entry of the
  `bus` stream, which is arbitrary.
-/

namespace Twl6040

/-! ## Header constants -/

/-- Constants the driver takes from headers that are not among the sources. -/
structure twl6040_hdr where
  TWL6040_REG_INTID : Nat
  TWL6040_REG_NCPCTL : Nat
  TWL6040_REG_LDOCTL : Nat
  TWL6040_REG_LPPLLCTL : Nat
  TWL6040_REG_VIBCTLL : Nat
  TWL6040_REG_VIBCTLR : Nat
  TWL6040_LSLDOENA : Nat
  TWL6040_HSLDOENA : Nat
  TWL6040_REFENA : Nat
  TWL6040_OSCENA : Nat
  TWL6040_NCPENA : Nat
  TWL6040_LPLLENA : Nat
  TWL6040_READYINT : Nat
  TWL6040_SYSCLK_SEL_LPPLL : Int
  EPERM : Int
  ETIMEDOUT : Int
  ARCH_NR_GPIOS : Int

/-- Sample values of the constants, for evaluation. -/
def twl6040_sample_hdr : twl6040_hdr where
  TWL6040_REG_INTID := 0x03
  TWL6040_REG_NCPCTL := 0x05
  TWL6040_REG_LDOCTL := 0x06
  TWL6040_REG_LPPLLCTL := 0x08
  TWL6040_REG_VIBCTLL := 0x18
  TWL6040_REG_VIBCTLR := 0x1a
  TWL6040_LSLDOENA := 0x01
  TWL6040_HSLDOENA := 0x04
  TWL6040_REFENA := 0x40
  TWL6040_OSCENA := 0x80
  TWL6040_NCPENA := 0x01
  TWL6040_LPLLENA := 0x01
  TWL6040_READYINT := 0x40
  TWL6040_SYSCLK_SEL_LPPLL := 0
  EPERM := 1
  ETIMEDOUT := 110
  ARCH_NR_GPIOS := 256

/-! ## The device and the kernel services -/

/-- What a kernel service hands back for one call: its return value and, for
`regmap_read`, the value stored through `val`. -/
structure twl6040_answer where
  ret : Int
  val : Nat
  deriving DecidableEq, Repr

/-- One call of a kernel service, with its arguments. -/
inductive twl6040_event where
  | mutex_lock
  | mutex_unlock
  | regmap_read (reg : Nat)
  | regmap_write (reg val : Nat)
  | gpio_set_value (gpio value : Int)
  | wait_for_completion_timeout (msecs : Nat)
  | usleep_range (min max : Nat)
  deriving DecidableEq, Repr

/-- The fields of `struct twl6040` the power functions use, with the answers of the kernel
services (`bus`, the next one is number `tick`) and the calls made so far (`log`). -/
structure twl6040 where
  power_count : Int
  pll : Int
  sysclk : Nat
  mclk : Nat
  audpwron : Int
  vibra_ctrl_cache : Nat → Nat
  bus : Nat → twl6040_answer
  tick : Nat
  log : List twl6040_event

/-- Record a call. -/
def record (t : twl6040) (e : twl6040_event) : twl6040 :=
  { t with log := t.log ++ [e] }

/-- Take the next answer of the kernel services. -/
def next_answer (t : twl6040) : twl6040_answer × twl6040 :=
  (t.bus t.tick, { t with tick := t.tick + 1 })

/-- The largest value of a C `int`. -/
def INT_MAX : Int := 2147483647

/-- The value an `int` object holds after arithmetic with the exact result `v`: `v` reduced
to 32 bits in two's complement, which is `v` itself from `-INT_MAX - 1` to `INT_MAX`. -/
def int_wrap (v : Int) : Int :=
  (v + 2147483648) % 4294967296 - 2147483648

/-- The conversion of an `unsigned int` to `int`. -/
def int_of_unsigned (v : Nat) : Int :=
  if v % 2 ^ 32 < 2 ^ 31 then (v % 2 ^ 32 : Nat) else ((v % 2 ^ 32 : Nat) : Int) - 2 ^ 32

/-- The conversion of an `int` to `u8`. -/
def u8_of_int (v : Int) : Nat :=
  (v % 256).toNat

/-- The expression `v & ~mask` stored into a `u8` object `v`. -/
def clear_mask (v mask : Nat) : Nat :=
  v % 256 &&& (255 ^^^ (mask % 256))

/-- The kernel's `gpio_is_valid` (not among the sources): a number from 0 up to
`ARCH_NR_GPIOS`, exclusive. -/
def gpio_is_valid (h : twl6040_hdr) (number : Int) : Bool :=
  decide (0 ≤ number ∧ number < h.ARCH_NR_GPIOS)

/-- The kernel's `gpio_set_value`. -/
def gpio_set_value (t : twl6040) (gpio value : Int) : twl6040 :=
  record t (.gpio_set_value gpio value)

/-- The kernel's `usleep_range`. -/
def usleep_range (t : twl6040) (min max : Nat) : twl6040 :=
  record t (.usleep_range min max)

/-- The kernel's `wait_for_completion_timeout` on `twl6040->ready` with
`msecs_to_jiffies(msecs)`: the time left, as stored into the `int time_left`. -/
def wait_for_completion_timeout (t : twl6040) (msecs : Nat) : Int × twl6040 :=
  let (a, t) := next_answer (record t (.wait_for_completion_timeout msecs))
  (a.ret, t)

/-- The kernel's `regmap_read`: return value and the value stored through `val`. -/
def regmap_read (t : twl6040) (reg : Nat) : Int × Nat × twl6040 :=
  let (a, t) := next_answer (record t (.regmap_read reg))
  (a.ret, a.val, t)

/-- The kernel's `regmap_write`: return value. -/
def regmap_write (t : twl6040) (reg val : Nat) : Int × twl6040 :=
  let (a, t) := next_answer (record t (.regmap_write reg val))
  (a.ret, t)

/-! ## The driver functions -/

/-- Source line 44: `VIBRACTRL_MEMBER(reg)`. -/
def VIBRACTRL_MEMBER (h : twl6040_hdr) (reg : Nat) : Nat :=
  if reg = h.TWL6040_REG_VIBCTLL then 0 else 1

/-- Source lines 60-77.  The value returned is the `unsigned int val` converted to `int`;
`vibra_ctrl_cache` is declared in the header that is not among the sources. -/
def twl6040_reg_read (h : twl6040_hdr) (t : twl6040) (reg : Nat) : Int × twl6040 :=
  if reg = h.TWL6040_REG_VIBCTLL ∨ reg = h.TWL6040_REG_VIBCTLR then
    (int_of_unsigned (t.vibra_ctrl_cache (VIBRACTRL_MEMBER h reg)), t)
  else
    let (ret, val, t) := regmap_read t reg
    if ret < 0 then (ret, t) else (int_of_unsigned val, t)

/-- Source lines 80-91; `val` is a `u8`. -/
def twl6040_reg_write (h : twl6040_hdr) (t : twl6040) (reg val : Nat) : Int × twl6040 :=
  let (ret, t) := regmap_write t reg (val % 256)
  let t :=
    if reg = h.TWL6040_REG_VIBCTLL ∨ reg = h.TWL6040_REG_VIBCTLR then
      { t with vibra_ctrl_cache :=
          Function.update t.vibra_ctrl_cache (VIBRACTRL_MEMBER h reg) (val % 256) }
    else t
  (ret, t)

/-- Source lines 153-156 and 158-159: the label `ncp_err` of `twl6040_power_up_manual` and
what follows it. -/
def power_up_manual_ncp_err (h : twl6040_hdr) (t : twl6040) (ret : Int) (ldoctl : Nat) :
    Int × twl6040 :=
  let ldoctl := clear_mask ldoctl (h.TWL6040_HSLDOENA ||| h.TWL6040_REFENA ||| h.TWL6040_OSCENA)
  let (_, t) := twl6040_reg_write h t h.TWL6040_REG_LDOCTL ldoctl
  (ret, t)

/-- Source lines 150-152: the label `lsldo_err`, falling through to `ncp_err`. -/
def power_up_manual_lsldo_err (h : twl6040_hdr) (t : twl6040) (ret : Int)
    (ldoctl ncpctl : Nat) : Int × twl6040 :=
  let ncpctl := clear_mask ncpctl h.TWL6040_NCPENA
  let (_, t) := twl6040_reg_write h t h.TWL6040_REG_NCPCTL ncpctl
  power_up_manual_ncp_err h t ret ldoctl

/-- Source lines 147-149: the label `lppll_err`, falling through to `lsldo_err`. -/
def power_up_manual_lppll_err (h : twl6040_hdr) (t : twl6040) (ret : Int)
    (ldoctl ncpctl : Nat) : Int × twl6040 :=
  let ldoctl := clear_mask ldoctl h.TWL6040_LSLDOENA
  let (_, t) := twl6040_reg_write h t h.TWL6040_REG_LDOCTL ldoctl
  power_up_manual_lsldo_err h t ret ldoctl ncpctl

/-- Source lines 144-146: the label `osc_err`, falling through to `lppll_err`. -/
def power_up_manual_osc_err (h : twl6040_hdr) (t : twl6040) (ret : Int)
    (ldoctl ncpctl lppllctl : Nat) : Int × twl6040 :=
  let lppllctl := clear_mask lppllctl h.TWL6040_LPLLENA
  let (_, t) := twl6040_reg_write h t h.TWL6040_REG_LPPLLCTL lppllctl
  power_up_manual_lppll_err h t ret ldoctl ncpctl

/-- Source lines 105-160. -/
def twl6040_power_up_manual (h : twl6040_hdr) (t : twl6040) : Int × twl6040 :=
  let ldoctl := (h.TWL6040_HSLDOENA ||| h.TWL6040_REFENA ||| h.TWL6040_OSCENA) % 256
  let (ret, t) := twl6040_reg_write h t h.TWL6040_REG_LDOCTL ldoctl
  if ret ≠ 0 then (ret, t)
  else
    let t := usleep_range t 10000 10500
    let ncpctl := h.TWL6040_NCPENA % 256
    let (ret, t) := twl6040_reg_write h t h.TWL6040_REG_NCPCTL ncpctl
    if ret ≠ 0 then power_up_manual_ncp_err h t ret ldoctl
    else
      let t := usleep_range t 1000 1500
      let ldoctl := (ldoctl ||| h.TWL6040_LSLDOENA) % 256
      let (ret, t) := twl6040_reg_write h t h.TWL6040_REG_LDOCTL ldoctl
      if ret ≠ 0 then power_up_manual_lsldo_err h t ret ldoctl ncpctl
      else
        let t := usleep_range t 1000 1500
        let lppllctl := h.TWL6040_LPLLENA % 256
        let (ret, t) := twl6040_reg_write h t h.TWL6040_REG_LPPLLCTL lppllctl
        if ret ≠ 0 then power_up_manual_lppll_err h t ret ldoctl ncpctl
        else
          let t := usleep_range t 5000 5500
          let ldoctl := clear_mask ldoctl h.TWL6040_OSCENA
          let (ret, t) := twl6040_reg_write h t h.TWL6040_REG_LDOCTL ldoctl
          if ret ≠ 0 then power_up_manual_osc_err h t ret ldoctl ncpctl lppllctl
          else (0, t)

/-- Source lines 163-191. -/
def twl6040_power_down_manual (h : twl6040_hdr) (t : twl6040) : twl6040 :=
  let (r, t) := twl6040_reg_read h t h.TWL6040_REG_NCPCTL
  let ncpctl := u8_of_int r
  let (r, t) := twl6040_reg_read h t h.TWL6040_REG_LDOCTL
  let ldoctl := u8_of_int r
  let (r, t) := twl6040_reg_read h t h.TWL6040_REG_LPPLLCTL
  let lppllctl := u8_of_int r
  let ldoctl := (ldoctl ||| h.TWL6040_OSCENA) % 256
  let (_, t) := twl6040_reg_write h t h.TWL6040_REG_LDOCTL ldoctl
  let t := usleep_range t 1000 1500
  let lppllctl := clear_mask lppllctl h.TWL6040_LPLLENA
  let (_, t) := twl6040_reg_write h t h.TWL6040_REG_LPPLLCTL lppllctl
  let ldoctl := clear_mask ldoctl h.TWL6040_LSLDOENA
  let (_, t) := twl6040_reg_write h t h.TWL6040_REG_LDOCTL ldoctl
  let ncpctl := clear_mask ncpctl h.TWL6040_NCPENA
  let (_, t) := twl6040_reg_write h t h.TWL6040_REG_NCPCTL ncpctl
  let ldoctl := clear_mask ldoctl (h.TWL6040_HSLDOENA ||| h.TWL6040_REFENA ||| h.TWL6040_OSCENA)
  let (_, t) := twl6040_reg_write h t h.TWL6040_REG_LDOCTL ldoctl
  t

/-- Source lines 219-241. -/
def twl6040_power_up_automatic (h : twl6040_hdr) (t : twl6040) : Int × twl6040 :=
  let t := gpio_set_value t t.audpwron 1
  let (time_left, t) := wait_for_completion_timeout t 144
  if time_left = 0 then
    let (r, t) := twl6040_reg_read h t h.TWL6040_REG_INTID
    let intid := u8_of_int r
    if intid &&& h.TWL6040_READYINT = 0 then
      let t := gpio_set_value t t.audpwron 0
      (-h.ETIMEDOUT, t)
    else (0, t)
  else (0, t)

/-- Source lines 243-304; the parameter `on` is written `on_`.  The value returned is the
local `ret`, which is 0 unless a branch assigns it. -/
def twl6040_power (h : twl6040_hdr) (t : twl6040) (on_ : Int) : Int × twl6040 :=
  let t := record t .mutex_lock
  if on_ ≠ 0 then
    let old := t.power_count
    let t := { t with power_count := int_wrap (t.power_count + 1) }
    if old ≠ 0 then (0, record t .mutex_unlock)
    else if gpio_is_valid h t.audpwron = true then
      let (ret, t) := twl6040_power_up_automatic h t
      if ret ≠ 0 then
        let t := { t with power_count := 0 }
        (ret, record t .mutex_unlock)
      else
        let t := { t with pll := h.TWL6040_SYSCLK_SEL_LPPLL }
        let t := { t with sysclk := 19200000 }
        let t := { t with mclk := 32768 }
        (ret, record t .mutex_unlock)
    else
      let (ret, t) := twl6040_power_up_manual h t
      if ret ≠ 0 then
        let t := { t with power_count := 0 }
        (ret, record t .mutex_unlock)
      else
        let t := { t with pll := h.TWL6040_SYSCLK_SEL_LPPLL }
        let t := { t with sysclk := 19200000 }
        let t := { t with mclk := 32768 }
        (ret, record t .mutex_unlock)
  else
    if t.power_count = 0 then (-h.EPERM, record t .mutex_unlock)
    else
      let t := { t with power_count := int_wrap (t.power_count - 1) }
      if t.power_count ≠ 0 then (0, record t .mutex_unlock)
      else
        let t :=
          if gpio_is_valid h t.audpwron = true then
            let t := gpio_set_value t t.audpwron 0
            usleep_range t 500 700
          else twl6040_power_down_manual h t
        let t := { t with sysclk := 0 }
        let t := { t with mclk := 0 }
        (0, record t .mutex_unlock)

/-! ## Definitions used to state the theorems -/

/-- A sequence of `twl6040_power` calls with the arguments `ons`, in order: the pairs of
argument and result, and the device after the last call. -/
def twl6040_power_calls (h : twl6040_hdr) : List Int → twl6040 → List (Int × Int) × twl6040
  | [], t => ([], t)
  | on_ :: rest, t =>
    let r := twl6040_power h t on_
    let s := twl6040_power_calls h rest r.2
    ((on_, r.1) :: s.1, s.2)

/-- A call (argument, result) that asks for power and returns 0. -/
def successful_on (c : Int × Int) : Bool :=
  decide (c.1 ≠ 0 ∧ c.2 = 0)

/-- A call (argument, result) that releases power and returns 0. -/
def successful_off (c : Int × Int) : Bool :=
  decide (c.1 = 0 ∧ c.2 = 0)

/-- A call (argument, result) that asks for power and returns an error: a failed
power-up. -/
def failed_power_up (c : Int × Int) : Bool :=
  decide (c.1 ≠ 0 ∧ c.2 ≠ 0)

/-- The calls of a trace that follow its last failed power-up (all of them when there is
none). -/
def since_last_failed_power_up (trace : List (Int × Int)) : List (Int × Int) :=
  trace.foldl (fun acc c => if failed_power_up c = true then [] else acc ++ [c]) []

/-- The fields of the device that `twl6040_power` itself assigns and tests:
`power_count`, `pll`, `sysclk`, `mclk` and `audpwron`. -/
def power_fields (t : twl6040) : Int × Int × Nat × Nat × Int :=
  (t.power_count, t.pll, t.sysclk, t.mclk, t.audpwron)

/-- The device the power-up sequence of an on-call starts from: the mutex taken and
`power_count` incremented. -/
def power_up_entry (t : twl6040) : twl6040 :=
  { record t .mutex_lock with power_count := int_wrap (t.power_count + 1) }

/-- The power-up sequence `twl6040_power` runs: the automatic one when `audpwron` is a
valid GPIO, the manual one otherwise. -/
def power_up_sequence (h : twl6040_hdr) (t : twl6040) : Int × twl6040 :=
  if gpio_is_valid h t.audpwron = true then twl6040_power_up_automatic h t
  else twl6040_power_up_manual h t

/-- The device the power-down sequence of an off-call starts from: the mutex taken and
`power_count` decremented. -/
def power_down_entry (t : twl6040) : twl6040 :=
  { record t .mutex_lock with power_count := int_wrap (t.power_count - 1) }

/-- The power-down sequence `twl6040_power` runs (source lines 287-295). -/
def power_down_sequence (h : twl6040_hdr) (t : twl6040) : twl6040 :=
  if gpio_is_valid h t.audpwron = true then usleep_range (gpio_set_value t t.audpwron 0) 500 700
  else twl6040_power_down_manual h t

/-- A powered-down device with the given `audpwron` line and an empty log whose kernel
services answer with the entries of `script`, in order, and with `⟨0, 0⟩` once the script
is used up. -/
def twl6040_scripted (audpwron : Int) (script : List twl6040_answer) : twl6040 :=
  { power_count := 0, pll := 0, sysclk := 0, mclk := 0, audpwron := audpwron,
    vibra_ctrl_cache := fun _ => 0, bus := fun k => script.getD k ⟨0, 0⟩, tick := 0, log := [] }

end Twl6040

namespace S5pDp

/-! ## Lemmas on the control-flow helpers -/

set_option maxRecDepth 10000


theorem for_return_eq_none_iff {ρ : Type} (body : Nat → Option ρ) (todo i : Nat) :
    for_return body todo i = none ↔ ∀ k, k < todo → body (i + k) = none := by
  induction todo generalizing i with
  | zero => simp [for_return]
  | succ n ih =>
    unfold for_return
    cases hb : body i with
    | some r =>
      constructor
      · intro hc
        cases hc
      · intro hk
        have := hk 0 (Nat.succ_pos n)
        simp [hb] at this
    | none =>
      simp only
      rw [ih]
      constructor
      · intro hk k hlt
        cases k with
        | zero => simpa using hb
        | succ k =>
          have := hk k (by omega)
          rwa [Nat.add_assoc, Nat.add_comm 1 k] at this
      · intro hk k hlt
        have := hk (k + 1) (by omega)
        rwa [Nat.add_assoc, Nat.add_comm 1 k]

theorem for_return_eq_some {ρ : Type} (body : Nat → Option ρ) (todo i : Nat) (r : ρ)
    (hr : for_return body todo i = some r) : ∃ k, k < todo ∧ body (i + k) = some r := by
  induction todo generalizing i with
  | zero => simp [for_return] at hr
  | succ n ih =>
    unfold for_return at hr
    cases hb : body i with
    | some r' =>
      rw [hb] at hr
      simp only [Option.some.injEq] at hr
      exact ⟨0, Nat.succ_pos n, by simp [hb, hr]⟩
    | none =>
      rw [hb] at hr
      obtain ⟨k, hk, hbk⟩ := ih (i + 1) hr
      exact ⟨k + 1, by omega, by rwa [Nat.add_assoc, Nat.add_comm 1 k] at hbk⟩

theorem clock_recovery_ok_cases (h : Hdr) (link_status : Nat → Nat) (lane_count : Nat) :
    (s5p_dp_clock_recovery_ok h link_status lane_count = 0 ∧
      ∀ n, n < lane_count →
        s5p_dp_get_lane_status link_status n &&& h.DPCD_LANE_CR_DONE ≠ 0) ∨
    (s5p_dp_clock_recovery_ok h link_status lane_count = -h.EINVAL ∧
      ∃ n, n < lane_count ∧
        s5p_dp_get_lane_status link_status n &&& h.DPCD_LANE_CR_DONE = 0) := by
  unfold s5p_dp_clock_recovery_ok
  cases hf : for_return (fun lane =>
      let lane_status := s5p_dp_get_lane_status link_status lane
      if lane_status &&& h.DPCD_LANE_CR_DONE = 0 then some (-h.EINVAL) else none)
    lane_count 0 with
  | none =>
    left
    refine ⟨rfl, fun n hn => ?_⟩
    have := (for_return_eq_none_iff _ _ _).1 hf n hn
    simp only [Nat.zero_add] at this
    intro h0
    simp [h0] at this
  | some r =>
    right
    obtain ⟨k, hk, hbk⟩ := for_return_eq_some _ _ _ _ hf
    simp only [Nat.zero_add] at hbk
    by_cases h0 : s5p_dp_get_lane_status link_status k &&& h.DPCD_LANE_CR_DONE = 0
    · simp only [h0, if_true, Option.some.injEq] at hbk
      exact ⟨hbk.symm, k, hk, h0⟩
    · simp [h0] at hbk


theorem get_lane_status_le (link_status : Nat → Nat) (lane : Nat) :
    s5p_dp_get_lane_status link_status lane ≤ 15 := by
  unfold s5p_dp_get_lane_status
  exact Nat.and_le_right

theorem channel_eq_ok_cases (h : Hdr) (link_status : Nat → Nat) (lane_count : Nat) :
    (s5p_dp_channel_eq_ok h link_status lane_count = 0 ∧
      link_status 2 = h.DPCD_INTERLANE_ALIGN_DONE ∧
      ∀ n, n < lane_count →
        s5p_dp_get_lane_status link_status n &&& h.DPCD_CHANNEL_EQ_BITS
          = h.DPCD_CHANNEL_EQ_BITS) ∨
    (s5p_dp_channel_eq_ok h link_status lane_count = -h.EINVAL ∧
      (link_status 2 ≠ h.DPCD_INTERLANE_ALIGN_DONE ∨
       ∃ n, n < lane_count ∧
        s5p_dp_get_lane_status link_status n &&& h.DPCD_CHANNEL_EQ_BITS
          ≠ h.DPCD_CHANNEL_EQ_BITS)) := by
  have hmod : ∀ n, (s5p_dp_get_lane_status link_status n &&& h.DPCD_CHANNEL_EQ_BITS) % 256
      = s5p_dp_get_lane_status link_status n &&& h.DPCD_CHANNEL_EQ_BITS := by
    intro n
    apply Nat.mod_eq_of_lt
    have h1 := get_lane_status_le link_status n
    have h2 : s5p_dp_get_lane_status link_status n &&& h.DPCD_CHANNEL_EQ_BITS
        ≤ s5p_dp_get_lane_status link_status n := Nat.and_le_left
    omega
  unfold s5p_dp_channel_eq_ok
  by_cases hal : link_status 2 = h.DPCD_INTERLANE_ALIGN_DONE
  · simp only [hal, not_true_eq_false, if_false]
    cases hf : for_return (fun lane =>
        let lane_status := s5p_dp_get_lane_status link_status lane
        let lane_status := (lane_status &&& h.DPCD_CHANNEL_EQ_BITS) % 256
        if lane_status ≠ h.DPCD_CHANNEL_EQ_BITS then some (-h.EINVAL) else none)
      lane_count 0 with
    | none =>
      left
      refine ⟨rfl, trivial, fun n hn => ?_⟩
      have := (for_return_eq_none_iff _ _ _).1 hf n hn
      simp only [Nat.zero_add, hmod] at this
      by_contra hne
      simp [hne] at this
    | some r =>
      right
      obtain ⟨k, hk, hbk⟩ := for_return_eq_some _ _ _ _ hf
      simp only [Nat.zero_add, hmod] at hbk
      by_cases h0 : s5p_dp_get_lane_status link_status k &&& h.DPCD_CHANNEL_EQ_BITS
          = h.DPCD_CHANNEL_EQ_BITS
      · simp [h0] at hbk
      · simp only [ne_eq, h0, not_false_eq_true, if_true, Option.some.injEq] at hbk
        exact ⟨hbk.symm, Or.inr ⟨k, hk, h0⟩⟩
  · simp only [hal, not_false_eq_true, if_true]
    right
    exact ⟨trivial, Or.inl hal⟩

/-- C2. For every status block and every `lane_count ≤ 4`, `s5p_dp_channel_eq_ok` returns 0
exactly when byte 2 equals `DPCD_INTERLANE_ALIGN_DONE` and every lane `n < lane_count` has its
status nibble masked with `DPCD_CHANNEL_EQ_BITS` equal to `DPCD_CHANNEL_EQ_BITS`; any other
result is `-EINVAL`. -/
theorem channel_eq_ok_iff (h : Hdr) (link_status : Nat → Nat) (lane_count : Nat)
    (hE : h.EINVAL ≠ 0) (_hl : lane_count ≤ 4) :
    (s5p_dp_channel_eq_ok h link_status lane_count = 0 ↔
      link_status 2 = h.DPCD_INTERLANE_ALIGN_DONE ∧
      ∀ n, n < lane_count →
        ((link_status (n >>> 1) >>> ((n &&& 1) * 4)) &&& 0xf) &&& h.DPCD_CHANNEL_EQ_BITS
          = h.DPCD_CHANNEL_EQ_BITS) ∧
    (s5p_dp_channel_eq_ok h link_status lane_count ≠ 0 →
      s5p_dp_channel_eq_ok h link_status lane_count = -h.EINVAL) := by
  rcases channel_eq_ok_cases h link_status lane_count with ⟨h0, hal, hall⟩ | ⟨h1, hbad⟩
  · exact ⟨⟨fun _ => ⟨hal, hall⟩, fun _ => h0⟩, fun hne => absurd h0 hne⟩
  · refine ⟨⟨fun h0 => ?_, fun hall => ?_⟩, fun _ => h1⟩
    · rw [h1] at h0
      exact absurd (neg_eq_zero.1 h0) hE
    · rcases hbad with hbad | ⟨n, hn, hbad⟩
      · exact absurd hall.1 hbad
      · exact absurd (hall.2 n hn) hbad

/-- C5. Adjust-request round trip: for a lane `n < 4` and levels `v, p ≤ 3`, whenever the
nibble at bit offset `(n & 1) * 4` of byte `n >> 1` of the adjust request is `(p << 2) | v`,
`s5p_dp_get_adjust_request_voltage` gives `v` and `s5p_dp_get_adjust_request_pre_emphasis`
gives `p`, whatever the other nibbles are. -/
theorem adjust_request_round_trip (adjust_request : Nat → Nat) (n v p : Nat)
    (_hn : n < 4) (hv : v ≤ 3) (hp : p ≤ 3)
    (hnib : (adjust_request (n >>> 1) >>> ((n &&& 1) * 4)) &&& 0xf = (p <<< 2) ||| v) :
    s5p_dp_get_adjust_request_voltage adjust_request n = v ∧
    s5p_dp_get_adjust_request_pre_emphasis adjust_request n = p := by
  unfold s5p_dp_get_adjust_request_voltage s5p_dp_get_adjust_request_pre_emphasis
  simp only
  generalize adjust_request (n >>> 1) >>> ((n &&& 1) * 4) = x at hnib ⊢
  have h3 : x &&& 0x3 = (x &&& 0xf) &&& 0x3 := by
    rw [Nat.land_assoc]
    rfl
  have hc : x &&& 0xc = (x &&& 0xf) &&& 0xc := by
    rw [Nat.land_assoc]
    rfl
  rw [h3, hc, hnib]
  interval_cases v <;> interval_cases p <;> decide


theorem for_loop_sum_eq (block : Nat → Nat) (n : Nat) :
    for_loop (fun i sum => (sum + block i) % 256) n 0 = byte_sum block n % 256 := by
  induction n with
  | zero => rfl
  | succ n ih =>
    simp only [for_loop, byte_sum, ih]
    omega

theorem calc_edid_check_sum_eq (h : Hdr) (block : Nat → Nat) :
    s5p_dp_calc_edid_check_sum h block = byte_sum block h.EDID_BLOCK_LENGTH % 256 :=
  for_loop_sum_eq block h.EDID_BLOCK_LENGTH

theorem byte_sum_update_ge (block : Nat → Nat) (i v n : Nat) (hi : n ≤ i) :
    byte_sum (Function.update block i v) n = byte_sum block n := by
  induction n with
  | zero => rfl
  | succ n ih =>
    have hne : n ≠ i := by omega
    simp only [byte_sum, ih (by omega), Function.update_noteq hne]

theorem byte_sum_update_lt (block : Nat → Nat) (i v n : Nat) (hi : i < n) :
    byte_sum (Function.update block i v) n + block i = byte_sum block n + v := by
  induction n with
  | zero => omega
  | succ n ih =>
    by_cases hin : i = n
    · subst hin
      simp only [byte_sum, byte_sum_update_ge block i v i (le_refl i), Function.update_same]
      omega
    · have hne : n ≠ i := fun hc => hin hc.symm
      have := ih (by omega)
      simp only [byte_sum, Function.update_noteq hne]
      omega

theorem calc_edid_check_sum_update_ne_zero (h : Hdr) (block : Nat → Nat) (i v : Nat)
    (hbytes : ∀ j, j < h.EDID_BLOCK_LENGTH → block j < 256)
    (hsum : s5p_dp_calc_edid_check_sum h block = 0)
    (hi : i < h.EDID_BLOCK_LENGTH) (hv : v < 256) (hne : v ≠ block i) :
    s5p_dp_calc_edid_check_sum h (Function.update block i v) ≠ 0 := by
  rw [calc_edid_check_sum_eq] at hsum ⊢
  have hb := hbytes i hi
  have hup := byte_sum_update_lt block i v h.EDID_BLOCK_LENGTH hi
  omega


theorem byte_sum_congr (a b : Nat → Nat) (n : Nat) (hab : ∀ i, i < n → a i = b i) :
    byte_sum a n = byte_sum b n := by
  induction n with
  | zero => rfl
  | succ n ih =>
    simp only [byte_sum, ih (fun i hi => hab i (Nat.lt_succ_of_lt hi)), hab n (Nat.lt_succ_self n)]

theorem byte_sum_eq_sum (a : Nat → Nat) (n : Nat) :
    byte_sum a n = ∑ i in Finset.range n, a i := by
  induction n with
  | zero => rfl
  | succ n ih => rw [Finset.sum_range_succ, ← ih, byte_sum]

theorem calc_edid_check_sum_congr (h : Hdr) (a b : Nat → Nat)
    (hab : ∀ i, i < h.EDID_BLOCK_LENGTH → a i = b i) :
    s5p_dp_calc_edid_check_sum h a = s5p_dp_calc_edid_check_sum h b := by
  rw [calc_edid_check_sum_eq, calc_edid_check_sum_eq, byte_sum_congr a b _ hab]

theorem read_edid_retval (h : Hdr) (dp : s5p_dp_device) (hhp : h.EDID_HEADER_PATTERN = 0) :
    (s5p_dp_read_edid h dp).1 =
      if (dp.aux (dp.tick + 1)).retval ≠ 0 then -h.EIO
      else if s5p_dp_calc_edid_check_sum h (answer_block dp (dp.tick + 1)) ≠ 0 then -h.EIO
      else if (dp.aux dp.tick).data.getD 0 0 % 2 ^ 32 > 0 then
        if (dp.aux (dp.tick + 2)).retval ≠ 0 then -h.EIO
        else if s5p_dp_calc_edid_check_sum h (answer_block dp (dp.tick + 2)) ≠ 0 then -h.EIO
        else 0
      else 0 := by
  have e1 : ∀ (blk : Nat → Nat) (k : Nat),
      s5p_dp_calc_edid_check_sum h (store_at (fun _ => 0) 0 h.EDID_BLOCK_LENGTH
        (fun i => if i < h.EDID_BLOCK_LENGTH then (dp.aux k).data.getD i 0 % 256 else 0))
      = s5p_dp_calc_edid_check_sum h (answer_block dp k) := by
    intro blk k
    apply calc_edid_check_sum_congr
    intro i hi
    simp [store_at, answer_block, hi]
  have e2 : ∀ (e : Nat → Nat) (k : Nat),
      s5p_dp_calc_edid_check_sum h (fun i => store_at e h.EDID_BLOCK_LENGTH h.EDID_BLOCK_LENGTH
        (fun i => if i < h.EDID_BLOCK_LENGTH then (dp.aux k).data.getD i 0 % 256 else 0)
        (h.EDID_BLOCK_LENGTH + i))
      = s5p_dp_calc_edid_check_sum h (answer_block dp k) := by
    intro e k
    apply calc_edid_check_sum_congr
    intro i hi
    simp [store_at, answer_block, hi]
  unfold s5p_dp_read_edid
  simp only [s5p_dp_read_byte_from_i2c, s5p_dp_read_bytes_from_i2c, s5p_dp_read_byte_from_dpcd,
    s5p_dp_write_byte_to_dpcd, answer, emit, hhp, e1 (fun _ => 0), e2]
  split_ifs <;> rfl


theorem read_edid_aux (h : Hdr) (dp : s5p_dp_device) :
    (s5p_dp_read_edid h dp).2.aux = dp.aux ∧
    (s5p_dp_read_edid h dp).2.link_train = dp.link_train := by
  unfold s5p_dp_read_edid
  simp only [s5p_dp_read_byte_from_i2c, s5p_dp_read_bytes_from_i2c, s5p_dp_read_byte_from_dpcd,
    s5p_dp_write_byte_to_dpcd, answer, emit]
  split_ifs <;> exact ⟨rfl, rfl⟩

set_option maxHeartbeats 1600000 in
theorem read_edid_log (h : Hdr) (dp : s5p_dp_device) (hhp : h.EDID_HEADER_PATTERN = 0)
    (hck : h.EDID_CHECKSUM < h.EDID_BLOCK_LENGTH) :
    (s5p_dp_read_edid h dp).2.log = dp.log ++
      (Event.read_byte_from_i2c h.I2C_EDID_DEVICE_ADDR h.EDID_EXTENSION_FLAG ::
       Event.read_bytes_from_i2c h.I2C_EDID_DEVICE_ADDR 0 h.EDID_BLOCK_LENGTH ::
       (if (dp.aux (dp.tick + 1)).retval ≠ 0 ∨
            s5p_dp_calc_edid_check_sum h (answer_block dp (dp.tick + 1)) ≠ 0 then []
        else if (dp.aux dp.tick).data.getD 0 0 % 2 ^ 32 > 0 then
          Event.read_bytes_from_i2c h.I2C_EDID_DEVICE_ADDR h.EDID_BLOCK_LENGTH
              h.EDID_BLOCK_LENGTH ::
            (if (dp.aux (dp.tick + 2)).retval ≠ 0 ∨
                s5p_dp_calc_edid_check_sum h (answer_block dp (dp.tick + 2)) ≠ 0 then []
             else
              Event.read_byte_from_dpcd h.DPCD_ADDR_TEST_REQUEST ::
                (if ((dp.aux (dp.tick + 3)).data.getD 0 0 % 256) &&& h.DPCD_TEST_EDID_READ ≠ 0
                 then
                  [Event.write_byte_to_dpcd h.DPCD_ADDR_TEST_EDID_CHECKSUM
                      (answer_block dp (dp.tick + 2) h.EDID_CHECKSUM),
                   Event.write_byte_to_dpcd h.DPCD_ADDR_TEST_RESPONSE
                      (h.DPCD_TEST_EDID_CHECKSUM_WRITE % 256)]
                 else []))
        else
          Event.read_byte_from_dpcd h.DPCD_ADDR_TEST_REQUEST ::
            (if ((dp.aux (dp.tick + 2)).data.getD 0 0 % 256) &&& h.DPCD_TEST_EDID_READ ≠ 0
             then
              [Event.write_byte_to_dpcd h.DPCD_ADDR_TEST_EDID_CHECKSUM
                  (answer_block dp (dp.tick + 1) h.EDID_CHECKSUM),
               Event.write_byte_to_dpcd h.DPCD_ADDR_TEST_RESPONSE
                  (h.DPCD_TEST_EDID_CHECKSUM_WRITE % 256)]
             else []))) ∧
    (s5p_dp_read_edid h dp).2.tick
      = dp.tick + ((s5p_dp_read_edid h dp).2.log.length - dp.log.length) := by
  have e1 : ∀ (k : Nat),
      s5p_dp_calc_edid_check_sum h (store_at (fun _ => 0) 0 h.EDID_BLOCK_LENGTH
        (fun i => if i < h.EDID_BLOCK_LENGTH then (dp.aux k).data.getD i 0 % 256 else 0))
      = s5p_dp_calc_edid_check_sum h (answer_block dp k) := by
    intro k
    apply calc_edid_check_sum_congr
    intro i hi
    simp [store_at, answer_block, hi]
  have e2 : ∀ (e : Nat → Nat) (k : Nat),
      s5p_dp_calc_edid_check_sum h (fun i => store_at e h.EDID_BLOCK_LENGTH h.EDID_BLOCK_LENGTH
        (fun i => if i < h.EDID_BLOCK_LENGTH then (dp.aux k).data.getD i 0 % 256 else 0)
        (h.EDID_BLOCK_LENGTH + i))
      = s5p_dp_calc_edid_check_sum h (answer_block dp k) := by
    intro e k
    apply calc_edid_check_sum_congr
    intro i hi
    simp [store_at, answer_block, hi]
  have e3 : ∀ (k : Nat), store_at (fun _ => 0) 0 h.EDID_BLOCK_LENGTH
        (fun i => if i < h.EDID_BLOCK_LENGTH then (dp.aux k).data.getD i 0 % 256 else 0)
        h.EDID_CHECKSUM = answer_block dp k h.EDID_CHECKSUM := by
    intro k
    simp [store_at, answer_block, hck]
  have e4 : ∀ (e : Nat → Nat) (k : Nat), store_at e h.EDID_BLOCK_LENGTH h.EDID_BLOCK_LENGTH
        (fun i => if i < h.EDID_BLOCK_LENGTH then (dp.aux k).data.getD i 0 % 256 else 0)
        (h.EDID_BLOCK_LENGTH + h.EDID_CHECKSUM) = answer_block dp k h.EDID_CHECKSUM := by
    intro e k
    simp [store_at, answer_block, hck]
  have e5 : ∀ k, answer_block dp k h.EDID_CHECKSUM % 256 = answer_block dp k h.EDID_CHECKSUM := by
    intro k
    simp [answer_block]
  unfold s5p_dp_read_edid
  simp only [s5p_dp_read_byte_from_i2c, s5p_dp_read_bytes_from_i2c, s5p_dp_read_byte_from_dpcd,
    s5p_dp_write_byte_to_dpcd, answer, emit, hhp, e1, e2, e3, e4, e5]
  constructor
  · split_ifs <;> first | rfl | (exfalso; simp_all; done) | simp
  · split_ifs <;> simp


set_option maxHeartbeats 1600000 in
theorem read_edid_tick (h : Hdr) (dp : s5p_dp_device) (hhp : h.EDID_HEADER_PATTERN = 0) :
    (s5p_dp_read_edid h dp).2.tick = dp.tick + 2 +
       (if (dp.aux (dp.tick + 1)).retval ≠ 0 ∨
            s5p_dp_calc_edid_check_sum h (answer_block dp (dp.tick + 1)) ≠ 0 then 0
        else if (dp.aux dp.tick).data.getD 0 0 % 2 ^ 32 > 0 then
          1 + (if (dp.aux (dp.tick + 2)).retval ≠ 0 ∨
                s5p_dp_calc_edid_check_sum h (answer_block dp (dp.tick + 2)) ≠ 0 then 0
             else
              1 + (if ((dp.aux (dp.tick + 3)).data.getD 0 0 % 256) &&& h.DPCD_TEST_EDID_READ ≠ 0
                 then 2 else 0))
        else
          1 + (if ((dp.aux (dp.tick + 2)).data.getD 0 0 % 256) &&& h.DPCD_TEST_EDID_READ ≠ 0
             then 2 else 0)) := by
  have e1 : ∀ (k : Nat),
      s5p_dp_calc_edid_check_sum h (store_at (fun _ => 0) 0 h.EDID_BLOCK_LENGTH
        (fun i => if i < h.EDID_BLOCK_LENGTH then (dp.aux k).data.getD i 0 % 256 else 0))
      = s5p_dp_calc_edid_check_sum h (answer_block dp k) := by
    intro k
    apply calc_edid_check_sum_congr
    intro i hi
    simp [store_at, answer_block, hi]
  have e2 : ∀ (e : Nat → Nat) (k : Nat),
      s5p_dp_calc_edid_check_sum h (fun i => store_at e h.EDID_BLOCK_LENGTH h.EDID_BLOCK_LENGTH
        (fun i => if i < h.EDID_BLOCK_LENGTH then (dp.aux k).data.getD i 0 % 256 else 0)
        (h.EDID_BLOCK_LENGTH + i))
      = s5p_dp_calc_edid_check_sum h (answer_block dp k) := by
    intro e k
    apply calc_edid_check_sum_congr
    intro i hi
    simp [store_at, answer_block, hi]
  unfold s5p_dp_read_edid
  simp only [s5p_dp_read_byte_from_i2c, s5p_dp_read_bytes_from_i2c, s5p_dp_read_byte_from_dpcd,
    s5p_dp_write_byte_to_dpcd, answer, emit, hhp, e1, e2]
  split_ifs <;> first | rfl | (exfalso; simp_all)

theorem read_edid_attempts (h : Hdr) (dp : s5p_dp_device) :
    edid_attempts h (s5p_dp_read_edid h dp).2.log = edid_attempts h dp.log + 1 := by
  unfold s5p_dp_read_edid edid_attempts
  simp only [s5p_dp_read_byte_from_i2c, s5p_dp_read_bytes_from_i2c, s5p_dp_read_byte_from_dpcd,
    s5p_dp_write_byte_to_dpcd, answer, emit]
  split_ifs <;> simp [List.count_cons]

theorem handle_edid_unroll (h : Hdr) (dp : s5p_dp_device) :
    s5p_dp_handle_edid h dp =
      (let dp0 := (s5p_dp_read_bytes_from_dpcd dp h.DPCD_ADDR_DPCD_REV 12).2.2
       let a1 := s5p_dp_read_edid h dp0
       let a2 := s5p_dp_read_edid h a1.2
       let a3 := s5p_dp_read_edid h a2.2
       if a1.1 = 0 then a1 else if a2.1 = 0 then a2 else a3) := by
  simp only [s5p_dp_handle_edid, s5p_dp_handle_edid_loop, Prod.mk.eta, ite_self]


/-- C1. For every status block and every `lane_count ≤ 4`, `s5p_dp_clock_recovery_ok`
returns 0 exactly when every lane `n < lane_count` has a bit of `DPCD_LANE_CR_DONE` set in its
status nibble (bits `(n & 1) * 4 ..` of byte `n >> 1`); any other result is `-EINVAL`; and
the result is the same for any other block with the same status nibbles for the lanes below
`lane_count` (so it depends neither on the other lanes nor on bytes 2..5). -/
theorem clock_recovery_ok_iff (h : Hdr) (link_status : Nat → Nat) (lane_count : Nat)
    (hE : h.EINVAL ≠ 0) (_hl : lane_count ≤ 4) :
    (s5p_dp_clock_recovery_ok h link_status lane_count = 0 ↔
      ∀ n, n < lane_count →
        ((link_status (n >>> 1) >>> ((n &&& 1) * 4)) &&& 0xf) &&& h.DPCD_LANE_CR_DONE ≠ 0) ∧
    (s5p_dp_clock_recovery_ok h link_status lane_count ≠ 0 →
      s5p_dp_clock_recovery_ok h link_status lane_count = -h.EINVAL) ∧
    (∀ other : Nat → Nat,
      (∀ n, n < lane_count →
        (other (n >>> 1) >>> ((n &&& 1) * 4)) &&& 0xf
          = (link_status (n >>> 1) >>> ((n &&& 1) * 4)) &&& 0xf) →
      s5p_dp_clock_recovery_ok h other lane_count
        = s5p_dp_clock_recovery_ok h link_status lane_count) := by
  have key : ∀ ls : Nat → Nat,
      (s5p_dp_clock_recovery_ok h ls lane_count = 0 ↔
        ∀ n, n < lane_count →
          ((ls (n >>> 1) >>> ((n &&& 1) * 4)) &&& 0xf) &&& h.DPCD_LANE_CR_DONE ≠ 0) ∧
      (s5p_dp_clock_recovery_ok h ls lane_count ≠ 0 →
        s5p_dp_clock_recovery_ok h ls lane_count = -h.EINVAL) := by
    intro ls
    rcases clock_recovery_ok_cases h ls lane_count with ⟨h0, hall⟩ | ⟨h1, n, hn, hbad⟩
    · exact ⟨⟨fun _ => hall, fun _ => h0⟩, fun hne => absurd h0 hne⟩
    · refine ⟨⟨fun h0 => ?_, fun hall => absurd hbad (hall n hn)⟩, fun _ => h1⟩
      rw [h1] at h0
      exact absurd (neg_eq_zero.1 h0) hE
  refine ⟨(key link_status).1, (key link_status).2, fun other hsame => ?_⟩
  have hiff : s5p_dp_clock_recovery_ok h other lane_count = 0 ↔
      s5p_dp_clock_recovery_ok h link_status lane_count = 0 := by
    rw [(key other).1, (key link_status).1]
    constructor
    · intro ho n hn
      rw [← hsame n hn]
      exact ho n hn
    · intro ho n hn
      rw [hsame n hn]
      exact ho n hn
  by_cases h0 : s5p_dp_clock_recovery_ok h link_status lane_count = 0
  · rw [h0, hiff.2 h0]
  · rw [(key link_status).2 h0, (key other).2 (fun hc => h0 (hiff.1 hc))]

set_option maxHeartbeats 1600000 in
theorem read_edid_block_reads (h : Hdr) (dp : s5p_dp_device)
    (hflag : (dp.aux dp.tick).data.getD 0 0 % 2 ^ 32 = 0) :
    i2c_block_reads (s5p_dp_read_edid h dp).2.log = i2c_block_reads dp.log + 1 ∧
    Event.read_bytes_from_i2c h.I2C_EDID_DEVICE_ADDR h.EDID_HEADER_PATTERN h.EDID_BLOCK_LENGTH
      ∈ (s5p_dp_read_edid h dp).2.log := by
  unfold s5p_dp_read_edid i2c_block_reads
  simp only [s5p_dp_read_byte_from_i2c, s5p_dp_read_bytes_from_i2c, s5p_dp_read_byte_from_dpcd,
    s5p_dp_write_byte_to_dpcd, answer, emit, hflag, gt_iff_lt, lt_irrefl, if_false]
  split_ifs <;> simp [List.countP_append, List.countP_cons, Event.is_i2c_block_read]

/-- C7. With `EDID_HEADER_PATTERN = 0`, when the block reads succeed (block 0 always; block 1
when the extension flag read is positive), `s5p_dp_read_edid` returns 0 exactly when block 0
sums to 0 modulo 256 and, if the extension flag is positive, block 1 does too; any other
result is `-EIO`; and when the extension flag is 0 the run makes exactly one I2C block
read, that of block 0. -/
theorem read_edid_checksum_validation (h : Hdr) (dp : s5p_dp_device)
    (hhp : h.EDID_HEADER_PATTERN = 0) (hE : h.EIO ≠ 0)
    (hread0 : (dp.aux (dp.tick + 1)).retval = 0)
    (hread1 : (dp.aux dp.tick).data.getD 0 0 % 2 ^ 32 > 0 → (dp.aux (dp.tick + 2)).retval = 0) :
    ((s5p_dp_read_edid h dp).1 = 0 ↔
      byte_sum (answer_block dp (dp.tick + 1)) h.EDID_BLOCK_LENGTH % 256 = 0 ∧
      ((dp.aux dp.tick).data.getD 0 0 % 2 ^ 32 > 0 →
        byte_sum (answer_block dp (dp.tick + 2)) h.EDID_BLOCK_LENGTH % 256 = 0)) ∧
    ((s5p_dp_read_edid h dp).1 ≠ 0 → (s5p_dp_read_edid h dp).1 = -h.EIO) ∧
    ((dp.aux dp.tick).data.getD 0 0 % 2 ^ 32 = 0 →
      i2c_block_reads (s5p_dp_read_edid h dp).2.log = i2c_block_reads dp.log + 1 ∧
      Event.read_bytes_from_i2c h.I2C_EDID_DEVICE_ADDR h.EDID_HEADER_PATTERN h.EDID_BLOCK_LENGTH
        ∈ (s5p_dp_read_edid h dp).2.log) := by
  have hnE : -h.EIO ≠ 0 := fun hc => hE (neg_eq_zero.1 hc)
  refine ⟨?_, ?_, read_edid_block_reads h dp⟩
  · rw [read_edid_retval h dp hhp, ← calc_edid_check_sum_eq, ← calc_edid_check_sum_eq]
    by_cases hf : (dp.aux dp.tick).data.getD 0 0 % 2 ^ 32 > 0
    · simp only [hread0, hread1 hf, hf]
      split_ifs <;> simp_all
    · simp only [hread0, hf]
      split_ifs <;> simp_all
  · rw [read_edid_retval h dp hhp]
    split_ifs <;> simp

theorem read_bytes_from_dpcd_dev (dp : s5p_dp_device) (reg_addr count : Nat) :
    (s5p_dp_read_bytes_from_dpcd dp reg_addr count).2.2.aux = dp.aux ∧
    (s5p_dp_read_bytes_from_dpcd dp reg_addr count).2.2.tick = dp.tick + 1 ∧
    (s5p_dp_read_bytes_from_dpcd dp reg_addr count).2.2.log
      = dp.log ++ [Event.read_bytes_from_dpcd reg_addr count] ∧
    (s5p_dp_read_bytes_from_dpcd dp reg_addr count).2.2.link_train = dp.link_train :=
  ⟨rfl, rfl, rfl, rfl⟩

theorem answer_block_congr {dp dp' : s5p_dp_device} (haux : dp'.aux = dp.aux) :
    answer_block dp' = answer_block dp := by
  unfold answer_block
  rw [haux]

/-- C6. `s5p_dp_handle_edid` is at most three runs of `s5p_dp_read_edid`, each continuing
from the device the previous one left: it stops at the first run that returns 0 and returns
that run's result, and returns the third run's result when none does; the log gains one
extension-flag read per run made (1, 2 or 3); the result is 0 exactly when one of the runs
made returned 0.  In particular, when the block-0 reads of the first two runs succeed with a
bad checksum and the third run reads blocks with good checksums, the first two runs return
`-EIO`, the third returns 0, and `s5p_dp_handle_edid` returns 0 after three runs. -/
theorem handle_edid_retry (h : Hdr) (dp : s5p_dp_device) :
    let dp0 := (s5p_dp_read_bytes_from_dpcd dp h.DPCD_ADDR_DPCD_REV 12).2.2
    let a1 := s5p_dp_read_edid h dp0
    let a2 := s5p_dp_read_edid h a1.2
    let a3 := s5p_dp_read_edid h a2.2
    let r := s5p_dp_handle_edid h dp
    (r = if a1.1 = 0 then a1 else if a2.1 = 0 then a2 else a3) ∧
    (edid_attempts h r.2.log
      = edid_attempts h dp.log + (if a1.1 = 0 then 1 else if a2.1 = 0 then 2 else 3)) ∧
    (r.1 = 0 ↔ a1.1 = 0 ∨ (a1.1 ≠ 0 ∧ a2.1 = 0) ∨ (a1.1 ≠ 0 ∧ a2.1 ≠ 0 ∧ a3.1 = 0)) ∧
    (a1.1 ≠ 0 → a2.1 ≠ 0 → a3.1 ≠ 0 → r.1 = a3.1) ∧
    (h.EDID_HEADER_PATTERN = 0 → h.EIO ≠ 0 →
      (dp.aux (dp.tick + 2)).retval = 0 →
      byte_sum (answer_block dp (dp.tick + 2)) h.EDID_BLOCK_LENGTH % 256 ≠ 0 →
      (dp.aux (dp.tick + 4)).retval = 0 →
      byte_sum (answer_block dp (dp.tick + 4)) h.EDID_BLOCK_LENGTH % 256 ≠ 0 →
      (dp.aux (dp.tick + 6)).retval = 0 →
      byte_sum (answer_block dp (dp.tick + 6)) h.EDID_BLOCK_LENGTH % 256 = 0 →
      ((dp.aux (dp.tick + 5)).data.getD 0 0 % 2 ^ 32 > 0 →
        (dp.aux (dp.tick + 7)).retval = 0 ∧
        byte_sum (answer_block dp (dp.tick + 7)) h.EDID_BLOCK_LENGTH % 256 = 0) →
      a1.1 = -h.EIO ∧ a2.1 = -h.EIO ∧ a3.1 = 0 ∧ r.1 = 0 ∧
      edid_attempts h r.2.log = edid_attempts h dp.log + 3) := by
  intro dp0 a1 a2 a3 r
  have hr : r = if a1.1 = 0 then a1 else if a2.1 = 0 then a2 else a3 := handle_edid_unroll h dp
  have hat : edid_attempts h r.2.log
      = edid_attempts h dp.log + (if a1.1 = 0 then 1 else if a2.1 = 0 then 2 else 3) := by
    have h0 : edid_attempts h dp0.log = edid_attempts h dp.log := by
      simp [dp0, edid_attempts, (read_bytes_from_dpcd_dev dp _ _).2.2.1, List.count_append,
        List.count_cons]
    have h1 : edid_attempts h a1.2.log = edid_attempts h dp.log + 1 := by
      rw [← h0]; exact read_edid_attempts h dp0
    have h2 : edid_attempts h a2.2.log = edid_attempts h dp.log + 2 := by
      have := read_edid_attempts h a1.2
      rw [h1] at this
      exact this
    have h3 : edid_attempts h a3.2.log = edid_attempts h dp.log + 3 := by
      have := read_edid_attempts h a2.2
      rw [h2] at this
      exact this
    rw [hr]
    split_ifs
    · exact h1
    · exact h2
    · exact h3
  refine ⟨hr, hat, ?_, ?_, ?_⟩
  · rw [hr]
    split_ifs <;> simp [*]
  · intro h1 h2 _
    rw [hr]
    simp [h1, h2]
  · intro hhp hE hr1 hs1 hr2 hs2 hr3 hs3 hblk1
    have hnE : -h.EIO ≠ 0 := fun hc => hE (neg_eq_zero.1 hc)
    have haux0 : dp0.aux = dp.aux := rfl
    have htick0 : dp0.tick = dp.tick + 1 := rfl
    -- first attempt
    have e1 : a1.1 = -h.EIO := by
      show (s5p_dp_read_edid h dp0).1 = -h.EIO
      rw [read_edid_retval h dp0 hhp, calc_edid_check_sum_eq, haux0, htick0,
        answer_block_congr haux0]
      simp [Nat.add_assoc, hr1, hs1]
    have haux1 : a1.2.aux = dp.aux := (read_edid_aux h dp0).1
    have htick1 : a1.2.tick = dp.tick + 3 := by
      show (s5p_dp_read_edid h dp0).2.tick = dp.tick + 3
      rw [read_edid_tick h dp0 hhp, calc_edid_check_sum_eq, haux0, htick0,
        answer_block_congr haux0]
      simp [Nat.add_assoc, hr1, hs1]
    -- second attempt
    have e2 : a2.1 = -h.EIO := by
      show (s5p_dp_read_edid h a1.2).1 = -h.EIO
      rw [read_edid_retval h a1.2 hhp, calc_edid_check_sum_eq, haux1, htick1,
        answer_block_congr haux1]
      simp [Nat.add_assoc, hr2, hs2]
    have haux2 : a2.2.aux = dp.aux := ((read_edid_aux h a1.2).1).trans haux1
    have htick2 : a2.2.tick = dp.tick + 5 := by
      show (s5p_dp_read_edid h a1.2).2.tick = dp.tick + 5
      rw [read_edid_tick h a1.2 hhp, calc_edid_check_sum_eq, haux1, htick1,
        answer_block_congr haux1]
      simp [Nat.add_assoc, hr2, hs2]
    -- third attempt
    have e3 : a3.1 = 0 := by
      show (s5p_dp_read_edid h a2.2).1 = 0
      rw [read_edid_retval h a2.2 hhp, calc_edid_check_sum_eq, calc_edid_check_sum_eq, haux2,
        htick2, answer_block_congr haux2]
      by_cases hf : (dp.aux (dp.tick + 5)).data.getD 0 0 % 2 ^ 32 > 0
      · simp only [Nat.add_assoc, Nat.reduceAdd, hr3, hs3, hf, (hblk1 hf).1, (hblk1 hf).2,
          ne_eq, not_true_eq_false, if_false, if_true]
      · simp only [Nat.add_assoc, Nat.reduceAdd, hr3, hs3, hf, ne_eq, not_true_eq_false,
          if_false]
    have n1 : a1.1 ≠ 0 := by rw [e1]; exact hnE
    have n2 : a2.1 ≠ 0 := by rw [e2]; exact hnE
    refine ⟨e1, e2, e3, ?_, ?_⟩
    · rw [hr]; simp [n1, n2, e3]
    · rw [hat]; simp [n1, n2]

theorem clock_recovery_ok_iff_witness :
    sample_hdr.EINVAL ≠ 0 ∧ 2 ≤ 4 ∧
    s5p_dp_clock_recovery_ok sample_hdr (block_of [0x11, 0x00, 0x00, 0x00, 0x00, 0x00]) 2 = 0 :=
  ⟨by decide, by decide,
   (clock_recovery_ok_iff sample_hdr (block_of [0x11, 0x00, 0x00, 0x00, 0x00, 0x00]) 2
      (by decide) (by decide)).1.2 (by decide)⟩

theorem channel_eq_ok_iff_witness :
    sample_hdr.EINVAL ≠ 0 ∧ 2 ≤ 4 ∧
    s5p_dp_channel_eq_ok sample_hdr (block_of [0x77, 0x00, 0x01, 0x00, 0x00, 0x00]) 2 = 0 :=
  ⟨by decide, by decide,
   (channel_eq_ok_iff sample_hdr (block_of [0x77, 0x00, 0x01, 0x00, 0x00, 0x00]) 2
      (by decide) (by decide)).1.2 (by decide)⟩

theorem adjust_request_round_trip_witness :
    3 < 4 ∧ 2 ≤ 3 ∧ 1 ≤ 3 ∧
    (block_of [0x00, 0x6a] (3 >>> 1) >>> ((3 &&& 1) * 4)) &&& 0xf = (1 <<< 2) ||| 2 ∧
    s5p_dp_get_adjust_request_voltage (block_of [0x00, 0x6a]) 3 = 2 ∧
    s5p_dp_get_adjust_request_pre_emphasis (block_of [0x00, 0x6a]) 3 = 1 :=
  ⟨by decide, by decide, by decide, by decide,
   adjust_request_round_trip (block_of [0x00, 0x6a]) 3 2 1
     (by decide) (by decide) (by decide) (by decide)⟩

theorem read_edid_checksum_validation_witness :
    (s5p_dp_read_edid sample_hdr
      (scripted_device [⟨0, [1]⟩, ⟨0, [0x02, 0xfe]⟩, ⟨0, [0x80, 0x80]⟩, ⟨0, [0]⟩])).1 = 0 :=
  (read_edid_checksum_validation sample_hdr
      (scripted_device [⟨0, [1]⟩, ⟨0, [0x02, 0xfe]⟩, ⟨0, [0x80, 0x80]⟩, ⟨0, [0]⟩])
      (by decide) (by decide) (by decide) (by decide)).1.2
    ⟨by decide, fun _ => by decide⟩

theorem handle_edid_retry_witness :
    (s5p_dp_handle_edid sample_hdr
      (scripted_device [⟨0, []⟩, ⟨0, [1]⟩, ⟨0, [0x01]⟩, ⟨0, [1]⟩, ⟨0, [0x01]⟩,
        ⟨0, [1]⟩, ⟨0, [0x02, 0xfe]⟩, ⟨0, [0x80, 0x80]⟩, ⟨0, [0]⟩])).1 = 0 ∧
    edid_attempts sample_hdr (s5p_dp_handle_edid sample_hdr
      (scripted_device [⟨0, []⟩, ⟨0, [1]⟩, ⟨0, [0x01]⟩, ⟨0, [1]⟩, ⟨0, [0x01]⟩,
        ⟨0, [1]⟩, ⟨0, [0x02, 0xfe]⟩, ⟨0, [0x80, 0x80]⟩, ⟨0, [0]⟩])).2.log = 3 :=
  ((handle_edid_retry sample_hdr
      (scripted_device [⟨0, []⟩, ⟨0, [1]⟩, ⟨0, [0x01]⟩, ⟨0, [1]⟩, ⟨0, [0x01]⟩,
        ⟨0, [1]⟩, ⟨0, [0x02, 0xfe]⟩, ⟨0, [0x80, 0x80]⟩, ⟨0, [0]⟩])).2.2.2.2
    (by decide) (by decide) (by decide) (by decide) (by decide) (by decide) (by decide)
    (by decide) (fun _ => ⟨by decide, by decide⟩)).2.2.2

/-! ## How the register layer and the field assignments act on the device -/

@[simp] theorem emit_link_train (dp : s5p_dp_device) (e : Event) :
    (emit dp e).link_train = dp.link_train := rfl

@[simp] theorem emit_aux (dp : s5p_dp_device) (e : Event) : (emit dp e).aux = dp.aux := rfl

@[simp] theorem emit_tick (dp : s5p_dp_device) (e : Event) : (emit dp e).tick = dp.tick := rfl

@[simp] theorem emit_log (dp : s5p_dp_device) (e : Event) : (emit dp e).log = dp.log ++ [e] := rfl

@[simp] theorem answer_fst (dp : s5p_dp_device) : (answer dp).1 = dp.aux dp.tick := rfl

@[simp] theorem answer_link_train (dp : s5p_dp_device) :
    (answer dp).2.link_train = dp.link_train := rfl

@[simp] theorem answer_aux (dp : s5p_dp_device) : (answer dp).2.aux = dp.aux := rfl

@[simp] theorem answer_tick (dp : s5p_dp_device) : (answer dp).2.tick = dp.tick + 1 := rfl

@[simp] theorem answer_log (dp : s5p_dp_device) : (answer dp).2.log = dp.log := rfl

theorem write_byte_to_dpcd_dev (dp : s5p_dp_device) (reg_addr data : Nat) :
    (s5p_dp_write_byte_to_dpcd dp reg_addr data).2.link_train = dp.link_train ∧
    (s5p_dp_write_byte_to_dpcd dp reg_addr data).2.aux = dp.aux ∧
    (s5p_dp_write_byte_to_dpcd dp reg_addr data).2.tick = dp.tick + 1 ∧
    (s5p_dp_write_byte_to_dpcd dp reg_addr data).2.log
      = dp.log ++ [Event.write_byte_to_dpcd reg_addr (data % 256)] :=
  ⟨rfl, rfl, rfl, rfl⟩

theorem read_byte_from_dpcd_dev (dp : s5p_dp_device) (reg_addr : Nat) :
    (s5p_dp_read_byte_from_dpcd dp reg_addr).2.2.link_train = dp.link_train ∧
    (s5p_dp_read_byte_from_dpcd dp reg_addr).2.2.aux = dp.aux ∧
    (s5p_dp_read_byte_from_dpcd dp reg_addr).2.2.tick = dp.tick + 1 ∧
    (s5p_dp_read_byte_from_dpcd dp reg_addr).2.2.log
      = dp.log ++ [Event.read_byte_from_dpcd reg_addr] ∧
    (s5p_dp_read_byte_from_dpcd dp reg_addr).2.1 = (dp.aux dp.tick).data.getD 0 0 % 256 :=
  ⟨rfl, rfl, rfl, rfl, rfl⟩

theorem training_pattern_dis_link_train (h : Hdr) (dp : s5p_dp_device) :
    (s5p_dp_training_pattern_dis h dp).link_train = dp.link_train := rfl

theorem set_enhanced_mode_link_train (h : Hdr) (dp : s5p_dp_device) :
    (s5p_dp_set_enhanced_mode h dp).link_train = dp.link_train := by
  unfold s5p_dp_set_enhanced_mode s5p_dp_is_enhanced_mode_available
    s5p_dp_enable_rx_to_enhanced_mode s5p_dp_enable_enhanced_mode
  simp only [emit_link_train]
  split_ifs <;> rfl

theorem reduce_link_rate_link_train (h : Hdr) (dp : s5p_dp_device) :
    (s5p_dp_reduce_link_rate h dp).link_train =
      if dp.link_train.link_rate = h.LINK_RATE_2_70GBPS then
        { dp.link_train with link_rate := h.LINK_RATE_1_62GBPS % 256, lt_state := .START }
      else { dp.link_train with lt_state := .FAILED } := by
  unfold s5p_dp_reduce_link_rate
  simp only [emit_link_train]
  split_ifs
  · rfl
  · simp only [set_lt_state, set_enhanced_mode_link_train, training_pattern_dis_link_train,
      emit_link_train]

/-- C3. Downgrade at the floor: when the session's `link_rate` is not `LINK_RATE_2_70GBPS`,
`s5p_dp_reduce_link_rate` sets `lt_state` to `FAILED` (so not to `START`) and changes no
other field of the session, `link_rate` included; applied again to the device it leaves,
it gives `FAILED` and the same session once more. -/
theorem reduce_link_rate_at_floor (h : Hdr) (dp : s5p_dp_device)
    (hrate : dp.link_train.link_rate ≠ h.LINK_RATE_2_70GBPS) :
    (s5p_dp_reduce_link_rate h dp).link_train = { dp.link_train with lt_state := .FAILED } ∧
    (s5p_dp_reduce_link_rate h dp).link_train.lt_state = .FAILED ∧
    (s5p_dp_reduce_link_rate h dp).link_train.lt_state ≠ .START ∧
    (s5p_dp_reduce_link_rate h dp).link_train.link_rate = dp.link_train.link_rate ∧
    (s5p_dp_reduce_link_rate h (s5p_dp_reduce_link_rate h dp)).link_train.lt_state = .FAILED ∧
    (s5p_dp_reduce_link_rate h (s5p_dp_reduce_link_rate h dp)).link_train.link_rate
      = dp.link_train.link_rate ∧
    (s5p_dp_reduce_link_rate h (s5p_dp_reduce_link_rate h dp)).link_train
      = (s5p_dp_reduce_link_rate h dp).link_train := by
  have h1 : (s5p_dp_reduce_link_rate h dp).link_train
      = { dp.link_train with lt_state := .FAILED } := by
    rw [reduce_link_rate_link_train, if_neg hrate]
  have hrate1 : (s5p_dp_reduce_link_rate h dp).link_train.link_rate ≠ h.LINK_RATE_2_70GBPS := by
    rw [h1]; exact hrate
  have h2 : (s5p_dp_reduce_link_rate h (s5p_dp_reduce_link_rate h dp)).link_train
      = { dp.link_train with lt_state := .FAILED } := by
    rw [reduce_link_rate_link_train, if_neg hrate1, h1]
  refine ⟨h1, ?_, ?_, ?_, ?_, ?_, ?_⟩
  · rw [h1]
  · rw [h1]; simp
  · rw [h1]
  · rw [h2]
  · rw [h2]
  · rw [h2, h1]

theorem reduce_link_rate_at_floor_witness :
    (device_of (session_of 0x06 2 .CLOCK_RECOVERY) []).link_train.link_rate ≠ sample_hdr.LINK_RATE_2_70GBPS ∧
    (s5p_dp_reduce_link_rate sample_hdr
      (device_of (session_of 0x06 2 .CLOCK_RECOVERY) [])).link_train.lt_state = .FAILED ∧
    (s5p_dp_reduce_link_rate sample_hdr
      (device_of (session_of 0x06 2 .CLOCK_RECOVERY) [])).link_train.link_rate = 0x06 :=
  ⟨by decide,
   (reduce_link_rate_at_floor sample_hdr
      (device_of (session_of 0x06 2 .CLOCK_RECOVERY) []) (by decide)).2.1,
   (reduce_link_rate_at_floor sample_hdr
      (device_of (session_of 0x06 2 .CLOCK_RECOVERY) []) (by decide)).2.2.2.1⟩

theorem sw_link_training_loop_result (h : Hdr) (fuel : Nat) (dp : s5p_dp_device)
    (r : Int) (dp' : s5p_dp_device)
    (hres : s5p_dp_sw_link_training_loop h fuel dp = some (r, dp')) :
    (r = 0 ∧ dp'.link_train.lt_state = .FINISHED) ∨
    (r = -h.EREMOTEIO ∧ dp'.link_train.lt_state = .FAILED) := by
  induction fuel generalizing dp with
  | zero => simp [s5p_dp_sw_link_training_loop] at hres
  | succ n ih =>
    unfold s5p_dp_sw_link_training_loop at hres
    cases hst : dp.link_train.lt_state with
    | FINISHED =>
      simp only [hst, Option.some.injEq, Prod.mk.injEq] at hres
      left
      exact ⟨hres.1.symm, hres.2 ▸ hst⟩
    | FAILED =>
      simp only [hst, Option.some.injEq, Prod.mk.injEq] at hres
      right
      exact ⟨hres.1.symm, hres.2 ▸ hst⟩
    | START =>
      simp only [hst] at hres
      exact ih _ hres
    | CLOCK_RECOVERY =>
      simp only [hst] at hres
      exact ih _ hres
    | EQUALIZER_TRAINING =>
      simp only [hst] at hres
      exact ih _ hres

theorem sw_link_training_result (h : Hdr) (fuel : Nat) (dp : s5p_dp_device)
    (r : Int) (dp' : s5p_dp_device)
    (hres : s5p_dp_sw_link_training h fuel dp = some (r, dp')) :
    (r = 0 ∧ dp'.link_train.lt_state = .FINISHED) ∨
    (r = -h.EREMOTEIO ∧ dp'.link_train.lt_state = .FAILED) :=
  sw_link_training_loop_result h fuel _ r dp' hres

theorem set_link_train_loop_iff (h : Hdr) (fuel count bwtype : Nat)
    (todo : Nat) (rv : Option Int) (dp : s5p_dp_device) (r : Int) (dp' : s5p_dp_device) :
    s5p_dp_set_link_train_loop h fuel count bwtype todo rv dp = some (r, dp') ↔
      (∃ k dpk, k < todo ∧ attempt_start h fuel count bwtype k dp = some dpk ∧
        s5p_dp_sw_link_training h fuel (s5p_dp_init_training h dpk count bwtype) = some (0, dp') ∧
        r = 0) ∨
      (attempt_start h fuel count bwtype todo dp = some dp' ∧
        (if todo = 0 then rv = some r else r = -h.EREMOTEIO)) := by
  induction todo generalizing rv dp with
  | zero =>
    simp only [s5p_dp_set_link_train_loop, attempt_start, Nat.not_lt_zero, false_and,
      exists_false, exists_const, false_or, if_true, Option.some.injEq]
    cases rv with
    | none => simp
    | some v =>
      simp only [Option.map_some', Option.some.injEq, Prod.mk.injEq]
      constructor
      · rintro ⟨h1, h2⟩
        exact ⟨h2, h1⟩
      · rintro ⟨h1, h2⟩
        exact ⟨h2, h1⟩
  | succ n ih =>
    unfold s5p_dp_set_link_train_loop
    cases hsw : s5p_dp_sw_link_training h fuel (s5p_dp_init_training h dp count bwtype) with
    | none =>
      simp only [hsw]
      constructor
      · intro hc
        cases hc
      · rintro (⟨k, dpk, _, hk, hsw', _⟩ | ⟨hk, _⟩)
        · cases k with
          | zero =>
            simp only [attempt_start, Option.some.injEq] at hk
            subst hk
            rw [hsw] at hsw'
            cases hsw'
          | succ k =>
            simp only [attempt_start, hsw] at hk
            cases hk
        · simp only [attempt_start, hsw] at hk
          cases hk
    | some p =>
      obtain ⟨r1, dp1⟩ := p
      simp only [hsw]
      by_cases hr1 : r1 = 0
      · subst hr1
        simp only [if_true, Option.some.injEq, Prod.mk.injEq]
        constructor
        · rintro ⟨h1, h2⟩
          left
          refine ⟨0, dp, Nat.succ_pos n, rfl, ?_, h1.symm⟩
          rw [hsw, h2]
        · rintro (⟨k, dpk, _, hk, hsw', hr⟩ | ⟨hk, _⟩)
          · cases k with
            | zero =>
              simp only [attempt_start, Option.some.injEq] at hk
              subst hk
              rw [hsw] at hsw'
              simp only [Option.some.injEq, Prod.mk.injEq, true_and] at hsw'
              exact ⟨hr.symm, hsw'⟩
            | succ k =>
              simp only [attempt_start, hsw, if_true] at hk
              cases hk
          · simp only [attempt_start, hsw, if_true] at hk
            cases hk
      · have hr1E : r1 = -h.EREMOTEIO := by
          rcases sw_link_training_result h fuel _ r1 dp1 hsw with ⟨h0, _⟩ | ⟨h1, _⟩
          · exact absurd h0 hr1
          · exact h1
        simp only [hr1, if_false]
        rw [ih]
        constructor
        · rintro (⟨k, dpk, hlt, hk, hsw', hr⟩ | ⟨hk, hrv⟩)
          · left
            refine ⟨k + 1, dpk, Nat.succ_lt_succ hlt, ?_, hsw', hr⟩
            simp only [attempt_start, hsw, hr1, if_false]
            exact hk
          · right
            refine ⟨?_, ?_⟩
            · simp only [attempt_start, hsw, hr1, if_false]
              exact hk
            · simp only [Nat.succ_ne_zero, if_false]
              by_cases hn : n = 0
              · simp only [hn, if_true, Option.some.injEq] at hrv
                rw [← hrv, hr1E]
              · simp only [hn, if_false] at hrv
                exact hrv
        · rintro (⟨k, dpk, hlt, hk, hsw', hr⟩ | ⟨hk, hrv⟩)
          · cases k with
            | zero =>
              simp only [attempt_start, Option.some.injEq] at hk
              subst hk
              rw [hsw] at hsw'
              simp only [Option.some.injEq, Prod.mk.injEq] at hsw'
              exact absurd hsw'.1 hr1
            | succ k =>
              left
              simp only [attempt_start, hsw, hr1, if_false] at hk
              exact ⟨k, dpk, Nat.lt_of_succ_lt_succ hlt, hk, hsw', hr⟩
          · right
            simp only [attempt_start, hsw, hr1, if_false] at hk
            simp only [Nat.succ_ne_zero, if_false] at hrv
            refine ⟨hk, ?_⟩
            by_cases hn : n = 0
            · simp only [hn, if_true, Option.some.injEq]
              rw [hrv, hr1E]
            · simp only [hn, if_false]
              exact hrv

theorem udelay_link_train (dp : s5p_dp_device) (usecs : Nat) :
    (udelay dp usecs).link_train = dp.link_train := rfl

theorem attempt_start_failed (h : Hdr) (fuel count bwtype : Nat) (k : Nat)
    (dp dp' : s5p_dp_device)
    (hk : attempt_start h fuel count bwtype (k + 1) dp = some dp') :
    dp'.link_train.lt_state = .FAILED := by
  induction k generalizing dp with
  | zero =>
    simp only [attempt_start] at hk
    cases hsw : s5p_dp_sw_link_training h fuel (s5p_dp_init_training h dp count bwtype) with
    | none => simp [hsw] at hk
    | some p =>
      obtain ⟨r1, dp1⟩ := p
      simp only [hsw] at hk
      by_cases hr1 : r1 = 0
      · simp [hr1] at hk
      · simp only [hr1, if_false, Option.some.injEq] at hk
        rcases sw_link_training_result h fuel _ r1 dp1 hsw with ⟨h0, _⟩ | ⟨_, hst⟩
        · exact absurd h0 hr1
        · rw [← hk, udelay_link_train]
          exact hst
  | succ n ih =>
    rw [attempt_start] at hk
    cases hsw : s5p_dp_sw_link_training h fuel (s5p_dp_init_training h dp count bwtype) with
    | none => simp [hsw] at hk
    | some p =>
      obtain ⟨r1, dp1⟩ := p
      simp only [hsw] at hk
      by_cases hr1 : r1 = 0
      · simp [hr1] at hk
      · simp only [hr1, if_false] at hk
        exact ih _ hk

/-! ## Loops -/

theorem for_loop_preserves {σ α : Type} (f : σ → α) (body : Nat → σ → σ)
    (hbody : ∀ i s, f (body i s) = f s) (n : Nat) (s : σ) :
    f (for_loop body n s) = f s := by
  induction n with
  | zero => rfl
  | succ n ih => rw [for_loop, hbody, ih]

theorem for_loop_add {σ : Type} (f : σ → Nat) (c : Nat) (body : Nat → σ → σ)
    (hbody : ∀ i s, f (body i s) = f s + c) (n : Nat) (s : σ) :
    f (for_loop body n s) = f s + n * c := by
  induction n with
  | zero => simp [for_loop]
  | succ n ih => rw [for_loop, hbody, ih, Nat.succ_mul, Nat.add_assoc]

/-! ## What the steps of the state machine leave unchanged -/

theorem marks_append_one (log : List Event) (e : Event) :
    marks (log ++ [e]) =
      ((marks log).1 + (if e = Event.reset_macro then 1 else 0),
       (marks log).2 + (if e = Event.reduce_link_rate then 1 else 0)) := by
  simp only [marks, attempts, downgrades, List.count_append, List.count_cons, List.count_nil,
    Nat.zero_add, beq_iff_eq]

theorem marks_emit (dp : s5p_dp_device) (e : Event) :
    marks (emit dp e).log =
      ((marks dp.log).1 + (if e = Event.reset_macro then 1 else 0),
       (marks dp.log).2 + (if e = Event.reduce_link_rate then 1 else 0)) :=
  marks_append_one dp.log e


theorem set_lane_lane_pre_emphasis_dev (dp : s5p_dp_device) (pre_emphasis lane : Nat) :
    (s5p_dp_set_lane_lane_pre_emphasis dp pre_emphasis lane).link_train = dp.link_train ∧
    (s5p_dp_set_lane_lane_pre_emphasis dp pre_emphasis lane).aux = dp.aux ∧
    (s5p_dp_set_lane_lane_pre_emphasis dp pre_emphasis lane).tick = dp.tick ∧
    marks (s5p_dp_set_lane_lane_pre_emphasis dp pre_emphasis lane).log = marks dp.log := by
  unfold s5p_dp_set_lane_lane_pre_emphasis
  split <;> simp [s5p_dp_set_laneN_pre_emphasis, marks_append_one]

theorem set_lane_link_training_dev (dp : s5p_dp_device) (training_lane_set lane : Nat) :
    (s5p_dp_set_lane_link_training dp training_lane_set lane).link_train = dp.link_train ∧
    (s5p_dp_set_lane_link_training dp training_lane_set lane).aux = dp.aux ∧
    (s5p_dp_set_lane_link_training dp training_lane_set lane).tick = dp.tick ∧
    marks (s5p_dp_set_lane_link_training dp training_lane_set lane).log = marks dp.log := by
  unfold s5p_dp_set_lane_link_training
  split <;> simp [s5p_dp_set_laneN_link_training, marks_append_one]

theorem write_training_lanes_dev (h : Hdr) (dp : s5p_dp_device) (lane_count : Nat) :
    (write_training_lanes h dp lane_count).link_train = dp.link_train ∧
    (write_training_lanes h dp lane_count).aux = dp.aux ∧
    (write_training_lanes h dp lane_count).tick = dp.tick + lane_count ∧
    marks (write_training_lanes h dp lane_count).log = marks dp.log := by
  unfold write_training_lanes
  refine ⟨?_, ?_, ?_, ?_⟩
  · apply for_loop_preserves (fun d : s5p_dp_device => d.link_train)
    intro i s
    simp only [(write_byte_to_dpcd_dev _ _ _).1, (set_lane_link_training_dev _ _ _).1]
  · apply for_loop_preserves (fun d : s5p_dp_device => d.aux)
    intro i s
    simp only [(write_byte_to_dpcd_dev _ _ _).2.1, (set_lane_link_training_dev _ _ _).2.1]
  · have := for_loop_add (fun d : s5p_dp_device => d.tick) 1
      (fun lane dp =>
        let dp := s5p_dp_set_lane_link_training dp (dp.link_train.training_lane lane) lane
        let buf_lane := dp.link_train.training_lane lane % 256
        (s5p_dp_write_byte_to_dpcd dp (h.DPCD_ADDR_TRAINING_LANE0_SET + lane) buf_lane).2)
      (by
        intro i s
        simp only [(write_byte_to_dpcd_dev _ _ _).2.2.1, (set_lane_link_training_dev _ _ _).2.2.1])
      lane_count dp
    simpa using this
  · apply for_loop_preserves (fun d : s5p_dp_device => marks d.log)
    intro i s
    simp only [(write_byte_to_dpcd_dev _ _ _).2.2.2]
    rw [marks_append_one, (set_lane_link_training_dev s (s.link_train.training_lane i) i).2.2.2]
    simp

theorem get_adjust_train_dev (h : Hdr) (dp : s5p_dp_device) (adjust_request : Nat → Nat) :
    (s5p_dp_get_adjust_train h dp adjust_request).aux = dp.aux ∧
    (s5p_dp_get_adjust_train h dp adjust_request).tick = dp.tick ∧
    (s5p_dp_get_adjust_train h dp adjust_request).log = dp.log ∧
    (s5p_dp_get_adjust_train h dp adjust_request).link_train.lt_state
      = dp.link_train.lt_state ∧
    (s5p_dp_get_adjust_train h dp adjust_request).link_train.link_rate
      = dp.link_train.link_rate ∧
    (s5p_dp_get_adjust_train h dp adjust_request).link_train.lane_count
      = dp.link_train.lane_count ∧
    (s5p_dp_get_adjust_train h dp adjust_request).link_train.eq_loop
      = dp.link_train.eq_loop ∧
    (s5p_dp_get_adjust_train h dp adjust_request).link_train.cr_loop
      = dp.link_train.cr_loop := by
  unfold s5p_dp_get_adjust_train
  refine ⟨?_, ?_, ?_, ?_, ?_, ?_, ?_, ?_⟩
  · apply for_loop_preserves (fun d : s5p_dp_device => d.aux)
    intro i s
    rfl
  · apply for_loop_preserves (fun d : s5p_dp_device => d.tick)
    intro i s
    rfl
  · apply for_loop_preserves (fun d : s5p_dp_device => d.log)
    intro i s
    rfl
  · apply for_loop_preserves (fun d : s5p_dp_device => d.link_train.lt_state)
    intro i s
    rfl
  · apply for_loop_preserves (fun d : s5p_dp_device => d.link_train.link_rate)
    intro i s
    rfl
  · apply for_loop_preserves (fun d : s5p_dp_device => d.link_train.lane_count)
    intro i s
    rfl
  · apply for_loop_preserves (fun d : s5p_dp_device => d.link_train.eq_loop)
    intro i s
    rfl
  · apply for_loop_preserves (fun d : s5p_dp_device => d.link_train.cr_loop)
    intro i s
    rfl

theorem read_bytes_from_dpcd_block (dp : s5p_dp_device) (reg_addr count : Nat) (i : Nat)
    (hi : i < count) :
    (s5p_dp_read_bytes_from_dpcd dp reg_addr count).2.1 i = answer_block dp dp.tick i := by
  simp [s5p_dp_read_bytes_from_dpcd, answer_block, hi]

theorem clock_recovery_ok_eq_zero_iff (h : Hdr) (hE : h.EINVAL ≠ 0) (link_status : Nat → Nat)
    (lane_count : Nat) :
    s5p_dp_clock_recovery_ok h link_status lane_count = 0 ↔
      ∀ n, n < lane_count →
        s5p_dp_get_lane_status link_status n &&& h.DPCD_LANE_CR_DONE ≠ 0 := by
  rcases clock_recovery_ok_cases h link_status lane_count with ⟨h0, hall⟩ | ⟨h1, n, hn, hbad⟩
  · exact ⟨fun _ => hall, fun _ => h0⟩
  · refine ⟨fun h0 => ?_, fun hall => absurd hbad (hall n hn)⟩
    rw [h1] at h0
    exact absurd (neg_eq_zero.1 h0) hE

theorem clock_recovery_ok_of_all (h : Hdr) (link_status : Nat → Nat) (lane_count : Nat)
    (hall : ∀ n, n < lane_count →
      s5p_dp_get_lane_status link_status n &&& h.DPCD_LANE_CR_DONE ≠ 0) :
    s5p_dp_clock_recovery_ok h link_status lane_count = 0 := by
  rcases clock_recovery_ok_cases h link_status lane_count with ⟨h0, _⟩ | ⟨_, n, hn, hbad⟩
  · exact h0
  · exact absurd hbad (hall n hn)

theorem marks_nil : marks [] = (0, 0) := rfl

theorem marks_cons (e : Event) (log : List Event) :
    marks (e :: log) =
      ((marks log).1 + (if e = Event.reset_macro then 1 else 0),
       (marks log).2 + (if e = Event.reduce_link_rate then 1 else 0)) := by
  simp only [marks, attempts, downgrades, List.count_cons, beq_iff_eq]

theorem marks_append (l1 l2 : List Event) :
    marks (l1 ++ l2) = ((marks l1).1 + (marks l2).1, (marks l1).2 + (marks l2).2) := by
  simp only [marks, attempts, downgrades, List.count_append]

theorem init_training_dev (h : Hdr) (dp : s5p_dp_device) (max_lane max_rate : Nat) :
    (s5p_dp_init_training h dp max_lane max_rate).aux = dp.aux ∧
    (s5p_dp_init_training h dp max_lane max_rate).tick = dp.tick + 2 ∧
    marks (s5p_dp_init_training h dp max_lane max_rate).log
      = ((marks dp.log).1 + 1, (marks dp.log).2) := by
  unfold s5p_dp_init_training s5p_dp_get_max_rx_bandwidth s5p_dp_get_max_rx_lane_count
    s5p_dp_reset_macro s5p_dp_set_analog_power_down s5p_dp_read_byte_from_dpcd
  simp only [set_link_rate, set_lane_count_field, answer, emit]
  split_ifs <;> simp [marks_append, marks_cons, marks_nil]

theorem init_training_link_rate (h : Hdr) (dp : s5p_dp_device) (max_lane max_rate : Nat) :
    (s5p_dp_init_training h dp max_lane max_rate).link_train.link_rate =
      (let b := (dp.aux dp.tick).data.getD 0 0 % 256
       let r := if b ≠ h.LINK_RATE_1_62GBPS ∧ b ≠ h.LINK_RATE_2_70GBPS then
         h.LINK_RATE_1_62GBPS % 256 else b
       if r > max_rate then max_rate % 256 else r) := by
  unfold s5p_dp_init_training s5p_dp_get_max_rx_bandwidth s5p_dp_get_max_rx_lane_count
    s5p_dp_reset_macro s5p_dp_set_analog_power_down s5p_dp_read_byte_from_dpcd
  simp only [set_link_rate, set_lane_count_field, answer, emit, Nat.mod_mod]
  split_ifs <;> rfl

theorem init_training_lane_count (h : Hdr) (dp : s5p_dp_device) (max_lane max_rate : Nat) :
    (s5p_dp_init_training h dp max_lane max_rate).link_train.lane_count =
      (let c := h.DPCD_MAX_LANE_COUNT ((dp.aux (dp.tick + 1)).data.getD 0 0 % 256) % 256
       let l := if c = 0 then h.LANE_COUNT1 % 256 else c
       if l > max_lane then max_lane % 256 else l) := by
  unfold s5p_dp_init_training s5p_dp_get_max_rx_bandwidth s5p_dp_get_max_rx_lane_count
    s5p_dp_reset_macro s5p_dp_set_analog_power_down s5p_dp_read_byte_from_dpcd
  simp only [set_link_rate, set_lane_count_field, answer, emit, Nat.mod_mod]
  split_ifs <;> rfl

/-- C10 (as stated) fails.  With the sample header, source maxima of 4 lanes and rate `0x0a`:
a sink that advertises rate `0x0a` and lane count 0 is trained with `lane_count = 1`, which
is not `≤ min 4 0`; and a sink that advertises rate `0x00` and 2 lanes is trained with
`link_rate = 0x06`, which is not `≤ min 0x0a 0x00`. -/
theorem init_training_exceeds_abnormal_sink_max :
    ((s5p_dp_get_max_rx_lane_count sample_hdr (s5p_dp_get_max_rx_bandwidth sample_hdr
        ( s5p_dp_reset_macro (scripted_device [⟨0, [0x0a]⟩, ⟨0, [0x00]⟩]))).2).1 = 0 ∧
     (s5p_dp_init_training sample_hdr (scripted_device [⟨0, [0x0a]⟩, ⟨0, [0x00]⟩]) 4 0x0a
        ).link_train.lane_count = 1 ∧
     ¬ ((s5p_dp_init_training sample_hdr (scripted_device [⟨0, [0x0a]⟩, ⟨0, [0x00]⟩]) 4 0x0a
        ).link_train.lane_count ≤ min 4 0)) ∧
    ((s5p_dp_get_max_rx_bandwidth sample_hdr
        ( s5p_dp_reset_macro (scripted_device [⟨0, [0x00]⟩, ⟨0, [0x02]⟩]))).1 = 0 ∧
     (s5p_dp_init_training sample_hdr (scripted_device [⟨0, [0x00]⟩, ⟨0, [0x02]⟩]) 4 0x0a
        ).link_train.link_rate = 0x06 ∧
     ¬ ((s5p_dp_init_training sample_hdr (scripted_device [⟨0, [0x00]⟩, ⟨0, [0x02]⟩]) 4 0x0a
        ).link_train.link_rate ≤ min 0x0a 0x00)) := by
  decide

/-- C10, amended.  After `s5p_dp_init_training` the session's `lane_count` is at most the
source maximum `max_lane` and its `link_rate` at most the source maximum `max_rate`, for
every pair of bytes the sink advertises.  `lane_count` is also at most the lane count the
sink advertises when that count is not 0; a count of 0 is replaced by `LANE_COUNT1` before the
source maximum is applied.  `link_rate` is also at most the rate the sink advertises when
that rate is `LINK_RATE_1_62GBPS` or `LINK_RATE_2_70GBPS`; any other rate is replaced by
`LINK_RATE_1_62GBPS` before the source maximum is applied.  (The sink's rate byte is the first
answer the device gets, its lane-count byte the second.) -/
theorem init_training_bounds (h : Hdr) (dp : s5p_dp_device) (max_lane max_rate : Nat) :
    (s5p_dp_get_max_rx_bandwidth h ( s5p_dp_reset_macro dp)).1
      = (dp.aux dp.tick).data.getD 0 0 % 256 ∧
    (s5p_dp_get_max_rx_lane_count h (s5p_dp_get_max_rx_bandwidth h ( s5p_dp_reset_macro dp)).2).1
      = h.DPCD_MAX_LANE_COUNT ((dp.aux (dp.tick + 1)).data.getD 0 0 % 256) % 256 ∧
    (s5p_dp_init_training h dp max_lane max_rate).link_train.lane_count ≤ max_lane ∧
    (s5p_dp_init_training h dp max_lane max_rate).link_train.link_rate ≤ max_rate ∧
    (h.DPCD_MAX_LANE_COUNT ((dp.aux (dp.tick + 1)).data.getD 0 0 % 256) % 256 ≠ 0 →
      (s5p_dp_init_training h dp max_lane max_rate).link_train.lane_count
        ≤ min max_lane (h.DPCD_MAX_LANE_COUNT ((dp.aux (dp.tick + 1)).data.getD 0 0 % 256) % 256)) ∧
    (h.DPCD_MAX_LANE_COUNT ((dp.aux (dp.tick + 1)).data.getD 0 0 % 256) % 256 = 0 →
      (s5p_dp_init_training h dp max_lane max_rate).link_train.lane_count
        ≤ min max_lane (h.LANE_COUNT1 % 256)) ∧
    ((dp.aux dp.tick).data.getD 0 0 % 256 = h.LINK_RATE_1_62GBPS ∨
      (dp.aux dp.tick).data.getD 0 0 % 256 = h.LINK_RATE_2_70GBPS →
      (s5p_dp_init_training h dp max_lane max_rate).link_train.link_rate
        ≤ min max_rate ((dp.aux dp.tick).data.getD 0 0 % 256)) ∧
    ((dp.aux dp.tick).data.getD 0 0 % 256 ≠ h.LINK_RATE_1_62GBPS →
      (dp.aux dp.tick).data.getD 0 0 % 256 ≠ h.LINK_RATE_2_70GBPS →
      (s5p_dp_init_training h dp max_lane max_rate).link_train.link_rate
        ≤ min max_rate (h.LINK_RATE_1_62GBPS % 256)) := by
  refine ⟨rfl, rfl, ?_, ?_, ?_, ?_, ?_, ?_⟩
  · rw [init_training_lane_count]
    simp only
    split_ifs <;> omega
  · rw [init_training_link_rate]
    simp only
    split_ifs <;> omega
  · intro hc
    rw [init_training_lane_count]
    simp only [hc, if_false]
    split_ifs <;> omega
  · intro hc
    rw [init_training_lane_count]
    simp only [hc, if_true]
    split_ifs <;> omega
  · intro hc
    rw [init_training_link_rate]
    have hn : ¬ ((dp.aux dp.tick).data.getD 0 0 % 256 ≠ h.LINK_RATE_1_62GBPS ∧
        (dp.aux dp.tick).data.getD 0 0 % 256 ≠ h.LINK_RATE_2_70GBPS) := by
      rintro ⟨h1, h2⟩
      rcases hc with hc | hc
      · exact h1 hc
      · exact h2 hc
    simp only [hn, if_false]
    split_ifs <;> omega
  · intro h1 h2
    rw [init_training_link_rate]
    simp only [h1, h2, ne_eq, not_false_eq_true, and_self, if_true]
    split_ifs <;> omega

theorem init_training_bounds_witness :
    sample_hdr.DPCD_MAX_LANE_COUNT
      (((scripted_device [⟨0, [0x0a]⟩, ⟨0, [0x84]⟩]).aux
        ((scripted_device [⟨0, [0x0a]⟩, ⟨0, [0x84]⟩]).tick + 1)).data.getD 0 0 % 256) % 256 ≠ 0 ∧
    (s5p_dp_init_training sample_hdr (scripted_device [⟨0, [0x0a]⟩, ⟨0, [0x84]⟩]) 2 0x0a
      ).link_train.lane_count
      ≤ min 2 (sample_hdr.DPCD_MAX_LANE_COUNT
          (((scripted_device [⟨0, [0x0a]⟩, ⟨0, [0x84]⟩]).aux
            ((scripted_device [⟨0, [0x0a]⟩, ⟨0, [0x84]⟩]).tick + 1)).data.getD 0 0 % 256) % 256) :=
  ⟨by decide,
   (init_training_bounds sample_hdr (scripted_device [⟨0, [0x0a]⟩, ⟨0, [0x84]⟩]) 2 0x0a).2.2.2.2.1
     (by decide)⟩

theorem write_bytes_to_dpcd_dev (dp : s5p_dp_device) (reg_addr count : Nat) (data : Nat → Nat) :
    (s5p_dp_write_bytes_to_dpcd dp reg_addr count data).2.link_train = dp.link_train ∧
    (s5p_dp_write_bytes_to_dpcd dp reg_addr count data).2.aux = dp.aux ∧
    (s5p_dp_write_bytes_to_dpcd dp reg_addr count data).2.tick = dp.tick + 1 ∧
    (s5p_dp_write_bytes_to_dpcd dp reg_addr count data).2.log
      = dp.log ++ [Event.write_bytes_to_dpcd reg_addr count ((List.range count).map data)] :=
  ⟨rfl, rfl, rfl, rfl⟩

theorem cr_loop_reset_dev (dp : s5p_dp_device) (n : Nat) :
    (for_loop (fun lane dp => set_cr_loop dp lane 0) n dp).aux = dp.aux ∧
    (for_loop (fun lane dp => set_cr_loop dp lane 0) n dp).tick = dp.tick ∧
    (for_loop (fun lane dp => set_cr_loop dp lane 0) n dp).log = dp.log ∧
    (for_loop (fun lane dp => set_cr_loop dp lane 0) n dp).link_train.lt_state
      = dp.link_train.lt_state ∧
    (for_loop (fun lane dp => set_cr_loop dp lane 0) n dp).link_train.link_rate
      = dp.link_train.link_rate ∧
    (for_loop (fun lane dp => set_cr_loop dp lane 0) n dp).link_train.lane_count
      = dp.link_train.lane_count ∧
    (for_loop (fun lane dp => set_cr_loop dp lane 0) n dp).link_train.eq_loop
      = dp.link_train.eq_loop ∧
    (for_loop (fun lane dp => set_cr_loop dp lane 0) n dp).link_train.training_lane
      = dp.link_train.training_lane ∧
    (∀ i, (for_loop (fun lane dp => set_cr_loop dp lane 0) n dp).link_train.cr_loop i
      = if i < n then 0 else dp.link_train.cr_loop i) := by
  refine ⟨?_, ?_, ?_, ?_, ?_, ?_, ?_, ?_, ?_⟩
  · apply for_loop_preserves (fun d : s5p_dp_device => d.aux)
    intro i s
    rfl
  · apply for_loop_preserves (fun d : s5p_dp_device => d.tick)
    intro i s
    rfl
  · apply for_loop_preserves (fun d : s5p_dp_device => d.log)
    intro i s
    rfl
  · apply for_loop_preserves (fun d : s5p_dp_device => d.link_train.lt_state)
    intro i s
    rfl
  · apply for_loop_preserves (fun d : s5p_dp_device => d.link_train.link_rate)
    intro i s
    rfl
  · apply for_loop_preserves (fun d : s5p_dp_device => d.link_train.lane_count)
    intro i s
    rfl
  · apply for_loop_preserves (fun d : s5p_dp_device => d.link_train.eq_loop)
    intro i s
    rfl
  · apply for_loop_preserves (fun d : s5p_dp_device => d.link_train.training_lane)
    intro i s
    rfl
  · induction n with
    | zero => intro i; simp [for_loop]
    | succ n ih =>
      intro i
      have e : (for_loop (fun lane dp => set_cr_loop dp lane 0) (n + 1) dp).link_train.cr_loop
          = Function.update
              (for_loop (fun lane dp => set_cr_loop dp lane 0) n dp).link_train.cr_loop n 0 := rfl
      rw [e]
      by_cases hi : i = n
      · subst hi
        simp
      · rw [Function.update_noteq hi, ih]
        by_cases hlt : i < n
        · simp [hlt, Nat.lt_succ_of_lt hlt]
        · have : ¬ i < n + 1 := by omega
          simp [hlt, this]

theorem pre_emphasis_loop_dev (dp : s5p_dp_device) (level n : Nat) :
    (for_loop (fun lane dp => s5p_dp_set_lane_lane_pre_emphasis dp level lane) n dp).link_train
      = dp.link_train ∧
    (for_loop (fun lane dp => s5p_dp_set_lane_lane_pre_emphasis dp level lane) n dp).aux
      = dp.aux ∧
    (for_loop (fun lane dp => s5p_dp_set_lane_lane_pre_emphasis dp level lane) n dp).tick
      = dp.tick ∧
    marks (for_loop (fun lane dp => s5p_dp_set_lane_lane_pre_emphasis dp level lane) n dp).log
      = marks dp.log := by
  refine ⟨?_, ?_, ?_, ?_⟩
  · apply for_loop_preserves (fun d : s5p_dp_device => d.link_train)
    intro i s
    exact (set_lane_lane_pre_emphasis_dev s level i).1
  · apply for_loop_preserves (fun d : s5p_dp_device => d.aux)
    intro i s
    exact (set_lane_lane_pre_emphasis_dev s level i).2.1
  · apply for_loop_preserves (fun d : s5p_dp_device => d.tick)
    intro i s
    exact (set_lane_lane_pre_emphasis_dev s level i).2.2.1
  · apply for_loop_preserves (fun d : s5p_dp_device => marks d.log)
    intro i s
    exact (set_lane_lane_pre_emphasis_dev s level i).2.2.2

theorem link_start_dev (h : Hdr) (dp : s5p_dp_device) :
    (s5p_dp_link_start h dp).aux = dp.aux ∧
    (s5p_dp_link_start h dp).tick = dp.tick + 4 ∧
    marks (s5p_dp_link_start h dp).log = marks dp.log ∧
    (s5p_dp_link_start h dp).link_train.lt_state = .CLOCK_RECOVERY ∧
    (s5p_dp_link_start h dp).link_train.link_rate = dp.link_train.link_rate ∧
    (s5p_dp_link_start h dp).link_train.lane_count = dp.link_train.lane_count ∧
    (s5p_dp_link_start h dp).link_train.eq_loop = 0 ∧
    (s5p_dp_link_start h dp).link_train.training_lane = dp.link_train.training_lane ∧
    (∀ i, (s5p_dp_link_start h dp).link_train.cr_loop i
      = if i < dp.link_train.lane_count then 0 else dp.link_train.cr_loop i) := by
  unfold s5p_dp_link_start
  simp only [(write_bytes_to_dpcd_dev _ _ _ _).1, (write_bytes_to_dpcd_dev _ _ _ _).2.1,
    (write_bytes_to_dpcd_dev _ _ _ _).2.2.1, (write_bytes_to_dpcd_dev _ _ _ _).2.2.2,
    (write_byte_to_dpcd_dev _ _ _).1, (write_byte_to_dpcd_dev _ _ _).2.1,
    (write_byte_to_dpcd_dev _ _ _).2.2.1, (write_byte_to_dpcd_dev _ _ _).2.2.2,
    s5p_dp_set_training_pattern, s5p_dp_set_link_bandwidth, s5p_dp_set_lane_count,
    emit_aux, emit_tick, emit_log, emit_link_train,
    (pre_emphasis_loop_dev _ _ _).1, (pre_emphasis_loop_dev _ _ _).2.1,
    (pre_emphasis_loop_dev _ _ _).2.2.1,
    (cr_loop_reset_dev _ _).1, (cr_loop_reset_dev _ _).2.1, (cr_loop_reset_dev _ _).2.2.1,
    (cr_loop_reset_dev _ _).2.2.2.1, (cr_loop_reset_dev _ _).2.2.2.2.1,
    (cr_loop_reset_dev _ _).2.2.2.2.2.1, (cr_loop_reset_dev _ _).2.2.2.2.2.2.1,
    (cr_loop_reset_dev _ _).2.2.2.2.2.2.2.1, (cr_loop_reset_dev _ _).2.2.2.2.2.2.2.2,
    marks_append_one, (pre_emphasis_loop_dev _ _ _).2.2.2]
  simp [set_eq_loop, set_lt_state, marks_append_one]

theorem set_enhanced_mode_dev (h : Hdr) (dp : s5p_dp_device) :
    (s5p_dp_set_enhanced_mode h dp).link_train = dp.link_train ∧
    (s5p_dp_set_enhanced_mode h dp).aux = dp.aux ∧
    (s5p_dp_set_enhanced_mode h dp).tick = dp.tick + 3 ∧
    marks (s5p_dp_set_enhanced_mode h dp).log = marks dp.log := by
  unfold s5p_dp_set_enhanced_mode s5p_dp_is_enhanced_mode_available
    s5p_dp_enable_rx_to_enhanced_mode s5p_dp_enable_enhanced_mode
    s5p_dp_read_byte_from_dpcd s5p_dp_write_byte_to_dpcd
  simp only [answer, emit]
  split_ifs <;> simp [marks_append, marks_cons, marks_nil]

theorem training_pattern_dis_dev (h : Hdr) (dp : s5p_dp_device) :
    (s5p_dp_training_pattern_dis h dp).link_train = dp.link_train ∧
    (s5p_dp_training_pattern_dis h dp).aux = dp.aux ∧
    (s5p_dp_training_pattern_dis h dp).tick = dp.tick + 1 ∧
    marks (s5p_dp_training_pattern_dis h dp).log = marks dp.log := by
  unfold s5p_dp_training_pattern_dis s5p_dp_set_training_pattern s5p_dp_write_byte_to_dpcd
  simp [answer, emit, marks_append, marks_cons, marks_nil]

theorem process_clock_recovery_ok_dev (h : Hdr) (dp : s5p_dp_device)
    (hok : s5p_dp_clock_recovery_ok h (status_block dp) dp.link_train.lane_count = 0) :
    (s5p_dp_process_clock_recovery h dp).2.aux = dp.aux ∧
    (s5p_dp_process_clock_recovery h dp).2.tick = dp.tick + 2 + dp.link_train.lane_count ∧
    marks (s5p_dp_process_clock_recovery h dp).2.log = marks dp.log ∧
    (s5p_dp_process_clock_recovery h dp).2.link_train.lt_state = .EQUALIZER_TRAINING ∧
    (s5p_dp_process_clock_recovery h dp).2.link_train.link_rate = dp.link_train.link_rate ∧
    (s5p_dp_process_clock_recovery h dp).2.link_train.lane_count = dp.link_train.lane_count ∧
    (s5p_dp_process_clock_recovery h dp).2.link_train.eq_loop = dp.link_train.eq_loop ∧
    (s5p_dp_process_clock_recovery h dp).2.link_train.cr_loop = dp.link_train.cr_loop := by
  have hblk : (s5p_dp_read_bytes_from_dpcd (udelay dp 100) h.DPCD_ADDR_LANE0_1_STATUS 6).2.1
      = status_block dp := rfl
  have hlc : (s5p_dp_read_bytes_from_dpcd (udelay dp 100)
      h.DPCD_ADDR_LANE0_1_STATUS 6).2.2.link_train.lane_count = dp.link_train.lane_count := rfl
  unfold s5p_dp_process_clock_recovery
  simp only [hblk, hlc, hok, if_true]
  simp only [set_lt_state, (write_training_lanes_dev _ _ _).1, (write_training_lanes_dev _ _ _).2.1,
    (write_training_lanes_dev _ _ _).2.2.1, (write_training_lanes_dev _ _ _).2.2.2,
    (write_byte_to_dpcd_dev _ _ _).1, (write_byte_to_dpcd_dev _ _ _).2.1,
    (write_byte_to_dpcd_dev _ _ _).2.2.1, (write_byte_to_dpcd_dev _ _ _).2.2.2,
    (get_adjust_train_dev _ _ _).1, (get_adjust_train_dev _ _ _).2.1,
    (get_adjust_train_dev _ _ _).2.2.1, (get_adjust_train_dev _ _ _).2.2.2.1,
    (get_adjust_train_dev _ _ _).2.2.2.2.1, (get_adjust_train_dev _ _ _).2.2.2.2.2.1,
    (get_adjust_train_dev _ _ _).2.2.2.2.2.2.1, (get_adjust_train_dev _ _ _).2.2.2.2.2.2.2,
    s5p_dp_set_training_pattern, emit_aux, emit_tick, emit_log, emit_link_train, marks_append_one,
    (read_bytes_from_dpcd_dev _ _ _).1, (read_bytes_from_dpcd_dev _ _ _).2.1,
    (read_bytes_from_dpcd_dev _ _ _).2.2.1, (read_bytes_from_dpcd_dev _ _ _).2.2.2, udelay]
  simp

theorem process_equalizer_training_ok_dev (h : Hdr) (dp : s5p_dp_device)
    (hcr : s5p_dp_clock_recovery_ok h (status_block dp) dp.link_train.lane_count = 0)
    (heq : s5p_dp_channel_eq_ok h (status_block dp) dp.link_train.lane_count = 0) :
    (s5p_dp_process_equalizer_training h dp).2.aux = dp.aux ∧
    (s5p_dp_process_equalizer_training h dp).2.tick = dp.tick + 7 ∧
    marks (s5p_dp_process_equalizer_training h dp).2.log = marks dp.log ∧
    (s5p_dp_process_equalizer_training h dp).2.link_train.lt_state = .FINISHED ∧
    (s5p_dp_process_equalizer_training h dp).2.link_train.link_rate
      = (dp.aux (dp.tick + 2)).data.getD 0 0 % 2 ^ 32 % 256 ∧
    (s5p_dp_process_equalizer_training h dp).2.link_train.lane_count
      = (dp.aux (dp.tick + 3)).data.getD 0 0 % 2 ^ 32 % 256 ∧
    (s5p_dp_process_equalizer_training h dp).2.link_train.eq_loop = dp.link_train.eq_loop ∧
    (s5p_dp_process_equalizer_training h dp).2.link_train.cr_loop = dp.link_train.cr_loop := by
  have hblk : (s5p_dp_read_bytes_from_dpcd (udelay dp 400) h.DPCD_ADDR_LANE0_1_STATUS 6).2.1
      = status_block dp := rfl
  have hlc : (s5p_dp_read_bytes_from_dpcd (udelay dp 400)
      h.DPCD_ADDR_LANE0_1_STATUS 6).2.2.link_train.lane_count = dp.link_train.lane_count := rfl
  unfold s5p_dp_process_equalizer_training
  simp only [hblk, hlc, hcr, heq, if_true]
  simp only [set_lt_state, set_link_rate, set_lane_count_field,
    (set_enhanced_mode_dev _ _).1, (set_enhanced_mode_dev _ _).2.1,
    (set_enhanced_mode_dev _ _).2.2.1, (set_enhanced_mode_dev _ _).2.2.2,
    s5p_dp_get_link_bandwidth, s5p_dp_get_lane_count, answer, emit,
    (training_pattern_dis_dev _ _).1, (training_pattern_dis_dev _ _).2.1,
    (training_pattern_dis_dev _ _).2.2.1, (training_pattern_dis_dev _ _).2.2.2,
    marks_append_one,
    (read_bytes_from_dpcd_dev _ _ _).1, (read_bytes_from_dpcd_dev _ _ _).2.1,
    (read_bytes_from_dpcd_dev _ _ _).2.2.1, (read_bytes_from_dpcd_dev _ _ _).2.2.2, udelay]
  simp [marks_append_one]

theorem sw_loop_clock_recovery (h : Hdr) (fuel : Nat) (dp : s5p_dp_device)
    (hst : dp.link_train.lt_state = .CLOCK_RECOVERY) :
    s5p_dp_sw_link_training_loop h (fuel + 1) dp
      = s5p_dp_sw_link_training_loop h fuel (s5p_dp_process_clock_recovery h dp).2 ∧
    sw_link_training_states h (fuel + 1) dp
      = .CLOCK_RECOVERY ::
          sw_link_training_states h fuel (s5p_dp_process_clock_recovery h dp).2 := by
  simp only [s5p_dp_sw_link_training_loop, sw_link_training_states, hst, sw_link_training_step,
    and_self]

theorem sw_loop_finished (h : Hdr) (fuel : Nat) (dp : s5p_dp_device)
    (hst : dp.link_train.lt_state = .FINISHED) :
    s5p_dp_sw_link_training_loop h (fuel + 1) dp = some (0, dp) ∧
    sw_link_training_states h (fuel + 1) dp = [.FINISHED] := by
  simp only [s5p_dp_sw_link_training_loop, sw_link_training_states, hst, and_self]

theorem sw_loop_failed (h : Hdr) (fuel : Nat) (dp : s5p_dp_device)
    (hst : dp.link_train.lt_state = .FAILED) :
    s5p_dp_sw_link_training_loop h (fuel + 1) dp = some (-h.EREMOTEIO, dp) ∧
    sw_link_training_states h (fuel + 1) dp = [.FAILED] := by
  simp only [s5p_dp_sw_link_training_loop, sw_link_training_states, hst, and_self]

/-- C4. In a block of `EDID_BLOCK_LENGTH` bytes whose checksum by `s5p_dp_calc_edid_check_sum`
is 0, replacing the byte at any index `i` by a different byte value `v` gives a block whose
checksum is not 0; and `s5p_dp_read_edid` (with `EDID_HEADER_PATTERN = 0`) returns `-EIO`
whenever its read of block 0 delivers that changed block. -/
theorem edid_single_byte_corruption_detected (h : Hdr) (block : Nat → Nat) (i v : Nat)
    (hbytes : ∀ j, j < h.EDID_BLOCK_LENGTH → block j < 256)
    (hsum : s5p_dp_calc_edid_check_sum h block = 0)
    (hi : i < h.EDID_BLOCK_LENGTH) (hv : v < 256) (hne : v ≠ block i) :
    s5p_dp_calc_edid_check_sum h (Function.update block i v) ≠ 0 ∧
    (∀ dp : s5p_dp_device, h.EDID_HEADER_PATTERN = 0 →
      (∀ j, j < h.EDID_BLOCK_LENGTH →
        answer_block dp (dp.tick + 1) j = Function.update block i v j) →
      (s5p_dp_read_edid h dp).1 = -h.EIO) := by
  have hbad := calc_edid_check_sum_update_ne_zero h block i v hbytes hsum hi hv hne
  refine ⟨hbad, fun dp hhp hblk => ?_⟩
  rw [read_edid_retval h dp hhp, calc_edid_check_sum_congr h _ _ hblk]
  simp only [hbad, ne_eq, not_false_eq_true, if_true, ite_self]

theorem edid_single_byte_corruption_detected_witness :
    (∀ j, j < sample_hdr.EDID_BLOCK_LENGTH → block_of [0x01, 0xff] j < 256) ∧
    s5p_dp_calc_edid_check_sum sample_hdr (block_of [0x01, 0xff]) = 0 ∧
    5 < sample_hdr.EDID_BLOCK_LENGTH ∧ 7 < 256 ∧ 7 ≠ block_of [0x01, 0xff] 5 ∧
    s5p_dp_calc_edid_check_sum sample_hdr (Function.update (block_of [0x01, 0xff]) 5 7) ≠ 0 :=
  ⟨by decide, by decide, by decide, by decide, by decide,
   (edid_single_byte_corruption_detected sample_hdr (block_of [0x01, 0xff]) 5 7
     (by decide) (by decide) (by decide) (by decide) (by decide)).1⟩

theorem get_lane_link_training_dev (dp : s5p_dp_device) (lane : Nat) :
    (s5p_dp_get_lane_link_training dp lane).2.link_train = dp.link_train ∧
    (s5p_dp_get_lane_link_training dp lane).2.aux = dp.aux ∧
    (s5p_dp_get_lane_link_training dp lane).2.tick = dp.tick + (if lane < 4 then 1 else 0) ∧
    marks (s5p_dp_get_lane_link_training dp lane).2.log = marks dp.log := by
  unfold s5p_dp_get_lane_link_training
  split <;> simp [s5p_dp_get_laneN_link_training, answer, emit, marks_append_one]
  rename_i h0 h1 h2 h3
  have e0 : lane ≠ 0 := fun hc => h0 hc
  have e1 : lane ≠ 1 := fun hc => h1 hc
  have e2 : lane ≠ 2 := fun hc => h2 hc
  have e3 : lane ≠ 3 := fun hc => h3 hc
  omega

theorem reduce_link_rate_dev (h : Hdr) (dp : s5p_dp_device) :
    (s5p_dp_reduce_link_rate h dp).aux = dp.aux ∧
    (s5p_dp_reduce_link_rate h dp).tick
      = dp.tick + (if dp.link_train.link_rate = h.LINK_RATE_2_70GBPS then 0 else 4) ∧
    marks (s5p_dp_reduce_link_rate h dp).log = ((marks dp.log).1, (marks dp.log).2 + 1) := by
  unfold s5p_dp_reduce_link_rate
  simp only [emit_link_train]
  split_ifs
  · simp [set_lt_state, set_link_rate, marks_append_one]
  · simp only [set_lt_state, (set_enhanced_mode_dev _ _).2.1, (set_enhanced_mode_dev _ _).2.2.1,
      (set_enhanced_mode_dev _ _).2.2.2, (training_pattern_dis_dev _ _).2.1,
      (training_pattern_dis_dev _ _).2.2.1, (training_pattern_dis_dev _ _).2.2.2, emit_aux,
      emit_tick, emit_log, marks_append_one]
    simp

theorem clock_recovery_lane_loop_dev (h : Hdr) (adjust_request : Nat → Nat) (n : Nat)
    (dp : s5p_dp_device) (v : Nat) :
    (for_loop (fun lane (st : s5p_dp_device × Nat) =>
      let (reg, dp) := s5p_dp_get_lane_link_training st.1 lane
      let training_lane := reg % 256
      let voltage_swing := s5p_dp_get_adjust_request_voltage adjust_request lane
      let pre_emphasis := s5p_dp_get_adjust_request_pre_emphasis adjust_request lane
      let dp :=
        if h.DPCD_VOLTAGE_SWING_GET training_lane = voltage_swing ∧
            h.DPCD_PRE_EMPHASIS_GET training_lane = pre_emphasis then
          set_cr_loop dp lane (dp.link_train.cr_loop lane + 1)
        else dp
      (set_training_lane dp lane training_lane, voltage_swing)) n (dp, v)).1.aux = dp.aux ∧
    marks (for_loop (fun lane (st : s5p_dp_device × Nat) =>
      let (reg, dp) := s5p_dp_get_lane_link_training st.1 lane
      let training_lane := reg % 256
      let voltage_swing := s5p_dp_get_adjust_request_voltage adjust_request lane
      let pre_emphasis := s5p_dp_get_adjust_request_pre_emphasis adjust_request lane
      let dp :=
        if h.DPCD_VOLTAGE_SWING_GET training_lane = voltage_swing ∧
            h.DPCD_PRE_EMPHASIS_GET training_lane = pre_emphasis then
          set_cr_loop dp lane (dp.link_train.cr_loop lane + 1)
        else dp
      (set_training_lane dp lane training_lane, voltage_swing)) n (dp, v)).1.log
      = marks dp.log := by
  constructor
  · apply for_loop_preserves (fun st : s5p_dp_device × Nat => st.1.aux)
    intro i s
    simp only
    split_ifs <;> exact (get_lane_link_training_dev s.1 i).2.1
  · apply for_loop_preserves (fun st : s5p_dp_device × Nat => marks st.1.log)
    intro i s
    simp only
    split_ifs <;> exact (get_lane_link_training_dev s.1 i).2.2.2

theorem process_clock_recovery_attempts (h : Hdr) (dp : s5p_dp_device) :
    (s5p_dp_process_clock_recovery h dp).2.aux = dp.aux ∧
    attempts (s5p_dp_process_clock_recovery h dp).2.log = attempts dp.log := by
  have key : (s5p_dp_process_clock_recovery h dp).2.aux = dp.aux ∧
      (marks (s5p_dp_process_clock_recovery h dp).2.log).1 = (marks dp.log).1 := by
    unfold s5p_dp_process_clock_recovery
    simp only
    split_ifs
    · simp only [set_lt_state, (write_training_lanes_dev _ _ _).2.1,
        (write_training_lanes_dev _ _ _).2.2.2, (write_byte_to_dpcd_dev _ _ _).2.1,
        (write_byte_to_dpcd_dev _ _ _).2.2.2, (get_adjust_train_dev _ _ _).1,
        (get_adjust_train_dev _ _ _).2.2.1, s5p_dp_set_training_pattern, emit_aux, emit_log,
        marks_append_one, (read_bytes_from_dpcd_dev _ _ _).1,
        (read_bytes_from_dpcd_dev _ _ _).2.2.1, udelay]
      simp
    · simp only [(reduce_link_rate_dev _ _).1, (reduce_link_rate_dev _ _).2.2,
        (clock_recovery_lane_loop_dev _ _ _ _ _).1, (clock_recovery_lane_loop_dev _ _ _ _ _).2,
        (read_byte_from_dpcd_dev _ _).2.1, (read_byte_from_dpcd_dev _ _).2.2.2.1,
        marks_append_one, (read_bytes_from_dpcd_dev _ _ _).1,
        (read_bytes_from_dpcd_dev _ _ _).2.2.1, udelay, emit_aux, emit_log]
      simp
    · simp only [(write_training_lanes_dev _ _ _).2.1,
        (write_training_lanes_dev _ _ _).2.2.2, (get_adjust_train_dev _ _ _).1,
        (get_adjust_train_dev _ _ _).2.2.1,
        (clock_recovery_lane_loop_dev _ _ _ _ _).1, (clock_recovery_lane_loop_dev _ _ _ _ _).2,
        (read_byte_from_dpcd_dev _ _).2.1, (read_byte_from_dpcd_dev _ _).2.2.2.1,
        marks_append_one, (read_bytes_from_dpcd_dev _ _ _).1,
        (read_bytes_from_dpcd_dev _ _ _).2.2.1, udelay, emit_aux, emit_log]
      simp
  exact ⟨key.1, key.2⟩

theorem process_equalizer_training_attempts (h : Hdr) (dp : s5p_dp_device) :
    (s5p_dp_process_equalizer_training h dp).2.aux = dp.aux ∧
    attempts (s5p_dp_process_equalizer_training h dp).2.log = attempts dp.log := by
  have key : (s5p_dp_process_equalizer_training h dp).2.aux = dp.aux ∧
      (marks (s5p_dp_process_equalizer_training h dp).2.log).1 = (marks dp.log).1 := by
    unfold s5p_dp_process_equalizer_training
    simp only
    split_ifs
    · simp only [set_lt_state, set_link_rate, set_lane_count_field,
        (set_enhanced_mode_dev _ _).2.1, (set_enhanced_mode_dev _ _).2.2.2,
        s5p_dp_get_link_bandwidth, s5p_dp_get_lane_count, answer, emit,
        (training_pattern_dis_dev _ _).2.1, (training_pattern_dis_dev _ _).2.2.2,
        marks_append_one, (read_bytes_from_dpcd_dev _ _ _).1,
        (read_bytes_from_dpcd_dev _ _ _).2.2.1, udelay]
      simp [marks_append_one]
    · simp only [(reduce_link_rate_dev _ _).1, (reduce_link_rate_dev _ _).2.2, set_eq_loop,
        marks_append_one, (read_bytes_from_dpcd_dev _ _ _).1,
        (read_bytes_from_dpcd_dev _ _ _).2.2.1, udelay, emit_aux, emit_log]
      simp
    · simp only [(write_training_lanes_dev _ _ _).2.1,
        (write_training_lanes_dev _ _ _).2.2.2, (get_adjust_train_dev _ _ _).1,
        (get_adjust_train_dev _ _ _).2.2.1, set_eq_loop,
        marks_append_one, (read_bytes_from_dpcd_dev _ _ _).1,
        (read_bytes_from_dpcd_dev _ _ _).2.2.1, udelay, emit_aux, emit_log]
      simp
    · simp only [(reduce_link_rate_dev _ _).1, (reduce_link_rate_dev _ _).2.2,
        marks_append_one, (read_bytes_from_dpcd_dev _ _ _).1,
        (read_bytes_from_dpcd_dev _ _ _).2.2.1, udelay, emit_aux, emit_log]
      simp
  exact ⟨key.1, key.2⟩

theorem sw_link_training_step_attempts (h : Hdr) (dp : s5p_dp_device) :
    (sw_link_training_step h dp).aux = dp.aux ∧
    attempts (sw_link_training_step h dp).log = attempts dp.log := by
  unfold sw_link_training_step
  split
  · exact ⟨(link_start_dev h dp).1, congrArg Prod.fst (link_start_dev h dp).2.2.1⟩
  · exact process_clock_recovery_attempts h dp
  · exact process_equalizer_training_attempts h dp
  · exact ⟨rfl, rfl⟩
  · exact ⟨rfl, rfl⟩

theorem sw_link_training_loop_attempts (h : Hdr) (fuel : Nat) (dp : s5p_dp_device)
    (r : Int) (dp' : s5p_dp_device)
    (hres : s5p_dp_sw_link_training_loop h fuel dp = some (r, dp')) :
    dp'.aux = dp.aux ∧ attempts dp'.log = attempts dp.log := by
  induction fuel generalizing dp with
  | zero => simp [s5p_dp_sw_link_training_loop] at hres
  | succ n ih =>
    unfold s5p_dp_sw_link_training_loop at hres
    cases hst : dp.link_train.lt_state with
    | FINISHED =>
      simp only [hst, Option.some.injEq, Prod.mk.injEq] at hres
      rw [← hres.2]
      exact ⟨rfl, rfl⟩
    | FAILED =>
      simp only [hst, Option.some.injEq, Prod.mk.injEq] at hres
      rw [← hres.2]
      exact ⟨rfl, rfl⟩
    | START =>
      simp only [hst] at hres
      have := ih _ hres
      rw [(sw_link_training_step_attempts h dp).1, (sw_link_training_step_attempts h dp).2] at this
      exact this
    | CLOCK_RECOVERY =>
      simp only [hst] at hres
      have := ih _ hres
      rw [(sw_link_training_step_attempts h dp).1, (sw_link_training_step_attempts h dp).2] at this
      exact this
    | EQUALIZER_TRAINING =>
      simp only [hst] at hres
      have := ih _ hres
      rw [(sw_link_training_step_attempts h dp).1, (sw_link_training_step_attempts h dp).2] at this
      exact this

theorem sw_link_training_attempts (h : Hdr) (fuel : Nat) (dp : s5p_dp_device)
    (r : Int) (dp' : s5p_dp_device)
    (hres : s5p_dp_sw_link_training h fuel dp = some (r, dp')) :
    dp'.aux = dp.aux ∧ attempts dp'.log = attempts dp.log := by
  unfold s5p_dp_sw_link_training at hres
  have := sw_link_training_loop_attempts h fuel _ r dp' hres
  simp only [set_lt_state] at this
  split_ifs at this
  · simpa [s5p_dp_set_analog_power_down, attempts, List.count_append, List.count_cons]
      using this
  · exact this

theorem attempt_start_attempts (h : Hdr) (fuel count bwtype : Nat) (k : Nat)
    (dp dp' : s5p_dp_device)
    (hk : attempt_start h fuel count bwtype k dp = some dp') :
    attempts dp'.log = attempts dp.log + k := by
  induction k generalizing dp with
  | zero =>
    simp only [attempt_start, Option.some.injEq] at hk
    rw [← hk]
    rfl
  | succ n ih =>
    rw [attempt_start] at hk
    cases hsw : s5p_dp_sw_link_training h fuel (s5p_dp_init_training h dp count bwtype) with
    | none => simp [hsw] at hk
    | some p =>
      obtain ⟨r1, dp1⟩ := p
      simp only [hsw] at hk
      by_cases hr1 : r1 = 0
      · simp [hr1] at hk
      · simp only [hr1, if_false] at hk
        have h1 := ih _ hk
        have h2 := (sw_link_training_attempts h fuel _ r1 dp1 hsw).2
        have h3 := congrArg Prod.fst (init_training_dev h dp count bwtype).2.2
        simp only [marks] at h3
        have h4 : attempts (udelay dp1 100).log = attempts dp1.log := by
          simp [udelay, attempts, List.count_append, List.count_cons]
        omega

/-- C8. With `DP_TIMEOUT_LOOP_COUNT > 0` and training attempts that each end within `fuel`
passes of the state machine: `s5p_dp_set_link_train` returns 0 exactly when, after `k`
attempts (`s5p_dp_init_training` then `s5p_dp_sw_link_training`) that failed, for some
`k < DP_TIMEOUT_LOOP_COUNT`, the next attempt returned 0, and it then returns the device that
attempt left; it returns `-EREMOTEIO` exactly when all `DP_TIMEOUT_LOOP_COUNT` attempts failed;
it returns nothing else.  The result is 0 exactly when the final state is `FINISHED` and
`-EREMOTEIO` exactly when it is `FAILED`, for `s5p_dp_set_link_train` and for every single
attempt.  The log gains between 1 and `DP_TIMEOUT_LOOP_COUNT` attempts (calls of
`s5p_dp_reset_macro`), and exactly `DP_TIMEOUT_LOOP_COUNT` when the result is not 0. -/
theorem set_link_train_retry (h : Hdr) (fuel : Nat) (dp : s5p_dp_device) (count bwtype : Nat)
    (hE : h.EREMOTEIO ≠ 0) (hN : 0 < h.DP_TIMEOUT_LOOP_COUNT) :
    (∀ r dp', s5p_dp_set_link_train h fuel dp count bwtype = some (r, dp') ↔
      (r = 0 ∧ ∃ k dpk, k < h.DP_TIMEOUT_LOOP_COUNT ∧
        attempt_start h fuel count bwtype k dp = some dpk ∧
        s5p_dp_sw_link_training h fuel (s5p_dp_init_training h dpk count bwtype)
          = some (0, dp')) ∨
      (r = -h.EREMOTEIO ∧
        attempt_start h fuel count bwtype h.DP_TIMEOUT_LOOP_COUNT dp = some dp')) ∧
    (∀ r dp', s5p_dp_set_link_train h fuel dp count bwtype = some (r, dp') →
      (r = 0 ↔ dp'.link_train.lt_state = .FINISHED) ∧
      (r = -h.EREMOTEIO ↔ dp'.link_train.lt_state = .FAILED)) ∧
    (∀ dp1 r1 dp1', s5p_dp_sw_link_training h fuel dp1 = some (r1, dp1') →
      (r1 = 0 ↔ dp1'.link_train.lt_state = .FINISHED) ∧
      (r1 = -h.EREMOTEIO ↔ dp1'.link_train.lt_state = .FAILED)) ∧
    (∀ r dp', s5p_dp_set_link_train h fuel dp count bwtype = some (r, dp') →
      attempts dp.log + 1 ≤ attempts dp'.log ∧
      attempts dp'.log ≤ attempts dp.log + h.DP_TIMEOUT_LOOP_COUNT ∧
      (r ≠ 0 → attempts dp'.log = attempts dp.log + h.DP_TIMEOUT_LOOP_COUNT)) := by
  have hnE : -h.EREMOTEIO ≠ 0 := fun hc => hE (neg_eq_zero.1 hc)
  have hattempt : ∀ dp1 r1 dp1', s5p_dp_sw_link_training h fuel dp1 = some (r1, dp1') →
      (r1 = 0 ↔ dp1'.link_train.lt_state = .FINISHED) ∧
      (r1 = -h.EREMOTEIO ↔ dp1'.link_train.lt_state = .FAILED) := by
    intro dp1 r1 dp1' hsw
    rcases sw_link_training_result h fuel dp1 r1 dp1' hsw with ⟨h0, hst⟩ | ⟨h1, hst⟩
    · refine ⟨⟨fun _ => hst, fun _ => h0⟩, ⟨fun hc => ?_, fun hc => ?_⟩⟩
      · rw [h0] at hc
        exact absurd hc.symm hnE
      · rw [hst] at hc
        cases hc
    · refine ⟨⟨fun hc => ?_, fun hc => ?_⟩, ⟨fun _ => hst, fun _ => h1⟩⟩
      · rw [h1] at hc
        exact absurd hc hnE
      · rw [hst] at hc
        cases hc
  have hiff : ∀ r dp', s5p_dp_set_link_train h fuel dp count bwtype = some (r, dp') ↔
      (r = 0 ∧ ∃ k dpk, k < h.DP_TIMEOUT_LOOP_COUNT ∧
        attempt_start h fuel count bwtype k dp = some dpk ∧
        s5p_dp_sw_link_training h fuel (s5p_dp_init_training h dpk count bwtype)
          = some (0, dp')) ∨
      (r = -h.EREMOTEIO ∧
        attempt_start h fuel count bwtype h.DP_TIMEOUT_LOOP_COUNT dp = some dp') := by
    intro r dp'
    unfold s5p_dp_set_link_train
    rw [set_link_train_loop_iff, if_neg (Nat.pos_iff_ne_zero.1 hN)]
    constructor
    · rintro (⟨k, dpk, hlt, hk, hsw, hr⟩ | ⟨hk, hr⟩)
      · exact Or.inl ⟨hr, k, dpk, hlt, hk, hsw⟩
      · exact Or.inr ⟨hr, hk⟩
    · rintro (⟨hr, k, dpk, hlt, hk, hsw⟩ | ⟨hr, hk⟩)
      · exact Or.inl ⟨k, dpk, hlt, hk, hsw, hr⟩
      · exact Or.inr ⟨hk, hr⟩
  refine ⟨hiff, ?_, hattempt, ?_⟩
  · intro r dp' hres
    rcases (hiff r dp').1 hres with ⟨hr, k, dpk, _, _, hsw⟩ | ⟨hr, hk⟩
    · have := hattempt _ _ _ hsw
      rw [hr]
      exact this
    · obtain ⟨n, hn⟩ := Nat.exists_eq_succ_of_ne_zero (Nat.pos_iff_ne_zero.1 hN)
      rw [hn] at hk
      have hst := attempt_start_failed h fuel count bwtype n dp dp' hk
      rw [hr, hst]
      refine ⟨⟨fun hc => absurd hc hnE, fun hc => ?_⟩, ⟨fun _ => rfl, fun _ => rfl⟩⟩
      cases hc
  · intro r dp' hres
    rcases (hiff r dp').1 hres with ⟨hr, k, dpk, hlt, hk, hsw⟩ | ⟨hr, hk⟩
    · have h1 := attempt_start_attempts h fuel count bwtype k dp dpk hk
      have h2 := (sw_link_training_attempts h fuel _ 0 dp' hsw).2
      have h3 := congrArg Prod.fst (init_training_dev h dpk count bwtype).2.2
      simp only [marks] at h3
      refine ⟨by omega, by omega, fun hne => absurd hr hne⟩
    · have h1 := attempt_start_attempts h fuel count bwtype _ dp dp' hk
      exact ⟨by omega, by omega, fun _ => h1⟩

theorem set_link_train_retry_witness :
    sample_hdr.EREMOTEIO ≠ 0 ∧ 0 < sample_hdr.DP_TIMEOUT_LOOP_COUNT ∧
    (s5p_dp_set_link_train sample_hdr 4 (scripted_device happy_script) 2 0x0a).isSome = true ∧
    (∀ r dp', s5p_dp_set_link_train sample_hdr 4 (scripted_device happy_script) 2 0x0a
        = some (r, dp') →
      (r = 0 ↔ dp'.link_train.lt_state = .FINISHED) ∧
      (r = -sample_hdr.EREMOTEIO ↔ dp'.link_train.lt_state = .FAILED)) :=
  ⟨by decide, by decide, by decide,
   (set_link_train_retry sample_hdr 4 (scripted_device happy_script) 2 0x0a
      (by decide) (by decide)).2.1⟩


/-! ## Downgrade, adjust-train targets and negotiated values -/

/-- C16. Downgrade from the high rate: when the session's `link_rate` is
`LINK_RATE_2_70GBPS` (and `LINK_RATE_1_62GBPS` fits the `u8` field),
`s5p_dp_reduce_link_rate` sets `link_rate` to `LINK_RATE_1_62GBPS` and `lt_state` to `START`,
leaves `lane_count` and every other field of the session unchanged, and makes no call into
the register layer (its only trace in the log is the entry marker, and no answer is
consumed), so the training pattern is not disabled.  The pass of the training loop that
follows is `s5p_dp_link_start`: it sets `eq_loop` to 0, `cr_loop[lane]` to 0 for every
`lane < lane_count`, moves to `CLOCK_RECOVERY`, and keeps the reduced rate and the lane
count. -/
theorem reduce_link_rate_from_high_rate (h : Hdr) (dp : s5p_dp_device)
    (hrate : dp.link_train.link_rate = h.LINK_RATE_2_70GBPS)
    (hfit : h.LINK_RATE_1_62GBPS < 256) :
    (s5p_dp_reduce_link_rate h dp).link_train
      = { dp.link_train with link_rate := h.LINK_RATE_1_62GBPS, lt_state := .START } ∧
    (s5p_dp_reduce_link_rate h dp).link_train.lane_count = dp.link_train.lane_count ∧
    (s5p_dp_reduce_link_rate h dp).log = dp.log ++ [Event.reduce_link_rate] ∧
    (s5p_dp_reduce_link_rate h dp).tick = dp.tick ∧
    sw_link_training_step h (s5p_dp_reduce_link_rate h dp)
      = s5p_dp_link_start h (s5p_dp_reduce_link_rate h dp) ∧
    (s5p_dp_link_start h (s5p_dp_reduce_link_rate h dp)).link_train.lt_state
      = .CLOCK_RECOVERY ∧
    (s5p_dp_link_start h (s5p_dp_reduce_link_rate h dp)).link_train.eq_loop = 0 ∧
    (∀ lane, lane < dp.link_train.lane_count →
      (s5p_dp_link_start h (s5p_dp_reduce_link_rate h dp)).link_train.cr_loop lane = 0) ∧
    (s5p_dp_link_start h (s5p_dp_reduce_link_rate h dp)).link_train.link_rate
      = h.LINK_RATE_1_62GBPS ∧
    (s5p_dp_link_start h (s5p_dp_reduce_link_rate h dp)).link_train.lane_count
      = dp.link_train.lane_count := by
  have hlt : (s5p_dp_reduce_link_rate h dp).link_train
      = { dp.link_train with link_rate := h.LINK_RATE_1_62GBPS, lt_state := .START } := by
    rw [reduce_link_rate_link_train, if_pos hrate, Nat.mod_eq_of_lt hfit]
  have hlog : (s5p_dp_reduce_link_rate h dp).log = dp.log ++ [Event.reduce_link_rate] ∧
      (s5p_dp_reduce_link_rate h dp).tick = dp.tick := by
    unfold s5p_dp_reduce_link_rate
    simp only [emit_link_train]
    rw [if_pos hrate]
    exact ⟨rfl, rfl⟩
  have hls := link_start_dev h (s5p_dp_reduce_link_rate h dp)
  refine ⟨hlt, ?_, hlog.1, hlog.2, ?_, hls.2.2.2.1, hls.2.2.2.2.2.2.1, ?_, ?_, ?_⟩
  · rw [hlt]
  · unfold sw_link_training_step
    rw [hlt]
  · intro lane hl
    rw [hls.2.2.2.2.2.2.2.2 lane, hlt]
    exact if_pos hl
  · rw [hls.2.2.2.2.1, hlt]
  · rw [hls.2.2.2.2.2.1, hlt]

theorem reduce_link_rate_from_high_rate_witness :
    (s5p_dp_reduce_link_rate sample_hdr
        (device_of (session_of 0x0a 2 .CLOCK_RECOVERY) [])).link_train.link_rate = 0x06 ∧
    (s5p_dp_reduce_link_rate sample_hdr
        (device_of (session_of 0x0a 2 .CLOCK_RECOVERY) [])).link_train.lt_state = .START ∧
    (s5p_dp_reduce_link_rate sample_hdr
        (device_of (session_of 0x0a 2 .CLOCK_RECOVERY) [])).log = [Event.reduce_link_rate] ∧
    (s5p_dp_link_start sample_hdr (s5p_dp_reduce_link_rate sample_hdr
        (device_of (session_of 0x0a 2 .CLOCK_RECOVERY) []))).link_train.lt_state
      = .CLOCK_RECOVERY :=
  have t := reduce_link_rate_from_high_rate sample_hdr
    (device_of (session_of 0x0a 2 .CLOCK_RECOVERY) []) (by decide) (by decide)
  ⟨by rw [t.1]; rfl, by rw [t.1], t.2.2.1, t.2.2.2.2.2.1⟩

theorem or_mod_256 (a b : Nat) : (a % 256 ||| b) % 256 = (a ||| b) % 256 := by
  apply Nat.eq_of_testBit_eq
  intro i
  have e : (256 : Nat) = 2 ^ 8 := by norm_num
  rw [e]
  simp only [Nat.testBit_mod_two_pow, Nat.testBit_or]
  by_cases hi : i < 8 <;> simp [hi]

theorem or_or_mod_256 (a b c : Nat) : (a % 256 ||| b ||| c) % 256 = (a ||| b ||| c) % 256 := by
  apply Nat.eq_of_testBit_eq
  intro i
  have e : (256 : Nat) = 2 ^ 8 := by norm_num
  rw [e]
  simp only [Nat.testBit_mod_two_pow, Nat.testBit_or]
  by_cases hi : i < 8 <;> simp [hi]

theorem for_loop_set_training_lane (f : Nat → Nat) (k : Nat) (dp : s5p_dp_device) (n : Nat) :
    (for_loop (fun lane dp => set_training_lane dp lane (f lane)) k dp).link_train.training_lane n
      = if n < k then f n % 256 else dp.link_train.training_lane n := by
  induction k with
  | zero => simp [for_loop]
  | succ k ih =>
    simp only [for_loop]
    by_cases hn : n = k
    · subst hn
      simp [set_training_lane]
    · have e : (set_training_lane (for_loop (fun lane dp => set_training_lane dp lane (f lane)) k dp)
          k (f k)).link_train.training_lane n
          = (for_loop (fun lane dp => set_training_lane dp lane (f lane)) k
              dp).link_train.training_lane n := by
        simp [set_training_lane, Function.update_noteq hn]
      rw [e, ih]
      by_cases hlt : n < k
      · have : n < k + 1 := by omega
        simp [hlt, this]
      · have : ¬ n < k + 1 := by omega
        simp [hlt, this]

theorem get_adjust_train_training_lane (h : Hdr) (dp : s5p_dp_device)
    (adjust_request : Nat → Nat) (n : Nat) :
    (s5p_dp_get_adjust_train h dp adjust_request).link_train.training_lane n =
      if n < dp.link_train.lane_count then
        (if s5p_dp_get_adjust_request_voltage adjust_request n = h.VOLTAGE_LEVEL_3 ∨
            s5p_dp_get_adjust_request_pre_emphasis adjust_request n = h.PRE_EMPHASIS_LEVEL_3 then
          h.DPCD_VOLTAGE_SWING_SET (s5p_dp_get_adjust_request_voltage adjust_request n) |||
            h.DPCD_PRE_EMPHASIS_SET (s5p_dp_get_adjust_request_pre_emphasis adjust_request n) |||
            h.DPCD_MAX_SWING_REACHED ||| h.DPCD_MAX_PRE_EMPHASIS_REACHED
        else
          h.DPCD_VOLTAGE_SWING_SET (s5p_dp_get_adjust_request_voltage adjust_request n) |||
            h.DPCD_PRE_EMPHASIS_SET (s5p_dp_get_adjust_request_pre_emphasis adjust_request n))
          % 256
      else dp.link_train.training_lane n := by
  unfold s5p_dp_get_adjust_train
  simp only []
  rw [for_loop_set_training_lane]
  split_ifs
  · simp only [Nat.mod_mod, or_mod_256, or_or_mod_256]
  · simp only [Nat.mod_mod]
  · rfl

/-- C17. Adjust-train targets: after `s5p_dp_get_adjust_train`, for every lane
`n < lane_count`, with `v` and `p` the voltage swing and pre-emphasis the adjust request
holds for lane `n`, the stored `training_lane[n]` is the byte
`DPCD_VOLTAGE_SWING_SET(v) | DPCD_PRE_EMPHASIS_SET(p)`, with both
`DPCD_MAX_SWING_REACHED` and `DPCD_MAX_PRE_EMPHASIS_REACHED` or-ed in when `v` is
`VOLTAGE_LEVEL_3` or `p` is `PRE_EMPHASIS_LEVEL_3`, and with neither or-ed in
otherwise; the entries of the lanes from `lane_count` on, and every other field of the
session, are unchanged. -/
theorem get_adjust_train_targets (h : Hdr) (dp : s5p_dp_device) (adjust_request : Nat → Nat) :
    (∀ n, n < dp.link_train.lane_count →
      ((s5p_dp_get_adjust_request_voltage adjust_request n = h.VOLTAGE_LEVEL_3 ∨
          s5p_dp_get_adjust_request_pre_emphasis adjust_request n = h.PRE_EMPHASIS_LEVEL_3) →
        (s5p_dp_get_adjust_train h dp adjust_request).link_train.training_lane n
          = (h.DPCD_VOLTAGE_SWING_SET (s5p_dp_get_adjust_request_voltage adjust_request n) |||
              h.DPCD_PRE_EMPHASIS_SET (s5p_dp_get_adjust_request_pre_emphasis adjust_request n) |||
              h.DPCD_MAX_SWING_REACHED ||| h.DPCD_MAX_PRE_EMPHASIS_REACHED) % 256) ∧
      (¬ (s5p_dp_get_adjust_request_voltage adjust_request n = h.VOLTAGE_LEVEL_3 ∨
          s5p_dp_get_adjust_request_pre_emphasis adjust_request n = h.PRE_EMPHASIS_LEVEL_3) →
        (s5p_dp_get_adjust_train h dp adjust_request).link_train.training_lane n
          = (h.DPCD_VOLTAGE_SWING_SET (s5p_dp_get_adjust_request_voltage adjust_request n) |||
              h.DPCD_PRE_EMPHASIS_SET (s5p_dp_get_adjust_request_pre_emphasis adjust_request n))
              % 256)) ∧
    (∀ n, dp.link_train.lane_count ≤ n →
      (s5p_dp_get_adjust_train h dp adjust_request).link_train.training_lane n
        = dp.link_train.training_lane n) ∧
    (s5p_dp_get_adjust_train h dp adjust_request).link_train.cr_loop = dp.link_train.cr_loop ∧
    (s5p_dp_get_adjust_train h dp adjust_request).link_train.lane_count
      = dp.link_train.lane_count := by
  refine ⟨?_, ?_, (get_adjust_train_dev h dp adjust_request).2.2.2.2.2.2.2,
    (get_adjust_train_dev h dp adjust_request).2.2.2.2.2.1⟩
  · intro n hn
    rw [get_adjust_train_training_lane, if_pos hn]
    constructor
    · intro hc
      rw [if_pos hc]
    · intro hc
      rw [if_neg hc]
  · intro n hn
    rw [get_adjust_train_training_lane, if_neg (by omega)]

theorem get_adjust_train_targets_witness :
    (s5p_dp_get_adjust_train sample_hdr (device_of (session_of 0x0a 2 .CLOCK_RECOVERY) [])
        (block_of [0x13, 0x00])).link_train.training_lane 0 = 0x27 ∧
    (s5p_dp_get_adjust_train sample_hdr (device_of (session_of 0x0a 2 .CLOCK_RECOVERY) [])
        (block_of [0x13, 0x00])).link_train.training_lane 1 = 0x01 :=
  ⟨((get_adjust_train_targets sample_hdr (device_of (session_of 0x0a 2 .CLOCK_RECOVERY) [])
      (block_of [0x13, 0x00])).1 0 (by decide)).1 (by decide),
   ((get_adjust_train_targets sample_hdr (device_of (session_of 0x0a 2 .CLOCK_RECOVERY) [])
      (block_of [0x13, 0x00])).1 1 (by decide)).2 (by decide)⟩

/-- C18 at a failing input.  With the sample header and source maxima of 4 lanes and rate
`0x0a`, a sink whose `DPCD_ADDR_MAX_LANE_COUNT` byte is `0x03` is trained with
`lane_count = 3`, which is none of 1, 2, 4: the only lane count `s5p_dp_init_training`
replaces is 0. -/
theorem init_training_three_lanes :
    (s5p_dp_init_training sample_hdr (scripted_device [⟨0, [0x0a]⟩, ⟨0, [0x03]⟩])
      4 0x0a).link_train.lane_count = 3 := by
  decide

/-- C19. Legal link rates: for a source maximum `max_rate` that is `LINK_RATE_1_62GBPS` or
`LINK_RATE_2_70GBPS` (both fitting the `u8` field) and every byte the sink returns for its
maximum link rate, `link_rate` after `s5p_dp_init_training` is `LINK_RATE_1_62GBPS` or
`LINK_RATE_2_70GBPS`.  A sink rate byte that is neither of the two is replaced by
`LINK_RATE_1_62GBPS` before the source maximum is applied, and a sink lane count of 0 is
replaced by `LANE_COUNT1`, which is 1, before the source maximum is applied: the results
are those of clamping `LINK_RATE_1_62GBPS` to `max_rate` and 1 to `max_lane`. -/
theorem init_training_link_rate_legal (h : Hdr) (dp : s5p_dp_device) (max_lane max_rate : Nat)
    (hmax : max_rate = h.LINK_RATE_1_62GBPS ∨ max_rate = h.LINK_RATE_2_70GBPS)
    (h162 : h.LINK_RATE_1_62GBPS < 256) (h270 : h.LINK_RATE_2_70GBPS < 256)
    (hl1 : h.LANE_COUNT1 = 1) :
    ((s5p_dp_init_training h dp max_lane max_rate).link_train.link_rate = h.LINK_RATE_1_62GBPS ∨
      (s5p_dp_init_training h dp max_lane max_rate).link_train.link_rate
        = h.LINK_RATE_2_70GBPS) ∧
    (((dp.aux dp.tick).data.getD 0 0 % 256 ≠ h.LINK_RATE_1_62GBPS ∧
        (dp.aux dp.tick).data.getD 0 0 % 256 ≠ h.LINK_RATE_2_70GBPS) →
      (s5p_dp_init_training h dp max_lane max_rate).link_train.link_rate
        = if h.LINK_RATE_1_62GBPS > max_rate then max_rate else h.LINK_RATE_1_62GBPS) ∧
    (h.DPCD_MAX_LANE_COUNT ((dp.aux (dp.tick + 1)).data.getD 0 0 % 256) % 256 = 0 →
      (s5p_dp_init_training h dp max_lane max_rate).link_train.lane_count
        = if 1 > max_lane then max_lane % 256 else 1) := by
  have hm : max_rate % 256 = max_rate := by
    rcases hmax with hm | hm <;> rw [hm] <;> exact Nat.mod_eq_of_lt (by assumption)
  refine ⟨?_, ?_, ?_⟩
  · rw [init_training_link_rate]
    simp only [Nat.mod_eq_of_lt h162, hm]
    split_ifs with h1 h2 h3
    · exact hmax
    · exact Or.inl rfl
    · exact hmax
    · by_cases ha : (dp.aux dp.tick).data.getD 0 0 % 256 = h.LINK_RATE_1_62GBPS
      · exact Or.inl ha
      · by_cases hb : (dp.aux dp.tick).data.getD 0 0 % 256 = h.LINK_RATE_2_70GBPS
        · exact Or.inr hb
        · exact absurd ⟨ha, hb⟩ h1
  · intro hab
    rw [init_training_link_rate]
    simp only [Nat.mod_eq_of_lt h162, hm, if_pos hab]
  · intro hc
    rw [init_training_lane_count]
    simp only [hc, if_true, hl1]

theorem init_training_link_rate_legal_witness :
    (s5p_dp_init_training sample_hdr (scripted_device [⟨0, [0x14]⟩, ⟨0, [0x80]⟩])
        4 0x0a).link_train.link_rate = 0x06 ∧
    (s5p_dp_init_training sample_hdr (scripted_device [⟨0, [0x14]⟩, ⟨0, [0x80]⟩])
        4 0x0a).link_train.lane_count = 1 :=
  ⟨(init_training_link_rate_legal sample_hdr (scripted_device [⟨0, [0x14]⟩, ⟨0, [0x80]⟩])
      4 0x0a (by decide) (by decide) (by decide) (by decide)).2.1 (by decide),
   (init_training_link_rate_legal sample_hdr (scripted_device [⟨0, [0x14]⟩, ⟨0, [0x80]⟩])
      4 0x0a (by decide) (by decide) (by decide) (by decide)).2.2 (by decide)⟩

/-! ## DPCD writes and transfer failures of the EDID read -/

theorem dpcd_writes_append (l1 l2 : List Event) :
    dpcd_writes (l1 ++ l2) = dpcd_writes l1 ++ dpcd_writes l2 := by
  simp [dpcd_writes]

/-- C11. DPCD writes of `s5p_dp_read_edid` (for a header with `EDID_HEADER_PATTERN = 0`, the
checksum offset inside a block, and `EIO` nonzero).  Let the extension flag be the value the
first I2C read delivers, the last validated block be block 1 when the flag is nonzero and
block 0 otherwise, and the test vector be the byte the `DPCD_ADDR_TEST_REQUEST` read
delivers.  When the result is 0 (every block that had to be validated was read and summed to
zero) and the test vector has `DPCD_TEST_EDID_READ` set, the function adds exactly two writes
to the DPCD writes of the log, in this order: the byte at offset `EDID_CHECKSUM` of the last
validated block to `DPCD_ADDR_TEST_EDID_CHECKSUM`, then `DPCD_TEST_EDID_CHECKSUM_WRITE` to
`DPCD_ADDR_TEST_RESPONSE`.  When the result is nonzero, and when the test bit is clear, it
adds no DPCD write. -/
theorem read_edid_dpcd_writes (h : Hdr) (dp : s5p_dp_device) (hhp : h.EDID_HEADER_PATTERN = 0)
    (hck : h.EDID_CHECKSUM < h.EDID_BLOCK_LENGTH) (hE : h.EIO ≠ 0) :
    (((s5p_dp_read_edid h dp).1 = 0 ∧
        ((dp.aux (dp.tick + (if (dp.aux dp.tick).data.getD 0 0 % 2 ^ 32 > 0 then 3 else 2))).data.getD
            0 0 % 256) &&& h.DPCD_TEST_EDID_READ ≠ 0) →
      dpcd_writes (s5p_dp_read_edid h dp).2.log = dpcd_writes dp.log ++
        [Event.write_byte_to_dpcd h.DPCD_ADDR_TEST_EDID_CHECKSUM
            (answer_block dp
              (dp.tick + (if (dp.aux dp.tick).data.getD 0 0 % 2 ^ 32 > 0 then 2 else 1))
              h.EDID_CHECKSUM),
         Event.write_byte_to_dpcd h.DPCD_ADDR_TEST_RESPONSE
            (h.DPCD_TEST_EDID_CHECKSUM_WRITE % 256)]) ∧
    ((s5p_dp_read_edid h dp).1 ≠ 0 →
      dpcd_writes (s5p_dp_read_edid h dp).2.log = dpcd_writes dp.log) ∧
    (((dp.aux (dp.tick + (if (dp.aux dp.tick).data.getD 0 0 % 2 ^ 32 > 0 then 3 else 2))).data.getD
          0 0 % 256) &&& h.DPCD_TEST_EDID_READ = 0 →
      dpcd_writes (s5p_dp_read_edid h dp).2.log = dpcd_writes dp.log) := by
  have hr := read_edid_retval h dp hhp
  have hl := (read_edid_log h dp hhp hck).1
  have hne : -h.EIO ≠ 0 := by simpa using hE
  generalize (s5p_dp_read_edid h dp).1 = ret at hr ⊢
  generalize (s5p_dp_read_edid h dp).2.log = lg at hl ⊢
  subst hr hl
  simp only [dpcd_writes_append]
  by_cases a1 : (dp.aux (dp.tick + 1)).retval = 0 <;>
  by_cases s1 : s5p_dp_calc_edid_check_sum h (answer_block dp (dp.tick + 1)) = 0 <;>
  by_cases f : (dp.aux dp.tick).data.getD 0 0 % 2 ^ 32 > 0 <;>
  by_cases a2 : (dp.aux (dp.tick + 2)).retval = 0 <;>
  by_cases s2 : s5p_dp_calc_edid_check_sum h (answer_block dp (dp.tick + 2)) = 0 <;>
  simp only [a1, s1, f, a2, s2, ne_eq, not_true_eq_false, not_false_eq_true, if_true, if_false,
    or_self, or_true, true_or, hne, false_and, and_false, true_and, and_true, false_implies,
    implies_true, dpcd_writes, List.filter_nil, List.append_nil, List.filter_cons,
    Event.is_dpcd_write, Bool.false_eq_true] <;>
  (refine ⟨?_, ?_⟩ <;> intro hb <;>
    simp only [hb, if_true, if_false, List.filter_cons, List.filter_nil, Event.is_dpcd_write,
      not_true_eq_false, not_false_eq_true, List.append_nil])

theorem read_edid_dpcd_writes_witness :
    dpcd_writes (s5p_dp_read_edid sample_hdr
        (scripted_device [⟨0, [0]⟩, ⟨0, 0x10 :: (List.replicate 126 0 ++ [0xf0])⟩, ⟨0, [0x04]⟩])).2.log
      = [Event.write_byte_to_dpcd 0x0261 0xf0, Event.write_byte_to_dpcd 0x0260 0x04] :=
  (read_edid_dpcd_writes sample_hdr
      (scripted_device [⟨0, [0]⟩, ⟨0, 0x10 :: (List.replicate 126 0 ++ [0xf0])⟩, ⟨0, [0x04]⟩])
      (by decide) (by decide) (by decide)).1 ⟨by decide, by decide⟩

/-- C12 (as stated) fails.  With the sample header, an extension flag of 0 and a block 0
that is read and sums to zero: when the `DPCD_ADDR_TEST_REQUEST` read fails (returns `-5`),
`s5p_dp_read_edid` returns 0; and when that read succeeds with `DPCD_TEST_EDID_READ` set and
both DPCD writes fail (return `-5`), it returns 0 as well, after issuing both writes. -/
theorem read_edid_zero_after_failed_dpcd_transfer :
    (s5p_dp_read_edid sample_hdr
        (scripted_device [⟨0, [0]⟩, ⟨0, [0x02, 0xfe]⟩, ⟨-5, []⟩])).1 = 0 ∧
    (s5p_dp_read_edid sample_hdr
        (scripted_device [⟨0, [0]⟩, ⟨0, [0x02, 0xfe]⟩, ⟨0, [0x04]⟩, ⟨-5, []⟩, ⟨-5, []⟩])).1 = 0 ∧
    dpcd_writes (s5p_dp_read_edid sample_hdr
        (scripted_device [⟨0, [0]⟩, ⟨0, [0x02, 0xfe]⟩, ⟨0, [0x04]⟩, ⟨-5, []⟩, ⟨-5, []⟩])).2.log
      = [Event.write_byte_to_dpcd 0x0261 0, Event.write_byte_to_dpcd 0x0260 0x04] := by
  decide

/-- C12 (amended).  For a header with `EDID_HEADER_PATTERN = 0` and `EIO` nonzero: whenever
a block read issued by `s5p_dp_read_edid` fails (the read of block 0, or the read of block 1
when the extension flag is nonzero and block 0 was read and sums to zero), the function
returns `-EIO`, which is nonzero.  The results of the `DPCD_ADDR_TEST_REQUEST` read and of
the two DPCD writes are not examined: once the extension flag is read and every block that
has to be validated is read and sums to zero, the function returns 0 whatever those
transfers return. -/
theorem read_edid_block_read_failure (h : Hdr) (dp : s5p_dp_device)
    (hhp : h.EDID_HEADER_PATTERN = 0) (hE : h.EIO ≠ 0) :
    ((dp.aux (dp.tick + 1)).retval ≠ 0 →
      (s5p_dp_read_edid h dp).1 = -h.EIO ∧ (s5p_dp_read_edid h dp).1 ≠ 0) ∧
    ((dp.aux dp.tick).data.getD 0 0 % 2 ^ 32 > 0 →
      (dp.aux (dp.tick + 1)).retval = 0 →
      s5p_dp_calc_edid_check_sum h (answer_block dp (dp.tick + 1)) = 0 →
      (dp.aux (dp.tick + 2)).retval ≠ 0 →
      (s5p_dp_read_edid h dp).1 = -h.EIO ∧ (s5p_dp_read_edid h dp).1 ≠ 0) ∧
    ((dp.aux dp.tick).retval = 0 →
      (dp.aux (dp.tick + 1)).retval = 0 →
      s5p_dp_calc_edid_check_sum h (answer_block dp (dp.tick + 1)) = 0 →
      ((dp.aux dp.tick).data.getD 0 0 % 2 ^ 32 > 0 →
        (dp.aux (dp.tick + 2)).retval = 0 ∧
        s5p_dp_calc_edid_check_sum h (answer_block dp (dp.tick + 2)) = 0) →
      (s5p_dp_read_edid h dp).1 = 0) := by
  have hr := read_edid_retval h dp hhp
  have hne : -h.EIO ≠ 0 := by simpa using hE
  generalize (s5p_dp_read_edid h dp).1 = ret at hr ⊢
  subst hr
  refine ⟨?_, ?_, ?_⟩
  · intro a1
    rw [if_pos a1]
    exact ⟨rfl, hne⟩
  · intro f a1 s1 a2
    rw [if_neg (not_not.mpr a1), if_neg (not_not.mpr s1), if_pos f, if_pos a2]
    exact ⟨rfl, hne⟩
  · intro _ a1 s1 hf
    rw [if_neg (not_not.mpr a1), if_neg (not_not.mpr s1)]
    by_cases f : (dp.aux dp.tick).data.getD 0 0 % 2 ^ 32 > 0
    · rw [if_pos f, if_neg (not_not.mpr (hf f).1), if_neg (not_not.mpr (hf f).2)]
    · rw [if_neg f]

theorem read_edid_block_read_failure_witness :
    (s5p_dp_read_edid sample_hdr
        (scripted_device [⟨0, [1]⟩, ⟨0, [0x02, 0xfe]⟩, ⟨-5, [0x02, 0xfe]⟩])).1 = -5 ∧
    (s5p_dp_read_edid sample_hdr
        (scripted_device [⟨0, [1]⟩, ⟨0, [0x02, 0xfe]⟩, ⟨-5, [0x02, 0xfe]⟩])).1 ≠ 0 :=
  (read_edid_block_read_failure sample_hdr
      (scripted_device [⟨0, [1]⟩, ⟨0, [0x02, 0xfe]⟩, ⟨-5, [0x02, 0xfe]⟩])
      (by decide) (by decide)).2.1 (by decide) (by decide) (by decide) (by decide)

/-! ## The retry branch of clock recovery -/

theorem process_clock_recovery_eq (h : Hdr) (dp : s5p_dp_device) :
    s5p_dp_process_clock_recovery h dp =
      (let dp := udelay dp 100
       let (_, link_status, dp) := s5p_dp_read_bytes_from_dpcd dp h.DPCD_ADDR_LANE0_1_STATUS 6
       let lane_count := dp.link_train.lane_count
       if s5p_dp_clock_recovery_ok h link_status lane_count = 0 then
         let dp := s5p_dp_set_training_pattern dp h.TRAINING_PTN2
         let adjust_request := arr2 (link_status 4) (link_status 5)
         let dp := s5p_dp_get_adjust_train h dp adjust_request
         let buf0 := (h.DPCD_SCRAMBLING_DISABLED ||| h.DPCD_TRAINING_PATTERN_2) % 256
         let (_, dp) := s5p_dp_write_byte_to_dpcd dp h.DPCD_ADDR_TRAINING_LANE0_SET buf0
         let dp := write_training_lanes h dp lane_count
         (0, set_lt_state dp .EQUALIZER_TRAINING)
       else
         let (_, data0, dp) := s5p_dp_read_byte_from_dpcd dp h.DPCD_ADDR_ADJUST_REQUEST_LANE0_1
         let (_, data1, dp) := s5p_dp_read_byte_from_dpcd dp h.DPCD_ADDR_ADJUST_REQUEST_LANE2_3
         let adjust_request := arr2 data0 data1
         let (dp, voltage_swing) :=
           for_loop (clock_recovery_lane_body h adjust_request) lane_count (dp, 0)
         if s5p_dp_check_max_cr_loop h dp voltage_swing ≠ 0 then
           (0, s5p_dp_reduce_link_rate h dp)
         else
           let dp := s5p_dp_get_adjust_train h dp adjust_request
           (0, write_training_lanes h dp lane_count)) := rfl

theorem get_lane_link_training_val (dp : s5p_dp_device) (lane : Nat) :
    (s5p_dp_get_lane_link_training dp lane).1
      = (if lane < 4 then (dp.aux dp.tick).data.getD 0 0 % 2 ^ 32 else 0) ∧
    (s5p_dp_get_lane_link_training dp lane).2.log
      = dp.log ++ (if lane < 4 then [Event.get_lane_link_training lane] else []) := by
  unfold s5p_dp_get_lane_link_training
  split
  · exact ⟨rfl, rfl⟩
  · exact ⟨rfl, rfl⟩
  · exact ⟨rfl, rfl⟩
  · exact ⟨rfl, rfl⟩
  · rename_i h0 h1 h2 h3
    have e0 : lane ≠ 0 := fun hc => h0 hc
    have e1 : lane ≠ 1 := fun hc => h1 hc
    have e2 : lane ≠ 2 := fun hc => h2 hc
    have e3 : lane ≠ 3 := fun hc => h3 hc
    have : ¬ lane < 4 := by omega
    simp [this]

theorem clock_recovery_lane_body_dev (h : Hdr) (adj : Nat → Nat) (lane : Nat)
    (st : s5p_dp_device × Nat) :
    (clock_recovery_lane_body h adj lane st).1.aux = st.1.aux ∧
    (clock_recovery_lane_body h adj lane st).1.tick = st.1.tick + (if lane < 4 then 1 else 0) ∧
    (clock_recovery_lane_body h adj lane st).1.link_train.lt_state = st.1.link_train.lt_state ∧
    (clock_recovery_lane_body h adj lane st).1.link_train.link_rate
      = st.1.link_train.link_rate ∧
    (clock_recovery_lane_body h adj lane st).1.link_train.lane_count
      = st.1.link_train.lane_count ∧
    (clock_recovery_lane_body h adj lane st).1.link_train.eq_loop = st.1.link_train.eq_loop ∧
    (clock_recovery_lane_body h adj lane st).1.link_train.cr_loop
      = (if h.DPCD_VOLTAGE_SWING_GET
              ((if lane < 4 then (st.1.aux st.1.tick).data.getD 0 0 % 2 ^ 32 else 0) % 256)
            = s5p_dp_get_adjust_request_voltage adj lane ∧
          h.DPCD_PRE_EMPHASIS_GET
              ((if lane < 4 then (st.1.aux st.1.tick).data.getD 0 0 % 2 ^ 32 else 0) % 256)
            = s5p_dp_get_adjust_request_pre_emphasis adj lane then
          Function.update st.1.link_train.cr_loop lane (st.1.link_train.cr_loop lane + 1)
        else st.1.link_train.cr_loop) ∧
    (clock_recovery_lane_body h adj lane st).1.link_train.training_lane
      = Function.update st.1.link_train.training_lane lane
          ((if lane < 4 then (st.1.aux st.1.tick).data.getD 0 0 % 2 ^ 32 else 0) % 256) ∧
    (clock_recovery_lane_body h adj lane st).2 = s5p_dp_get_adjust_request_voltage adj lane := by
  have hv := (get_lane_link_training_val st.1 lane).1
  have hd := get_lane_link_training_dev st.1 lane
  unfold clock_recovery_lane_body
  simp only [hv]
  by_cases hl : lane < 4
  · simp only [hl, if_true] at hd ⊢
    split_ifs <;>
      simp [set_training_lane, set_cr_loop, hd.1, hd.2.1, hd.2.2.1, Nat.mod_mod]
  · simp only [hl, if_false] at hd ⊢
    split_ifs <;>
      simp [set_training_lane, set_cr_loop, hd.1, hd.2.1, hd.2.2.1, Nat.mod_mod]
theorem clock_recovery_lane_loop_state (h : Hdr) (adj : Nat → Nat) (n : Nat)
    (d : s5p_dp_device) (v : Nat) :
    (for_loop (clock_recovery_lane_body h adj) n (d, v)).1.aux = d.aux ∧
    (for_loop (clock_recovery_lane_body h adj) n (d, v)).1.tick = d.tick + min n 4 ∧
    (for_loop (clock_recovery_lane_body h adj) n (d, v)).1.link_train.lt_state
      = d.link_train.lt_state ∧
    (for_loop (clock_recovery_lane_body h adj) n (d, v)).1.link_train.link_rate
      = d.link_train.link_rate ∧
    (for_loop (clock_recovery_lane_body h adj) n (d, v)).1.link_train.lane_count
      = d.link_train.lane_count ∧
    (for_loop (clock_recovery_lane_body h adj) n (d, v)).1.link_train.eq_loop
      = d.link_train.eq_loop ∧
    (∀ i, (for_loop (clock_recovery_lane_body h adj) n (d, v)).1.link_train.cr_loop i
      = if i < n ∧ (h.DPCD_VOLTAGE_SWING_GET (lane_readback d d.tick i)
              = s5p_dp_get_adjust_request_voltage adj i ∧
            h.DPCD_PRE_EMPHASIS_GET (lane_readback d d.tick i)
              = s5p_dp_get_adjust_request_pre_emphasis adj i) then
          d.link_train.cr_loop i + 1
        else d.link_train.cr_loop i) ∧
    (∀ i, (for_loop (clock_recovery_lane_body h adj) n (d, v)).1.link_train.training_lane i
      = if i < n then lane_readback d d.tick i else d.link_train.training_lane i) ∧
    (for_loop (clock_recovery_lane_body h adj) n (d, v)).2
      = if n = 0 then v else s5p_dp_get_adjust_request_voltage adj (n - 1) := by
  induction n with
  | zero => simp [for_loop]
  | succ n ih =>
    obtain ⟨ia, it, is, ir, il, ie, ic, itl, _⟩ := ih
    have hb := clock_recovery_lane_body_dev h adj n
      (for_loop (clock_recovery_lane_body h adj) n (d, v))
    obtain ⟨ba, bt, bs, br, bl, be, bc, btl, bv⟩ := hb
    have hrb : (if n < 4 then ((for_loop (clock_recovery_lane_body h adj) n (d, v)).1.aux
          (for_loop (clock_recovery_lane_body h adj) n (d, v)).1.tick).data.getD 0 0 % 2 ^ 32
        else 0) % 256 = lane_readback d d.tick n := by
      unfold lane_readback
      by_cases hn : n < 4
      · have hm : min n 4 = n := by omega
        simp only [hn, if_true, ia, it, hm]
      · simp only [hn, if_false]
    rw [hrb] at bc btl
    simp only [for_loop]
    refine ⟨ba.trans ia, ?_, bs.trans is, br.trans ir, bl.trans il, be.trans ie, ?_, ?_, ?_⟩
    · rw [bt, it]
      by_cases hn : n < 4
      · have h1 : min n 4 = n := by omega
        have h2 : min (n + 1) 4 = n + 1 := by omega
        simp only [hn, h1, h2, if_true]
        omega
      · have h1 : min n 4 = 4 := by omega
        have h2 : min (n + 1) 4 = 4 := by omega
        simp [hn, h1, h2]
    · intro i
      rw [bc]
      by_cases hi : i = n
      · subst hi
        have e := ic i
        simp only [lt_irrefl, false_and, if_false] at e
        split_ifs with hc hc2 hc2
        · simp [e]
        · exact absurd ⟨Nat.lt_succ_self i, hc⟩ hc2
        · exact absurd hc2.2 hc
        · exact e
      · have hlt : i < n + 1 ↔ i < n := by omega
        split_ifs with hc hc2 hc2
        · rw [Function.update_noteq hi, ic i, if_pos ⟨hlt.mp hc2.1, hc2.2⟩]
        · rw [Function.update_noteq hi, ic i, if_neg (fun hx => hc2 ⟨hlt.mpr hx.1, hx.2⟩)]
        · rw [ic i, if_pos ⟨hlt.mp hc2.1, hc2.2⟩]
        · rw [ic i, if_neg (fun hx => hc2 ⟨hlt.mpr hx.1, hx.2⟩)]
    · intro i
      rw [btl]
      by_cases hi : i = n
      · subst hi
        simp
      · have hlt : i < n + 1 ↔ i < n := by omega
        rw [Function.update_noteq hi, itl i]
        simp only [hlt]
    · rw [bv]
      simp
theorem check_max_cr_loop_ne_zero_iff (h : Hdr) (hE : h.EINVAL ≠ 0) (dp : s5p_dp_device)
    (v : Nat) :
    s5p_dp_check_max_cr_loop h dp v ≠ 0 ↔
      ∃ lane, lane < dp.link_train.lane_count ∧
        (v = h.VOLTAGE_LEVEL_3 ∨ dp.link_train.cr_loop lane = h.MAX_CR_LOOP) := by
  unfold s5p_dp_check_max_cr_loop
  cases hf : for_return (fun lane =>
      if v = h.VOLTAGE_LEVEL_3 ∨ dp.link_train.cr_loop lane = h.MAX_CR_LOOP then
        some (-h.EINVAL)
      else none) dp.link_train.lane_count 0 with
  | none =>
    simp only [hf, ne_eq, not_true_eq_false, false_iff, not_exists, not_and]
    intro lane hl hc
    have := (for_return_eq_none_iff _ _ _).1 hf lane hl
    simp only [Nat.zero_add] at this
    simp [hc] at this
  | some r =>
    simp only [hf]
    obtain ⟨k, hk, hbk⟩ := for_return_eq_some _ _ _ _ hf
    simp only [Nat.zero_add] at hbk
    by_cases hc : v = h.VOLTAGE_LEVEL_3 ∨ dp.link_train.cr_loop k = h.MAX_CR_LOOP
    · simp only [hc, if_true, Option.some.injEq] at hbk
      constructor
      · intro _
        exact ⟨k, hk, hc⟩
      · intro _
        rw [← hbk]
        simpa using hE
    · simp [hc] at hbk

theorem reduce_link_rate_fields (h : Hdr) (dp : s5p_dp_device) :
    (s5p_dp_reduce_link_rate h dp).link_train.lt_state
      = (if dp.link_train.link_rate = h.LINK_RATE_2_70GBPS then .START else .FAILED) ∧
    (s5p_dp_reduce_link_rate h dp).link_train.link_rate
      = (if dp.link_train.link_rate = h.LINK_RATE_2_70GBPS then h.LINK_RATE_1_62GBPS % 256
         else dp.link_train.link_rate) ∧
    (s5p_dp_reduce_link_rate h dp).link_train.lane_count = dp.link_train.lane_count ∧
    (s5p_dp_reduce_link_rate h dp).link_train.eq_loop = dp.link_train.eq_loop ∧
    (s5p_dp_reduce_link_rate h dp).link_train.cr_loop = dp.link_train.cr_loop ∧
    (s5p_dp_reduce_link_rate h dp).link_train.training_lane = dp.link_train.training_lane := by
  rw [reduce_link_rate_link_train]
  split_ifs <;> exact ⟨rfl, rfl, rfl, rfl, rfl, rfl⟩

theorem clock_recovery_lane_loop_marks (h : Hdr) (adj : Nat → Nat) (n : Nat)
    (d : s5p_dp_device) (v : Nat) :
    marks (for_loop (clock_recovery_lane_body h adj) n (d, v)).1.log = marks d.log :=
  (clock_recovery_lane_loop_dev h adj n d v).2

theorem process_clock_recovery_retry_dev (h : Hdr) (dp : s5p_dp_device) (hE : h.EINVAL ≠ 0)
    (hnot : s5p_dp_clock_recovery_ok h (status_block dp) dp.link_train.lane_count ≠ 0) :
    (s5p_dp_process_clock_recovery h dp).2.aux = dp.aux ∧
    (s5p_dp_process_clock_recovery h dp).2.link_train.cr_loop = cr_loop_after h dp ∧
    (s5p_dp_process_clock_recovery h dp).2.link_train.eq_loop = dp.link_train.eq_loop ∧
    (s5p_dp_process_clock_recovery h dp).2.link_train.lane_count = dp.link_train.lane_count ∧
    (cr_limit_hit h dp = true →
      (s5p_dp_process_clock_recovery h dp).2.link_train.lt_state
        = (if dp.link_train.link_rate = h.LINK_RATE_2_70GBPS then .START else .FAILED) ∧
      (s5p_dp_process_clock_recovery h dp).2.link_train.link_rate
        = (if dp.link_train.link_rate = h.LINK_RATE_2_70GBPS then h.LINK_RATE_1_62GBPS % 256
           else dp.link_train.link_rate) ∧
      marks (s5p_dp_process_clock_recovery h dp).2.log
        = ((marks dp.log).1, (marks dp.log).2 + 1) ∧
      (∀ i, (s5p_dp_process_clock_recovery h dp).2.link_train.training_lane i
        = if i < dp.link_train.lane_count then lane_readback dp (dp.tick + 3) i
          else dp.link_train.training_lane i)) ∧
    (cr_limit_hit h dp = false →
      (s5p_dp_process_clock_recovery h dp).2.link_train.lt_state = dp.link_train.lt_state ∧
      (s5p_dp_process_clock_recovery h dp).2.link_train.link_rate = dp.link_train.link_rate ∧
      (s5p_dp_process_clock_recovery h dp).2.tick
        = dp.tick + 3 + min dp.link_train.lane_count 4 + dp.link_train.lane_count ∧
      marks (s5p_dp_process_clock_recovery h dp).2.log = marks dp.log ∧
      (∀ i, (s5p_dp_process_clock_recovery h dp).2.link_train.training_lane i
        = if i < dp.link_train.lane_count then adjust_target h (cr_adjust_request dp) i
          else dp.link_train.training_lane i)) := by
  have hblk : (s5p_dp_read_bytes_from_dpcd (udelay dp 100) h.DPCD_ADDR_LANE0_1_STATUS 6).2.1
      = status_block dp := rfl
  have hlc : (s5p_dp_read_bytes_from_dpcd (udelay dp 100)
      h.DPCD_ADDR_LANE0_1_STATUS 6).2.2.link_train.lane_count = dp.link_train.lane_count := rfl
  -- the device on which the per-lane loop starts
  obtain ⟨dA, hdA⟩ : ∃ dA, dA = (s5p_dp_read_byte_from_dpcd (s5p_dp_read_byte_from_dpcd
      (s5p_dp_read_bytes_from_dpcd (udelay dp 100) h.DPCD_ADDR_LANE0_1_STATUS 6).2.2
      h.DPCD_ADDR_ADJUST_REQUEST_LANE0_1).2.2 h.DPCD_ADDR_ADJUST_REQUEST_LANE2_3).2.2 := ⟨_, rfl⟩
  have hAaux : dA.aux = dp.aux := by rw [hdA]; rfl
  have hAtick : dA.tick = dp.tick + 3 := by rw [hdA]; rfl
  have hAlt : dA.link_train = dp.link_train := by rw [hdA]; rfl
  have hAmarks : marks dA.log = marks dp.log := by
    rw [hdA]
    simp only [(read_byte_from_dpcd_dev _ _).2.2.2.1, (read_bytes_from_dpcd_dev _ _ _).2.2.1,
      udelay, emit_log, marks_append_one]
    simp
  have hunf : s5p_dp_process_clock_recovery h dp =
      (if s5p_dp_check_max_cr_loop h
            (for_loop (clock_recovery_lane_body h (cr_adjust_request dp))
              dp.link_train.lane_count (dA, 0)).1
            (for_loop (clock_recovery_lane_body h (cr_adjust_request dp))
              dp.link_train.lane_count (dA, 0)).2 ≠ 0 then
          (0, s5p_dp_reduce_link_rate h
            (for_loop (clock_recovery_lane_body h (cr_adjust_request dp))
              dp.link_train.lane_count (dA, 0)).1)
        else
          (0, write_training_lanes h (s5p_dp_get_adjust_train h
            (for_loop (clock_recovery_lane_body h (cr_adjust_request dp))
              dp.link_train.lane_count (dA, 0)).1 (cr_adjust_request dp))
            dp.link_train.lane_count)) := by
    rw [process_clock_recovery_eq, hdA]
    simp only [hblk, hlc, if_neg hnot]
    rfl
  obtain ⟨la, lt, ls, lr, ll, le, lc, ltl, lv⟩ := clock_recovery_lane_loop_state h
    (cr_adjust_request dp) dp.link_train.lane_count dA 0
  have lm := clock_recovery_lane_loop_marks h (cr_adjust_request dp) dp.link_train.lane_count dA 0
  generalize for_loop (clock_recovery_lane_body h (cr_adjust_request dp))
    dp.link_train.lane_count (dA, 0) = L at hunf la lt ls lr ll le lc ltl lv lm
  have hrb : ∀ i, lane_readback dA dA.tick i = lane_readback dp (dp.tick + 3) i := by
    intro i
    unfold lane_readback
    rw [hAaux, hAtick]
  have hcr : L.1.link_train.cr_loop = cr_loop_after h dp := by
    funext i
    rw [lc i]
    unfold cr_loop_after cr_counted
    simp only [hrb, hAlt, decide_eq_true_eq]
  have hlv : L.2 = cr_last_voltage dp := by
    rw [lv]
    rfl
  have hchk : s5p_dp_check_max_cr_loop h L.1 L.2 ≠ 0 ↔ cr_limit_hit h dp = true := by
    rw [check_max_cr_loop_ne_zero_iff h hE, hcr, hlv, ll, hAlt]
    unfold cr_limit_hit
    simp only [decide_eq_true_eq]
  rw [hunf]
  by_cases hit : cr_limit_hit h dp = true
  · rw [if_pos (hchk.mpr hit)]
    obtain ⟨rs, rr, rl, re, rc, rt⟩ := reduce_link_rate_fields h L.1
    have hrd := reduce_link_rate_dev h L.1
    refine ⟨hrd.1.trans (la.trans hAaux), rc.trans hcr, re.trans (le.trans (by rw [hAlt])),
      rl.trans (ll.trans (by rw [hAlt])), ?_, ?_⟩
    · intro _
      refine ⟨?_, ?_, ?_, ?_⟩
      · rw [rs, lr, hAlt]
      · rw [rr, lr, hAlt]
      · rw [hrd.2.2, lm, hAmarks]
      · intro i
        have := ltl i
        rw [hrb i, hAlt] at this
        rw [← this]
        exact congrFun rt i
    · intro hf
      rw [hf] at hit
      exact absurd hit (by decide)
  · rw [if_neg (fun hc => hit (hchk.mp hc))]
    have hw := write_training_lanes_dev h (s5p_dp_get_adjust_train h L.1 (cr_adjust_request dp))
      dp.link_train.lane_count
    have hg := get_adjust_train_dev h L.1 (cr_adjust_request dp)
    have hgt := get_adjust_train_training_lane h L.1 (cr_adjust_request dp)
    refine ⟨hw.2.1.trans (hg.1.trans (la.trans hAaux)), ?_, ?_, ?_, ?_, ?_⟩
    · show (write_training_lanes h _ _).link_train.cr_loop = _
      rw [hw.1, hg.2.2.2.2.2.2.2, hcr]
    · show (write_training_lanes h _ _).link_train.eq_loop = _
      rw [hw.1, hg.2.2.2.2.2.2.1, le, hAlt]
    · show (write_training_lanes h _ _).link_train.lane_count = _
      rw [hw.1, hg.2.2.2.2.2.1, ll, hAlt]
    · intro hc
      exact absurd hc hit
    · intro _
      refine ⟨?_, ?_, ?_, ?_, ?_⟩
      · show (write_training_lanes h _ _).link_train.lt_state = _
        rw [hw.1, hg.2.2.2.1, ls, hAlt]
      · show (write_training_lanes h _ _).link_train.link_rate = _
        rw [hw.1, hg.2.2.2.2.1, lr, hAlt]
      · show (write_training_lanes h _ _).tick = _
        rw [hw.2.2.1, hg.2.1, lt, hAtick]
      · show marks (write_training_lanes h _ _).log = _
        rw [hw.2.2.2, hg.2.2.1, lm, hAmarks]
      · intro i
        show (write_training_lanes h _ _).link_train.training_lane i = _
        rw [hw.1, hgt i, ll, hAlt]
        by_cases hi : i < dp.link_train.lane_count
        · rw [if_pos hi, if_pos hi]
          rfl
        · rw [if_neg hi, if_neg hi, ltl i, if_neg hi, hAlt]
theorem process_equalizer_training_cases (h : Hdr) (dp : s5p_dp_device) :
    (s5p_dp_process_equalizer_training h dp).2.aux = dp.aux ∧
    (s5p_dp_process_equalizer_training h dp).2.link_train.cr_loop = dp.link_train.cr_loop ∧
    ((s5p_dp_process_equalizer_training h dp).2.link_train.lt_state = .FINISHED ∨
     ((s5p_dp_process_equalizer_training h dp).2.link_train.lt_state = dp.link_train.lt_state ∧
      (s5p_dp_process_equalizer_training h dp).2.link_train.eq_loop = dp.link_train.eq_loop + 1 ∧
      dp.link_train.eq_loop + 1 ≤ h.MAX_EQ_LOOP ∧
      (s5p_dp_process_equalizer_training h dp).2.link_train.link_rate
        = dp.link_train.link_rate ∧
      (s5p_dp_process_equalizer_training h dp).2.link_train.lane_count
        = dp.link_train.lane_count) ∨
     ((s5p_dp_process_equalizer_training h dp).2.link_train.lt_state
        = (if dp.link_train.link_rate = h.LINK_RATE_2_70GBPS then .START else .FAILED) ∧
      (s5p_dp_process_equalizer_training h dp).2.link_train.link_rate
        = (if dp.link_train.link_rate = h.LINK_RATE_2_70GBPS then h.LINK_RATE_1_62GBPS % 256
           else dp.link_train.link_rate) ∧
      (s5p_dp_process_equalizer_training h dp).2.link_train.lane_count
        = dp.link_train.lane_count)) := by
  have hblk : (s5p_dp_read_bytes_from_dpcd (udelay dp 400) h.DPCD_ADDR_LANE0_1_STATUS 6).2.1
      = status_block dp := rfl
  have hlc : (s5p_dp_read_bytes_from_dpcd (udelay dp 400)
      h.DPCD_ADDR_LANE0_1_STATUS 6).2.2.link_train.lane_count = dp.link_train.lane_count := rfl
  obtain ⟨dR, hdR⟩ : ∃ dR, dR
      = (s5p_dp_read_bytes_from_dpcd (udelay dp 400) h.DPCD_ADDR_LANE0_1_STATUS 6).2.2 := ⟨_, rfl⟩
  have hRaux : dR.aux = dp.aux := by rw [hdR]; rfl
  have hRlt : dR.link_train = dp.link_train := by rw [hdR]; rfl
  by_cases hcr : s5p_dp_clock_recovery_ok h (status_block dp) dp.link_train.lane_count = 0
  · by_cases heq : s5p_dp_channel_eq_ok h (status_block dp) dp.link_train.lane_count = 0
    · have hok := process_equalizer_training_ok_dev h dp hcr heq
      exact ⟨hok.1, hok.2.2.2.2.2.2.2, Or.inl hok.2.2.2.1⟩
    · have hunf : s5p_dp_process_equalizer_training h dp =
          (if dp.link_train.eq_loop + 1 > h.MAX_EQ_LOOP then
            (0, s5p_dp_reduce_link_rate h (set_eq_loop dR (dp.link_train.eq_loop + 1)))
          else
            (0, write_training_lanes h (s5p_dp_get_adjust_train h
              (set_eq_loop dR (dp.link_train.eq_loop + 1))
              (arr2 (status_block dp 4) (status_block dp 5))) dp.link_train.lane_count)) := by
        unfold s5p_dp_process_equalizer_training
        simp only [hblk, hlc, hcr, heq, if_true, if_false]
        rw [hdR]
        rfl
      rw [hunf]
      by_cases hloop : dp.link_train.eq_loop + 1 > h.MAX_EQ_LOOP
      · rw [if_pos hloop]
        obtain ⟨rs, rr, rl, re, rc, rt⟩ := reduce_link_rate_fields h
          (set_eq_loop dR (dp.link_train.eq_loop + 1))
        refine ⟨((reduce_link_rate_dev h _).1).trans hRaux, rc.trans (by rw [← hRlt]; rfl),
          Or.inr (Or.inr ⟨?_, ?_, ?_⟩)⟩
        · rw [rs, ← hRlt]
          rfl
        · rw [rr, ← hRlt]
          rfl
        · rw [rl, ← hRlt]
          rfl
      · rw [if_neg hloop]
        have hw := write_training_lanes_dev h (s5p_dp_get_adjust_train h
          (set_eq_loop dR (dp.link_train.eq_loop + 1))
          (arr2 (status_block dp 4) (status_block dp 5))) dp.link_train.lane_count
        have hg := get_adjust_train_dev h (set_eq_loop dR (dp.link_train.eq_loop + 1))
          (arr2 (status_block dp 4) (status_block dp 5))
        refine ⟨hw.2.1.trans (hg.1.trans hRaux), ?_, Or.inr (Or.inl ⟨?_, ?_, ?_, ?_, ?_⟩)⟩
        · show (write_training_lanes h _ _).link_train.cr_loop = _
          rw [hw.1, hg.2.2.2.2.2.2.2, ← hRlt]
          rfl
        · show (write_training_lanes h _ _).link_train.lt_state = _
          rw [hw.1, hg.2.2.2.1, ← hRlt]
          rfl
        · show (write_training_lanes h _ _).link_train.eq_loop = _
          rw [hw.1, hg.2.2.2.2.2.2.1]
          rfl
        · exact Nat.le_of_not_lt hloop
        · show (write_training_lanes h _ _).link_train.link_rate = _
          rw [hw.1, hg.2.2.2.2.1, ← hRlt]
          rfl
        · show (write_training_lanes h _ _).link_train.lane_count = _
          rw [hw.1, hg.2.2.2.2.2.1, ← hRlt]
          rfl
  · have hunf : s5p_dp_process_equalizer_training h dp = (0, s5p_dp_reduce_link_rate h dR) := by
      unfold s5p_dp_process_equalizer_training
      simp only [hblk, hlc, hcr, if_false]
      rw [hdR]
    rw [hunf]
    obtain ⟨rs, rr, rl, re, rc, rt⟩ := reduce_link_rate_fields h dR
    refine ⟨((reduce_link_rate_dev h _).1).trans hRaux, rc.trans (by rw [hRlt]),
      Or.inr (Or.inr ⟨?_, ?_, ?_⟩)⟩
    · rw [rs, hRlt]
    · rw [rr, hRlt]
    · rw [rl, hRlt]

/-! ## Saturation and the bound on the clock-recovery counters -/

/-- C15 (as stated) fails.  A run with the sample header and one lane at rate `0x0a`
(`saturation_script`).  Clock recovery succeeds on the first poll; the first equalizer poll
requests voltage swing 3 for lane 0, which is programmed (`training_lane[0] = 0x27`); the
second equalizer poll has lost CR, so the rate is reduced and `START` is entered again,
where `s5p_dp_link_start` sets the lane's pre-emphasis to level 0 and programs no swing.
After that `START`, on the first clock-recovery poll (pass 5 of the loop), the counter of
lane 0 is 0, the sink reports no lane with CR done and requests swing 3 (pre-emphasis 0) for
lane 0, and the lane's register reads back `0x27`, the byte programmed last.  The step
enters `s5p_dp_reduce_link_rate` (for the second time in this run), but before that it has
counted the lane: `cr_loop[0]` is 1 after the step. -/
theorem clock_recovery_saturation_counts_lane :
    sw_link_training_states sample_hdr 7
        (device_of (session_of 0x0a 1 .START) saturation_script)
      = [.START, .CLOCK_RECOVERY, .EQUALIZER_TRAINING, .EQUALIZER_TRAINING, .START,
         .CLOCK_RECOVERY, .FAILED] ∧
    (Nat.iterate (sw_link_training_step sample_hdr) 5
        (device_of (session_of 0x0a 1 .START) saturation_script)).link_train.cr_loop 0 = 0 ∧
    (Nat.iterate (sw_link_training_step sample_hdr) 5
        (device_of (session_of 0x0a 1 .START) saturation_script)).link_train.training_lane 0
      = 0x27 ∧
    s5p_dp_clock_recovery_ok sample_hdr
      (status_block (Nat.iterate (sw_link_training_step sample_hdr) 5
        (device_of (session_of 0x0a 1 .START) saturation_script))) 1 ≠ 0 ∧
    s5p_dp_get_adjust_request_voltage
      (cr_adjust_request (Nat.iterate (sw_link_training_step sample_hdr) 5
        (device_of (session_of 0x0a 1 .START) saturation_script))) 0
      = sample_hdr.VOLTAGE_LEVEL_3 ∧
    downgrades (Nat.iterate (sw_link_training_step sample_hdr) 5
        (device_of (session_of 0x0a 1 .START) saturation_script)).log = 1 ∧
    downgrades (Nat.iterate (sw_link_training_step sample_hdr) 6
        (device_of (session_of 0x0a 1 .START) saturation_script)).log = 2 ∧
    (Nat.iterate (sw_link_training_step sample_hdr) 6
        (device_of (session_of 0x0a 1 .START) saturation_script)).link_train.cr_loop 0 = 1 := by
  decide

/-- C15 (amended).  Saturation on the first clock-recovery poll after `START` (for a header
with `EINVAL` nonzero and any lane count from 1 on, so for 1 to 4 lanes).  Let `dp` be the
device `s5p_dp_link_start` leaves.  If the status block of the poll does not show CR done
on all active lanes and the sink requests voltage swing `VOLTAGE_LEVEL_3` for every active
lane, then that very step enters `s5p_dp_reduce_link_rate` (once; the state becomes `START`
at `LINK_RATE_2_70GBPS` and `FAILED` otherwise).  Before it does, the step counts every
active lane whose register reads back the requested swing and pre-emphasis: such a lane's
`cr_loop` is 1 after the step, and the `cr_loop` of every other active lane stays 0.  So all
counters of the active lanes remain 0 exactly when no active lane reads back the requested
levels. -/
theorem clock_recovery_saturation_first_poll (h : Hdr) (d0 : s5p_dp_device)
    (hE : h.EINVAL ≠ 0) (hlc : 1 ≤ d0.link_train.lane_count)
    (hnot : s5p_dp_clock_recovery_ok h (status_block (s5p_dp_link_start h d0))
      d0.link_train.lane_count ≠ 0)
    (hsat : ∀ lane, lane < d0.link_train.lane_count →
      s5p_dp_get_adjust_request_voltage (cr_adjust_request (s5p_dp_link_start h d0)) lane
        = h.VOLTAGE_LEVEL_3) :
    downgrades (s5p_dp_process_clock_recovery h (s5p_dp_link_start h d0)).2.log
      = downgrades (s5p_dp_link_start h d0).log + 1 ∧
    (s5p_dp_process_clock_recovery h (s5p_dp_link_start h d0)).2.link_train.lt_state
      = (if d0.link_train.link_rate = h.LINK_RATE_2_70GBPS then .START else .FAILED) ∧
    (∀ lane, lane < d0.link_train.lane_count →
      (s5p_dp_process_clock_recovery h (s5p_dp_link_start h d0)).2.link_train.cr_loop lane
        = if cr_counted h (s5p_dp_link_start h d0) lane = true then 1 else 0) ∧
    ((∀ lane, lane < d0.link_train.lane_count →
        (s5p_dp_process_clock_recovery h (s5p_dp_link_start h d0)).2.link_train.cr_loop lane = 0)
      ↔ ∀ lane, lane < d0.link_train.lane_count →
        cr_counted h (s5p_dp_link_start h d0) lane = false) := by
  obtain ⟨-, -, -, -, lsr, lsl, -, -, lsc⟩ := link_start_dev h d0
  have hnot' : s5p_dp_clock_recovery_ok h (status_block (s5p_dp_link_start h d0))
      (s5p_dp_link_start h d0).link_train.lane_count ≠ 0 := by rwa [lsl]
  obtain ⟨-, rc, -, -, rhit, -⟩ := process_clock_recovery_retry_dev h (s5p_dp_link_start h d0)
    hE hnot'
  have hit : cr_limit_hit h (s5p_dp_link_start h d0) = true := by
    unfold cr_limit_hit
    rw [decide_eq_true_eq, lsl]
    refine ⟨0, by omega, Or.inl ?_⟩
    unfold cr_last_voltage
    rw [lsl, if_neg (by omega)]
    exact hsat _ (by omega)
  obtain ⟨rs, -, rm, -⟩ := rhit hit
  have hcnt : ∀ lane, lane < d0.link_train.lane_count →
      (s5p_dp_process_clock_recovery h (s5p_dp_link_start h d0)).2.link_train.cr_loop lane
        = if cr_counted h (s5p_dp_link_start h d0) lane = true then 1 else 0 := by
    intro lane hl
    rw [rc]
    unfold cr_loop_after
    rw [lsl, lsc lane, if_pos hl]
    by_cases hc : cr_counted h (s5p_dp_link_start h d0) lane = true
    · rw [if_pos ⟨hl, hc⟩, if_pos hc]
    · rw [if_neg (fun hx => hc hx.2), if_neg hc]
  refine ⟨?_, ?_, hcnt, ?_⟩
  · have := congrArg Prod.snd rm
    simpa [marks] using this
  · rw [rs, lsr]
  · constructor
    · intro hz lane hl
      have := hz lane hl
      rw [hcnt lane hl] at this
      by_cases hc : cr_counted h (s5p_dp_link_start h d0) lane = true
      · rw [if_pos hc] at this
        exact absurd this (by decide)
      · simpa using hc
    · intro hz lane hl
      rw [hcnt lane hl, hz lane hl]
      rfl

theorem clock_recovery_saturation_first_poll_witness :
    downgrades (s5p_dp_process_clock_recovery sample_hdr
      (s5p_dp_link_start sample_hdr (device_of (session_of 0x0a 2 .START)
        [⟨0, []⟩, ⟨0, []⟩, ⟨0, []⟩, ⟨0, []⟩, ⟨0, [0x01, 0, 0, 0, 0, 0]⟩, ⟨0, [0x33]⟩,
         ⟨0, [0]⟩]))).2.log
      = downgrades (s5p_dp_link_start sample_hdr (device_of (session_of 0x0a 2 .START)
        [⟨0, []⟩, ⟨0, []⟩, ⟨0, []⟩, ⟨0, []⟩, ⟨0, [0x01, 0, 0, 0, 0, 0]⟩, ⟨0, [0x33]⟩,
         ⟨0, [0]⟩])).log + 1 ∧
    (∀ lane, lane < 2 →
      (s5p_dp_process_clock_recovery sample_hdr
        (s5p_dp_link_start sample_hdr (device_of (session_of 0x0a 2 .START)
          [⟨0, []⟩, ⟨0, []⟩, ⟨0, []⟩, ⟨0, []⟩, ⟨0, [0x01, 0, 0, 0, 0, 0]⟩, ⟨0, [0x33]⟩,
           ⟨0, [0]⟩]))).2.link_train.cr_loop lane = 0) :=
  have t := clock_recovery_saturation_first_poll sample_hdr
    (device_of (session_of 0x0a 2 .START)
      [⟨0, []⟩, ⟨0, []⟩, ⟨0, []⟩, ⟨0, []⟩, ⟨0, [0x01, 0, 0, 0, 0, 0]⟩, ⟨0, [0x33]⟩, ⟨0, [0]⟩])
    (by decide) (by decide) (by decide) (by decide)
  ⟨t.1, t.2.2.2.2 (by decide)⟩

theorem cr_loop_after_le (h : Hdr) (dp : s5p_dp_device) (lane : Nat) :
    dp.link_train.cr_loop lane ≤ cr_loop_after h dp lane ∧
    cr_loop_after h dp lane ≤ dp.link_train.cr_loop lane + 1 ∧
    (dp.link_train.lane_count ≤ lane → cr_loop_after h dp lane = dp.link_train.cr_loop lane) := by
  unfold cr_loop_after
  split_ifs with hc
  · exact ⟨by omega, by omega, fun hl => absurd hc.1 (by omega)⟩
  · exact ⟨le_refl _, by omega, fun _ => rfl⟩

theorem cr_limit_hit_eq_false (h : Hdr) (dp : s5p_dp_device)
    (hf : cr_limit_hit h dp = false) (lane : Nat) (hl : lane < dp.link_train.lane_count) :
    cr_loop_after h dp lane ≠ h.MAX_CR_LOOP ∧ cr_last_voltage dp ≠ h.VOLTAGE_LEVEL_3 := by
  unfold cr_limit_hit at hf
  rw [decide_eq_false_iff_not] at hf
  constructor
  · intro hc
    exact hf ⟨lane, hl, Or.inr hc⟩
  · intro hc
    exact hf ⟨lane, hl, Or.inl hc⟩

theorem sw_link_training_step_cr_loop_inv (h : Hdr) (d : s5p_dp_device) (K : Nat)
    (hE : h.EINVAL ≠ 0) (hM : 0 < h.MAX_CR_LOOP)
    (h1 : ∀ lane, lane < K → d.link_train.cr_loop lane ≤ h.MAX_CR_LOOP)
    (h2 : d.link_train.lt_state = .CLOCK_RECOVERY → ∀ lane, lane < K →
      lane < d.link_train.lane_count → d.link_train.cr_loop lane < h.MAX_CR_LOOP) :
    (∀ lane, lane < K → (sw_link_training_step h d).link_train.cr_loop lane ≤ h.MAX_CR_LOOP) ∧
    ((sw_link_training_step h d).link_train.lt_state = .CLOCK_RECOVERY → ∀ lane, lane < K →
      lane < (sw_link_training_step h d).link_train.lane_count →
      (sw_link_training_step h d).link_train.cr_loop lane < h.MAX_CR_LOOP) := by
  unfold sw_link_training_step
  cases hst : d.link_train.lt_state with
  | START =>
    simp only
    obtain ⟨-, -, -, -, -, lsl, -, -, lsc⟩ := link_start_dev h d
    constructor
    · intro lane hl
      rw [lsc lane]
      split_ifs
      · exact Nat.zero_le _
      · exact h1 lane hl
    · intro _ lane hl hlc
      rw [lsl] at hlc
      rw [lsc lane, if_pos hlc]
      exact hM
  | CLOCK_RECOVERY =>
    simp only
    by_cases hok : s5p_dp_clock_recovery_ok h (status_block d) d.link_train.lane_count = 0
    · obtain ⟨-, -, -, os, -, -, -, oc⟩ := process_clock_recovery_ok_dev h d hok
      rw [oc, os]
      exact ⟨h1, fun hc => absurd hc (by decide)⟩
    · obtain ⟨-, rc, -, rl, rhit, rno⟩ := process_clock_recovery_retry_dev h d hE hok
      rw [rc, rl]
      have hle : ∀ lane, lane < K → cr_loop_after h d lane ≤ h.MAX_CR_LOOP := by
        intro lane hl
        by_cases hlc : lane < d.link_train.lane_count
        · have := h2 hst lane hl hlc
          have := (cr_loop_after_le h d lane).2.1
          omega
        · rw [(cr_loop_after_le h d lane).2.2 (by omega)]
          exact h1 lane hl
      refine ⟨hle, ?_⟩
      intro hs lane hl hlc
      cases hh : cr_limit_hit h d with
      | true =>
        rw [(rhit hh).1] at hs
        split_ifs at hs
      | false =>
        have := (cr_limit_hit_eq_false h d hh lane hlc).1
        have := hle lane hl
        omega
  | EQUALIZER_TRAINING =>
    simp only
    obtain ⟨-, ec, ecase⟩ := process_equalizer_training_cases h d
    rw [ec]
    refine ⟨h1, ?_⟩
    intro hs
    rcases ecase with hf | ⟨hr, -⟩ | ⟨hr, -⟩
    · rw [hf] at hs
      exact absurd hs (by decide)
    · rw [hr, hst] at hs
      exact absurd hs (by decide)
    · rw [hr] at hs
      split_ifs at hs
  | FINISHED =>
    simp only
    exact ⟨h1, fun hc => by rw [hst] at hc; exact absurd hc (by decide)⟩
  | FAILED =>
    simp only
    exact ⟨h1, fun hc => by rw [hst] at hc; exact absurd hc (by decide)⟩

theorem sw_link_training_step_lane_count (h : Hdr) (d : s5p_dp_device) (hE : h.EINVAL ≠ 0) :
    (sw_link_training_step h d).link_train.lane_count = d.link_train.lane_count ∨
    (sw_link_training_step h d).link_train.lt_state = .FINISHED := by
  unfold sw_link_training_step
  cases hst : d.link_train.lt_state with
  | START => exact Or.inl (link_start_dev h d).2.2.2.2.2.1
  | CLOCK_RECOVERY =>
    simp only
    by_cases hok : s5p_dp_clock_recovery_ok h (status_block d) d.link_train.lane_count = 0
    · exact Or.inl (process_clock_recovery_ok_dev h d hok).2.2.2.2.2.1
    · exact Or.inl (process_clock_recovery_retry_dev h d hE hok).2.2.2.1
  | EQUALIZER_TRAINING =>
    simp only
    rcases (process_equalizer_training_cases h d).2.2 with hf | ⟨-, -, -, -, hl⟩ | ⟨-, -, hl⟩
    · exact Or.inr hf
    · exact Or.inl hl
    · exact Or.inl hl
  | FINISHED => exact Or.inl rfl
  | FAILED => exact Or.inl rfl

theorem sw_link_training_step_finished (h : Hdr) (d : s5p_dp_device)
    (hst : d.link_train.lt_state = .FINISHED) : sw_link_training_step h d = d := by
  unfold sw_link_training_step
  rw [hst]

theorem sw_link_training_step_failed (h : Hdr) (d : s5p_dp_device)
    (hst : d.link_train.lt_state = .FAILED) : sw_link_training_step h d = d := by
  unfold sw_link_training_step
  rw [hst]

theorem sw_link_training_step_start (h : Hdr) (d : s5p_dp_device)
    (hst : d.link_train.lt_state = .START) :
    sw_link_training_step h d = s5p_dp_link_start h d := by
  unfold sw_link_training_step
  rw [hst]

theorem sw_link_training_iterate_cr_loop_inv (h : Hdr) (d : s5p_dp_device) (K : Nat)
    (hE : h.EINVAL ≠ 0) (hM : 0 < h.MAX_CR_LOOP)
    (h1 : ∀ lane, lane < K → d.link_train.cr_loop lane ≤ h.MAX_CR_LOOP)
    (h2 : d.link_train.lt_state = .CLOCK_RECOVERY → ∀ lane, lane < K →
      lane < d.link_train.lane_count → d.link_train.cr_loop lane < h.MAX_CR_LOOP) (n : Nat) :
    (∀ lane, lane < K →
      (Nat.iterate (sw_link_training_step h) n d).link_train.cr_loop lane ≤ h.MAX_CR_LOOP) ∧
    ((Nat.iterate (sw_link_training_step h) n d).link_train.lt_state = .CLOCK_RECOVERY →
      ∀ lane, lane < K →
      lane < (Nat.iterate (sw_link_training_step h) n d).link_train.lane_count →
      (Nat.iterate (sw_link_training_step h) n d).link_train.cr_loop lane < h.MAX_CR_LOOP) := by
  induction n with
  | zero => exact ⟨h1, h2⟩
  | succ n ih =>
    rw [Function.iterate_succ_apply']
    exact sw_link_training_step_cr_loop_inv h _ K hE hM ih.1 ih.2

theorem sw_link_training_iterate_lane_count (h : Hdr) (d : s5p_dp_device) (hE : h.EINVAL ≠ 0)
    (n : Nat)
    (hn : (Nat.iterate (sw_link_training_step h) n d).link_train.lt_state ≠ .FINISHED) :
    (Nat.iterate (sw_link_training_step h) n d).link_train.lane_count
      = d.link_train.lane_count := by
  induction n with
  | zero => rfl
  | succ n ih =>
    rw [Function.iterate_succ_apply'] at hn ⊢
    have hprev : (Nat.iterate (sw_link_training_step h) n d).link_train.lt_state
        ≠ .FINISHED := by
      intro hc
      rw [sw_link_training_step_finished h _ hc] at hn
      exact hn hc
    rcases sw_link_training_step_lane_count h (Nat.iterate (sw_link_training_step h) n d) hE
      with hl | hf
    · rw [hl, ih hprev]
    · exact absurd hf hn

/-- C20. Counter bound (for a header with `EINVAL` nonzero and `MAX_CR_LOOP` positive).  The
states reachable during `s5p_dp_sw_link_training` are the iterates of the pass of its loop,
`sw_link_training_step`, from a device in state `START`.  After at least one pass,
`cr_loop[lane] ≤ MAX_CR_LOOP` for every lane below the session's lane count, whatever the
counters held before; the lane count is the one the session started with in every state
but `FINISHED` (where it is read back from the source).  If all counters are at most
`MAX_CR_LOOP` at the start (as they are before the first training and after every earlier
one), then `cr_loop[lane] ≤ MAX_CR_LOOP` for every lane in every reachable state.  And
every pass that starts in `START` leaves `cr_loop[lane] = 0` for every lane below the
lane count.  All this holds for every lane count, so for 1 to 4 lanes. -/
theorem cr_loop_bounded (h : Hdr) (dp : s5p_dp_device) (hE : h.EINVAL ≠ 0)
    (hM : 0 < h.MAX_CR_LOOP) (hst : dp.link_train.lt_state = .START) :
    (∀ n lane, lane < dp.link_train.lane_count →
      (Nat.iterate (sw_link_training_step h) (n + 1) dp).link_train.cr_loop lane
        ≤ h.MAX_CR_LOOP) ∧
    (∀ n, (Nat.iterate (sw_link_training_step h) n dp).link_train.lt_state ≠ .FINISHED →
      (Nat.iterate (sw_link_training_step h) n dp).link_train.lane_count
        = dp.link_train.lane_count) ∧
    ((∀ lane, dp.link_train.cr_loop lane ≤ h.MAX_CR_LOOP) →
      ∀ n lane, (Nat.iterate (sw_link_training_step h) n dp).link_train.cr_loop lane
        ≤ h.MAX_CR_LOOP) ∧
    (∀ n, (Nat.iterate (sw_link_training_step h) n dp).link_train.lt_state = .START →
      ∀ lane, lane < (Nat.iterate (sw_link_training_step h) n dp).link_train.lane_count →
        (Nat.iterate (sw_link_training_step h) (n + 1) dp).link_train.cr_loop lane = 0) := by
  refine ⟨?_, fun n hn => sw_link_training_iterate_lane_count h dp hE n hn, ?_, ?_⟩
  · intro n lane hl
    rw [Function.iterate_succ_apply]
    have hstep := sw_link_training_step_start h dp hst
    obtain ⟨-, -, -, -, -, lsl, -, -, lsc⟩ := link_start_dev h dp
    refine (sw_link_training_iterate_cr_loop_inv h (sw_link_training_step h dp)
      dp.link_train.lane_count hE hM ?_ ?_ n).1 lane hl
    · intro l hl'
      rw [hstep, lsc l, if_pos hl']
      exact Nat.zero_le _
    · intro _ l hl' _
      rw [hstep, lsc l, if_pos hl']
      exact hM
  · intro hall n lane
    refine (sw_link_training_iterate_cr_loop_inv h dp (lane + 1) hE hM (fun l _ => hall l)
      ?_ n).1 lane (Nat.lt_succ_self lane)
    intro hc
    rw [hst] at hc
    exact absurd hc (by decide)
  · intro n hs lane hl
    rw [Function.iterate_succ_apply']
    rw [sw_link_training_step_start h _ hs, (link_start_dev h _).2.2.2.2.2.2.2.2 lane, if_pos hl]

theorem cr_loop_bounded_witness :
    (Nat.iterate (sw_link_training_step sample_hdr) (5 + 1)
        (device_of (session_of 0x0a 1 .START) saturation_script)).link_train.cr_loop 0
      ≤ sample_hdr.MAX_CR_LOOP :=
  (cr_loop_bounded sample_hdr (device_of (session_of 0x0a 1 .START) saturation_script)
    (by decide) (by decide) rfl).1 5 0 (by decide)

/-! ## Termination of a training attempt -/

theorem cr_slack_zero (M : Nat) (cr : Nat → Nat) (n : Nat) (hz : ∀ lane, lane < n → cr lane = 0) :
    cr_slack M cr n = n * M := by
  induction n with
  | zero => simp [cr_slack]
  | succ n ih =>
    rw [cr_slack, ih (fun lane hl => hz lane (by omega)), hz n (by omega), Nat.sub_zero,
      Nat.succ_mul]

theorem cr_slack_mono (M : Nat) (cr cr' : Nat → Nat) (n : Nat)
    (hle : ∀ lane, lane < n → cr lane ≤ cr' lane) :
    cr_slack M cr' n ≤ cr_slack M cr n := by
  induction n with
  | zero => simp [cr_slack]
  | succ n ih =>
    rw [cr_slack, cr_slack]
    have := ih (fun lane hl => hle lane (by omega))
    have := hle n (by omega)
    omega

theorem cr_slack_lt (M : Nat) (cr cr' : Nat → Nat) (n : Nat)
    (hle : ∀ lane, lane < n → cr lane ≤ cr' lane)
    (hlt : ∃ lane, lane < n ∧ cr lane < cr' lane ∧ cr lane < M) :
    cr_slack M cr' n < cr_slack M cr n := by
  induction n with
  | zero =>
    obtain ⟨lane, hl, -⟩ := hlt
    omega
  | succ n ih =>
    rw [cr_slack, cr_slack]
    obtain ⟨lane, hl, h1, h2⟩ := hlt
    have hm := cr_slack_mono M cr cr' n (fun lane hl => hle lane (by omega))
    have hn := hle n (by omega)
    by_cases hlane : lane = n
    · subst hlane
      omega
    · have := ih (fun lane hl => hle lane (by omega)) ⟨lane, by omega, h1, h2⟩
      omega

theorem pass_budget_start (h : Hdr) (d : s5p_dp_device)
    (hs : d.link_train.lt_state = .START) :
    pass_budget h d =
      (if d.link_train.link_rate = h.LINK_RATE_2_70GBPS then
        d.link_train.lane_count * h.MAX_CR_LOOP + h.MAX_EQ_LOOP + 4 else 0)
      + (d.link_train.lane_count * h.MAX_CR_LOOP + h.MAX_EQ_LOOP + 4) := by
  unfold pass_budget
  rw [hs]

theorem pass_budget_clock_recovery (h : Hdr) (d : s5p_dp_device)
    (hs : d.link_train.lt_state = .CLOCK_RECOVERY) :
    pass_budget h d =
      (if d.link_train.link_rate = h.LINK_RATE_2_70GBPS then
        d.link_train.lane_count * h.MAX_CR_LOOP + h.MAX_EQ_LOOP + 4 else 0)
      + cr_slack h.MAX_CR_LOOP d.link_train.cr_loop d.link_train.lane_count
      + (h.MAX_EQ_LOOP + 1 - d.link_train.eq_loop) + 2 := by
  unfold pass_budget
  rw [hs]

theorem pass_budget_equalizer_training (h : Hdr) (d : s5p_dp_device)
    (hs : d.link_train.lt_state = .EQUALIZER_TRAINING) :
    pass_budget h d =
      (if d.link_train.link_rate = h.LINK_RATE_2_70GBPS then
        d.link_train.lane_count * h.MAX_CR_LOOP + h.MAX_EQ_LOOP + 4 else 0)
      + (h.MAX_EQ_LOOP + 1 - d.link_train.eq_loop) + 1 := by
  unfold pass_budget
  rw [hs]

theorem pass_budget_finished (h : Hdr) (d : s5p_dp_device)
    (hs : d.link_train.lt_state = .FINISHED) : pass_budget h d = 0 := by
  unfold pass_budget
  rw [hs]

theorem pass_budget_failed (h : Hdr) (d : s5p_dp_device)
    (hs : d.link_train.lt_state = .FAILED) : pass_budget h d = 0 := by
  unfold pass_budget
  rw [hs]

/-- The budget after a downgrade is below `bound` when `bound` exceeds the budget of one
entry of `START` at the reduced rate. -/
theorem pass_budget_after_reduce (h : Hdr) (d' : s5p_dp_device) (rate lc : Nat)
    (hR : h.LINK_RATE_1_62GBPS % 256 ≠ h.LINK_RATE_2_70GBPS)
    (hs : d'.link_train.lt_state
      = (if rate = h.LINK_RATE_2_70GBPS then .START else .FAILED))
    (hr : d'.link_train.link_rate
      = (if rate = h.LINK_RATE_2_70GBPS then h.LINK_RATE_1_62GBPS % 256 else rate))
    (hl : d'.link_train.lane_count = lc) (extra : Nat) (hx : 0 < extra) :
    pass_budget h d' <
      (if rate = h.LINK_RATE_2_70GBPS then lc * h.MAX_CR_LOOP + h.MAX_EQ_LOOP + 4 else 0)
        + extra := by
  by_cases hh : rate = h.LINK_RATE_2_70GBPS
  · rw [if_pos hh] at hs hr ⊢
    rw [pass_budget_start h d' hs, hr, if_neg hR, hl]
    omega
  · rw [if_neg hh] at hs ⊢
    rw [pass_budget_failed h d' hs]
    omega

theorem sw_link_training_step_budget (h : Hdr) (d : s5p_dp_device)
    (hE : h.EINVAL ≠ 0)
    (hR : h.LINK_RATE_1_62GBPS % 256 ≠ h.LINK_RATE_2_70GBPS)
    (hinv : d.link_train.lt_state = .CLOCK_RECOVERY → ∀ lane,
      lane < d.link_train.lane_count → d.link_train.cr_loop lane < h.MAX_CR_LOOP)
    (hfin : d.link_train.lt_state ≠ .FINISHED) (hfail : d.link_train.lt_state ≠ .FAILED)
    (hadv : d.link_train.lt_state = .CLOCK_RECOVERY →
      s5p_dp_clock_recovery_ok h (status_block d) d.link_train.lane_count ≠ 0 →
      cr_limit_hit h d = false →
      ∃ lane, lane < d.link_train.lane_count ∧ cr_counted h d lane = true) :
    pass_budget h (sw_link_training_step h d) < pass_budget h d := by
  cases hst : d.link_train.lt_state with
  | START =>
    rw [sw_link_training_step_start h d hst, pass_budget_start h d hst]
    obtain ⟨-, -, -, lss, lsr, lsl, lse, -, lsc⟩ := link_start_dev h d
    rw [pass_budget_clock_recovery h _ lss, lsr, lsl, lse,
      cr_slack_zero _ _ _ (fun lane hl => by rw [lsc lane, if_pos hl])]
    omega
  | CLOCK_RECOVERY =>
    have hstep : sw_link_training_step h d = (s5p_dp_process_clock_recovery h d).2 := by
      unfold sw_link_training_step
      rw [hst]
    rw [hstep, pass_budget_clock_recovery h d hst]
    by_cases hok : s5p_dp_clock_recovery_ok h (status_block d) d.link_train.lane_count = 0
    · obtain ⟨-, -, -, os, orr, ol, oe, oc⟩ := process_clock_recovery_ok_dev h d hok
      rw [pass_budget_equalizer_training h _ os, orr, ol, oe]
      omega
    · obtain ⟨-, rc, re, rl, rhit, rno⟩ := process_clock_recovery_retry_dev h d hE hok
      cases hh : cr_limit_hit h d with
      | true =>
        obtain ⟨rs, rr, -, -⟩ := rhit hh
        have := pass_budget_after_reduce h _ d.link_train.link_rate d.link_train.lane_count
          hR rs rr rl
          (cr_slack h.MAX_CR_LOOP d.link_train.cr_loop d.link_train.lane_count
            + (h.MAX_EQ_LOOP + 1 - d.link_train.eq_loop) + 2) (by omega)
        omega
      | false =>
        obtain ⟨rs, rr, -, -, -⟩ := rno hh
        rw [pass_budget_clock_recovery h _ (rs.trans hst), rr, rl, re, rc]
        obtain ⟨lane, hl, hc⟩ := hadv hst hok hh
        have hlt := cr_slack_lt h.MAX_CR_LOOP d.link_train.cr_loop (cr_loop_after h d)
          d.link_train.lane_count (fun l _ => (cr_loop_after_le h d l).1)
          ⟨lane, hl, by
            unfold cr_loop_after
            rw [if_pos ⟨hl, hc⟩]
            omega, hinv hst lane hl⟩
        omega
  | EQUALIZER_TRAINING =>
    have hstep : sw_link_training_step h d = (s5p_dp_process_equalizer_training h d).2 := by
      unfold sw_link_training_step
      rw [hst]
    rw [hstep, pass_budget_equalizer_training h d hst]
    rcases (process_equalizer_training_cases h d).2.2 with hf | ⟨es, ee, ele, er, el⟩ | ⟨es, er, el⟩
    · rw [pass_budget_finished h _ hf]
      omega
    · rw [pass_budget_equalizer_training h _ (es.trans hst), er, el, ee]
      omega
    · have := pass_budget_after_reduce h _ d.link_train.link_rate d.link_train.lane_count
        hR es er el ((h.MAX_EQ_LOOP + 1 - d.link_train.eq_loop) + 1) (by omega)
      omega
  | FINISHED => exact absurd hst hfin
  | FAILED => exact absurd hst hfail

theorem sw_link_training_step_cr_loop_lt (h : Hdr) (d : s5p_dp_device)
    (hE : h.EINVAL ≠ 0) (hM : 0 < h.MAX_CR_LOOP)
    (hinv : d.link_train.lt_state = .CLOCK_RECOVERY → ∀ lane,
      lane < d.link_train.lane_count → d.link_train.cr_loop lane < h.MAX_CR_LOOP) :
    (sw_link_training_step h d).link_train.lt_state = .CLOCK_RECOVERY → ∀ lane,
      lane < (sw_link_training_step h d).link_train.lane_count →
      (sw_link_training_step h d).link_train.cr_loop lane < h.MAX_CR_LOOP := by
  have h1 : ∀ lane, lane < 0 → d.link_train.cr_loop lane ≤ h.MAX_CR_LOOP :=
    fun lane hl => absurd hl (Nat.not_lt_zero lane)
  cases hst : d.link_train.lt_state with
  | START =>
    rw [sw_link_training_step_start h d hst]
    obtain ⟨-, -, -, -, -, lsl, -, -, lsc⟩ := link_start_dev h d
    intro _ lane hl
    rw [lsl] at hl
    rw [lsc lane, if_pos hl]
    exact hM
  | CLOCK_RECOVERY =>
    have hstep : sw_link_training_step h d = (s5p_dp_process_clock_recovery h d).2 := by
      unfold sw_link_training_step
      rw [hst]
    rw [hstep]
    by_cases hok : s5p_dp_clock_recovery_ok h (status_block d) d.link_train.lane_count = 0
    · intro hc
      rw [(process_clock_recovery_ok_dev h d hok).2.2.2.1] at hc
      exact absurd hc (by decide)
    · obtain ⟨-, rc, -, rl, rhit, rno⟩ := process_clock_recovery_retry_dev h d hE hok
      intro hs lane hl
      rw [rl] at hl
      rw [rc]
      cases hh : cr_limit_hit h d with
      | true =>
        rw [(rhit hh).1] at hs
        split_ifs at hs
      | false =>
        have := (cr_limit_hit_eq_false h d hh lane hl).1
        have := (cr_loop_after_le h d lane).2.1
        have := hinv hst lane hl
        omega
  | EQUALIZER_TRAINING =>
    have hstep : sw_link_training_step h d = (s5p_dp_process_equalizer_training h d).2 := by
      unfold sw_link_training_step
      rw [hst]
    rw [hstep]
    intro hs
    rcases (process_equalizer_training_cases h d).2.2 with hf | ⟨hr, -⟩ | ⟨hr, -⟩
    · rw [hf] at hs
      exact absurd hs (by decide)
    · rw [hr, hst] at hs
      exact absurd hs (by decide)
    · rw [hr] at hs
      split_ifs at hs
  | FINISHED =>
    rw [sw_link_training_step_finished h d hst]
    intro hc
    rw [hst] at hc
    exact absurd hc (by decide)
  | FAILED =>
    rw [sw_link_training_step_failed h d hst]
    intro hc
    rw [hst] at hc
    exact absurd hc (by decide)

theorem sw_link_training_loop_step (h : Hdr) (n : Nat) (d : s5p_dp_device)
    (hfin : d.link_train.lt_state ≠ .FINISHED) (hfail : d.link_train.lt_state ≠ .FAILED) :
    s5p_dp_sw_link_training_loop h (n + 1) d
      = s5p_dp_sw_link_training_loop h n (sw_link_training_step h d) := by
  rw [s5p_dp_sw_link_training_loop]
  cases hst : d.link_train.lt_state with
  | START => rfl
  | CLOCK_RECOVERY => rfl
  | EQUALIZER_TRAINING => rfl
  | FINISHED => exact absurd hst hfin
  | FAILED => exact absurd hst hfail

theorem sw_link_training_loop_mono (h : Hdr) (n k : Nat) (d : s5p_dp_device)
    (x : Int × s5p_dp_device) (hx : s5p_dp_sw_link_training_loop h n d = some x) :
    s5p_dp_sw_link_training_loop h (n + k) d = some x := by
  induction n generalizing d with
  | zero => simp [s5p_dp_sw_link_training_loop] at hx
  | succ n ih =>
    rw [Nat.succ_add]
    by_cases hfin : d.link_train.lt_state = .FINISHED
    · rw [(sw_loop_finished h n d hfin).1] at hx
      rw [(sw_loop_finished h (n + k) d hfin).1, hx]
    · by_cases hfail : d.link_train.lt_state = .FAILED
      · rw [(sw_loop_failed h n d hfail).1] at hx
        rw [(sw_loop_failed h (n + k) d hfail).1, hx]
      · rw [sw_link_training_loop_step h n d hfin hfail] at hx
        rw [sw_link_training_loop_step h (n + k) d hfin hfail]
        exact ih _ hx

theorem wandering_sink_step (d : s5p_dp_device) (haux : d.aux = wandering_sink)
    (hs : d.link_train.lt_state = .CLOCK_RECOVERY) (hl : d.link_train.lane_count = 1)
    (hc : d.link_train.cr_loop 0 = 0) (ht : d.tick % 10 = 4 ∨ d.tick % 10 = 9) :
    (s5p_dp_process_clock_recovery sample_hdr d).2.aux = wandering_sink ∧
    (s5p_dp_process_clock_recovery sample_hdr d).2.link_train.lt_state = .CLOCK_RECOVERY ∧
    (s5p_dp_process_clock_recovery sample_hdr d).2.link_train.lane_count = 1 ∧
    (s5p_dp_process_clock_recovery sample_hdr d).2.link_train.cr_loop 0 = 0 ∧
    ((s5p_dp_process_clock_recovery sample_hdr d).2.tick % 10 = 4 ∨
      (s5p_dp_process_clock_recovery sample_hdr d).2.tick % 10 = 9) := by
  have a0 : d.aux d.tick = ⟨0, [0, 0, 0, 0, 0, 0]⟩ := by
    rw [haux]
    unfold wandering_sink
    rcases ht with ht | ht <;> rw [ht] <;> rfl
  have hnot : s5p_dp_clock_recovery_ok sample_hdr (status_block d) d.link_train.lane_count
      ≠ 0 := by
    have e : status_block d = fun i => if i < 6 then
        ([0, 0, 0, 0, 0, 0] : List Nat).getD i 0 % 256 else 0 := by
      unfold status_block
      rw [a0]
    rw [e, hl]
    decide
  have hcnt : cr_counted sample_hdr d 0 = false := by
    unfold cr_counted lane_readback cr_adjust_request
    rw [haux]
    unfold wandering_sink
    rcases ht with ht | ht
    · have e1 : (d.tick + 1) % 10 = 5 := by omega
      have e2 : (d.tick + 2) % 10 = 6 := by omega
      have e3 : (d.tick + 3 + 0) % 10 = 7 := by omega
      rw [e1, e2, e3]
      decide
    · have e1 : (d.tick + 1) % 10 = 0 := by omega
      have e2 : (d.tick + 2) % 10 = 1 := by omega
      have e3 : (d.tick + 3 + 0) % 10 = 2 := by omega
      rw [e1, e2, e3]
      decide
  have hv : cr_last_voltage d ≠ sample_hdr.VOLTAGE_LEVEL_3 := by
    unfold cr_last_voltage cr_adjust_request
    rw [hl, haux]
    unfold wandering_sink
    rcases ht with ht | ht
    · have e1 : (d.tick + 1) % 10 = 5 := by omega
      have e2 : (d.tick + 2) % 10 = 6 := by omega
      rw [e1, e2]
      decide
    · have e1 : (d.tick + 1) % 10 = 0 := by omega
      have e2 : (d.tick + 2) % 10 = 1 := by omega
      rw [e1, e2]
      decide
  have hafter : cr_loop_after sample_hdr d 0 = 0 := by
    unfold cr_loop_after
    rw [hcnt, hc]
    simp
  have hhit : cr_limit_hit sample_hdr d = false := by
    unfold cr_limit_hit
    rw [decide_eq_false_iff_not, hl]
    rintro ⟨lane, hlane, hx⟩
    have hl0 : lane = 0 := by omega
    subst hl0
    rcases hx with hx | hx
    · exact hv hx
    · rw [hafter] at hx
      exact absurd hx (by decide)
  obtain ⟨ra, rc, -, rl, -, rno⟩ := process_clock_recovery_retry_dev sample_hdr d (by decide) hnot
  obtain ⟨rs, -, rt, -, -⟩ := rno hhit
  refine ⟨ra.trans haux, rs.trans hs, rl.trans hl, ?_, ?_⟩
  · rw [rc, hafter]
  · rw [rt, hl]
    rcases ht with ht | ht
    · right
      omega
    · left
      omega

theorem wandering_sink_loop (fuel : Nat) (d : s5p_dp_device) (haux : d.aux = wandering_sink)
    (hs : d.link_train.lt_state = .CLOCK_RECOVERY) (hl : d.link_train.lane_count = 1)
    (hc : d.link_train.cr_loop 0 = 0) (ht : d.tick % 10 = 4 ∨ d.tick % 10 = 9) :
    s5p_dp_sw_link_training_loop sample_hdr fuel d = none := by
  induction fuel generalizing d with
  | zero => rfl
  | succ n ih =>
    rw [(sw_loop_clock_recovery sample_hdr n d hs).1]
    obtain ⟨a, s, l, c, t⟩ := wandering_sink_step d haux hs hl hc ht
    exact ih _ a s l c t

/-- C14 (as stated) fails.  With the sample header, one lane at rate `0x0a` and the sink
`wandering_sink` (never CR done on lane 0; voltage swing 1 and 0 requested in turn; the
register reading back the swing programmed last), every clock-recovery pass finds the
read-back different from the request, counts no lane and retries: the loop of
`s5p_dp_sw_link_training` reaches neither `FINISHED` nor `FAILED`, whatever number of
passes it is given.  Its first six passes start in `START` and then five times in
`CLOCK_RECOVERY`, and the level programmed for lane 0 is 1, 0, 1 after passes 2, 3, 4. -/
theorem sw_link_training_wandering_sink_never_ends :
    (∀ fuel, s5p_dp_sw_link_training sample_hdr fuel wandering_device = none) ∧
    sw_link_training_states sample_hdr 6 (sw_link_training_entry sample_hdr wandering_device)
      = [.START, .CLOCK_RECOVERY, .CLOCK_RECOVERY, .CLOCK_RECOVERY, .CLOCK_RECOVERY,
         .CLOCK_RECOVERY] ∧
    (Nat.iterate (sw_link_training_step sample_hdr) 2
      (sw_link_training_entry sample_hdr wandering_device)).link_train.training_lane 0 = 1 ∧
    (Nat.iterate (sw_link_training_step sample_hdr) 3
      (sw_link_training_entry sample_hdr wandering_device)).link_train.training_lane 0 = 0 ∧
    (Nat.iterate (sw_link_training_step sample_hdr) 4
      (sw_link_training_entry sample_hdr wandering_device)).link_train.training_lane 0 = 1 := by
  refine ⟨?_, by decide, by decide, by decide, by decide⟩
  intro fuel
  cases fuel with
  | zero => rfl
  | succ n =>
    have hentry : s5p_dp_sw_link_training sample_hdr (n + 1) wandering_device
        = s5p_dp_sw_link_training_loop sample_hdr n
            (s5p_dp_link_start sample_hdr (sw_link_training_entry sample_hdr wandering_device)) :=
      rfl
    rw [hentry]
    obtain ⟨la, lt, -, ls, -, ll, -, -, lc⟩ := link_start_dev sample_hdr
      (sw_link_training_entry sample_hdr wandering_device)
    apply wandering_sink_loop n _ (la.trans rfl) ls (ll.trans rfl)
    · rw [lc 0]
      rfl
    · left
      rw [lt]
      rfl

/-! ## Transfer results inside the training engine -/

theorem for_loop_succeed_all (body : Nat → s5p_dp_device → s5p_dp_device)
    (hb : ∀ i s, body i (succeed_all s) = succeed_all (body i s)) (n : Nat)
    (dp : s5p_dp_device) :
    for_loop body n (succeed_all dp) = succeed_all (for_loop body n dp) := by
  induction n with
  | zero => rfl
  | succ n ih => rw [for_loop, for_loop, ih, hb]

theorem set_lane_lane_pre_emphasis_succeed_all (dp : s5p_dp_device) (pre_emphasis lane : Nat) :
    s5p_dp_set_lane_lane_pre_emphasis (succeed_all dp) pre_emphasis lane
      = succeed_all (s5p_dp_set_lane_lane_pre_emphasis dp pre_emphasis lane) := by
  unfold s5p_dp_set_lane_lane_pre_emphasis
  split <;> rfl

theorem set_lane_link_training_succeed_all (dp : s5p_dp_device) (training_lane_set lane : Nat) :
    s5p_dp_set_lane_link_training (succeed_all dp) training_lane_set lane
      = succeed_all (s5p_dp_set_lane_link_training dp training_lane_set lane) := by
  unfold s5p_dp_set_lane_link_training
  split <;> rfl

theorem get_lane_link_training_succeed_all (dp : s5p_dp_device) (lane : Nat) :
    s5p_dp_get_lane_link_training (succeed_all dp) lane
      = ((s5p_dp_get_lane_link_training dp lane).1,
         succeed_all (s5p_dp_get_lane_link_training dp lane).2) := by
  unfold s5p_dp_get_lane_link_training
  split <;> rfl

theorem write_training_lanes_succeed_all (h : Hdr) (dp : s5p_dp_device) (lane_count : Nat) :
    write_training_lanes h (succeed_all dp) lane_count
      = succeed_all (write_training_lanes h dp lane_count) := by
  unfold write_training_lanes
  apply for_loop_succeed_all (fun lane dp =>
    (s5p_dp_write_byte_to_dpcd (s5p_dp_set_lane_link_training dp
      (dp.link_train.training_lane lane) lane) (h.DPCD_ADDR_TRAINING_LANE0_SET + lane)
      ((s5p_dp_set_lane_link_training dp
        (dp.link_train.training_lane lane) lane).link_train.training_lane lane % 256)).2)
  intro i s
  rw [show (succeed_all s).link_train = s.link_train from rfl,
    set_lane_link_training_succeed_all]
  rfl

theorem get_adjust_train_succeed_all (h : Hdr) (dp : s5p_dp_device) (adj : Nat → Nat) :
    s5p_dp_get_adjust_train h (succeed_all dp) adj
      = succeed_all (s5p_dp_get_adjust_train h dp adj) := by
  unfold s5p_dp_get_adjust_train
  apply for_loop_succeed_all
  intro i s
  rfl

theorem link_start_succeed_all (h : Hdr) (dp : s5p_dp_device) :
    s5p_dp_link_start h (succeed_all dp) = succeed_all (s5p_dp_link_start h dp) := by
  unfold s5p_dp_link_start
  have e1 : ∀ n d, for_loop (fun lane dp => set_cr_loop dp lane 0) n (succeed_all d)
      = succeed_all (for_loop (fun lane dp => set_cr_loop dp lane 0) n d) :=
    fun n d => for_loop_succeed_all (fun lane dp => set_cr_loop dp lane 0) (fun _ _ => rfl) n d
  have e2 : ∀ n d, for_loop (fun lane dp =>
        s5p_dp_set_lane_lane_pre_emphasis dp h.PRE_EMPHASIS_LEVEL_0 lane) n (succeed_all d)
      = succeed_all (for_loop (fun lane dp =>
        s5p_dp_set_lane_lane_pre_emphasis dp h.PRE_EMPHASIS_LEVEL_0 lane) n d) :=
    fun n d => for_loop_succeed_all
      (fun lane dp => s5p_dp_set_lane_lane_pre_emphasis dp h.PRE_EMPHASIS_LEVEL_0 lane)
      (fun i s => set_lane_lane_pre_emphasis_succeed_all s _ i) n d
  have w1 : ∀ d a b, (s5p_dp_write_byte_to_dpcd (succeed_all d) a b).2
      = succeed_all (s5p_dp_write_byte_to_dpcd d a b).2 := fun _ _ _ => rfl
  have w2 : ∀ d a n b, (s5p_dp_write_bytes_to_dpcd (succeed_all d) a n b).2
      = succeed_all (s5p_dp_write_bytes_to_dpcd d a n b).2 := fun _ _ _ _ => rfl
  have s1 : ∀ d v, set_lt_state (succeed_all d) v = succeed_all (set_lt_state d v) :=
    fun _ _ => rfl
  have s2 : ∀ d v, set_eq_loop (succeed_all d) v = succeed_all (set_eq_loop d v) :=
    fun _ _ => rfl
  have s3 : ∀ d v, s5p_dp_set_link_bandwidth (succeed_all d) v
      = succeed_all (s5p_dp_set_link_bandwidth d v) := fun _ _ => rfl
  have s4 : ∀ d v, s5p_dp_set_lane_count (succeed_all d) v
      = succeed_all (s5p_dp_set_lane_count d v) := fun _ _ => rfl
  have s5 : ∀ d v, s5p_dp_set_training_pattern (succeed_all d) v
      = succeed_all (s5p_dp_set_training_pattern d v) := fun _ _ => rfl
  have l1 : ∀ d, (succeed_all d).link_train = d.link_train := fun _ => rfl
  simp only [s1, s2, e1, w1, l1, s3, s4, w2, e2, s5]

theorem training_pattern_dis_succeed_all (h : Hdr) (dp : s5p_dp_device) :
    s5p_dp_training_pattern_dis h (succeed_all dp)
      = succeed_all (s5p_dp_training_pattern_dis h dp) := rfl

theorem set_enhanced_mode_succeed_all (h : Hdr) (dp : s5p_dp_device) :
    s5p_dp_set_enhanced_mode h (succeed_all dp)
      = succeed_all (s5p_dp_set_enhanced_mode h dp) := by
  unfold s5p_dp_set_enhanced_mode s5p_dp_is_enhanced_mode_available
    s5p_dp_enable_rx_to_enhanced_mode
  have r1 : ∀ d a, (s5p_dp_read_byte_from_dpcd (succeed_all d) a).2.1
      = (s5p_dp_read_byte_from_dpcd d a).2.1 := fun _ _ => rfl
  have r2 : ∀ d a, (s5p_dp_read_byte_from_dpcd (succeed_all d) a).2.2
      = succeed_all (s5p_dp_read_byte_from_dpcd d a).2.2 := fun _ _ => rfl
  have w1 : ∀ d a b, (s5p_dp_write_byte_to_dpcd (succeed_all d) a b).2
      = succeed_all (s5p_dp_write_byte_to_dpcd d a b).2 := fun _ _ _ => rfl
  have s1 : ∀ d v, s5p_dp_enable_enhanced_mode (succeed_all d) v
      = succeed_all (s5p_dp_enable_enhanced_mode d v) := fun _ _ => rfl
  simp only [r1, r2, w1]
  split_ifs <;> simp only [w1, s1]

theorem reduce_link_rate_succeed_all (h : Hdr) (dp : s5p_dp_device) :
    s5p_dp_reduce_link_rate h (succeed_all dp)
      = succeed_all (s5p_dp_reduce_link_rate h dp) := by
  unfold s5p_dp_reduce_link_rate
  have e1 : ∀ d e, emit (succeed_all d) e = succeed_all (emit d e) := fun _ _ => rfl
  have l1 : ∀ d, (succeed_all d).link_train = d.link_train := fun _ => rfl
  have s1 : ∀ d v, set_lt_state (succeed_all d) v = succeed_all (set_lt_state d v) :=
    fun _ _ => rfl
  have s2 : ∀ d v, set_link_rate (succeed_all d) v = succeed_all (set_link_rate d v) :=
    fun _ _ => rfl
  simp only [e1, l1]
  split_ifs
  · simp only [s1, s2]
  · simp only [training_pattern_dis_succeed_all, set_enhanced_mode_succeed_all, s1]

theorem clock_recovery_lane_loop_succeed_all (h : Hdr) (adj : Nat → Nat) (n : Nat)
    (d : s5p_dp_device) (v : Nat) :
    for_loop (clock_recovery_lane_body h adj) n (succeed_all d, v)
      = (succeed_all (for_loop (clock_recovery_lane_body h adj) n (d, v)).1,
         (for_loop (clock_recovery_lane_body h adj) n (d, v)).2) := by
  induction n with
  | zero => rfl
  | succ n ih =>
    rw [for_loop, for_loop, ih]
    unfold clock_recovery_lane_body
    simp only [get_lane_link_training_succeed_all]
    have l1 : ∀ d, (succeed_all d).link_train = d.link_train := fun _ => rfl
    have s1 : ∀ d a b, set_cr_loop (succeed_all d) a b = succeed_all (set_cr_loop d a b) :=
      fun _ _ _ => rfl
    have s2 : ∀ d a b, set_training_lane (succeed_all d) a b
        = succeed_all (set_training_lane d a b) := fun _ _ _ => rfl
    simp only [l1, s1]
    split_ifs <;> simp only [s2]

theorem process_clock_recovery_succeed_all (h : Hdr) (dp : s5p_dp_device) :
    s5p_dp_process_clock_recovery h (succeed_all dp)
      = ((s5p_dp_process_clock_recovery h dp).1,
         succeed_all (s5p_dp_process_clock_recovery h dp).2) := by
  rw [process_clock_recovery_eq, process_clock_recovery_eq]
  have u1 : ∀ d v, udelay (succeed_all d) v = succeed_all (udelay d v) := fun _ _ => rfl
  have r1 : ∀ d a, (s5p_dp_read_byte_from_dpcd (succeed_all d) a).2.1
      = (s5p_dp_read_byte_from_dpcd d a).2.1 := fun _ _ => rfl
  have r2 : ∀ d a, (s5p_dp_read_byte_from_dpcd (succeed_all d) a).2.2
      = succeed_all (s5p_dp_read_byte_from_dpcd d a).2.2 := fun _ _ => rfl
  have b1 : ∀ d a n, (s5p_dp_read_bytes_from_dpcd (succeed_all d) a n).2.1
      = (s5p_dp_read_bytes_from_dpcd d a n).2.1 := fun _ _ _ => rfl
  have b2 : ∀ d a n, (s5p_dp_read_bytes_from_dpcd (succeed_all d) a n).2.2
      = succeed_all (s5p_dp_read_bytes_from_dpcd d a n).2.2 := fun _ _ _ => rfl
  have w1 : ∀ d a b, (s5p_dp_write_byte_to_dpcd (succeed_all d) a b).2
      = succeed_all (s5p_dp_write_byte_to_dpcd d a b).2 := fun _ _ _ => rfl
  have l1 : ∀ d, (succeed_all d).link_train = d.link_train := fun _ => rfl
  have s1 : ∀ d v, set_lt_state (succeed_all d) v = succeed_all (set_lt_state d v) :=
    fun _ _ => rfl
  have s5 : ∀ d v, s5p_dp_set_training_pattern (succeed_all d) v
      = succeed_all (s5p_dp_set_training_pattern d v) := fun _ _ => rfl
  have c1 : ∀ d v, s5p_dp_check_max_cr_loop h (succeed_all d) v
      = s5p_dp_check_max_cr_loop h d v := fun _ _ => rfl
  simp only [u1, b1, b2, l1, r1, r2, clock_recovery_lane_loop_succeed_all, c1]
  split_ifs <;>
    simp only [s5, get_adjust_train_succeed_all, w1, write_training_lanes_succeed_all, s1,
      reduce_link_rate_succeed_all]

theorem process_equalizer_training_succeed_all (h : Hdr) (dp : s5p_dp_device) :
    s5p_dp_process_equalizer_training h (succeed_all dp)
      = ((s5p_dp_process_equalizer_training h dp).1,
         succeed_all (s5p_dp_process_equalizer_training h dp).2) := by
  unfold s5p_dp_process_equalizer_training
  have u1 : ∀ d v, udelay (succeed_all d) v = succeed_all (udelay d v) := fun _ _ => rfl
  have b1 : ∀ d a n, (s5p_dp_read_bytes_from_dpcd (succeed_all d) a n).2.1
      = (s5p_dp_read_bytes_from_dpcd d a n).2.1 := fun _ _ _ => rfl
  have b2 : ∀ d a n, (s5p_dp_read_bytes_from_dpcd (succeed_all d) a n).2.2
      = succeed_all (s5p_dp_read_bytes_from_dpcd d a n).2.2 := fun _ _ _ => rfl
  have g1 : ∀ d, (s5p_dp_get_link_bandwidth (succeed_all d)).1
      = (s5p_dp_get_link_bandwidth d).1 := fun _ => rfl
  have g2 : ∀ d, (s5p_dp_get_link_bandwidth (succeed_all d)).2
      = succeed_all (s5p_dp_get_link_bandwidth d).2 := fun _ => rfl
  have g3 : ∀ d, (s5p_dp_get_lane_count (succeed_all d)).1
      = (s5p_dp_get_lane_count d).1 := fun _ => rfl
  have g4 : ∀ d, (s5p_dp_get_lane_count (succeed_all d)).2
      = succeed_all (s5p_dp_get_lane_count d).2 := fun _ => rfl
  have l1 : ∀ d, (succeed_all d).link_train = d.link_train := fun _ => rfl
  have s1 : ∀ d v, set_lt_state (succeed_all d) v = succeed_all (set_lt_state d v) :=
    fun _ _ => rfl
  have s2 : ∀ d v, set_link_rate (succeed_all d) v = succeed_all (set_link_rate d v) :=
    fun _ _ => rfl
  have s3 : ∀ d v, set_lane_count_field (succeed_all d) v
      = succeed_all (set_lane_count_field d v) := fun _ _ => rfl
  have s4 : ∀ d v, set_eq_loop (succeed_all d) v = succeed_all (set_eq_loop d v) :=
    fun _ _ => rfl
  simp only [u1, b1, b2, l1, s4]
  split_ifs <;>
    simp only [training_pattern_dis_succeed_all, g1, g2, g3, g4, s1, s2, s3, s4, l1,
      set_enhanced_mode_succeed_all, get_adjust_train_succeed_all,
      write_training_lanes_succeed_all, reduce_link_rate_succeed_all]

theorem sw_link_training_step_succeed_all (h : Hdr) (dp : s5p_dp_device) :
    sw_link_training_step h (succeed_all dp) = succeed_all (sw_link_training_step h dp) := by
  unfold sw_link_training_step
  rw [show (succeed_all dp).link_train = dp.link_train from rfl]
  split
  · exact link_start_succeed_all h dp
  · rw [process_clock_recovery_succeed_all]
  · rw [process_equalizer_training_succeed_all]
  · rfl
  · rfl

theorem sw_link_training_loop_succeed_all (h : Hdr) (fuel : Nat) (dp : s5p_dp_device) :
    s5p_dp_sw_link_training_loop h fuel (succeed_all dp)
      = (s5p_dp_sw_link_training_loop h fuel dp).map (fun x => (x.1, succeed_all x.2)) := by
  induction fuel generalizing dp with
  | zero => rfl
  | succ n ih =>
    by_cases hfin : dp.link_train.lt_state = .FINISHED
    · rw [(sw_loop_finished h n dp hfin).1, (sw_loop_finished h n (succeed_all dp) hfin).1]
      rfl
    · by_cases hfail : dp.link_train.lt_state = .FAILED
      · rw [(sw_loop_failed h n dp hfail).1, (sw_loop_failed h n (succeed_all dp) hfail).1]
        rfl
      · rw [sw_link_training_loop_step h n dp hfin hfail,
          sw_link_training_loop_step h n (succeed_all dp) hfin hfail,
          sw_link_training_step_succeed_all, ih]

theorem sw_link_training_succeed_all (h : Hdr) (fuel : Nat) (dp : s5p_dp_device) :
    s5p_dp_sw_link_training h fuel (succeed_all dp)
      = (s5p_dp_sw_link_training h fuel dp).map (fun x => (x.1, succeed_all x.2)) := by
  have e : ∀ d, s5p_dp_sw_link_training h fuel d
      = s5p_dp_sw_link_training_loop h fuel (sw_link_training_entry h d) := fun _ => rfl
  have e2 : sw_link_training_entry h (succeed_all dp)
      = succeed_all (sw_link_training_entry h dp) := by
    unfold sw_link_training_entry
    rw [show (succeed_all dp).link_train = dp.link_train from rfl]
    split_ifs <;> rfl
  rw [e, e, e2, sw_link_training_loop_succeed_all]

theorem init_training_succeed_all (h : Hdr) (dp : s5p_dp_device) (max_lane max_rate : Nat) :
    s5p_dp_init_training h (succeed_all dp) max_lane max_rate
      = succeed_all (s5p_dp_init_training h dp max_lane max_rate) := by
  unfold s5p_dp_init_training s5p_dp_get_max_rx_bandwidth s5p_dp_get_max_rx_lane_count
  have r1 : ∀ d a, (s5p_dp_read_byte_from_dpcd (succeed_all d) a).2.1
      = (s5p_dp_read_byte_from_dpcd d a).2.1 := fun _ _ => rfl
  have r2 : ∀ d a, (s5p_dp_read_byte_from_dpcd (succeed_all d) a).2.2
      = succeed_all (s5p_dp_read_byte_from_dpcd d a).2.2 := fun _ _ => rfl
  have m1 : ∀ d, s5p_dp_reset_macro (succeed_all d) = succeed_all ( s5p_dp_reset_macro d) :=
    fun _ => rfl
  have l1 : ∀ d, (succeed_all d).link_train = d.link_train := fun _ => rfl
  have s2 : ∀ d v, set_link_rate (succeed_all d) v = succeed_all (set_link_rate d v) :=
    fun _ _ => rfl
  have s3 : ∀ d v, set_lane_count_field (succeed_all d) v
      = succeed_all (set_lane_count_field d v) := fun _ _ => rfl
  have p1 : ∀ d a b, s5p_dp_set_analog_power_down (succeed_all d) a b
      = succeed_all (s5p_dp_set_analog_power_down d a b) := fun _ _ _ => rfl
  have i1 : ∀ (c : Prop) [Decidable c] (a b : s5p_dp_device),
      (if c then succeed_all a else succeed_all b) = succeed_all (if c then a else b) := by
    intro c _ a b
    split_ifs <;> rfl
  simp only [m1, r1, r2, s2, s3, l1, i1, p1]

theorem set_link_train_loop_succeed_all (h : Hdr) (fuel count bwtype : Nat) (todo : Nat)
    (rv : Option Int) (dp : s5p_dp_device) :
    s5p_dp_set_link_train_loop h fuel count bwtype todo rv (succeed_all dp)
      = (s5p_dp_set_link_train_loop h fuel count bwtype todo rv dp).map
          (fun x => (x.1, succeed_all x.2)) := by
  induction todo generalizing rv dp with
  | zero =>
    rw [s5p_dp_set_link_train_loop, s5p_dp_set_link_train_loop]
    cases rv <;> rfl
  | succ n ih =>
    rw [s5p_dp_set_link_train_loop, s5p_dp_set_link_train_loop]
    simp only [init_training_succeed_all, sw_link_training_succeed_all]
    cases hres : s5p_dp_sw_link_training h fuel (s5p_dp_init_training h dp count bwtype) with
    | none => rfl
    | some x =>
      simp only [Option.map_some']
      split_ifs
      · rfl
      · rw [show udelay (succeed_all x.2) 100 = succeed_all (udelay x.2 100) from rfl, ih]

/-- C13 (as stated) fails.  With the sample header and the answers of `happy_script`, but
with every DPCD transfer of the training engine failing (return value `-5`) while it
delivers the same data (the four writes of `s5p_dp_link_start`, the status block reads and
the writes of clock recovery and equalizer training): `s5p_dp_process_clock_recovery`
returns 0 on the failed status read, and `s5p_dp_set_link_train` returns 0 with the
session `FINISHED`. -/
theorem set_link_train_zero_after_failed_transfers :
    (s5p_dp_process_clock_recovery sample_hdr
      (device_of (session_of 0x0a 2 .CLOCK_RECOVERY)
        [⟨-5, [0x11, 0x00, 0x00, 0x00, 0x00, 0x00]⟩, ⟨-5, []⟩, ⟨-5, []⟩, ⟨-5, []⟩])).1 = 0 ∧
    (s5p_dp_process_clock_recovery sample_hdr
      (device_of (session_of 0x0a 2 .CLOCK_RECOVERY)
        [⟨-5, [0x11, 0x00, 0x00, 0x00, 0x00, 0x00]⟩, ⟨-5, []⟩, ⟨-5, []⟩,
         ⟨-5, []⟩])).2.link_train.lt_state = .EQUALIZER_TRAINING ∧
    (s5p_dp_set_link_train sample_hdr 4
      (scripted_device
        [⟨0, [0x0a]⟩, ⟨0, [0x82]⟩,
         ⟨-5, []⟩, ⟨-5, []⟩, ⟨-5, []⟩, ⟨-5, []⟩,
         ⟨-5, [0x11, 0x00, 0x00, 0x00, 0x00, 0x00]⟩, ⟨-5, []⟩, ⟨-5, []⟩, ⟨-5, []⟩,
         ⟨-5, [0x77, 0x00, 0x01, 0x00, 0x00, 0x00]⟩, ⟨-5, []⟩,
         ⟨0, [0x0a]⟩, ⟨0, [0x02]⟩,
         ⟨0, [0x82]⟩, ⟨0, [0x02]⟩, ⟨0, []⟩]) 2 0x0a).map
      (fun x => (x.1, x.2.link_train.lt_state)) = some (0, .FINISHED) := by
  decide

/-- C13 (amended).  A failed DPCD transfer inside the link-training engine is not
propagated.  `s5p_dp_process_clock_recovery` and `s5p_dp_process_equalizer_training`
return 0 whatever their transfers return (`s5p_dp_link_start` returns nothing), and the
result of `s5p_dp_set_link_train` depends on the data its transfers deliver and not on
their return values: run on `succeed_all dp`, where every transfer delivers the same data
and reports success, it gives the same return value and the same final device (up to the
return values of the answers) as on `dp`.  By `sw_link_training_result` that return value
is 0 exactly when the last attempt ended in `FINISHED`. -/
theorem set_link_train_ignores_transfer_results (h : Hdr) (fuel : Nat) (dp : s5p_dp_device)
    (count bwtype : Nat) :
    (s5p_dp_process_clock_recovery h dp).1 = 0 ∧
    (s5p_dp_process_equalizer_training h dp).1 = 0 ∧
    s5p_dp_set_link_train h fuel (succeed_all dp) count bwtype
      = (s5p_dp_set_link_train h fuel dp count bwtype).map
          (fun x => (x.1, succeed_all x.2)) := by
  refine ⟨?_, ?_, set_link_train_loop_succeed_all h fuel count bwtype _ none dp⟩
  · rw [process_clock_recovery_eq]
    simp only
    split_ifs <;> rfl
  · unfold s5p_dp_process_equalizer_training
    simp only
    split_ifs <;> rfl


/-! ## The steps of the state machine in full: targets and calls -/

theorem set_lane_link_training_log (dp : s5p_dp_device) (training_lane_set lane : Nat) :
    (s5p_dp_set_lane_link_training dp training_lane_set lane).log
      = dp.log ++ (if lane < 4 then [Event.set_lane_link_training lane training_lane_set]
          else []) := by
  unfold s5p_dp_set_lane_link_training
  split
  · rfl
  · rfl
  · rfl
  · rfl
  · rename_i h0 h1 h2 h3
    have e0 : lane ≠ 0 := fun hc => h0 hc
    have e1 : lane ≠ 1 := fun hc => h1 hc
    have e2 : lane ≠ 2 := fun hc => h2 hc
    have e3 : lane ≠ 3 := fun hc => h3 hc
    have : ¬ lane < 4 := by omega
    simp [this]

theorem write_training_lanes_log (h : Hdr) (dp : s5p_dp_device) (n : Nat) :
    (write_training_lanes h dp n).log
      = dp.log ++ lane_write_events h dp.link_train.training_lane n := by
  induction n with
  | zero => simp [write_training_lanes, for_loop, lane_write_events]
  | succ n ih =>
    have hlt := (write_training_lanes_dev h dp n).1
    unfold write_training_lanes at ih hlt ⊢
    rw [for_loop]
    generalize for_loop _ n dp = W at ih hlt ⊢
    simp only [(write_byte_to_dpcd_dev _ _ _).2.2.2, set_lane_link_training_log,
      (set_lane_link_training_dev _ _ _).1, ih, hlt, lane_write_events, Nat.mod_mod,
      List.append_assoc]

theorem lane_write_events_congr (h : Hdr) (tl tl' : Nat → Nat) (n : Nat)
    (htl : ∀ i, i < n → tl i = tl' i) :
    lane_write_events h tl n = lane_write_events h tl' n := by
  induction n with
  | zero => rfl
  | succ n ih =>
    rw [lane_write_events, lane_write_events, ih (fun i hi => htl i (by omega)),
      htl n (by omega)]

theorem get_adjust_train_target (h : Hdr) (dp : s5p_dp_device) (adj : Nat → Nat) (i : Nat) :
    (s5p_dp_get_adjust_train h dp adj).link_train.training_lane i
      = if i < dp.link_train.lane_count then adjust_target h adj i
        else dp.link_train.training_lane i := by
  rw [get_adjust_train_training_lane]
  rfl

theorem process_clock_recovery_ok_targets (h : Hdr) (dp : s5p_dp_device)
    (hok : s5p_dp_clock_recovery_ok h (status_block dp) dp.link_train.lane_count = 0) :
    (∀ i, (s5p_dp_process_clock_recovery h dp).2.link_train.training_lane i
      = if i < dp.link_train.lane_count then
          adjust_target h (arr2 (status_block dp 4) (status_block dp 5)) i
        else dp.link_train.training_lane i) ∧
    (s5p_dp_process_clock_recovery h dp).2.log
      = dp.log ++
        ([Event.udelay 100, Event.read_bytes_from_dpcd h.DPCD_ADDR_LANE0_1_STATUS 6,
          Event.set_training_pattern h.TRAINING_PTN2,
          Event.write_byte_to_dpcd h.DPCD_ADDR_TRAINING_LANE0_SET
            ((h.DPCD_SCRAMBLING_DISABLED ||| h.DPCD_TRAINING_PATTERN_2) % 256)] ++
         lane_write_events h (adjust_target h (arr2 (status_block dp 4) (status_block dp 5)))
           dp.link_train.lane_count) := by
  have hblk : (s5p_dp_read_bytes_from_dpcd (udelay dp 100) h.DPCD_ADDR_LANE0_1_STATUS 6).2.1
      = status_block dp := rfl
  have hlc : (s5p_dp_read_bytes_from_dpcd (udelay dp 100)
      h.DPCD_ADDR_LANE0_1_STATUS 6).2.2.link_train.lane_count = dp.link_train.lane_count := rfl
  obtain ⟨dG, hdG⟩ : ∃ dG, dG = s5p_dp_get_adjust_train h (s5p_dp_set_training_pattern
      (s5p_dp_read_bytes_from_dpcd (udelay dp 100) h.DPCD_ADDR_LANE0_1_STATUS 6).2.2
      h.TRAINING_PTN2) (arr2 (status_block dp 4) (status_block dp 5)) := ⟨_, rfl⟩
  have hunf : s5p_dp_process_clock_recovery h dp
      = (0, set_lt_state (write_training_lanes h
          (s5p_dp_write_byte_to_dpcd dG h.DPCD_ADDR_TRAINING_LANE0_SET
            ((h.DPCD_SCRAMBLING_DISABLED ||| h.DPCD_TRAINING_PATTERN_2) % 256)).2
          dp.link_train.lane_count) .EQUALIZER_TRAINING) := by
    rw [process_clock_recovery_eq, hdG]
    simp only [hblk, hlc, hok, if_true]
  have hgt := get_adjust_train_target h (s5p_dp_set_training_pattern
      (s5p_dp_read_bytes_from_dpcd (udelay dp 100) h.DPCD_ADDR_LANE0_1_STATUS 6).2.2
      h.TRAINING_PTN2) (arr2 (status_block dp 4) (status_block dp 5))
  have hgd := get_adjust_train_dev h (s5p_dp_set_training_pattern
      (s5p_dp_read_bytes_from_dpcd (udelay dp 100) h.DPCD_ADDR_LANE0_1_STATUS 6).2.2
      h.TRAINING_PTN2) (arr2 (status_block dp 4) (status_block dp 5))
  rw [← hdG] at hgt hgd
  have hGlog : dG.log = dp.log ++ [Event.udelay 100,
      Event.read_bytes_from_dpcd h.DPCD_ADDR_LANE0_1_STATUS 6,
      Event.set_training_pattern h.TRAINING_PTN2] := by
    rw [hgd.2.2.1]
    simp [s5p_dp_set_training_pattern, s5p_dp_read_bytes_from_dpcd, udelay, answer, emit]
  have hGtl : ∀ i, dG.link_train.training_lane i
      = if i < dp.link_train.lane_count then
          adjust_target h (arr2 (status_block dp 4) (status_block dp 5)) i
        else dp.link_train.training_lane i := fun i => hgt i
  rw [hunf]
  constructor
  · intro i
    show (write_training_lanes h _ _).link_train.training_lane i = _
    rw [(write_training_lanes_dev h _ _).1]
    exact hGtl i
  · show (write_training_lanes h _ _).log = _
    rw [write_training_lanes_log, (write_byte_to_dpcd_dev _ _ _).2.2.2,
      (write_byte_to_dpcd_dev _ _ _).1, hGlog, Nat.mod_mod,
      lane_write_events_congr h dG.link_train.training_lane
        (adjust_target h (arr2 (status_block dp 4) (status_block dp 5)))
        dp.link_train.lane_count (fun i hi => by rw [hGtl i, if_pos hi])]
    simp

theorem adjust_target_lt (h : Hdr) (adj : Nat → Nat) (lane : Nat) :
    adjust_target h adj lane < 256 := by
  unfold adjust_target
  exact Nat.mod_lt _ (by norm_num)

theorem lane_write_events_mem (h : Hdr) (tl : Nat → Nat) (n i : Nat) (hi : i < n)
    (h4 : i < 4) :
    Event.set_lane_link_training i (tl i) ∈ lane_write_events h tl n ∧
    Event.write_byte_to_dpcd (h.DPCD_ADDR_TRAINING_LANE0_SET + i) (tl i % 256)
      ∈ lane_write_events h tl n := by
  induction n with
  | zero => omega
  | succ n ih =>
    rw [lane_write_events]
    by_cases hn : i = n
    · subst hn
      simp [h4]
    · have := ih (by omega)
      exact ⟨List.mem_append_left _ this.1, List.mem_append_left _ this.2⟩

theorem process_equalizer_training_lost_cr_dev (h : Hdr) (dp : s5p_dp_device)
    (hnot : s5p_dp_clock_recovery_ok h (status_block dp) dp.link_train.lane_count ≠ 0) :
    (s5p_dp_process_equalizer_training h dp).2.aux = dp.aux ∧
    (s5p_dp_process_equalizer_training h dp).2.link_train.eq_loop = dp.link_train.eq_loop ∧
    (s5p_dp_process_equalizer_training h dp).2.link_train.cr_loop = dp.link_train.cr_loop ∧
    (s5p_dp_process_equalizer_training h dp).2.link_train.lane_count
      = dp.link_train.lane_count ∧
    (s5p_dp_process_equalizer_training h dp).2.link_train.training_lane
      = dp.link_train.training_lane ∧
    (s5p_dp_process_equalizer_training h dp).2.link_train.lt_state
      = (if dp.link_train.link_rate = h.LINK_RATE_2_70GBPS then .START else .FAILED) ∧
    (s5p_dp_process_equalizer_training h dp).2.link_train.link_rate
      = (if dp.link_train.link_rate = h.LINK_RATE_2_70GBPS then h.LINK_RATE_1_62GBPS % 256
         else dp.link_train.link_rate) ∧
    marks (s5p_dp_process_equalizer_training h dp).2.log
      = ((marks dp.log).1, (marks dp.log).2 + 1) := by
  have hblk : (s5p_dp_read_bytes_from_dpcd (udelay dp 400) h.DPCD_ADDR_LANE0_1_STATUS 6).2.1
      = status_block dp := rfl
  have hlc : (s5p_dp_read_bytes_from_dpcd (udelay dp 400)
      h.DPCD_ADDR_LANE0_1_STATUS 6).2.2.link_train.lane_count = dp.link_train.lane_count := rfl
  obtain ⟨dR, hdR⟩ : ∃ dR, dR
      = (s5p_dp_read_bytes_from_dpcd (udelay dp 400) h.DPCD_ADDR_LANE0_1_STATUS 6).2.2 := ⟨_, rfl⟩
  have hRaux : dR.aux = dp.aux := by rw [hdR]; rfl
  have hRlt : dR.link_train = dp.link_train := by rw [hdR]; rfl
  have hRm : marks dR.log = marks dp.log := by
    rw [hdR]
    simp only [(read_bytes_from_dpcd_dev _ _ _).2.2.1, udelay, emit_log, marks_append_one]
    simp
  have hunf : s5p_dp_process_equalizer_training h dp = (0, s5p_dp_reduce_link_rate h dR) := by
    unfold s5p_dp_process_equalizer_training
    simp only [hblk, hlc, hnot, if_false]
    rw [hdR]
  rw [hunf]
  obtain ⟨rs, rr, rl, re, rc, rt⟩ := reduce_link_rate_fields h dR
  obtain ⟨ra, -, rm⟩ := reduce_link_rate_dev h dR
  refine ⟨ra.trans hRaux, ?_, ?_, ?_, ?_, ?_, ?_, ?_⟩
  · rw [re, hRlt]
  · rw [rc, hRlt]
  · rw [rl, hRlt]
  · rw [rt, hRlt]
  · rw [rs, hRlt]
  · rw [rr, hRlt]
  · rw [rm, hRm]

theorem process_equalizer_training_retry_dev (h : Hdr) (dp : s5p_dp_device)
    (hcr : s5p_dp_clock_recovery_ok h (status_block dp) dp.link_train.lane_count = 0)
    (heq : s5p_dp_channel_eq_ok h (status_block dp) dp.link_train.lane_count ≠ 0) :
    (s5p_dp_process_equalizer_training h dp).2.aux = dp.aux ∧
    (s5p_dp_process_equalizer_training h dp).2.link_train.eq_loop
      = dp.link_train.eq_loop + 1 ∧
    (s5p_dp_process_equalizer_training h dp).2.link_train.cr_loop = dp.link_train.cr_loop ∧
    (s5p_dp_process_equalizer_training h dp).2.link_train.lane_count
      = dp.link_train.lane_count ∧
    (dp.link_train.eq_loop + 1 > h.MAX_EQ_LOOP →
      (s5p_dp_process_equalizer_training h dp).2.link_train.training_lane
        = dp.link_train.training_lane ∧
      (s5p_dp_process_equalizer_training h dp).2.link_train.lt_state
        = (if dp.link_train.link_rate = h.LINK_RATE_2_70GBPS then .START else .FAILED) ∧
      (s5p_dp_process_equalizer_training h dp).2.link_train.link_rate
        = (if dp.link_train.link_rate = h.LINK_RATE_2_70GBPS then h.LINK_RATE_1_62GBPS % 256
           else dp.link_train.link_rate) ∧
      marks (s5p_dp_process_equalizer_training h dp).2.log
        = ((marks dp.log).1, (marks dp.log).2 + 1)) ∧
    (¬ dp.link_train.eq_loop + 1 > h.MAX_EQ_LOOP →
      (∀ i, (s5p_dp_process_equalizer_training h dp).2.link_train.training_lane i
        = if i < dp.link_train.lane_count then
            adjust_target h (arr2 (status_block dp 4) (status_block dp 5)) i
          else dp.link_train.training_lane i) ∧
      (s5p_dp_process_equalizer_training h dp).2.link_train.lt_state
        = dp.link_train.lt_state ∧
      (s5p_dp_process_equalizer_training h dp).2.link_train.link_rate
        = dp.link_train.link_rate ∧
      (s5p_dp_process_equalizer_training h dp).2.log
        = dp.log ++
          ([Event.udelay 400, Event.read_bytes_from_dpcd h.DPCD_ADDR_LANE0_1_STATUS 6] ++
           lane_write_events h (adjust_target h (arr2 (status_block dp 4) (status_block dp 5)))
             dp.link_train.lane_count)) := by
  have hblk : (s5p_dp_read_bytes_from_dpcd (udelay dp 400) h.DPCD_ADDR_LANE0_1_STATUS 6).2.1
      = status_block dp := rfl
  have hlc : (s5p_dp_read_bytes_from_dpcd (udelay dp 400)
      h.DPCD_ADDR_LANE0_1_STATUS 6).2.2.link_train.lane_count = dp.link_train.lane_count := rfl
  obtain ⟨dE, hdE⟩ : ∃ dE, dE = set_eq_loop
      (s5p_dp_read_bytes_from_dpcd (udelay dp 400) h.DPCD_ADDR_LANE0_1_STATUS 6).2.2
      (dp.link_train.eq_loop + 1) := ⟨_, rfl⟩
  have hEaux : dE.aux = dp.aux := by rw [hdE]; rfl
  have hElt : dE.link_train = { dp.link_train with eq_loop := dp.link_train.eq_loop + 1 } := by
    rw [hdE]; rfl
  have hElog : dE.log = dp.log ++ [Event.udelay 400,
      Event.read_bytes_from_dpcd h.DPCD_ADDR_LANE0_1_STATUS 6] := by
    rw [hdE]
    simp [set_eq_loop, s5p_dp_read_bytes_from_dpcd, udelay, answer, emit]
  have hEm : marks dE.log = marks dp.log := by
    rw [hElog, marks_append]
    simp [marks_cons, marks_nil]
  have hunf : s5p_dp_process_equalizer_training h dp =
      (if dp.link_train.eq_loop + 1 > h.MAX_EQ_LOOP then
        (0, s5p_dp_reduce_link_rate h dE)
      else
        (0, write_training_lanes h (s5p_dp_get_adjust_train h dE
          (arr2 (status_block dp 4) (status_block dp 5))) dp.link_train.lane_count)) := by
    unfold s5p_dp_process_equalizer_training
    simp only [hblk, hlc, hcr, heq, if_true, if_false]
    rw [hdE]
    rfl
  rw [hunf]
  by_cases hloop : dp.link_train.eq_loop + 1 > h.MAX_EQ_LOOP
  · rw [if_pos hloop]
    obtain ⟨rs, rr, rl, re, rc, rt⟩ := reduce_link_rate_fields h dE
    obtain ⟨ra, -, rm⟩ := reduce_link_rate_dev h dE
    refine ⟨ra.trans hEaux, ?_, ?_, ?_, ?_, ?_⟩
    · rw [re, hElt]
    · rw [rc, hElt]
    · rw [rl, hElt]
    · intro _
      refine ⟨?_, ?_, ?_, ?_⟩
      · rw [rt, hElt]
      · rw [rs, hElt]
      · rw [rr, hElt]
      · rw [rm, hEm]
    · intro hc
      exact absurd hloop hc
  · rw [if_neg hloop]
    have hw := write_training_lanes_dev h (s5p_dp_get_adjust_train h dE
      (arr2 (status_block dp 4) (status_block dp 5))) dp.link_train.lane_count
    have hg := get_adjust_train_dev h dE (arr2 (status_block dp 4) (status_block dp 5))
    have hgt := get_adjust_train_target h dE (arr2 (status_block dp 4) (status_block dp 5))
    have hElc : dE.link_train.lane_count = dp.link_train.lane_count := by rw [hElt]
    refine ⟨hw.2.1.trans (hg.1.trans hEaux), ?_, ?_, ?_, ?_, ?_⟩
    · show (write_training_lanes h _ _).link_train.eq_loop = _
      rw [hw.1, hg.2.2.2.2.2.2.1, hElt]
    · show (write_training_lanes h _ _).link_train.cr_loop = _
      rw [hw.1, hg.2.2.2.2.2.2.2, hElt]
    · show (write_training_lanes h _ _).link_train.lane_count = _
      rw [hw.1, hg.2.2.2.2.2.1, hElt]
    · intro hc
      exact absurd hc hloop
    · intro _
      refine ⟨?_, ?_, ?_, ?_⟩
      · intro i
        show (write_training_lanes h _ _).link_train.training_lane i = _
        rw [hw.1, hgt i, hElc, hElt]
      · show (write_training_lanes h _ _).link_train.lt_state = _
        rw [hw.1, hg.2.2.2.1, hElt]
      · show (write_training_lanes h _ _).link_train.link_rate = _
        rw [hw.1, hg.2.2.2.2.1, hElt]
      · show (write_training_lanes h _ _).log = _
        rw [write_training_lanes_log, hg.2.2.1, hElog,
          lane_write_events_congr h _
            (adjust_target h (arr2 (status_block dp 4) (status_block dp 5)))
            dp.link_train.lane_count (fun i hi => by rw [hgt i, hElc, if_pos hi])]
        simp

/-! ## C23, C24, C25: the passes of clock recovery and of the equalizer -/

/-- C24. Clock recovery done (for a lane count of at most 4).  In a pass of
`s5p_dp_process_clock_recovery` whose status block shows CR done on every lane below
`lane_count`: `lt_state` becomes `EQUALIZER_TRAINING`; for every active lane,
`training_lane[lane]` becomes the target `s5p_dp_get_adjust_train` computes from status
bytes 4 and 5 of the block just read (the byte `adjust_target`); that target is programmed
into the source's lane register and written to the sink register
`DPCD_ADDR_TRAINING_LANE0_SET + lane` (the calls of the pass are, in order: the wait, the
status read, training pattern 2, the pattern byte, and then for each lane the two writes);
`cr_loop`, `eq_loop`, `link_rate` and `lane_count` are unchanged. -/
theorem clock_recovery_done_step (h : Hdr) (dp : s5p_dp_device)
    (hl : dp.link_train.lane_count ≤ 4)
    (hall : ∀ n, n < dp.link_train.lane_count →
      s5p_dp_get_lane_status (status_block dp) n &&& h.DPCD_LANE_CR_DONE ≠ 0) :
    (s5p_dp_process_clock_recovery h dp).2.link_train.lt_state = .EQUALIZER_TRAINING ∧
    (∀ lane, lane < dp.link_train.lane_count →
      (s5p_dp_process_clock_recovery h dp).2.link_train.training_lane lane
        = (s5p_dp_get_adjust_train h dp
            (arr2 (status_block dp 4) (status_block dp 5))).link_train.training_lane lane ∧
      (s5p_dp_process_clock_recovery h dp).2.link_train.training_lane lane
        = adjust_target h (arr2 (status_block dp 4) (status_block dp 5)) lane ∧
      Event.set_lane_link_training lane
          ((s5p_dp_process_clock_recovery h dp).2.link_train.training_lane lane)
        ∈ lane_write_events h (adjust_target h (arr2 (status_block dp 4) (status_block dp 5)))
            dp.link_train.lane_count ∧
      Event.write_byte_to_dpcd (h.DPCD_ADDR_TRAINING_LANE0_SET + lane)
          ((s5p_dp_process_clock_recovery h dp).2.link_train.training_lane lane)
        ∈ lane_write_events h (adjust_target h (arr2 (status_block dp 4) (status_block dp 5)))
            dp.link_train.lane_count) ∧
    (s5p_dp_process_clock_recovery h dp).2.log
      = dp.log ++
        ([Event.udelay 100, Event.read_bytes_from_dpcd h.DPCD_ADDR_LANE0_1_STATUS 6,
          Event.set_training_pattern h.TRAINING_PTN2,
          Event.write_byte_to_dpcd h.DPCD_ADDR_TRAINING_LANE0_SET
            ((h.DPCD_SCRAMBLING_DISABLED ||| h.DPCD_TRAINING_PATTERN_2) % 256)] ++
         lane_write_events h (adjust_target h (arr2 (status_block dp 4) (status_block dp 5)))
           dp.link_train.lane_count) ∧
    (s5p_dp_process_clock_recovery h dp).2.link_train.cr_loop = dp.link_train.cr_loop ∧
    (s5p_dp_process_clock_recovery h dp).2.link_train.eq_loop = dp.link_train.eq_loop ∧
    (s5p_dp_process_clock_recovery h dp).2.link_train.link_rate = dp.link_train.link_rate ∧
    (s5p_dp_process_clock_recovery h dp).2.link_train.lane_count
      = dp.link_train.lane_count := by
  have hok := clock_recovery_ok_of_all h (status_block dp) dp.link_train.lane_count hall
  obtain ⟨-, -, -, os, orr, ol, oe, oc⟩ := process_clock_recovery_ok_dev h dp hok
  obtain ⟨ht, hlog⟩ := process_clock_recovery_ok_targets h dp hok
  refine ⟨os, ?_, hlog, oc, oe, orr, ol⟩
  intro lane hlane
  have e1 := ht lane
  rw [if_pos hlane] at e1
  have hm := lane_write_events_mem h
    (adjust_target h (arr2 (status_block dp 4) (status_block dp 5)))
    dp.link_train.lane_count lane hlane (by omega)
  rw [Nat.mod_eq_of_lt (adjust_target_lt h _ lane)] at hm
  refine ⟨?_, e1, ?_, ?_⟩
  · rw [e1, get_adjust_train_target, if_pos hlane]
  · rw [e1]
    exact hm.1
  · rw [e1]
    exact hm.2

theorem clock_recovery_done_step_witness :
    (s5p_dp_process_clock_recovery sample_hdr (device_of (session_of 0x0a 2 .CLOCK_RECOVERY)
        [⟨0, [0x11, 0x00, 0x00, 0x00, 0x13, 0x00]⟩])).2.link_train.lt_state
      = .EQUALIZER_TRAINING ∧
    (s5p_dp_process_clock_recovery sample_hdr (device_of (session_of 0x0a 2 .CLOCK_RECOVERY)
        [⟨0, [0x11, 0x00, 0x00, 0x00, 0x13, 0x00]⟩])).2.log
      = [Event.udelay 100, Event.read_bytes_from_dpcd 0x0202 6, Event.set_training_pattern 2,
         Event.write_byte_to_dpcd 0x0103 0x22,
         Event.set_lane_link_training 0 0x27, Event.write_byte_to_dpcd 0x0103 0x27,
         Event.set_lane_link_training 1 0x01, Event.write_byte_to_dpcd 0x0104 0x01] :=
  have t := clock_recovery_done_step sample_hdr (device_of (session_of 0x0a 2 .CLOCK_RECOVERY)
    [⟨0, [0x11, 0x00, 0x00, 0x00, 0x13, 0x00]⟩]) (by decide) (by decide)
  ⟨t.1, t.2.2.1.trans (by decide)⟩

/-! ## C21: the equalizer counter -/

theorem sw_link_training_step_eq_loop_inv (h : Hdr) (d : s5p_dp_device) (hE : h.EINVAL ≠ 0)
    (h1 : d.link_train.eq_loop ≤ h.MAX_EQ_LOOP + 1)
    (h2 : d.link_train.lt_state = .CLOCK_RECOVERY ∨
      d.link_train.lt_state = .EQUALIZER_TRAINING ∨ d.link_train.lt_state = .FINISHED →
      d.link_train.eq_loop ≤ h.MAX_EQ_LOOP) :
    (sw_link_training_step h d).link_train.eq_loop ≤ h.MAX_EQ_LOOP + 1 ∧
    ((sw_link_training_step h d).link_train.lt_state = .CLOCK_RECOVERY ∨
      (sw_link_training_step h d).link_train.lt_state = .EQUALIZER_TRAINING ∨
      (sw_link_training_step h d).link_train.lt_state = .FINISHED →
      (sw_link_training_step h d).link_train.eq_loop ≤ h.MAX_EQ_LOOP) := by
  cases hst : d.link_train.lt_state with
  | START =>
    rw [sw_link_training_step_start h d hst]
    obtain ⟨-, -, -, -, -, -, lse, -, -⟩ := link_start_dev h d
    rw [lse]
    exact ⟨Nat.zero_le _, fun _ => Nat.zero_le _⟩
  | CLOCK_RECOVERY =>
    have hstep : sw_link_training_step h d = (s5p_dp_process_clock_recovery h d).2 := by
      unfold sw_link_training_step
      rw [hst]
    have hle := h2 (Or.inl hst)
    rw [hstep]
    by_cases hok : s5p_dp_clock_recovery_ok h (status_block d) d.link_train.lane_count = 0
    · rw [(process_clock_recovery_ok_dev h d hok).2.2.2.2.2.2.1]
      exact ⟨h1, fun _ => hle⟩
    · rw [(process_clock_recovery_retry_dev h d hE hok).2.2.1]
      exact ⟨h1, fun _ => hle⟩
  | EQUALIZER_TRAINING =>
    have hstep : sw_link_training_step h d = (s5p_dp_process_equalizer_training h d).2 := by
      unfold sw_link_training_step
      rw [hst]
    have hle := h2 (Or.inr (Or.inl hst))
    rw [hstep]
    by_cases hcr : s5p_dp_clock_recovery_ok h (status_block d) d.link_train.lane_count = 0
    · by_cases heq : s5p_dp_channel_eq_ok h (status_block d) d.link_train.lane_count = 0
      · rw [(process_equalizer_training_ok_dev h d hcr heq).2.2.2.2.2.2.1]
        exact ⟨h1, fun _ => hle⟩
      · obtain ⟨-, re, -, -, rover, rretry⟩ := process_equalizer_training_retry_dev h d hcr heq
        rw [re]
        refine ⟨by omega, ?_⟩
        by_cases hover : d.link_train.eq_loop + 1 > h.MAX_EQ_LOOP
        · rw [(rover hover).2.1]
          intro hc
          rcases hc with hc | hc | hc <;> split_ifs at hc
        · intro _
          omega
    · obtain ⟨-, le, -, -, -, ls, -, -⟩ := process_equalizer_training_lost_cr_dev h d hcr
      rw [le]
      exact ⟨h1, fun _ => hle⟩
  | FINISHED =>
    rw [sw_link_training_step_finished h d hst]
    exact ⟨h1, h2⟩
  | FAILED =>
    rw [sw_link_training_step_failed h d hst]
    exact ⟨h1, h2⟩

theorem sw_link_training_iterate_eq_loop_inv (h : Hdr) (d : s5p_dp_device) (hE : h.EINVAL ≠ 0)
    (h1 : d.link_train.eq_loop ≤ h.MAX_EQ_LOOP + 1)
    (h2 : d.link_train.lt_state = .CLOCK_RECOVERY ∨
      d.link_train.lt_state = .EQUALIZER_TRAINING ∨ d.link_train.lt_state = .FINISHED →
      d.link_train.eq_loop ≤ h.MAX_EQ_LOOP) (n : Nat) :
    (Nat.iterate (sw_link_training_step h) n d).link_train.eq_loop ≤ h.MAX_EQ_LOOP + 1 ∧
    ((Nat.iterate (sw_link_training_step h) n d).link_train.lt_state = .CLOCK_RECOVERY ∨
      (Nat.iterate (sw_link_training_step h) n d).link_train.lt_state = .EQUALIZER_TRAINING ∨
      (Nat.iterate (sw_link_training_step h) n d).link_train.lt_state = .FINISHED →
      (Nat.iterate (sw_link_training_step h) n d).link_train.eq_loop ≤ h.MAX_EQ_LOOP) := by
  induction n with
  | zero => exact ⟨h1, h2⟩
  | succ n ih =>
    rw [Function.iterate_succ_apply']
    exact sw_link_training_step_eq_loop_inv h _ hE ih.1 ih.2

/-- C21 (as stated) fails.  With the sample header (`MAX_EQ_LOOP = 4`), one lane at rate
`0x06` and the answers `stuck_equalizer_script` (CR done at once, equalizer never
complete): the loop passes through `START`, `CLOCK_RECOVERY` and five times
`EQUALIZER_TRAINING`; the fifth equalizer pass increments `eq_loop` to 5, which exceeds
`MAX_EQ_LOOP`, and enters `s5p_dp_reduce_link_rate`, so the state reached after 7 passes is
`FAILED` with `eq_loop = 5`. -/
theorem eq_loop_exceeds_max_after_overflow :
    sw_link_training_states sample_hdr 8
        (device_of (session_of 0x06 1 .START) stuck_equalizer_script)
      = [.START, .CLOCK_RECOVERY, .EQUALIZER_TRAINING, .EQUALIZER_TRAINING,
         .EQUALIZER_TRAINING, .EQUALIZER_TRAINING, .EQUALIZER_TRAINING, .FAILED] ∧
    (Nat.iterate (sw_link_training_step sample_hdr) 6
      (device_of (session_of 0x06 1 .START) stuck_equalizer_script)).link_train.eq_loop = 4 ∧
    (Nat.iterate (sw_link_training_step sample_hdr) 7
      (device_of (session_of 0x06 1 .START) stuck_equalizer_script)).link_train.eq_loop = 5 ∧
    (Nat.iterate (sw_link_training_step sample_hdr) 7
      (device_of (session_of 0x06 1 .START) stuck_equalizer_script)).link_train.lt_state
      = .FAILED ∧
    ¬ (Nat.iterate (sw_link_training_step sample_hdr) 7
      (device_of (session_of 0x06 1 .START) stuck_equalizer_script)).link_train.eq_loop
        ≤ sample_hdr.MAX_EQ_LOOP := by
  decide

/-- C21 (amended).  Equalizer counter bound (for a header with `EINVAL` nonzero).  The
states reachable during `s5p_dp_sw_link_training` are the iterates of the pass of its loop
from a device in state `START`.  After at least one pass, `eq_loop ≤ MAX_EQ_LOOP + 1` in
every state, and `eq_loop ≤ MAX_EQ_LOOP` in every state `CLOCK_RECOVERY`,
`EQUALIZER_TRAINING` or `FINISHED`: the value `MAX_EQ_LOOP + 1` is held only in a state
`START` or `FAILED`, where the pass that incremented the counter past `MAX_EQ_LOOP` and
entered `s5p_dp_reduce_link_rate` left it.  If `eq_loop ≤ MAX_EQ_LOOP + 1` at the start,
the first bound holds in every reachable state. -/
theorem eq_loop_bounded (h : Hdr) (dp : s5p_dp_device) (hE : h.EINVAL ≠ 0)
    (hst : dp.link_train.lt_state = .START) :
    (∀ n, (Nat.iterate (sw_link_training_step h) (n + 1) dp).link_train.eq_loop
        ≤ h.MAX_EQ_LOOP + 1 ∧
      ((Nat.iterate (sw_link_training_step h) (n + 1) dp).link_train.lt_state
          = .CLOCK_RECOVERY ∨
        (Nat.iterate (sw_link_training_step h) (n + 1) dp).link_train.lt_state
          = .EQUALIZER_TRAINING ∨
        (Nat.iterate (sw_link_training_step h) (n + 1) dp).link_train.lt_state = .FINISHED →
        (Nat.iterate (sw_link_training_step h) (n + 1) dp).link_train.eq_loop
          ≤ h.MAX_EQ_LOOP)) ∧
    (dp.link_train.eq_loop ≤ h.MAX_EQ_LOOP + 1 →
      ∀ n, (Nat.iterate (sw_link_training_step h) n dp).link_train.eq_loop
        ≤ h.MAX_EQ_LOOP + 1) := by
  constructor
  · intro n
    rw [Function.iterate_succ_apply]
    have hz : (sw_link_training_step h dp).link_train.eq_loop = 0 := by
      rw [sw_link_training_step_start h dp hst]
      exact (link_start_dev h dp).2.2.2.2.2.2.1
    exact sw_link_training_iterate_eq_loop_inv h _ hE (by rw [hz]; exact Nat.zero_le _)
      (fun _ => by rw [hz]; exact Nat.zero_le _) n
  · intro hb n
    refine (sw_link_training_iterate_eq_loop_inv h dp hE hb ?_ n).1
    intro hc
    rw [hst] at hc
    rcases hc with hc | hc | hc <;> exact absurd hc (by decide)

theorem eq_loop_bounded_witness :
    (Nat.iterate (sw_link_training_step sample_hdr) (6 + 1)
      (device_of (session_of 0x06 1 .START) stuck_equalizer_script)).link_train.eq_loop
      ≤ sample_hdr.MAX_EQ_LOOP + 1 :=
  ((eq_loop_bounded sample_hdr (device_of (session_of 0x06 1 .START) stuck_equalizer_script)
    (by decide) rfl).1 6).1

/-! ## C22, C26, C27: evaluations at the inputs where the code departs from the text -/

/-- C22 at a failing input.  With the sample header, two lanes at rate `0x0a` in state
`CLOCK_RECOVERY` and a sink that reports no lane CR-done: when the sink requests voltage
swing `VOLTAGE_LEVEL_3` for lane 0 and swing 0 for lane 1 (adjust byte `0x03`) and no
counter reaches `MAX_CR_LOOP`, the pass does not enter `s5p_dp_reduce_link_rate`: it stays
in `CLOCK_RECOVERY` and programs lane 0 with swing 3 (`0x27`).  Only the request for the
last active lane reaches `s5p_dp_check_max_cr_loop`: with the same request made for lane 1
instead (adjust byte `0x30`) the pass does enter `s5p_dp_reduce_link_rate` and moves to
`START`. -/
theorem clock_recovery_ignores_first_lane_swing :
    s5p_dp_clock_recovery_ok sample_hdr
        (status_block (device_of (session_of 0x0a 2 .CLOCK_RECOVERY) (unequal_swing_script 0x03)))
        2 ≠ 0 ∧
    s5p_dp_get_adjust_request_voltage
        (cr_adjust_request
          (device_of (session_of 0x0a 2 .CLOCK_RECOVERY) (unequal_swing_script 0x03))) 0
      = sample_hdr.VOLTAGE_LEVEL_3 ∧
    downgrades (sw_link_training_step sample_hdr
        (device_of (session_of 0x0a 2 .CLOCK_RECOVERY) (unequal_swing_script 0x03))).log = 0 ∧
    (sw_link_training_step sample_hdr
        (device_of (session_of 0x0a 2 .CLOCK_RECOVERY) (unequal_swing_script 0x03))
      ).link_train.lt_state = .CLOCK_RECOVERY ∧
    (sw_link_training_step sample_hdr
        (device_of (session_of 0x0a 2 .CLOCK_RECOVERY) (unequal_swing_script 0x03))
      ).link_train.cr_loop 0 = 0 ∧
    (sw_link_training_step sample_hdr
        (device_of (session_of 0x0a 2 .CLOCK_RECOVERY) (unequal_swing_script 0x03))
      ).link_train.cr_loop 1 = 0 ∧
    (sw_link_training_step sample_hdr
        (device_of (session_of 0x0a 2 .CLOCK_RECOVERY) (unequal_swing_script 0x03))
      ).link_train.training_lane 0 = 0x27 ∧
    s5p_dp_get_adjust_request_voltage
        (cr_adjust_request
          (device_of (session_of 0x0a 2 .CLOCK_RECOVERY) (unequal_swing_script 0x30))) 1
      = sample_hdr.VOLTAGE_LEVEL_3 ∧
    downgrades (sw_link_training_step sample_hdr
        (device_of (session_of 0x0a 2 .CLOCK_RECOVERY) (unequal_swing_script 0x30))).log = 1 ∧
    (sw_link_training_step sample_hdr
        (device_of (session_of 0x0a 2 .CLOCK_RECOVERY) (unequal_swing_script 0x30))
      ).link_train.lt_state = .START := by
  decide

/-- C26 at a failing input.  With the sample header (`DPCD_INTERLANE_ALIGN_DONE = 0x01`,
`DPCD_CHANNEL_EQ_BITS = 0x07`), two lanes in state `EQUALIZER_TRAINING` and the status block
`77 00 81 00 00 00`: both lanes have CR done and all equalization bits set, and the
inter-lane alignment bit of byte 2 is set together with bit 7; `s5p_dp_channel_eq_ok`
compares byte 2 with `DPCD_INTERLANE_ALIGN_DONE` for equality and returns `-EINVAL`, so the
pass stays in `EQUALIZER_TRAINING` with `eq_loop` incremented.  With byte 2 equal to `0x01`
the same pass moves to `FINISHED`. -/
theorem equalizer_training_rejects_other_align_bits :
    s5p_dp_clock_recovery_ok sample_hdr
        (status_block (device_of (session_of 0x0a 2 .EQUALIZER_TRAINING)
          [⟨0, [0x77, 0, 0x81, 0, 0, 0]⟩])) 2 = 0 ∧
    status_block (device_of (session_of 0x0a 2 .EQUALIZER_TRAINING)
        [⟨0, [0x77, 0, 0x81, 0, 0, 0]⟩]) 2 &&& sample_hdr.DPCD_INTERLANE_ALIGN_DONE ≠ 0 ∧
    (∀ lane < 2,
      s5p_dp_get_lane_status (status_block (device_of (session_of 0x0a 2 .EQUALIZER_TRAINING)
          [⟨0, [0x77, 0, 0x81, 0, 0, 0]⟩])) lane &&& sample_hdr.DPCD_CHANNEL_EQ_BITS
        = sample_hdr.DPCD_CHANNEL_EQ_BITS) ∧
    s5p_dp_channel_eq_ok sample_hdr
        (status_block (device_of (session_of 0x0a 2 .EQUALIZER_TRAINING)
          [⟨0, [0x77, 0, 0x81, 0, 0, 0]⟩])) 2 = -sample_hdr.EINVAL ∧
    (sw_link_training_step sample_hdr (device_of (session_of 0x0a 2 .EQUALIZER_TRAINING)
        [⟨0, [0x77, 0, 0x81, 0, 0, 0]⟩])).link_train.lt_state = .EQUALIZER_TRAINING ∧
    (sw_link_training_step sample_hdr (device_of (session_of 0x0a 2 .EQUALIZER_TRAINING)
        [⟨0, [0x77, 0, 0x81, 0, 0, 0]⟩])).link_train.eq_loop = 1 ∧
    (sw_link_training_step sample_hdr (device_of (session_of 0x0a 2 .EQUALIZER_TRAINING)
        [⟨0, [0x77, 0, 0x01, 0, 0, 0]⟩])).link_train.lt_state = .FINISHED := by
  decide

/-- C27 at failing inputs.  With the sample header (`DPCD_ADDR_TRAINING_PATTERN_SET = 0x102`,
`DPCD_ADDR_TRAINING_LANE0_SET = 0x103`) and the sink's registers read off the log as the
byte last written to each address: for every lane count 1..4, after the `START` pass the
register `DPCD_ADDR_TRAINING_PATTERN_SET` holds the level-0 byte `0x00`, not
`DPCD_SCRAMBLING_DISABLED | DPCD_TRAINING_PATTERN_1 = 0x21`, and the lane-set register of
the last active lane has not been written: the pattern byte is written to
`DPCD_ADDR_TRAINING_PATTERN_SET`, and the block of level-0 bytes is then written to the
same address.  After a `CLOCK_RECOVERY` pass that moves to `EQUALIZER_TRAINING` (four
lanes) `DPCD_ADDR_TRAINING_PATTERN_SET` still holds `0x00`, not
`DPCD_SCRAMBLING_DISABLED | DPCD_TRAINING_PATTERN_2 = 0x22`: that byte is written to
`DPCD_ADDR_TRAINING_LANE0_SET`, where the write for lane 0 replaces it. -/
theorem link_start_overwrites_training_pattern :
    (∀ lane_count < 5, 0 < lane_count →
      (s5p_dp_link_start sample_hdr (device_of (session_of 0x0a lane_count .START) [])
        ).link_train.lt_state = .CLOCK_RECOVERY ∧
      dpcd_registers
          (s5p_dp_link_start sample_hdr (device_of (session_of 0x0a lane_count .START) [])).log
          sample_hdr.DPCD_ADDR_TRAINING_PATTERN_SET
        = some ((sample_hdr.DPCD_PRE_EMPHASIS_PATTERN2_LEVEL0 |||
            sample_hdr.DPCD_VOLTAGE_SWING_PATTERN1_LEVEL0) % 256) ∧
      dpcd_registers
          (s5p_dp_link_start sample_hdr (device_of (session_of 0x0a lane_count .START) [])).log
          sample_hdr.DPCD_ADDR_TRAINING_PATTERN_SET
        ≠ some (sample_hdr.DPCD_SCRAMBLING_DISABLED ||| sample_hdr.DPCD_TRAINING_PATTERN_1) ∧
      dpcd_registers
          (s5p_dp_link_start sample_hdr (device_of (session_of 0x0a lane_count .START) [])).log
          (sample_hdr.DPCD_ADDR_TRAINING_LANE0_SET + (lane_count - 1))
        = none) ∧
    (sw_link_training_step sample_hdr (sw_link_training_step sample_hdr
        (device_of (session_of 0x0a 4 .START) cr_done_script))).link_train.lt_state
      = .EQUALIZER_TRAINING ∧
    dpcd_registers
        (sw_link_training_step sample_hdr (sw_link_training_step sample_hdr
          (device_of (session_of 0x0a 4 .START) cr_done_script))).log
        sample_hdr.DPCD_ADDR_TRAINING_PATTERN_SET
      = some 0x00 ∧
    dpcd_registers
        (sw_link_training_step sample_hdr (sw_link_training_step sample_hdr
          (device_of (session_of 0x0a 4 .START) cr_done_script))).log
        sample_hdr.DPCD_ADDR_TRAINING_PATTERN_SET
      ≠ some (sample_hdr.DPCD_SCRAMBLING_DISABLED ||| sample_hdr.DPCD_TRAINING_PATTERN_2) ∧
    (sample_hdr.DPCD_SCRAMBLING_DISABLED ||| sample_hdr.DPCD_TRAINING_PATTERN_1 = 0x21 ∧
      sample_hdr.DPCD_SCRAMBLING_DISABLED ||| sample_hdr.DPCD_TRAINING_PATTERN_2 = 0x22) := by
  decide

/-! ## C28: downgrades within one run of the training loop -/

theorem lane_write_events_marks (h : Hdr) (tl : Nat → Nat) (n : Nat) :
    marks (lane_write_events h tl n) = (0, 0) := by
  induction n with
  | zero => rfl
  | succ n ih =>
    unfold lane_write_events
    rw [marks_append, ih]
    by_cases h4 : n < 4
    · simp only [h4, if_true]
      rfl
    · simp only [h4, if_false]
      rfl

/-- One pass of the training loop either does not enter `s5p_dp_reduce_link_rate` (then the
pass does not end in `START`, ends in `FAILED` only when it started there, and keeps the
rate unless it ends in `FINISHED`), or enters it once from `CLOCK_RECOVERY` or
`EQUALIZER_TRAINING` (then the state and rate follow the rule of `s5p_dp_reduce_link_rate`). -/
theorem sw_link_training_step_downgrade_cases (h : Hdr) (d : s5p_dp_device)
    (hE : h.EINVAL ≠ 0) :
    (downgrades (sw_link_training_step h d).log = downgrades d.log ∧
      ((sw_link_training_step h d).link_train.lt_state = .FINISHED ∨
        (sw_link_training_step h d).link_train.link_rate = d.link_train.link_rate) ∧
      (sw_link_training_step h d).link_train.lt_state ≠ .START ∧
      ((sw_link_training_step h d).link_train.lt_state = .FAILED →
        d.link_train.lt_state = .FAILED)) ∨
    (downgrades (sw_link_training_step h d).log = downgrades d.log + 1 ∧
      (d.link_train.lt_state = .CLOCK_RECOVERY ∨
        d.link_train.lt_state = .EQUALIZER_TRAINING) ∧
      (sw_link_training_step h d).link_train.lt_state
        = (if d.link_train.link_rate = h.LINK_RATE_2_70GBPS then .START else .FAILED) ∧
      (sw_link_training_step h d).link_train.link_rate
        = (if d.link_train.link_rate = h.LINK_RATE_2_70GBPS then h.LINK_RATE_1_62GBPS % 256
           else d.link_train.link_rate)) := by
  have hm : ∀ l1 l2 : List Event, marks l1 = marks l2 → downgrades l1 = downgrades l2 :=
    fun l1 l2 e => congrArg Prod.snd e
  have hm1 : ∀ l1 l2 : List Event, marks l1 = ((marks l2).1, (marks l2).2 + 1) →
      downgrades l1 = downgrades l2 + 1 := fun l1 l2 e => congrArg Prod.snd e
  cases hst : d.link_train.lt_state with
  | START =>
    rw [sw_link_training_step_start h d hst]
    obtain ⟨-, -, lm, ls, lr, -⟩ := link_start_dev h d
    refine Or.inl ⟨hm _ _ lm, Or.inr lr, ?_, ?_⟩ <;> rw [ls] <;> intro hc <;>
      exact absurd hc (by decide)
  | CLOCK_RECOVERY =>
    have hstep : sw_link_training_step h d = (s5p_dp_process_clock_recovery h d).2 := by
      unfold sw_link_training_step
      rw [hst]
    rw [hstep]
    by_cases hok : s5p_dp_clock_recovery_ok h (status_block d) d.link_train.lane_count = 0
    · obtain ⟨-, -, lm, ls, lr, -⟩ := process_clock_recovery_ok_dev h d hok
      refine Or.inl ⟨hm _ _ lm, Or.inr lr, ?_, ?_⟩ <;> rw [ls] <;> intro hc <;>
        exact absurd hc (by decide)
    · obtain ⟨-, -, -, -, rhit, rno⟩ := process_clock_recovery_retry_dev h d hE hok
      cases hh : cr_limit_hit h d with
      | true =>
        obtain ⟨ls, lr, lm, -⟩ := rhit hh
        exact Or.inr ⟨hm1 _ _ lm, Or.inl rfl, ls, lr⟩
      | false =>
        obtain ⟨ls, lr, -, lm, -⟩ := rno hh
        refine Or.inl ⟨hm _ _ lm, Or.inr lr, ?_, ?_⟩ <;> rw [ls, hst] <;> intro hc <;>
          exact absurd hc (by decide)
  | EQUALIZER_TRAINING =>
    have hstep : sw_link_training_step h d = (s5p_dp_process_equalizer_training h d).2 := by
      unfold sw_link_training_step
      rw [hst]
    rw [hstep]
    by_cases hcr : s5p_dp_clock_recovery_ok h (status_block d) d.link_train.lane_count = 0
    · by_cases heq : s5p_dp_channel_eq_ok h (status_block d) d.link_train.lane_count = 0
      · obtain ⟨-, -, lm, ls, -⟩ := process_equalizer_training_ok_dev h d hcr heq
        refine Or.inl ⟨hm _ _ lm, Or.inl ls, ?_, ?_⟩ <;> rw [ls] <;> intro hc <;>
          exact absurd hc (by decide)
      · obtain ⟨-, -, -, -, rover, rretry⟩ := process_equalizer_training_retry_dev h d hcr heq
        by_cases hover : d.link_train.eq_loop + 1 > h.MAX_EQ_LOOP
        · obtain ⟨-, ls, lr, lm⟩ := rover hover
          exact Or.inr ⟨hm1 _ _ lm, Or.inr rfl, ls, lr⟩
        · obtain ⟨-, ls, lr, ll⟩ := rretry hover
          have lm : marks (s5p_dp_process_equalizer_training h d).2.log = marks d.log := by
            rw [ll, marks_append, marks_append, lane_write_events_marks]
            rfl
          refine Or.inl ⟨hm _ _ lm, Or.inr lr, ?_, ?_⟩ <;> rw [ls, hst] <;> intro hc <;>
            exact absurd hc (by decide)
    · obtain ⟨-, -, -, -, -, ls, lr, lm⟩ := process_equalizer_training_lost_cr_dev h d hcr
      exact Or.inr ⟨hm1 _ _ lm, Or.inr rfl, ls, lr⟩
  | FINISHED =>
    rw [sw_link_training_step_finished h d hst]
    exact Or.inl ⟨rfl, Or.inl hst, by rw [hst]; decide, by rw [hst]; intro hc; exact hc⟩
  | FAILED =>
    rw [sw_link_training_step_failed h d hst]
    exact Or.inl ⟨rfl, Or.inr rfl, by rw [hst]; decide, fun _ => rfl⟩

theorem start_budget_le_two (h : Hdr) (d : s5p_dp_device) : start_budget h d ≤ 2 := by
  unfold start_budget
  cases d.link_train.lt_state <;> simp only <;> first | omega | (split_ifs <;> omega)

theorem sw_link_training_step_start_budget (h : Hdr) (d : s5p_dp_device) (hE : h.EINVAL ≠ 0)
    (hne : h.LINK_RATE_1_62GBPS % 256 ≠ h.LINK_RATE_2_70GBPS) :
    start_budget h (sw_link_training_step h d)
        + (if d.link_train.lt_state = .START then 1 else 0)
      ≤ start_budget h d := by
  cases hst : d.link_train.lt_state with
  | START =>
    rw [sw_link_training_step_start h d hst]
    obtain ⟨-, -, -, ls, lr, -⟩ := link_start_dev h d
    unfold start_budget
    rw [ls, lr, hst]
    simp only [if_true]
    omega
  | FINISHED =>
    rw [sw_link_training_step_finished h d hst]
    simp only [if_false, reduceCtorEq, Nat.add_zero, le_refl]
  | FAILED =>
    rw [sw_link_training_step_failed h d hst]
    simp only [if_false, reduceCtorEq, Nat.add_zero, le_refl]
  | CLOCK_RECOVERY =>
    simp only [if_false, reduceCtorEq, Nat.add_zero]
    rcases sw_link_training_step_downgrade_cases h d hE with ⟨-, hr, hs, hf⟩ | ⟨-, -, ls, lr⟩
    · have hf2 : (sw_link_training_step h d).link_train.lt_state ≠ .FAILED := by
        intro hc
        have := hf hc
        rw [hst] at this
        exact absurd this (by decide)
      unfold start_budget
      rw [hst]
      cases hs2 : (sw_link_training_step h d).link_train.lt_state with
      | START => exact absurd hs2 hs
      | FAILED => exact absurd hs2 hf2
      | FINISHED => exact Nat.zero_le _
      | CLOCK_RECOVERY =>
        rcases hr with hr | hr
        · rw [hs2] at hr
          exact absurd hr (by decide)
        · simp only [hr, le_refl]
      | EQUALIZER_TRAINING =>
        rcases hr with hr | hr
        · rw [hs2] at hr
          exact absurd hr (by decide)
        · simp only [hr, le_refl]
    · unfold start_budget
      rw [ls, lr, hst]
      by_cases h27 : d.link_train.link_rate = h.LINK_RATE_2_70GBPS
      · simp only [h27, if_true, hne, if_false, Nat.add_zero, le_refl]
      · simp only [h27, if_false, le_refl]
  | EQUALIZER_TRAINING =>
    simp only [if_false, reduceCtorEq, Nat.add_zero]
    rcases sw_link_training_step_downgrade_cases h d hE with ⟨-, hr, hs, hf⟩ | ⟨-, -, ls, lr⟩
    · have hf2 : (sw_link_training_step h d).link_train.lt_state ≠ .FAILED := by
        intro hc
        have := hf hc
        rw [hst] at this
        exact absurd this (by decide)
      unfold start_budget
      rw [hst]
      cases hs2 : (sw_link_training_step h d).link_train.lt_state with
      | START => exact absurd hs2 hs
      | FAILED => exact absurd hs2 hf2
      | FINISHED => exact Nat.zero_le _
      | CLOCK_RECOVERY =>
        rcases hr with hr | hr
        · rw [hs2] at hr
          exact absurd hr (by decide)
        · simp only [hr, le_refl]
      | EQUALIZER_TRAINING =>
        rcases hr with hr | hr
        · rw [hs2] at hr
          exact absurd hr (by decide)
        · simp only [hr, le_refl]
    · unfold start_budget
      rw [ls, lr, hst]
      by_cases h27 : d.link_train.link_rate = h.LINK_RATE_2_70GBPS
      · simp only [h27, if_true, hne, if_false, Nat.add_zero, le_refl]
      · simp only [h27, if_false, le_refl]

theorem sw_link_training_states_start_count (h : Hdr) (hE : h.EINVAL ≠ 0)
    (hne : h.LINK_RATE_1_62GBPS % 256 ≠ h.LINK_RATE_2_70GBPS) (fuel : Nat) :
    ∀ d : s5p_dp_device,
      (sw_link_training_states h fuel d).count .START ≤ start_budget h d := by
  induction fuel with
  | zero =>
    intro d
    exact Nat.zero_le _
  | succ fuel ih =>
    intro d
    have hb := sw_link_training_step_start_budget h d hE hne
    have hi := ih (sw_link_training_step h d)
    unfold sw_link_training_states
    cases hst : d.link_train.lt_state with
    | START =>
      rw [hst] at hb
      simp only [List.count_cons, beq_self_eq_true, if_true] at hb ⊢
      omega
    | CLOCK_RECOVERY =>
      rw [hst] at hb
      simp only [List.count_cons, reduceCtorEq, if_false, Nat.add_zero, beq_iff_eq] at hb ⊢
      omega
    | EQUALIZER_TRAINING =>
      rw [hst] at hb
      simp only [List.count_cons, reduceCtorEq, if_false, Nat.add_zero, beq_iff_eq] at hb ⊢
      omega
    | FINISHED =>
      simp only [List.count_cons, List.count_nil, reduceCtorEq, if_false, beq_iff_eq]
      exact Nat.zero_le _
    | FAILED =>
      simp only [List.count_cons, List.count_nil, reduceCtorEq, if_false, beq_iff_eq]
      exact Nat.zero_le _

theorem sw_link_training_iterate_downgrade_inv (h : Hdr) (dp : s5p_dp_device)
    (hE : h.EINVAL ≠ 0) (hne : h.LINK_RATE_1_62GBPS % 256 ≠ h.LINK_RATE_2_70GBPS) (n : Nat) :
    downgrades dp.log ≤ downgrades (Nat.iterate (sw_link_training_step h) n dp).log ∧
    downgrades (Nat.iterate (sw_link_training_step h) n dp).log ≤ downgrades dp.log + 2 ∧
    (downgrades dp.log + 1 ≤ downgrades (Nat.iterate (sw_link_training_step h) n dp).log →
      (Nat.iterate (sw_link_training_step h) n dp).link_train.lt_state = .FINISHED ∨
      (Nat.iterate (sw_link_training_step h) n dp).link_train.lt_state = .FAILED ∨
      (Nat.iterate (sw_link_training_step h) n dp).link_train.link_rate
        ≠ h.LINK_RATE_2_70GBPS) ∧
    (downgrades dp.log + 2 ≤ downgrades (Nat.iterate (sw_link_training_step h) n dp).log →
      (Nat.iterate (sw_link_training_step h) n dp).link_train.lt_state = .FAILED) := by
  induction n with
  | zero =>
    refine ⟨le_refl _, Nat.le_add_right _ _, ?_, ?_⟩ <;> intro hc <;>
      simp only [Function.iterate_zero, id_eq] at hc <;> omega
  | succ n ih =>
    rw [Function.iterate_succ_apply']
    generalize Nat.iterate (sw_link_training_step h) n dp = d at ih ⊢
    obtain ⟨i1, i2, i3, i4⟩ := ih
    rcases sw_link_training_step_downgrade_cases h d hE with ⟨hd, hr, hs, hf⟩ | ⟨hd, hcur, ls, lr⟩
    · rw [hd]
      refine ⟨i1, i2, ?_, ?_⟩
      · intro hc
        rcases i3 hc with hfin | hfail | hrate
        · rw [sw_link_training_step_finished h d hfin]
          exact Or.inl hfin
        · rw [sw_link_training_step_failed h d hfail]
          exact Or.inr (Or.inl hfail)
        · rcases hr with hr | hr
          · exact Or.inl hr
          · rw [hr]
            exact Or.inr (Or.inr hrate)
      · intro hc
        have hfail := i4 hc
        rw [sw_link_training_step_failed h d hfail]
        exact hfail
    · have hnt : d.link_train.lt_state ≠ .FINISHED ∧ d.link_train.lt_state ≠ .FAILED := by
        rcases hcur with hcur | hcur <;> rw [hcur] <;> exact ⟨by decide, by decide⟩
      have hlt2 : ¬ downgrades dp.log + 2 ≤ downgrades d.log := fun hc => hnt.2 (i4 hc)
      rw [hd, ls, lr]
      refine ⟨by omega, by omega, ?_, ?_⟩
      · intro _
        by_cases h27 : d.link_train.link_rate = h.LINK_RATE_2_70GBPS
        · rw [if_pos h27, if_pos h27]
          exact Or.inr (Or.inr hne)
        · rw [if_neg h27]
          exact Or.inr (Or.inl rfl)
      · intro hc
        have h1 : downgrades dp.log + 1 ≤ downgrades d.log := by omega
        rcases i3 h1 with hfin | hfail | hrate
        · exact absurd hfin hnt.1
        · exact absurd hfail hnt.2
        · simp only [hrate, if_false]

/-- C28. Downgrades within one run (for a header with `EINVAL` nonzero and
`LINK_RATE_1_62GBPS`, as a byte, below `LINK_RATE_2_70GBPS`).  The states of a run of
`s5p_dp_sw_link_training` are the iterates of the pass of its loop from a device in state
`START`, with any starting rate, so also `LINK_RATE_1_62GBPS` and `LINK_RATE_2_70GBPS`.
(1) A pass that does not end in `FINISHED` does not increase `link_rate`: it keeps it or
replaces `LINK_RATE_2_70GBPS` by `LINK_RATE_1_62GBPS`.  (2) `lane_count` is the starting
lane count in every state that is not `FINISHED`.  (3) The loop sees state `START` at most
twice, and at most once when the starting rate is not `LINK_RATE_2_70GBPS`.  (4) A pass
that ends in `START` found the rate at `LINK_RATE_2_70GBPS`, entered
`s5p_dp_reduce_link_rate` and left the rate at `LINK_RATE_1_62GBPS`.  (5) The run enters
`s5p_dp_reduce_link_rate` at most twice, and once it has entered it twice the state is
`FAILED`. -/
theorem sw_link_training_downgrades_once (h : Hdr) (dp : s5p_dp_device) (hE : h.EINVAL ≠ 0)
    (hlt : h.LINK_RATE_1_62GBPS % 256 < h.LINK_RATE_2_70GBPS)
    (hst : dp.link_train.lt_state = .START) :
    (∀ n, (Nat.iterate (sw_link_training_step h) (n + 1) dp).link_train.lt_state ≠ .FINISHED →
      (Nat.iterate (sw_link_training_step h) (n + 1) dp).link_train.link_rate
        ≤ (Nat.iterate (sw_link_training_step h) n dp).link_train.link_rate ∧
      ((Nat.iterate (sw_link_training_step h) (n + 1) dp).link_train.link_rate
          = (Nat.iterate (sw_link_training_step h) n dp).link_train.link_rate ∨
        ((Nat.iterate (sw_link_training_step h) n dp).link_train.link_rate
            = h.LINK_RATE_2_70GBPS ∧
          (Nat.iterate (sw_link_training_step h) (n + 1) dp).link_train.link_rate
            = h.LINK_RATE_1_62GBPS % 256))) ∧
    (∀ n, (Nat.iterate (sw_link_training_step h) n dp).link_train.lt_state ≠ .FINISHED →
      (Nat.iterate (sw_link_training_step h) n dp).link_train.lane_count
        = dp.link_train.lane_count) ∧
    (∀ fuel, (sw_link_training_states h fuel dp).count .START ≤ 2 ∧
      (dp.link_train.link_rate ≠ h.LINK_RATE_2_70GBPS →
        (sw_link_training_states h fuel dp).count .START ≤ 1)) ∧
    (∀ n, (Nat.iterate (sw_link_training_step h) (n + 1) dp).link_train.lt_state = .START →
      (Nat.iterate (sw_link_training_step h) n dp).link_train.link_rate
        = h.LINK_RATE_2_70GBPS ∧
      (Nat.iterate (sw_link_training_step h) (n + 1) dp).link_train.link_rate
        = h.LINK_RATE_1_62GBPS % 256 ∧
      downgrades (Nat.iterate (sw_link_training_step h) (n + 1) dp).log
        = downgrades (Nat.iterate (sw_link_training_step h) n dp).log + 1) ∧
    (∀ n, downgrades (Nat.iterate (sw_link_training_step h) n dp).log
        ≤ downgrades dp.log + 2 ∧
      (downgrades dp.log + 2 ≤ downgrades (Nat.iterate (sw_link_training_step h) n dp).log →
        (Nat.iterate (sw_link_training_step h) n dp).link_train.lt_state = .FAILED)) := by
  have hne : h.LINK_RATE_1_62GBPS % 256 ≠ h.LINK_RATE_2_70GBPS := Nat.ne_of_lt hlt
  refine ⟨?_, ?_, ?_, ?_, ?_⟩
  · intro n hn
    rw [Function.iterate_succ_apply'] at hn ⊢
    generalize Nat.iterate (sw_link_training_step h) n dp = d at hn ⊢
    rcases sw_link_training_step_downgrade_cases h d hE with ⟨-, hr, -, -⟩ | ⟨-, -, -, lr⟩
    · rcases hr with hr | hr
      · exact absurd hr hn
      · exact ⟨Nat.le_of_eq hr, Or.inl hr⟩
    · rw [lr]
      by_cases h27 : d.link_train.link_rate = h.LINK_RATE_2_70GBPS
      · rw [if_pos h27]
        exact ⟨by rw [h27]; exact Nat.le_of_lt hlt, Or.inr ⟨h27, rfl⟩⟩
      · rw [if_neg h27]
        exact ⟨le_refl _, Or.inl rfl⟩
  · intro n hn
    exact sw_link_training_iterate_lane_count h dp hE n hn
  · intro fuel
    have hc := sw_link_training_states_start_count h hE hne fuel dp
    refine ⟨le_trans hc (start_budget_le_two h dp), ?_⟩
    intro h27
    refine le_trans hc ?_
    unfold start_budget
    rw [hst]
    simp only [h27, if_false, Nat.add_zero, le_refl]
  · intro n hn
    rw [Function.iterate_succ_apply'] at hn ⊢
    generalize Nat.iterate (sw_link_training_step h) n dp = d at hn ⊢
    rcases sw_link_training_step_downgrade_cases h d hE with ⟨-, -, hs, -⟩ | ⟨hd, -, ls, lr⟩
    · exact absurd hn hs
    · by_cases h27 : d.link_train.link_rate = h.LINK_RATE_2_70GBPS
      · refine ⟨h27, ?_, hd⟩
        rw [lr]
        simp only [h27, if_true]
      · rw [ls] at hn
        simp only [h27, if_false, reduceCtorEq] at hn
  · intro n
    obtain ⟨-, i2, -, i4⟩ := sw_link_training_iterate_downgrade_inv h dp hE hne n
    exact ⟨i2, i4⟩

theorem sw_link_training_downgrades_once_witness :
    downgrades (device_of (session_of 0x0a 1 .START) double_downgrade_script).log + 2
      ≤ downgrades (Nat.iterate (sw_link_training_step sample_hdr) 6
          (device_of (session_of 0x0a 1 .START) double_downgrade_script)).log ∧
    (Nat.iterate (sw_link_training_step sample_hdr) 6
      (device_of (session_of 0x0a 1 .START) double_downgrade_script)).link_train.lt_state
      = .FAILED ∧
    (sw_link_training_states sample_hdr 7
      (device_of (session_of 0x0a 1 .START) double_downgrade_script)).count .START = 2 :=
  ⟨by decide,
   ((sw_link_training_downgrades_once sample_hdr
      (device_of (session_of 0x0a 1 .START) double_downgrade_script)
      (by decide) (by decide) rfl).2.2.2.2 6).2 (by decide),
   by decide⟩


/-! ## C23, C25: the retry passes, for counters within the range of their type -/

/-- C25. Failure branches of `s5p_dp_process_equalizer_training` (for a header with `EINVAL`
nonzero, a lane count of at most 4 and `eq_loop` below `INT_MAX`, so that `eq_loop++` does
not overflow; in a run `eq_loop` is at most `MAX_EQ_LOOP` in state `EQUALIZER_TRAINING`).
After the pass `eq_loop` is at most `INT_MAX`.  If the status block shows some active lane
without CR done, the pass enters `s5p_dp_reduce_link_rate` (once) and leaves `eq_loop`
unchanged.
If CR is done on all active lanes but `s5p_dp_channel_eq_ok` fails, `eq_loop` is
incremented by exactly 1; when the new `eq_loop` exceeds `MAX_EQ_LOOP` the pass enters
`s5p_dp_reduce_link_rate` (once); otherwise it does not, every active lane's target is
recomputed from status bytes 4 and 5 (the byte `adjust_target`), programmed into the
source's lane register and written to the sink register
`DPCD_ADDR_TRAINING_LANE0_SET + lane`, and `lt_state` remains `EQUALIZER_TRAINING`. -/
theorem equalizer_training_failure_branches (h : Hdr) (dp : s5p_dp_device)
    (hE : h.EINVAL ≠ 0) (hl : dp.link_train.lane_count ≤ 4)
    (hst : dp.link_train.lt_state = .EQUALIZER_TRAINING)
    (hrange : dp.link_train.eq_loop < INT_MAX) :
    (s5p_dp_process_equalizer_training h dp).2.link_train.eq_loop ≤ INT_MAX ∧
    ((∃ n, n < dp.link_train.lane_count ∧
        s5p_dp_get_lane_status (status_block dp) n &&& h.DPCD_LANE_CR_DONE = 0) →
      downgrades (s5p_dp_process_equalizer_training h dp).2.log = downgrades dp.log + 1 ∧
      (s5p_dp_process_equalizer_training h dp).2.link_train.eq_loop
        = dp.link_train.eq_loop) ∧
    ((∀ n, n < dp.link_train.lane_count →
        s5p_dp_get_lane_status (status_block dp) n &&& h.DPCD_LANE_CR_DONE ≠ 0) →
      s5p_dp_channel_eq_ok h (status_block dp) dp.link_train.lane_count ≠ 0 →
      (s5p_dp_process_equalizer_training h dp).2.link_train.eq_loop
        = dp.link_train.eq_loop + 1 ∧
      (dp.link_train.eq_loop + 1 > h.MAX_EQ_LOOP →
        downgrades (s5p_dp_process_equalizer_training h dp).2.log = downgrades dp.log + 1) ∧
      (dp.link_train.eq_loop + 1 ≤ h.MAX_EQ_LOOP →
        downgrades (s5p_dp_process_equalizer_training h dp).2.log = downgrades dp.log ∧
        (s5p_dp_process_equalizer_training h dp).2.link_train.lt_state
          = .EQUALIZER_TRAINING ∧
        (s5p_dp_process_equalizer_training h dp).2.log
          = dp.log ++
            ([Event.udelay 400, Event.read_bytes_from_dpcd h.DPCD_ADDR_LANE0_1_STATUS 6] ++
             lane_write_events h
               (adjust_target h (arr2 (status_block dp 4) (status_block dp 5)))
               dp.link_train.lane_count) ∧
        ∀ lane, lane < dp.link_train.lane_count →
          (s5p_dp_process_equalizer_training h dp).2.link_train.training_lane lane
            = adjust_target h (arr2 (status_block dp 4) (status_block dp 5)) lane ∧
          Event.set_lane_link_training lane
              (adjust_target h (arr2 (status_block dp 4) (status_block dp 5)) lane)
            ∈ lane_write_events h
                (adjust_target h (arr2 (status_block dp 4) (status_block dp 5)))
                dp.link_train.lane_count ∧
          Event.write_byte_to_dpcd (h.DPCD_ADDR_TRAINING_LANE0_SET + lane)
              (adjust_target h (arr2 (status_block dp 4) (status_block dp 5)) lane)
            ∈ lane_write_events h
                (adjust_target h (arr2 (status_block dp 4) (status_block dp 5)))
                dp.link_train.lane_count)) := by
  refine ⟨?_, ?_, ?_⟩
  · by_cases hcr : s5p_dp_clock_recovery_ok h (status_block dp) dp.link_train.lane_count = 0
    · by_cases heq : s5p_dp_channel_eq_ok h (status_block dp) dp.link_train.lane_count = 0
      · rw [(process_equalizer_training_ok_dev h dp hcr heq).2.2.2.2.2.2.1]
        exact Nat.le_of_lt hrange
      · rw [(process_equalizer_training_retry_dev h dp hcr heq).2.1]
        exact hrange
    · rw [(process_equalizer_training_lost_cr_dev h dp hcr).2.1]
      exact Nat.le_of_lt hrange
  · rintro ⟨n, hn, hbad⟩
    have hnot : s5p_dp_clock_recovery_ok h (status_block dp) dp.link_train.lane_count ≠ 0 := by
      intro hc
      exact (clock_recovery_ok_eq_zero_iff h hE _ _).1 hc n hn hbad
    obtain ⟨-, le, -, -, -, -, -, lm⟩ := process_equalizer_training_lost_cr_dev h dp hnot
    refine ⟨?_, le⟩
    have := congrArg Prod.snd lm
    simpa [marks] using this
  · intro hall heq
    have hcr := clock_recovery_ok_of_all h (status_block dp) dp.link_train.lane_count hall
    obtain ⟨-, re, -, -, rover, rretry⟩ := process_equalizer_training_retry_dev h dp hcr heq
    refine ⟨re, ?_, ?_⟩
    · intro hover
      have := congrArg Prod.snd (rover hover).2.2.2
      simpa [marks] using this
    · intro hle
      obtain ⟨rt, rs, -, rlog⟩ := rretry (by omega)
      refine ⟨?_, rs.trans hst, rlog, ?_⟩
      · rw [rlog]
        unfold downgrades
        rw [List.count_append, List.count_append]
        have hz : ∀ n, List.count Event.reduce_link_rate (lane_write_events h
            (adjust_target h (arr2 (status_block dp 4) (status_block dp 5))) n) = 0 := by
          intro n
          induction n with
          | zero => rfl
          | succ n ih =>
            rw [lane_write_events, List.count_append, ih]
            split_ifs <;> simp [List.count_cons]
        rw [hz]
        simp [List.count_cons]
      · intro lane hlane
        have e1 := rt lane
        rw [if_pos hlane] at e1
        have hm := lane_write_events_mem h
          (adjust_target h (arr2 (status_block dp 4) (status_block dp 5)))
          dp.link_train.lane_count lane hlane (by omega)
        rw [Nat.mod_eq_of_lt (adjust_target_lt h _ lane)] at hm
        exact ⟨e1, hm.1, hm.2⟩

theorem equalizer_training_failure_branches_witness :
    (s5p_dp_process_equalizer_training sample_hdr
        (device_of (session_of 0x0a 2 .EQUALIZER_TRAINING)
          [⟨0, [0x33, 0x00, 0x01, 0x00, 0x13, 0x00]⟩])).2.link_train.eq_loop = 0 + 1 ∧
    (s5p_dp_process_equalizer_training sample_hdr
        (device_of (session_of 0x0a 2 .EQUALIZER_TRAINING)
          [⟨0, [0x33, 0x00, 0x01, 0x00, 0x13, 0x00]⟩])).2.link_train.lt_state
      = .EQUALIZER_TRAINING ∧
    (s5p_dp_process_equalizer_training sample_hdr
        (device_of (session_of 0x0a 2 .EQUALIZER_TRAINING)
          [⟨0, [0x33, 0x00, 0x01, 0x00, 0x13, 0x00]⟩])).2.log
      = [Event.udelay 400, Event.read_bytes_from_dpcd 0x0202 6,
         Event.set_lane_link_training 0 0x27, Event.write_byte_to_dpcd 0x0103 0x27,
         Event.set_lane_link_training 1 0x01, Event.write_byte_to_dpcd 0x0104 0x01] :=
  have t := (equalizer_training_failure_branches sample_hdr
    (device_of (session_of 0x0a 2 .EQUALIZER_TRAINING)
      [⟨0, [0x33, 0x00, 0x01, 0x00, 0x13, 0x00]⟩]) (by decide) (by decide) rfl
      (by decide)).2.2
    (by decide) (by decide)
  ⟨t.1, (t.2.2 (by decide)).2.1, (t.2.2 (by decide)).2.2.1.trans (by decide)⟩


/-- C23. Clock-recovery retry (for a header with `EINVAL` nonzero, a lane count of at
most 4 and counters of the active lanes below `INT_MAX`, so that `cr_loop[lane]++` does not
overflow; the counters of a run are at most `MAX_CR_LOOP`).  In a pass of `s5p_dp_process_clock_recovery` in state `CLOCK_RECOVERY` whose
status block shows some active lane without CR done and that does not enter
`s5p_dp_reduce_link_rate`: for every lane below `lane_count`, `cr_loop[lane]` increases by
exactly 1 if the voltage swing and pre-emphasis read back from the lane's source register
(answer number `tick + 3 + lane`) both equal the ones the sink requests in the adjust
request just read (answers `tick + 1` and `tick + 2`), and is unchanged otherwise;
`training_lane[lane]` ends as the target `s5p_dp_get_adjust_train` computes from that
adjust request; `lt_state` stays `CLOCK_RECOVERY`; `eq_loop`, `link_rate`, `lane_count`
and the counters of the lanes from `lane_count` on are unchanged.  The counters of the
active lanes are at most `INT_MAX` after the pass. -/
theorem clock_recovery_retry_step (h : Hdr) (dp : s5p_dp_device)
    (hE : h.EINVAL ≠ 0) (hl : dp.link_train.lane_count ≤ 4)
    (hst : dp.link_train.lt_state = .CLOCK_RECOVERY)
    (hbad : ∃ n, n < dp.link_train.lane_count ∧
      s5p_dp_get_lane_status (status_block dp) n &&& h.DPCD_LANE_CR_DONE = 0)
    (hno : downgrades (s5p_dp_process_clock_recovery h dp).2.log = downgrades dp.log)
    (hrange : ∀ lane, lane < dp.link_train.lane_count →
      dp.link_train.cr_loop lane < INT_MAX) :
    (∀ lane, lane < dp.link_train.lane_count →
      (s5p_dp_process_clock_recovery h dp).2.link_train.cr_loop lane ≤ INT_MAX ∧
      (s5p_dp_process_clock_recovery h dp).2.link_train.cr_loop lane
        = (if h.DPCD_VOLTAGE_SWING_GET ((dp.aux (dp.tick + 3 + lane)).data.getD 0 0 % 2 ^ 32 % 256)
              = s5p_dp_get_adjust_request_voltage
                  (arr2 ((dp.aux (dp.tick + 1)).data.getD 0 0 % 256)
                    ((dp.aux (dp.tick + 2)).data.getD 0 0 % 256)) lane ∧
            h.DPCD_PRE_EMPHASIS_GET ((dp.aux (dp.tick + 3 + lane)).data.getD 0 0 % 2 ^ 32 % 256)
              = s5p_dp_get_adjust_request_pre_emphasis
                  (arr2 ((dp.aux (dp.tick + 1)).data.getD 0 0 % 256)
                    ((dp.aux (dp.tick + 2)).data.getD 0 0 % 256)) lane then
            dp.link_train.cr_loop lane + 1
          else dp.link_train.cr_loop lane) ∧
      (s5p_dp_process_clock_recovery h dp).2.link_train.training_lane lane
        = (s5p_dp_get_adjust_train h dp
            (arr2 ((dp.aux (dp.tick + 1)).data.getD 0 0 % 256)
              ((dp.aux (dp.tick + 2)).data.getD 0 0 % 256))).link_train.training_lane lane) ∧
    (s5p_dp_process_clock_recovery h dp).2.link_train.lt_state = .CLOCK_RECOVERY ∧
    (s5p_dp_process_clock_recovery h dp).2.link_train.eq_loop = dp.link_train.eq_loop ∧
    (s5p_dp_process_clock_recovery h dp).2.link_train.link_rate = dp.link_train.link_rate ∧
    (s5p_dp_process_clock_recovery h dp).2.link_train.lane_count
      = dp.link_train.lane_count ∧
    (∀ lane, dp.link_train.lane_count ≤ lane →
      (s5p_dp_process_clock_recovery h dp).2.link_train.cr_loop lane
        = dp.link_train.cr_loop lane) := by
  obtain ⟨n, hn, hbn⟩ := hbad
  have hnot : s5p_dp_clock_recovery_ok h (status_block dp) dp.link_train.lane_count ≠ 0 := by
    intro hc
    exact (clock_recovery_ok_eq_zero_iff h hE _ _).1 hc n hn hbn
  obtain ⟨-, rc, re, rl, rhit, rno⟩ := process_clock_recovery_retry_dev h dp hE hnot
  have hhit : cr_limit_hit h dp = false := by
    cases hh : cr_limit_hit h dp with
    | false => rfl
    | true =>
      have := congrArg Prod.snd (rhit hh).2.2.1
      simp only [marks] at this
      omega
  obtain ⟨rs, rr, -, -, rt⟩ := rno hhit
  refine ⟨?_, rs.trans hst, re, rr, rl, ?_⟩
  · intro lane hlane
    refine ⟨?_, ?_, ?_⟩
    · rw [rc]
      have := (cr_loop_after_le h dp lane).2.1
      have := hrange lane hlane
      omega
    · rw [rc]
      unfold cr_loop_after cr_counted lane_readback
      have h4 : lane < 4 := by omega
      simp only [hlane, true_and, decide_eq_true_eq, h4, if_true]
      rfl
    · rw [rt lane, if_pos hlane, get_adjust_train_target, if_pos hlane]
      rfl
  · intro lane hlane
    rw [rc]
    exact (cr_loop_after_le h dp lane).2.2 hlane

theorem clock_recovery_retry_step_witness :
    (s5p_dp_process_clock_recovery sample_hdr (device_of (session_of 0x0a 2 .CLOCK_RECOVERY)
        [⟨0, [0x00, 0x00, 0x00, 0x00, 0x00, 0x00]⟩, ⟨0, [0x10]⟩, ⟨0, [0x00]⟩,
         ⟨0, [0x00]⟩, ⟨0, [0x00]⟩])).2.link_train.cr_loop 0 = 0 + 1 ∧
    (s5p_dp_process_clock_recovery sample_hdr (device_of (session_of 0x0a 2 .CLOCK_RECOVERY)
        [⟨0, [0x00, 0x00, 0x00, 0x00, 0x00, 0x00]⟩, ⟨0, [0x10]⟩, ⟨0, [0x00]⟩,
         ⟨0, [0x00]⟩, ⟨0, [0x00]⟩])).2.link_train.cr_loop 1 = 0 ∧
    (s5p_dp_process_clock_recovery sample_hdr (device_of (session_of 0x0a 2 .CLOCK_RECOVERY)
        [⟨0, [0x00, 0x00, 0x00, 0x00, 0x00, 0x00]⟩, ⟨0, [0x10]⟩, ⟨0, [0x00]⟩,
         ⟨0, [0x00]⟩, ⟨0, [0x00]⟩])).2.link_train.lt_state = .CLOCK_RECOVERY :=
  have t := clock_recovery_retry_step sample_hdr (device_of (session_of 0x0a 2 .CLOCK_RECOVERY)
    [⟨0, [0x00, 0x00, 0x00, 0x00, 0x00, 0x00]⟩, ⟨0, [0x10]⟩, ⟨0, [0x00]⟩,
     ⟨0, [0x00]⟩, ⟨0, [0x00]⟩]) (by decide) (by decide) rfl (by decide) (by decide)
    (by decide)
  ⟨((t.1 0 (by decide)).2.1).trans (by decide), ((t.1 1 (by decide)).2.1).trans (by decide),
    t.2.1⟩


/-! ## C14: termination of a training attempt with idle polls allowed -/

theorem idle_polls_terminal (h : Hdr) (n : Nat) (d : s5p_dp_device)
    (ht : d.link_train.lt_state = .FINISHED ∨ d.link_train.lt_state = .FAILED) :
    idle_polls h n d = 0 := by
  induction n with
  | zero => rfl
  | succ n ih =>
    have hstep : sw_link_training_step h d = d := by
      rcases ht with ht | ht
      · exact sw_link_training_step_finished h d ht
      · exact sw_link_training_step_failed h d ht
    have hidle : idle_poll h d = false := by
      unfold idle_poll
      rw [decide_eq_false_iff_not]
      rintro ⟨hc, -⟩
      rcases ht with ht | ht <;> rw [ht] at hc <;> exact absurd hc (by decide)
    rw [idle_polls, hstep, ih, hidle]
    rfl

/-- An idle clock-recovery poll does not raise the budget of passes. -/
theorem sw_link_training_step_budget_idle (h : Hdr) (d : s5p_dp_device) (hE : h.EINVAL ≠ 0)
    (hidle : idle_poll h d = true) :
    pass_budget h (sw_link_training_step h d) ≤ pass_budget h d := by
  unfold idle_poll at hidle
  rw [decide_eq_true_eq] at hidle
  obtain ⟨hst, hok, hh, -⟩ := hidle
  have hstep : sw_link_training_step h d = (s5p_dp_process_clock_recovery h d).2 := by
    unfold sw_link_training_step
    rw [hst]
  rw [hstep, pass_budget_clock_recovery h d hst]
  obtain ⟨-, rc, re, rl, -, rno⟩ := process_clock_recovery_retry_dev h d hE hok
  obtain ⟨rs, rr, -, -, -⟩ := rno hh
  rw [pass_budget_clock_recovery h _ (rs.trans hst), rr, rl, re, rc]
  have := cr_slack_mono h.MAX_CR_LOOP d.link_train.cr_loop (cr_loop_after h d)
    d.link_train.lane_count (fun l _ => (cr_loop_after_le h d l).1)
  omega

theorem sw_link_training_loop_terminates (h : Hdr) (hE : h.EINVAL ≠ 0)
    (hM : 0 < h.MAX_CR_LOOP) (hR : h.LINK_RATE_1_62GBPS % 256 ≠ h.LINK_RATE_2_70GBPS)
    (n : Nat) (d : s5p_dp_device)
    (hinv : d.link_train.lt_state = .CLOCK_RECOVERY → ∀ lane,
      lane < d.link_train.lane_count → d.link_train.cr_loop lane < h.MAX_CR_LOOP)
    (hb : pass_budget h d + idle_polls h n d < n) :
    ∃ r d', s5p_dp_sw_link_training_loop h n d = some (r, d') := by
  induction n generalizing d with
  | zero => exact absurd hb (Nat.not_lt_zero _)
  | succ n ih =>
    by_cases hfin : d.link_train.lt_state = .FINISHED
    · exact ⟨0, d, (sw_loop_finished h n d hfin).1⟩
    · by_cases hfail : d.link_train.lt_state = .FAILED
      · exact ⟨-h.EREMOTEIO, d, (sw_loop_failed h n d hfail).1⟩
      · rw [sw_link_training_loop_step h n d hfin hfail]
        rw [idle_polls] at hb
        refine ih _ (sw_link_training_step_cr_loop_lt h d hE hM hinv) ?_
        cases hidle : idle_poll h d with
        | true =>
          have := sw_link_training_step_budget_idle h d hE hidle
          rw [hidle] at hb
          simp only [if_true] at hb
          omega
        | false =>
          have hdec := sw_link_training_step_budget h d hE hR hinv hfin hfail (by
            intro hs hok hh
            by_contra hno
            have : idle_poll h d = true := by
              unfold idle_poll
              rw [decide_eq_true_eq]
              exact ⟨hs, hok, hh, hno⟩
            rw [hidle] at this
            exact absurd this (by decide))
          rw [hidle] at hb
          simp only [Bool.false_eq_true, if_false, Nat.zero_add] at hb
          omega

theorem sw_link_training_loop_idle_polls (h : Hdr) (fuel : Nat) :
    ∀ (d : s5p_dp_device) (x : Int × s5p_dp_device),
      s5p_dp_sw_link_training_loop h fuel d = some x → ∀ n, idle_polls h n d < fuel := by
  induction fuel with
  | zero =>
    intro d x hx
    simp [s5p_dp_sw_link_training_loop] at hx
  | succ fuel ih =>
    intro d x hx n
    by_cases hfin : d.link_train.lt_state = .FINISHED
    · rw [idle_polls_terminal h n d (Or.inl hfin)]
      exact Nat.succ_pos _
    · by_cases hfail : d.link_train.lt_state = .FAILED
      · rw [idle_polls_terminal h n d (Or.inr hfail)]
        exact Nat.succ_pos _
      · rw [sw_link_training_loop_step h fuel d hfin hfail] at hx
        cases n with
        | zero => exact Nat.succ_pos _
        | succ n =>
          have := ih _ x hx n
          rw [idle_polls]
          split_ifs <;> omega

/-- C14 (amended).  Termination of a training attempt (for a header with `EINVAL` nonzero,
`MAX_CR_LOOP` positive and the two link rates distinct as `u8` values), for every initial
session, so for 1 to 4 lanes at either rate, and every sequence of answers of the sink and
the source registers.  Write `B = 2 * (lane_count * MAX_CR_LOOP + MAX_EQ_LOOP + 4) + 1`, and
call a pass idle when it is a clock-recovery pass that retries (CR is not done on all
active lanes and `s5p_dp_check_max_cr_loop` does not stop the pass) and finds on no active
lane the levels read back equal to the levels requested (`idle_poll`).  (1) For every `N`:
if at most `N` of the first `B + N` passes are idle, the loop of
`s5p_dp_sw_link_training` reaches `FINISHED` or `FAILED` within `B + N` passes: given at
least that many passes, the function returns, with 0 in state `FINISHED` or with
`-EREMOTEIO` in state `FAILED`.  (2) A run that returns within `fuel` passes has fewer than
`fuel` idle passes.  (3) So the attempt terminates exactly when, for some `N`, at most `N`
of its first `B + N` passes are idle: only a run whose idle passes never end fails to
terminate. -/
theorem sw_link_training_terminates (h : Hdr) (dp : s5p_dp_device) (hE : h.EINVAL ≠ 0)
    (hM : 0 < h.MAX_CR_LOOP) (hR : h.LINK_RATE_1_62GBPS % 256 ≠ h.LINK_RATE_2_70GBPS) :
    (∀ N extra : Nat,
      idle_polls h (2 * (dp.link_train.lane_count * h.MAX_CR_LOOP + h.MAX_EQ_LOOP + 4) + 1 + N)
          (sw_link_training_entry h dp) ≤ N →
      ∃ r dp', s5p_dp_sw_link_training h
          (2 * (dp.link_train.lane_count * h.MAX_CR_LOOP + h.MAX_EQ_LOOP + 4) + 1 + N + extra)
          dp = some (r, dp') ∧
        ((r = 0 ∧ dp'.link_train.lt_state = .FINISHED) ∨
         (r = -h.EREMOTEIO ∧ dp'.link_train.lt_state = .FAILED))) ∧
    (∀ (fuel : Nat) (x : Int × s5p_dp_device), s5p_dp_sw_link_training h fuel dp = some x →
      ∀ n, idle_polls h n (sw_link_training_entry h dp) < fuel) ∧
    ((∃ fuel x, s5p_dp_sw_link_training h fuel dp = some x) ↔
      ∃ N, idle_polls h
          (2 * (dp.link_train.lane_count * h.MAX_CR_LOOP + h.MAX_EQ_LOOP + 4) + 1 + N)
          (sw_link_training_entry h dp) ≤ N) := by
  have hs : (sw_link_training_entry h dp).link_train.lt_state = .START := rfl
  have hlc : (sw_link_training_entry h dp).link_train.lane_count = dp.link_train.lane_count := by
    unfold sw_link_training_entry
    split_ifs <;> rfl
  have hb : pass_budget h (sw_link_training_entry h dp)
      < 2 * (dp.link_train.lane_count * h.MAX_CR_LOOP + h.MAX_EQ_LOOP + 4) + 1 := by
    rw [pass_budget_start h _ hs, hlc]
    split_ifs <;> omega
  have hunf : ∀ fuel, s5p_dp_sw_link_training h fuel dp
      = s5p_dp_sw_link_training_loop h fuel (sw_link_training_entry h dp) := fun _ => rfl
  have h1 : ∀ N extra : Nat,
      idle_polls h (2 * (dp.link_train.lane_count * h.MAX_CR_LOOP + h.MAX_EQ_LOOP + 4) + 1 + N)
          (sw_link_training_entry h dp) ≤ N →
      ∃ r dp', s5p_dp_sw_link_training h
          (2 * (dp.link_train.lane_count * h.MAX_CR_LOOP + h.MAX_EQ_LOOP + 4) + 1 + N + extra)
          dp = some (r, dp') ∧
        ((r = 0 ∧ dp'.link_train.lt_state = .FINISHED) ∨
         (r = -h.EREMOTEIO ∧ dp'.link_train.lt_state = .FAILED)) := by
    intro N extra hidle
    obtain ⟨r, d', hres⟩ := sw_link_training_loop_terminates h hE hM hR
      (2 * (dp.link_train.lane_count * h.MAX_CR_LOOP + h.MAX_EQ_LOOP + 4) + 1 + N)
      (sw_link_training_entry h dp)
      (fun hc => by rw [hs] at hc; exact absurd hc (by decide)) (by omega)
    have hres' := sw_link_training_loop_mono h _ extra _ _ hres
    rw [hunf]
    exact ⟨r, d', hres', sw_link_training_loop_result h _ _ r d' hres'⟩
  have h2 : ∀ (fuel : Nat) (x : Int × s5p_dp_device),
      s5p_dp_sw_link_training h fuel dp = some x →
      ∀ n, idle_polls h n (sw_link_training_entry h dp) < fuel := by
    intro fuel x hx n
    rw [hunf] at hx
    exact sw_link_training_loop_idle_polls h fuel _ x hx n
  refine ⟨h1, h2, ?_, ?_⟩
  · rintro ⟨fuel, x, hx⟩
    exact ⟨fuel, Nat.le_of_lt (h2 fuel x hx _)⟩
  · rintro ⟨N, hN⟩
    obtain ⟨r, dp', hres, -⟩ := h1 N 0 hN
    exact ⟨_, (r, dp'), hres⟩

theorem sw_link_training_terminates_witness :
    idle_polls sample_hdr (2 * (1 * 5 + 4 + 4) + 1 + 1)
        (sw_link_training_entry sample_hdr
          (device_of (session_of 0x0a 1 .START) one_adjustment_script)) = 1 ∧
    ∃ r dp', s5p_dp_sw_link_training sample_hdr (2 * (1 * 5 + 4 + 4) + 1 + 1 + 0)
        (device_of (session_of 0x0a 1 .START) one_adjustment_script) = some (r, dp') ∧
      ((r = 0 ∧ dp'.link_train.lt_state = .FINISHED) ∨
       (r = -sample_hdr.EREMOTEIO ∧ dp'.link_train.lt_state = .FAILED)) :=
  ⟨by decide,
   (sw_link_training_terminates sample_hdr
      (device_of (session_of 0x0a 1 .START) one_adjustment_script)
      (by decide) (by decide) (by decide)).1 1 0 (by decide)⟩

/-! ## C29: index safety -/

theorem for_loop_checked_eq {σ : Type} (body : Nat → σ → Option σ) (body' : Nat → σ → σ)
    (n : Nat) (s : σ) (hb : ∀ i, i < n → ∀ s, body i s = some (body' i s)) :
    for_loop_checked body n s = some (for_loop body' n s) := by
  induction n with
  | zero => rfl
  | succ n ih =>
    rw [for_loop_checked, ih (fun i hi => hb i (Nat.lt_succ_of_lt hi)), Option.some_bind,
      hb n (Nat.lt_succ_self n)]
    rfl

theorem for_loop_checked_fst {σ τ : Type} (body : Nat → σ × τ → Option (σ × τ))
    (body' : Nat → σ → σ) (n : Nat) (s : σ × τ)
    (hb : ∀ i, i < n → ∀ s, ∃ b, body i s = some (body' i s.1, b)) :
    ∃ b, for_loop_checked body n s = some (for_loop body' n s.1, b) := by
  induction n with
  | zero => exact ⟨s.2, rfl⟩
  | succ n ih =>
    obtain ⟨b, hn⟩ := ih (fun i hi => hb i (Nat.lt_succ_of_lt hi))
    obtain ⟨b', hb'⟩ := hb n (Nat.lt_succ_self n) (for_loop body' n s.1, b)
    exact ⟨b', by rw [for_loop_checked, hn, Option.some_bind, hb']; rfl⟩

theorem for_loop_checked_none {σ : Type} (body : Nat → σ → Option σ) (n i : Nat) (s : σ)
    (hi : i < n) (hb : ∀ s, body i s = none) : for_loop_checked body n s = none := by
  induction n with
  | zero => exact absurd hi (Nat.not_lt_zero i)
  | succ n ih =>
    rw [for_loop_checked]
    by_cases hin : i = n
    · subst hin
      cases for_loop_checked body i s with
      | none => rfl
      | some s' => exact hb s'
    · rw [ih (by omega)]
      rfl

theorem for_return_checked_eq {ρ : Type} (body : Nat → Option (Option ρ))
    (body' : Nat → Option ρ) (todo i : Nat)
    (hb : ∀ k, k < todo → body (i + k) = some (body' (i + k))) :
    for_return_checked body todo i = some (for_return body' todo i) := by
  induction todo generalizing i with
  | zero => rfl
  | succ n ih =>
    have h0 := hb 0 (Nat.succ_pos n)
    rw [Nat.add_zero] at h0
    rw [for_return_checked, for_return, h0]
    cases hbi : body' i with
    | some r => rfl
    | none =>
      exact ih (i + 1) (fun k hk => by
        have := hb (k + 1) (by omega)
        rw [show i + (k + 1) = i + 1 + k by omega] at this
        exact this)

theorem get_lane_status_checked_eq (link_status : Nat → Nat) (lane : Nat) (hl : lane < 12) :
    s5p_dp_get_lane_status_checked link_status lane
      = some (s5p_dp_get_lane_status link_status lane) := by
  have h6 : lane >>> 1 < 6 := by
    rw [Nat.shiftRight_eq_div_pow]
    omega
  unfold s5p_dp_get_lane_status_checked s5p_dp_get_lane_status array_get
  rw [if_pos h6]
  rfl

theorem clock_recovery_ok_checked_eq (h : Hdr) (link_status : Nat → Nat) (lane_count : Nat)
    (hl : lane_count ≤ 4) :
    s5p_dp_clock_recovery_ok_checked h link_status lane_count
      = some (s5p_dp_clock_recovery_ok h link_status lane_count) := by
  unfold s5p_dp_clock_recovery_ok_checked s5p_dp_clock_recovery_ok
  rw [for_return_checked_eq _ (fun lane =>
      let lane_status := s5p_dp_get_lane_status link_status lane
      if lane_status &&& h.DPCD_LANE_CR_DONE = 0 then some (-h.EINVAL) else none)]
  · rfl
  · intro k hk
    rw [get_lane_status_checked_eq link_status (0 + k) (by omega)]
    rfl

theorem channel_eq_ok_checked_eq (h : Hdr) (link_status : Nat → Nat) (lane_count : Nat)
    (hl : lane_count ≤ 4) :
    s5p_dp_channel_eq_ok_checked h link_status lane_count
      = some (s5p_dp_channel_eq_ok h link_status lane_count) := by
  unfold s5p_dp_channel_eq_ok_checked s5p_dp_channel_eq_ok array_get
  rw [if_pos (by decide : 2 < 6)]
  by_cases ha : link_status 2 = h.DPCD_INTERLANE_ALIGN_DONE
  · simp only [Option.pure_def, Option.bind_eq_bind, Option.some_bind, ha, not_true_eq_false,
      if_false]
    rw [for_return_checked_eq _ (fun lane =>
        let lane_status := s5p_dp_get_lane_status link_status lane
        let lane_status := (lane_status &&& h.DPCD_CHANNEL_EQ_BITS) % 256
        if lane_status ≠ h.DPCD_CHANNEL_EQ_BITS then some (-h.EINVAL) else none)]
    · rfl
    · intro k hk
      rw [get_lane_status_checked_eq link_status (0 + k) (by omega)]
      rfl
  · simp only [Option.pure_def, Option.bind_eq_bind, Option.some_bind, ha, not_false_eq_true,
      if_true]

theorem get_adjust_request_voltage_checked_eq (adjust_request : Nat → Nat) (lane : Nat)
    (hl : lane < 4) :
    s5p_dp_get_adjust_request_voltage_checked adjust_request lane
      = some (s5p_dp_get_adjust_request_voltage adjust_request lane) := by
  have h2 : lane >>> 1 < 2 := by
    rw [Nat.shiftRight_eq_div_pow]
    omega
  unfold s5p_dp_get_adjust_request_voltage_checked s5p_dp_get_adjust_request_voltage array_get
  rw [if_pos h2]
  rfl

theorem get_adjust_request_pre_emphasis_checked_eq (adjust_request : Nat → Nat) (lane : Nat)
    (hl : lane < 4) :
    s5p_dp_get_adjust_request_pre_emphasis_checked adjust_request lane
      = some (s5p_dp_get_adjust_request_pre_emphasis adjust_request lane) := by
  have h2 : lane >>> 1 < 2 := by
    rw [Nat.shiftRight_eq_div_pow]
    omega
  unfold s5p_dp_get_adjust_request_pre_emphasis_checked s5p_dp_get_adjust_request_pre_emphasis
    array_get
  rw [if_pos h2]
  rfl

theorem get_lane_link_training_checked_eq (dp : s5p_dp_device) (lane : Nat) (hl : lane < 4) :
    s5p_dp_get_lane_link_training_checked dp lane
      = some (s5p_dp_get_lane_link_training dp lane) := by
  interval_cases lane <;> rfl

theorem adjust_request_checked_eq (a b : Nat) :
    adjust_request_checked a b = some (arr2 a b) := by
  unfold adjust_request_checked array_set
  simp only [Option.pure_def, Option.bind_eq_bind, Option.some_bind, Nat.zero_lt_succ, if_true,
    Nat.one_lt_ofNat, Option.some.injEq]
  funext i
  unfold arr2
  by_cases h1 : i = 1
  · subst h1
    simp
  · by_cases h0 : i = 0
    · subst h0
      simp
    · simp [Function.update, h0, h1]

theorem get_adjust_train_checked_eq (h : Hdr) (dp : s5p_dp_device) (adjust_request : Nat → Nat)
    (hl : dp.link_train.lane_count ≤ 4) :
    s5p_dp_get_adjust_train_checked h dp adjust_request
      = some (s5p_dp_get_adjust_train h dp adjust_request) := by
  unfold s5p_dp_get_adjust_train_checked s5p_dp_get_adjust_train
  apply for_loop_checked_eq
  intro i hi s
  have h4 : i < 4 := by omega
  rw [get_adjust_request_voltage_checked_eq adjust_request i h4,
    get_adjust_request_pre_emphasis_checked_eq adjust_request i h4]
  simp only [Option.pure_def, Option.bind_eq_bind, Option.some_bind, training_lane_set, h4,
    if_true]

theorem check_max_cr_loop_checked_eq (h : Hdr) (dp : s5p_dp_device) (voltage_swing : Nat)
    (hl : dp.link_train.lane_count ≤ 4) :
    s5p_dp_check_max_cr_loop_checked h dp voltage_swing
      = some (s5p_dp_check_max_cr_loop h dp voltage_swing) := by
  unfold s5p_dp_check_max_cr_loop_checked s5p_dp_check_max_cr_loop
  simp only [Option.pure_def, Option.bind_eq_bind]
  rw [for_return_checked_eq _ (fun lane =>
      if voltage_swing = h.VOLTAGE_LEVEL_3 ∨ dp.link_train.cr_loop lane = h.MAX_CR_LOOP then
        some (-h.EINVAL)
      else none)]
  · rfl
  · intro k hk
    have h4 : 0 + k < 4 := by omega
    by_cases hv : voltage_swing = h.VOLTAGE_LEVEL_3
    · simp only [hv, if_true, true_or]
    · simp only [hv, if_false, false_or, cr_loop_get, array_get, h4, if_true, Option.some_bind]

theorem write_training_lanes_checked_eq (h : Hdr) (dp : s5p_dp_device) (buf : Nat → Nat)
    (lane_count : Nat) (hl : lane_count ≤ 4) :
    write_training_lanes_checked h dp buf lane_count
      = some (write_training_lanes h dp lane_count) := by
  unfold write_training_lanes_checked write_training_lanes
  suffices hs : ∃ b, for_loop_checked (fun lane (st : s5p_dp_device × (Nat → Nat)) => do
      let training_lane ← training_lane_get st.1 lane
      let dp := s5p_dp_set_lane_link_training st.1 training_lane lane
      let training_lane ← training_lane_get dp lane
      let buf ← array_set 5 st.2 lane (training_lane % 256)
      let buf_lane ← array_get 5 buf lane
      pure ((s5p_dp_write_byte_to_dpcd dp (h.DPCD_ADDR_TRAINING_LANE0_SET + lane)
        buf_lane).2, buf)) lane_count (dp, buf)
      = some (for_loop (fun lane dp =>
          let dp := s5p_dp_set_lane_link_training dp (dp.link_train.training_lane lane) lane
          let buf_lane := dp.link_train.training_lane lane % 256
          (s5p_dp_write_byte_to_dpcd dp (h.DPCD_ADDR_TRAINING_LANE0_SET + lane) buf_lane).2)
          lane_count dp, b) by
    obtain ⟨b, hb⟩ := hs
    rw [hb]
    rfl
  apply for_loop_checked_fst _ _ lane_count (dp, buf)
  intro i hi s
  have h4 : i < 4 := by omega
  have h5 : i < 5 := by omega
  have htl : ∀ d : s5p_dp_device, training_lane_get d i = some (d.link_train.training_lane i) := by
    intro d
    unfold training_lane_get array_get
    rw [if_pos h4]
  have hsame : (s5p_dp_set_lane_link_training s.1 (s.1.link_train.training_lane i) i
      ).link_train = s.1.link_train :=
    (set_lane_link_training_dev s.1 (s.1.link_train.training_lane i) i).1
  refine ⟨Function.update s.2 i
    ((s5p_dp_set_lane_link_training s.1 (s.1.link_train.training_lane i) i
      ).link_train.training_lane i % 256), ?_⟩
  simp only [Option.pure_def, Option.bind_eq_bind, Option.some_bind, htl, array_set, array_get,
    h5, if_true, Function.update_same]

theorem link_start_checked_eq (h : Hdr) (dp : s5p_dp_device)
    (hl : dp.link_train.lane_count ≤ 4) :
    s5p_dp_link_start_checked h dp = some (s5p_dp_link_start h dp) := by
  unfold s5p_dp_link_start_checked s5p_dp_link_start
  have h1 : ∀ d : s5p_dp_device,
      for_loop_checked (fun lane dp => cr_loop_set dp lane 0) dp.link_train.lane_count d
        = some (for_loop (fun lane dp => set_cr_loop dp lane 0) dp.link_train.lane_count d) := by
    intro d
    apply for_loop_checked_eq
    intro i hi s
    unfold cr_loop_set
    rw [if_pos (by omega)]
  have h2 : ∀ (v : Nat) (b : Nat → Nat),
      for_loop_checked (fun lane buf => array_set 5 buf lane v) dp.link_train.lane_count b
        = some (for_loop (fun lane buf => Function.update buf lane v)
            dp.link_train.lane_count b) := by
    intro v b
    apply for_loop_checked_eq
    intro i hi s
    unfold array_set
    rw [if_pos (by omega)]
  have h3 : array_block 5 dp.link_train.lane_count = some () := by
    unfold array_block
    rw [if_pos (by omega)]
  have h4 : ∀ (b : Nat → Nat) (v : Nat), array_set 5 b 0 v = some (Function.update b 0 v) :=
    fun _ _ => rfl
  have h5 : ∀ (b : Nat → Nat) (v : Nat), array_set 5 b 1 v = some (Function.update b 1 v) :=
    fun _ _ => rfl
  have h6 : ∀ b : Nat → Nat, array_get 5 b 0 = some (b 0) := fun _ => rfl
  have h7 : array_block 5 2 = some () := rfl
  simp only [Option.pure_def, Option.bind_eq_bind, Option.some_bind, h1, h2, h3, h4, h5, h6,
    h7]

theorem clock_recovery_lane_body_checked_eq (h : Hdr) (adjust_request : Nat → Nat) (lane : Nat)
    (st : s5p_dp_device × Nat) (hl : lane < 4) :
    clock_recovery_lane_body_checked h adjust_request lane st
      = some (clock_recovery_lane_body h adjust_request lane st) := by
  unfold clock_recovery_lane_body_checked clock_recovery_lane_body
  rw [get_lane_link_training_checked_eq st.1 lane hl,
    get_adjust_request_voltage_checked_eq adjust_request lane hl,
    get_adjust_request_pre_emphasis_checked_eq adjust_request lane hl]
  simp only [Option.pure_def, Option.bind_eq_bind, Option.some_bind]
  split_ifs <;>
    simp only [Option.some_bind, cr_loop_get, cr_loop_set, training_lane_set, array_get, hl,
      if_true]

theorem process_clock_recovery_checked_eq (h : Hdr) (dp : s5p_dp_device)
    (hl : dp.link_train.lane_count ≤ 4) :
    s5p_dp_process_clock_recovery_checked h dp = some (s5p_dp_process_clock_recovery h dp) := by
  have hblk : array_block 6 6 = some () := rfl
  have hg4 : ∀ f : Nat → Nat, array_get 6 f 4 = some (f 4) := fun _ => rfl
  have hg5 : ∀ f : Nat → Nat, array_get 6 f 5 = some (f 5) := fun _ => rfl
  have hs0 : ∀ (b : Nat → Nat) (v : Nat), array_set 5 b 0 v = some (Function.update b 0 v) :=
    fun _ _ => rfl
  have hb0 : ∀ b : Nat → Nat, array_get 5 b 0 = some (b 0) := fun _ => rfl
  rw [process_clock_recovery_eq]
  unfold s5p_dp_process_clock_recovery_checked
  simp only [Option.pure_def, Option.bind_eq_bind, Option.some_bind, hblk]
  rw [clock_recovery_ok_checked_eq]
  swap
  · exact hl
  simp only [Option.some_bind]
  split_ifs with hok hhit
  · simp only [hg4, hg5, adjust_request_checked_eq, Option.some_bind]
    rw [get_adjust_train_checked_eq]
    swap
    · exact hl
    simp only [Option.some_bind, hs0, hb0, Function.update_same]
    rw [write_training_lanes_checked_eq]
    swap
    · exact hl
    rfl
  · simp only [adjust_request_checked_eq, Option.some_bind]
    rw [for_loop_checked_eq _ (clock_recovery_lane_body h _)]
    swap
    · intro i hi s
      exact clock_recovery_lane_body_checked_eq h _ i s (by
        have : i < dp.link_train.lane_count := hi
        omega)
    simp only [Option.some_bind]
    rw [check_max_cr_loop_checked_eq]
    swap
    · exact le_of_eq_of_le (clock_recovery_lane_loop_state h _ _ _ _).2.2.2.2.1 hl
    simp only [Option.some_bind]
    rw [if_pos hhit]
  · simp only [adjust_request_checked_eq, Option.some_bind]
    rw [for_loop_checked_eq _ (clock_recovery_lane_body h _)]
    swap
    · intro i hi s
      exact clock_recovery_lane_body_checked_eq h _ i s (by
        have : i < dp.link_train.lane_count := hi
        omega)
    simp only [Option.some_bind]
    rw [check_max_cr_loop_checked_eq]
    swap
    · exact le_of_eq_of_le (clock_recovery_lane_loop_state h _ _ _ _).2.2.2.2.1 hl
    simp only [Option.some_bind]
    rw [if_neg hhit, get_adjust_train_checked_eq]
    swap
    · exact le_of_eq_of_le (clock_recovery_lane_loop_state h _ _ _ _).2.2.2.2.1 hl
    simp only [Option.some_bind]
    rw [write_training_lanes_checked_eq]
    swap
    · exact hl
    rfl

theorem process_equalizer_training_checked_eq (h : Hdr) (dp : s5p_dp_device)
    (hl : dp.link_train.lane_count ≤ 4) :
    s5p_dp_process_equalizer_training_checked h dp
      = some (s5p_dp_process_equalizer_training h dp) := by
  have hblk : array_block 6 6 = some () := rfl
  have hg4 : ∀ f : Nat → Nat, array_get 6 f 4 = some (f 4) := fun _ => rfl
  have hg5 : ∀ f : Nat → Nat, array_get 6 f 5 = some (f 5) := fun _ => rfl
  unfold s5p_dp_process_equalizer_training_checked s5p_dp_process_equalizer_training
  simp only [Option.pure_def, Option.bind_eq_bind, Option.some_bind, hblk]
  have hl1 : (s5p_dp_read_bytes_from_dpcd (udelay dp 400) h.DPCD_ADDR_LANE0_1_STATUS 6
      ).2.2.link_train.lane_count ≤ 4 := hl
  generalize (s5p_dp_read_bytes_from_dpcd (udelay dp 400) h.DPCD_ADDR_LANE0_1_STATUS 6).2.1
    = ls at hl1 ⊢
  generalize (s5p_dp_read_bytes_from_dpcd (udelay dp 400) h.DPCD_ADDR_LANE0_1_STATUS 6).2.2
    = d1 at hl1 ⊢
  have hl2 : (set_eq_loop d1 (d1.link_train.eq_loop + 1)).link_train.lane_count ≤ 4 := hl1
  have e1 := clock_recovery_ok_checked_eq h ls d1.link_train.lane_count hl1
  have e2 := channel_eq_ok_checked_eq h ls d1.link_train.lane_count hl1
  have e3 := get_adjust_train_checked_eq h (set_eq_loop d1 (d1.link_train.eq_loop + 1))
    (arr2 (ls 4) (ls 5)) hl2
  have e4 := fun (d : s5p_dp_device) (b : Nat → Nat) =>
    write_training_lanes_checked_eq h d b d1.link_train.lane_count hl1
  simp only [e1, Option.some_bind, hg4, hg5, adjust_request_checked_eq, e2]
  by_cases hok : s5p_dp_clock_recovery_ok h ls d1.link_train.lane_count = 0
  · by_cases heq : s5p_dp_channel_eq_ok h ls d1.link_train.lane_count = 0
    · simp only [hok, heq, if_true]
    · by_cases hover : (set_eq_loop d1 (d1.link_train.eq_loop + 1)).link_train.eq_loop
          > h.MAX_EQ_LOOP
      · simp only [hok, heq, hover, if_true, if_false]
      · simp only [hok, heq, hover, if_true, if_false, e3, e4, Option.some_bind]
  · simp only [hok, if_false]

theorem sw_link_training_step_checked_eq (h : Hdr) (dp : s5p_dp_device)
    (hl : dp.link_train.lt_state ≠ .FINISHED → dp.link_train.lt_state ≠ .FAILED →
      dp.link_train.lane_count ≤ 4) :
    sw_link_training_step_checked h dp = some (sw_link_training_step h dp) := by
  unfold sw_link_training_step_checked sw_link_training_step
  cases hst : dp.link_train.lt_state with
  | START =>
    exact link_start_checked_eq h dp (hl (by rw [hst]; decide) (by rw [hst]; decide))
  | CLOCK_RECOVERY =>
    simp only
    rw [process_clock_recovery_checked_eq h dp (hl (by rw [hst]; decide) (by rw [hst]; decide))]
    rfl
  | EQUALIZER_TRAINING =>
    simp only
    rw [process_equalizer_training_checked_eq h dp
      (hl (by rw [hst]; decide) (by rw [hst]; decide))]
    rfl
  | FINISHED => rfl
  | FAILED => rfl

theorem link_start_checked_none (h : Hdr) (dp : s5p_dp_device)
    (hl : 4 < dp.link_train.lane_count) : s5p_dp_link_start_checked h dp = none := by
  unfold s5p_dp_link_start_checked
  simp only [Option.pure_def, Option.bind_eq_bind]
  rw [for_loop_checked_none (fun lane dp => cr_loop_set dp lane 0) dp.link_train.lane_count 4 _
    hl (fun s => rfl)]
  rfl

theorem sw_link_training_entry_lane_count (h : Hdr) (dp : s5p_dp_device) :
    (sw_link_training_entry h dp).link_train.lane_count = dp.link_train.lane_count := by
  unfold sw_link_training_entry
  split_ifs <;> rfl

/-- C29. Index safety of the training engine (for a header with `EINVAL` nonzero).  If the
source maximum `max_lane` passed to `s5p_dp_init_training` is at most 4, then for every
byte the sink advertises the session `lane_count` is at most 4, and at least 1 for the
values of `enum link_lane_count_type`, which are at least 1 (with `LANE_COUNT1`, as a byte,
not 0).  Consequently every indexed access of the training engine is in bounds: for every
device with `lane_count` at most 4, the functions `s5p_dp_link_start`,
`s5p_dp_process_clock_recovery`, `s5p_dp_process_equalizer_training`,
`s5p_dp_get_adjust_train` and `s5p_dp_check_max_cr_loop` with their arrays bounded
(`cr_loop[4]`, `training_lane[4]`, `buf[5]`, `adjust_request[2]`, `link_status[6]`, and the
lane getter defined on the cases 0..3 only) have a result, and it is the result of the
embedded function.  So has every pass of the loop of `s5p_dp_sw_link_training` from the
session `s5p_dp_init_training` leaves.  With more than 4 lanes `s5p_dp_link_start` with
bounded arrays has no result (it stores to `cr_loop[4]`): the bound on `max_lane` is
needed. -/
theorem training_index_safety (h : Hdr) (dp : s5p_dp_device) (max_lane max_rate : Nat)
    (hE : h.EINVAL ≠ 0) (hmax : max_lane ≤ 4) :
    (s5p_dp_init_training h dp max_lane max_rate).link_train.lane_count ≤ 4 ∧
    (1 ≤ max_lane → h.LANE_COUNT1 % 256 ≠ 0 →
      1 ≤ (s5p_dp_init_training h dp max_lane max_rate).link_train.lane_count) ∧
    (∀ d : s5p_dp_device, d.link_train.lane_count ≤ 4 →
      s5p_dp_link_start_checked h d = some (s5p_dp_link_start h d) ∧
      s5p_dp_process_clock_recovery_checked h d
        = some (s5p_dp_process_clock_recovery h d) ∧
      s5p_dp_process_equalizer_training_checked h d
        = some (s5p_dp_process_equalizer_training h d) ∧
      (∀ adjust_request, s5p_dp_get_adjust_train_checked h d adjust_request
        = some (s5p_dp_get_adjust_train h d adjust_request)) ∧
      (∀ voltage_swing, s5p_dp_check_max_cr_loop_checked h d voltage_swing
        = some (s5p_dp_check_max_cr_loop h d voltage_swing))) ∧
    (∀ n,
      sw_link_training_step_checked h
          (Nat.iterate (sw_link_training_step h) n
            (sw_link_training_entry h (s5p_dp_init_training h dp max_lane max_rate)))
        = some (Nat.iterate (sw_link_training_step h) (n + 1)
            (sw_link_training_entry h (s5p_dp_init_training h dp max_lane max_rate)))) ∧
    (∀ d : s5p_dp_device, 4 < d.link_train.lane_count →
      s5p_dp_link_start_checked h d = none) := by
  have hle : (s5p_dp_init_training h dp max_lane max_rate).link_train.lane_count ≤ 4 := by
    rw [init_training_lane_count]
    simp only
    split_ifs <;> omega
  refine ⟨hle, ?_, ?_, ?_, link_start_checked_none h⟩
  · intro h1 hL
    rw [init_training_lane_count]
    simp only
    split_ifs <;> omega
  · intro d hd
    exact ⟨link_start_checked_eq h d hd, process_clock_recovery_checked_eq h d hd,
      process_equalizer_training_checked_eq h d hd,
      fun adj => get_adjust_train_checked_eq h d adj hd,
      fun v => check_max_cr_loop_checked_eq h d v hd⟩
  · intro n
    rw [Function.iterate_succ_apply']
    apply sw_link_training_step_checked_eq
    intro hfin _
    rw [sw_link_training_iterate_lane_count h _ hE n hfin, sw_link_training_entry_lane_count]
    exact hle

theorem training_index_safety_witness :
    1 ≤ (s5p_dp_init_training sample_hdr (scripted_device [⟨0, [0x0a]⟩, ⟨0, [0x84]⟩])
      4 0x0a).link_train.lane_count ∧
    (s5p_dp_init_training sample_hdr (scripted_device [⟨0, [0x0a]⟩, ⟨0, [0x84]⟩])
      4 0x0a).link_train.lane_count ≤ 4 ∧
    s5p_dp_link_start_checked sample_hdr (device_of (session_of 0x0a 4 .START) [])
      = some (s5p_dp_link_start sample_hdr (device_of (session_of 0x0a 4 .START) [])) :=
  ⟨(training_index_safety sample_hdr (scripted_device [⟨0, [0x0a]⟩, ⟨0, [0x84]⟩]) 4 0x0a
      (by decide) (by decide)).2.1 (by decide) (by decide),
   (training_index_safety sample_hdr (scripted_device [⟨0, [0x0a]⟩, ⟨0, [0x84]⟩]) 4 0x0a
      (by decide) (by decide)).1,
   ((training_index_safety sample_hdr (scripted_device [⟨0, [0x0a]⟩, ⟨0, [0x84]⟩]) 4 0x0a
      (by decide) (by decide)).2.2.1 (device_of (session_of 0x0a 4 .START) [])
      (by decide)).1⟩

end S5pDp

namespace Twl6040

/-! ## The power functions and the kernel services -/

set_option maxRecDepth 10000

/-! ## The power functions leave the counted fields alone -/

theorem twl6040_reg_write_fields (h : twl6040_hdr) (t : twl6040) (reg val : Nat) :
    power_fields (twl6040_reg_write h t reg val).2 = power_fields t ∧
    (twl6040_reg_write h t reg val).2.log = t.log ++ [.regmap_write reg (val % 256)] := by
  unfold twl6040_reg_write regmap_write next_answer record
  simp only
  split_ifs <;> exact ⟨rfl, rfl⟩

theorem twl6040_reg_read_fields (h : twl6040_hdr) (t : twl6040) (reg : Nat) :
    power_fields (twl6040_reg_read h t reg).2 = power_fields t ∧
    ∃ seg, (twl6040_reg_read h t reg).2.log = t.log ++ seg := by
  unfold twl6040_reg_read regmap_read next_answer record
  simp only
  split_ifs
  · exact ⟨rfl, [], (List.append_nil _).symm⟩
  · exact ⟨rfl, _, rfl⟩
  · exact ⟨rfl, _, rfl⟩

theorem usleep_range_fields (t : twl6040) (a b : Nat) :
    power_fields (usleep_range t a b) = power_fields t ∧
    (usleep_range t a b).log = t.log ++ [.usleep_range a b] :=
  ⟨rfl, rfl⟩

theorem gpio_set_value_fields (t : twl6040) (g v : Int) :
    power_fields (gpio_set_value t g v) = power_fields t ∧
    (gpio_set_value t g v).log = t.log ++ [.gpio_set_value g v] :=
  ⟨rfl, rfl⟩

theorem power_up_manual_ncp_err_fields (h : twl6040_hdr) (t : twl6040) (ret : Int)
    (ldoctl : Nat) :
    (power_up_manual_ncp_err h t ret ldoctl).1 = ret ∧
    power_fields (power_up_manual_ncp_err h t ret ldoctl).2 = power_fields t := by
  unfold power_up_manual_ncp_err
  exact ⟨rfl, (twl6040_reg_write_fields h _ _ _).1⟩

theorem power_up_manual_lsldo_err_fields (h : twl6040_hdr) (t : twl6040) (ret : Int)
    (ldoctl ncpctl : Nat) :
    (power_up_manual_lsldo_err h t ret ldoctl ncpctl).1 = ret ∧
    power_fields (power_up_manual_lsldo_err h t ret ldoctl ncpctl).2 = power_fields t := by
  unfold power_up_manual_lsldo_err
  simp only
  exact ⟨(power_up_manual_ncp_err_fields h _ _ _).1,
    (power_up_manual_ncp_err_fields h _ _ _).2.trans (twl6040_reg_write_fields h _ _ _).1⟩

theorem power_up_manual_lppll_err_fields (h : twl6040_hdr) (t : twl6040) (ret : Int)
    (ldoctl ncpctl : Nat) :
    (power_up_manual_lppll_err h t ret ldoctl ncpctl).1 = ret ∧
    power_fields (power_up_manual_lppll_err h t ret ldoctl ncpctl).2 = power_fields t := by
  unfold power_up_manual_lppll_err
  simp only
  exact ⟨(power_up_manual_lsldo_err_fields h _ _ _ _).1,
    (power_up_manual_lsldo_err_fields h _ _ _ _).2.trans (twl6040_reg_write_fields h _ _ _).1⟩

theorem power_up_manual_osc_err_fields (h : twl6040_hdr) (t : twl6040) (ret : Int)
    (ldoctl ncpctl lppllctl : Nat) :
    (power_up_manual_osc_err h t ret ldoctl ncpctl lppllctl).1 = ret ∧
    power_fields (power_up_manual_osc_err h t ret ldoctl ncpctl lppllctl).2
      = power_fields t := by
  unfold power_up_manual_osc_err
  simp only
  exact ⟨(power_up_manual_lppll_err_fields h _ _ _ _).1,
    (power_up_manual_lppll_err_fields h _ _ _ _).2.trans (twl6040_reg_write_fields h _ _ _).1⟩

theorem twl6040_power_up_manual_fields (h : twl6040_hdr) (t : twl6040) :
    power_fields (twl6040_power_up_manual h t).2 = power_fields t := by
  have w := fun (t : twl6040) (reg val : Nat) => (twl6040_reg_write_fields h t reg val).1
  have u := fun (t : twl6040) (a b : Nat) => (usleep_range_fields t a b).1
  unfold twl6040_power_up_manual
  simp only
  split_ifs
  · exact w _ _ _
  · exact (power_up_manual_ncp_err_fields h _ _ _).2.trans
      ((w _ _ _).trans ((u _ _ _).trans (w _ _ _)))
  · exact (power_up_manual_lsldo_err_fields h _ _ _ _).2.trans
      ((w _ _ _).trans ((u _ _ _).trans ((w _ _ _).trans ((u _ _ _).trans (w _ _ _)))))
  · exact (power_up_manual_lppll_err_fields h _ _ _ _).2.trans
      ((w _ _ _).trans ((u _ _ _).trans ((w _ _ _).trans ((u _ _ _).trans
        ((w _ _ _).trans ((u _ _ _).trans (w _ _ _)))))))
  · exact (power_up_manual_osc_err_fields h _ _ _ _ _).2.trans
      ((w _ _ _).trans ((u _ _ _).trans ((w _ _ _).trans ((u _ _ _).trans
        ((w _ _ _).trans ((u _ _ _).trans ((w _ _ _).trans ((u _ _ _).trans (w _ _ _)))))))))
  · exact (w _ _ _).trans ((u _ _ _).trans ((w _ _ _).trans ((u _ _ _).trans
        ((w _ _ _).trans ((u _ _ _).trans ((w _ _ _).trans ((u _ _ _).trans (w _ _ _))))))))

theorem twl6040_power_down_manual_fields (h : twl6040_hdr) (t : twl6040) :
    power_fields (twl6040_power_down_manual h t) = power_fields t := by
  have w := fun (t : twl6040) (reg val : Nat) => (twl6040_reg_write_fields h t reg val).1
  have r := fun (t : twl6040) (reg : Nat) => (twl6040_reg_read_fields h t reg).1
  have u := fun (t : twl6040) (a b : Nat) => (usleep_range_fields t a b).1
  unfold twl6040_power_down_manual
  simp only
  exact (w _ _ _).trans ((w _ _ _).trans ((w _ _ _).trans ((w _ _ _).trans ((u _ _ _).trans
    ((w _ _ _).trans ((r _ _).trans ((r _ _).trans (r _ _))))))))

theorem twl6040_power_up_automatic_fields (h : twl6040_hdr) (t : twl6040) :
    power_fields (twl6040_power_up_automatic h t).2 = power_fields t := by
  have r := fun (t : twl6040) (reg : Nat) => (twl6040_reg_read_fields h t reg).1
  unfold twl6040_power_up_automatic
  simp only
  split_ifs
  · exact (gpio_set_value_fields _ _ _).1.trans (r _ _)
  · exact r _ _
  · rfl

theorem power_up_sequence_fields (h : twl6040_hdr) (t : twl6040) :
    power_fields (power_up_sequence h t).2 = power_fields t := by
  unfold power_up_sequence
  split_ifs
  · exact twl6040_power_up_automatic_fields h t
  · exact twl6040_power_up_manual_fields h t

theorem power_down_sequence_fields (h : twl6040_hdr) (t : twl6040) :
    power_fields (power_down_sequence h t) = power_fields t := by
  unfold power_down_sequence
  split_ifs
  · rfl
  · exact twl6040_power_down_manual_fields h t

/-! ## One call of `twl6040_power` -/

theorem int_wrap_of_range (v : Int) (h1 : -2147483648 ≤ v) (h2 : v ≤ 2147483647) :
    int_wrap v = v := by
  unfold int_wrap
  omega

theorem twl6040_power_on_again (h : twl6040_hdr) (t : twl6040) (on_ : Int) (hon : on_ ≠ 0)
    (hc : t.power_count ≠ 0) :
    twl6040_power h t on_ = (0, record (power_up_entry t) .mutex_unlock) := by
  unfold twl6040_power
  have hc2 : (record t .mutex_lock).power_count ≠ 0 := hc
  simp only [hon, hc2, ne_eq, not_false_eq_true, if_true]
  rfl

theorem twl6040_power_on_first (h : twl6040_hdr) (t : twl6040) (on_ : Int) (hon : on_ ≠ 0)
    (hc : t.power_count = 0) :
    twl6040_power h t on_ =
      (if (power_up_sequence h (power_up_entry t)).1 ≠ 0 then
        ((power_up_sequence h (power_up_entry t)).1,
          record { (power_up_sequence h (power_up_entry t)).2 with power_count := 0 }
            .mutex_unlock)
      else
        ((power_up_sequence h (power_up_entry t)).1,
          record { (power_up_sequence h (power_up_entry t)).2 with
            pll := h.TWL6040_SYSCLK_SEL_LPPLL, sysclk := 19200000, mclk := 32768 }
            .mutex_unlock)) := by
  unfold twl6040_power power_up_sequence
  have hc2 : (record t .mutex_lock).power_count = 0 := hc
  have ha : (power_up_entry t).audpwron = t.audpwron := rfl
  have hb : (record t .mutex_lock).audpwron = t.audpwron := rfl
  have he : ({ record t .mutex_lock with
      power_count := int_wrap ((record t .mutex_lock).power_count + 1) } : twl6040)
      = power_up_entry t := rfl
  simp only [hon, ne_eq, not_false_eq_true, if_true, he]
  simp only [hc2, not_true_eq_false, if_false, ha, hb]
  by_cases hv : gpio_is_valid h t.audpwron = true
  · simp only [hv, if_true]
  · simp only [hv, if_false]
    split_ifs <;> rfl

theorem twl6040_power_off_at_zero (h : twl6040_hdr) (t : twl6040) (hc : t.power_count = 0) :
    twl6040_power h t 0 = (-h.EPERM, record (record t .mutex_lock) .mutex_unlock) := by
  unfold twl6040_power
  have hc2 : (record t .mutex_lock).power_count = 0 := hc
  simp only [ne_eq, not_true_eq_false, if_false, hc2, if_true]

theorem twl6040_power_off_keep (h : twl6040_hdr) (t : twl6040) (hc : t.power_count ≠ 0)
    (hc1 : t.power_count ≠ 1) (hlo : -2147483648 ≤ t.power_count)
    (hhi : t.power_count ≤ 2147483647) :
    twl6040_power h t 0 = (0, record (power_down_entry t) .mutex_unlock) := by
  unfold twl6040_power
  have hc2 : (record t .mutex_lock).power_count = t.power_count := rfl
  have hc3 : int_wrap (t.power_count - 1) ≠ 0 := by
    unfold int_wrap
    omega
  simp only [ne_eq, not_true_eq_false, if_false, hc2, hc, hc3, not_false_eq_true, if_true]
  rfl

theorem twl6040_power_off_last (h : twl6040_hdr) (t : twl6040) (hc : t.power_count = 1) :
    twl6040_power h t 0 =
      (0, record { power_down_sequence h (power_down_entry t) with sysclk := 0, mclk := 0 }
        .mutex_unlock) := by
  unfold twl6040_power power_down_sequence
  have hc2 : (record t .mutex_lock).power_count = 1 := hc
  have ha : (power_down_entry t).audpwron = t.audpwron := rfl
  have hb : (record t .mutex_lock).audpwron = t.audpwron := rfl
  have he : ({ record t .mutex_lock with
      power_count := int_wrap ((record t .mutex_lock).power_count - 1) } : twl6040)
      = power_down_entry t := rfl
  have h10 : (1 : Int) ≠ 0 := by decide
  have hz : (power_down_entry t).power_count = 0 := by
    show int_wrap (t.power_count - 1) = 0
    rw [hc]
    rfl
  simp only [ne_eq, not_true_eq_false, if_false, he]
  have hw0 : int_wrap 0 = 0 := rfl
  simp only [hc2, h10, hz, ha, hb, sub_self, hw0, if_false, not_true_eq_false]

/-! ## The logs of the power sequences -/

theorem twl6040_reg_read_log_length (h : twl6040_hdr) (t : twl6040) (reg : Nat) :
    t.log.length ≤ (twl6040_reg_read h t reg).2.log.length := by
  obtain ⟨seg, hs⟩ := (twl6040_reg_read_fields h t reg).2
  rw [hs, List.length_append]
  exact Nat.le_add_right _ _

theorem twl6040_reg_write_log_length (h : twl6040_hdr) (t : twl6040) (reg val : Nat) :
    (twl6040_reg_write h t reg val).2.log.length = t.log.length + 1 := by
  rw [(twl6040_reg_write_fields h t reg val).2, List.length_append]
  rfl

theorem power_up_manual_ncp_err_log_length (h : twl6040_hdr) (t : twl6040) (ret : Int)
    (ldoctl : Nat) :
    t.log.length ≤ (power_up_manual_ncp_err h t ret ldoctl).2.log.length := by
  unfold power_up_manual_ncp_err
  simp only [twl6040_reg_write_log_length]
  omega

theorem power_up_manual_lsldo_err_log_length (h : twl6040_hdr) (t : twl6040) (ret : Int)
    (ldoctl ncpctl : Nat) :
    t.log.length ≤ (power_up_manual_lsldo_err h t ret ldoctl ncpctl).2.log.length := by
  unfold power_up_manual_lsldo_err
  simp only
  refine le_trans ?_ (power_up_manual_ncp_err_log_length h _ _ _)
  rw [twl6040_reg_write_log_length]
  omega

theorem power_up_manual_lppll_err_log_length (h : twl6040_hdr) (t : twl6040) (ret : Int)
    (ldoctl ncpctl : Nat) :
    t.log.length ≤ (power_up_manual_lppll_err h t ret ldoctl ncpctl).2.log.length := by
  unfold power_up_manual_lppll_err
  simp only
  refine le_trans ?_ (power_up_manual_lsldo_err_log_length h _ _ _ _)
  rw [twl6040_reg_write_log_length]
  omega

theorem power_up_manual_osc_err_log_length (h : twl6040_hdr) (t : twl6040) (ret : Int)
    (ldoctl ncpctl lppllctl : Nat) :
    t.log.length ≤ (power_up_manual_osc_err h t ret ldoctl ncpctl lppllctl).2.log.length := by
  unfold power_up_manual_osc_err
  simp only
  refine le_trans ?_ (power_up_manual_lppll_err_log_length h _ _ _ _)
  rw [twl6040_reg_write_log_length]
  omega

theorem usleep_range_log_length (t : twl6040) (a b : Nat) :
    (usleep_range t a b).log.length = t.log.length + 1 := by
  rw [(usleep_range_fields t a b).2, List.length_append]
  rfl

theorem twl6040_power_up_manual_log_length (h : twl6040_hdr) (t : twl6040) :
    t.log.length < (twl6040_power_up_manual h t).2.log.length := by
  unfold twl6040_power_up_manual
  simp only
  split_ifs
  · rw [twl6040_reg_write_log_length]
    omega
  · refine lt_of_lt_of_le ?_ (power_up_manual_ncp_err_log_length h _ _ _)
    simp only [twl6040_reg_write_log_length, usleep_range_log_length]
    omega
  · refine lt_of_lt_of_le ?_ (power_up_manual_lsldo_err_log_length h _ _ _ _)
    simp only [twl6040_reg_write_log_length, usleep_range_log_length]
    omega
  · refine lt_of_lt_of_le ?_ (power_up_manual_lppll_err_log_length h _ _ _ _)
    simp only [twl6040_reg_write_log_length, usleep_range_log_length]
    omega
  · refine lt_of_lt_of_le ?_ (power_up_manual_osc_err_log_length h _ _ _ _ _)
    simp only [twl6040_reg_write_log_length, usleep_range_log_length]
    omega
  · simp only [twl6040_reg_write_log_length, usleep_range_log_length]
    omega

theorem twl6040_power_down_manual_log_length (h : twl6040_hdr) (t : twl6040) :
    t.log.length < (twl6040_power_down_manual h t).log.length := by
  unfold twl6040_power_down_manual
  simp only [twl6040_reg_write_log_length, usleep_range_log_length]
  have r1 := twl6040_reg_read_log_length h t h.TWL6040_REG_NCPCTL
  have r2 := twl6040_reg_read_log_length h (twl6040_reg_read h t h.TWL6040_REG_NCPCTL).2
    h.TWL6040_REG_LDOCTL
  have r3 := twl6040_reg_read_log_length h
    (twl6040_reg_read h (twl6040_reg_read h t h.TWL6040_REG_NCPCTL).2 h.TWL6040_REG_LDOCTL).2
    h.TWL6040_REG_LPPLLCTL
  omega

theorem twl6040_power_up_automatic_log_length (h : twl6040_hdr) (t : twl6040) :
    t.log.length < (twl6040_power_up_automatic h t).2.log.length := by
  have hw : (wait_for_completion_timeout (gpio_set_value t t.audpwron 1) 144).2.log.length
      = t.log.length + 2 := by
    unfold wait_for_completion_timeout next_answer record gpio_set_value record
    simp only [List.length_append, List.length_singleton]
  unfold twl6040_power_up_automatic
  simp only
  split_ifs
  · have r := twl6040_reg_read_log_length h
      (wait_for_completion_timeout (gpio_set_value t t.audpwron 1) 144).2 h.TWL6040_REG_INTID
    have g := (gpio_set_value_fields
      (twl6040_reg_read h (wait_for_completion_timeout (gpio_set_value t t.audpwron 1) 144).2
        h.TWL6040_REG_INTID).2
      (twl6040_reg_read h (wait_for_completion_timeout (gpio_set_value t t.audpwron 1) 144).2
        h.TWL6040_REG_INTID).2.audpwron 0).2
    rw [g, List.length_append]
    omega
  · have r := twl6040_reg_read_log_length h
      (wait_for_completion_timeout (gpio_set_value t t.audpwron 1) 144).2 h.TWL6040_REG_INTID
    dsimp only
    omega
  · dsimp only
    omega

theorem power_up_sequence_log_length (h : twl6040_hdr) (t : twl6040) :
    t.log.length < (power_up_sequence h t).2.log.length := by
  unfold power_up_sequence
  split_ifs
  · exact twl6040_power_up_automatic_log_length h t
  · exact twl6040_power_up_manual_log_length h t

theorem power_down_sequence_log_length (h : twl6040_hdr) (t : twl6040) :
    t.log.length < (power_down_sequence h t).log.length := by
  unfold power_down_sequence
  split_ifs
  · rw [usleep_range_log_length, (gpio_set_value_fields t t.audpwron 0).2, List.length_append]
    omega
  · exact twl6040_power_down_manual_log_length h t

/-! ## Sequences of calls -/

theorem power_fields_count {a b : twl6040} (e : power_fields a = power_fields b) :
    a.power_count = b.power_count :=
  congrArg (fun p => p.1) e

/-- One call of `twl6040_power` on a device whose counter is not negative and below
`INT_MAX`: the counter after the call, by the kind of the call. -/
theorem twl6040_power_count_step (h : twl6040_hdr) (hP : h.EPERM ≠ 0) (t : twl6040)
    (on_ : Int) (hnn : 0 ≤ t.power_count) (hmax : t.power_count < INT_MAX) :
    0 ≤ (twl6040_power h t on_).2.power_count ∧
    (twl6040_power h t on_).2.power_count ≤ t.power_count + 1 ∧
    (failed_power_up (on_, (twl6040_power h t on_).1) = true →
      t.power_count = 0 ∧ (twl6040_power h t on_).2.power_count = 0) ∧
    (failed_power_up (on_, (twl6040_power h t on_).1) = false →
      (twl6040_power h t on_).2.power_count
        = t.power_count
          + (if successful_on (on_, (twl6040_power h t on_).1) = true then 1 else 0)
          - (if successful_off (on_, (twl6040_power h t on_).1) = true then 1 else 0)) := by
  unfold INT_MAX at hmax
  unfold failed_power_up successful_on successful_off
  simp only [decide_eq_true_eq, decide_eq_false_iff_not]
  by_cases hon : on_ = 0
  · subst hon
    by_cases hc : t.power_count = 0
    · rw [twl6040_power_off_at_zero h t hc]
      have hne : -h.EPERM ≠ 0 := fun e => hP (by omega)
      simp only [ne_eq, not_true_eq_false, false_and, not_false_eq_true, true_and, hne,
        and_false, if_false, if_true]
      refine ⟨Int.le_of_eq hc.symm, ?_, fun hf => absurd hf (by simp), fun _ => ?_⟩
      · show t.power_count ≤ t.power_count + 1
        omega
      · show t.power_count = t.power_count + 0 - 0
        omega
    · by_cases hc1 : t.power_count = 1
      · rw [twl6040_power_off_last h t hc1]
        have hz : (record { power_down_sequence h (power_down_entry t) with
            sysclk := 0, mclk := 0 } .mutex_unlock).power_count = 0 := by
          show (power_down_sequence h (power_down_entry t)).power_count = 0
          rw [power_fields_count (power_down_sequence_fields h (power_down_entry t))]
          show int_wrap (t.power_count - 1) = 0
          rw [hc1]
          rfl
        simp only [hz, ne_eq, not_true_eq_false, false_and, not_false_eq_true, and_self,
          if_true, if_false, le_refl, true_and]
        refine ⟨by omega, fun hf => absurd hf (by simp), fun _ => ?_⟩
        omega
      · rw [twl6040_power_off_keep h t hc hc1 (by omega) (by omega)]
        have hz : (record (power_down_entry t) .mutex_unlock).power_count
            = t.power_count - 1 := by
          show int_wrap (t.power_count - 1) = t.power_count - 1
          exact int_wrap_of_range _ (by omega) (by omega)
        simp only [hz, ne_eq, not_true_eq_false, false_and, not_false_eq_true, and_self,
          if_true, if_false, true_and]
        refine ⟨by omega, by omega, fun hf => absurd hf (by simp), fun _ => ?_⟩
        omega
  · by_cases hc : t.power_count = 0
    · rw [twl6040_power_on_first h t on_ hon hc]
      have hf := power_fields_count (power_up_sequence_fields h (power_up_entry t))
      have he : (power_up_entry t).power_count = 1 := by
        show int_wrap (t.power_count + 1) = 1
        rw [hc]
        rfl
      by_cases hr : (power_up_sequence h (power_up_entry t)).1 = 0
      · simp only [hr, ne_eq, not_true_eq_false, if_false, hon, not_false_eq_true, and_self,
          and_false, if_true, true_and]
        have hz : (record { (power_up_sequence h (power_up_entry t)).2 with
            pll := h.TWL6040_SYSCLK_SEL_LPPLL, sysclk := 19200000, mclk := 32768 }
            .mutex_unlock).power_count = 1 := by
          show (power_up_sequence h (power_up_entry t)).2.power_count = 1
          rw [hf, he]
        rw [hz]
        refine ⟨by decide, by omega, fun hf => absurd hf (by simp), fun _ => ?_⟩
        simp only [false_and, if_false]
        omega
      · simp only [hr, ne_eq, not_false_eq_true, if_true, hon, and_self, and_false, if_false,
          true_and]
        have hz : (record { (power_up_sequence h (power_up_entry t)).2 with power_count := 0 }
            .mutex_unlock).power_count = 0 := rfl
        rw [hz]
        exact ⟨le_refl _, by omega, fun _ => ⟨hc, rfl⟩, fun hf => absurd hf (by simp)⟩
    · rw [twl6040_power_on_again h t on_ hon hc]
      have hz : (record (power_up_entry t) .mutex_unlock).power_count
          = t.power_count + 1 := by
        show int_wrap (t.power_count + 1) = t.power_count + 1
        exact int_wrap_of_range _ (by omega) (by omega)
      simp only [hz, hon, ne_eq, not_false_eq_true, not_true_eq_false, and_false, and_true,
        and_self, if_true, if_false, true_and]
      refine ⟨by omega, by omega, fun hf => absurd hf (by simp), fun _ => ?_⟩
      omega

theorem twl6040_power_calls_count (h : twl6040_hdr) (hP : h.EPERM ≠ 0) (ons : List Int) :
    ∀ (t : twl6040) (acc : List (Int × Int)), 0 ≤ t.power_count →
      t.power_count + (ons.length : Int) ≤ INT_MAX →
      t.power_count = (acc.countP successful_on : Int) - (acc.countP successful_off : Int) →
      0 ≤ (twl6040_power_calls h ons t).2.power_count ∧
      (twl6040_power_calls h ons t).2.power_count ≤ t.power_count + (ons.length : Int) ∧
      (twl6040_power_calls h ons t).2.power_count
        = (((twl6040_power_calls h ons t).1.foldl
              (fun acc c => if failed_power_up c = true then [] else acc ++ [c]) acc
            ).countP successful_on : Int)
          - (((twl6040_power_calls h ons t).1.foldl
              (fun acc c => if failed_power_up c = true then [] else acc ++ [c]) acc
            ).countP successful_off : Int) ∧
      (twl6040_power_calls h ons t).2.power_count
        = t.power_count + ((twl6040_power_calls h ons t).1.countP successful_on : Int)
          - ((twl6040_power_calls h ons t).1.countP successful_off : Int) := by
  induction ons with
  | nil =>
    intro t acc hnn _ hacc
    refine ⟨hnn, ?_, hacc, ?_⟩
    · show t.power_count ≤ t.power_count + 0
      omega
    · show t.power_count = t.power_count + 0 - 0
      omega
  | cons on_ rest ih =>
    intro t acc hnn hmax hacc
    have hlen : ((on_ :: rest).length : Int) = (rest.length : Int) + 1 := by
      rw [List.length_cons]
      push_cast
      rfl
    rw [hlen] at hmax ⊢
    have hlt : t.power_count < INT_MAX := by omega
    obtain ⟨s1, sle, s2, s3⟩ := twl6040_power_count_step h hP t on_ hnn hlt
    unfold twl6040_power_calls
    simp only [List.foldl_cons, List.countP_cons]
    cases hf : failed_power_up (on_, (twl6040_power h t on_).1) with
    | true =>
      obtain ⟨hz, hz2⟩ := s2 hf
      obtain ⟨i1, ile, i2, i3⟩ := ih (twl6040_power h t on_).2 [] s1 (by omega)
        (by rw [hz2]; rfl)
      simp only [if_true]
      refine ⟨i1, by omega, i2, ?_⟩
      rw [i3, hz2, hz]
      have hso : successful_on (on_, (twl6040_power h t on_).1) = false := by
        unfold failed_power_up at hf
        unfold successful_on
        simp only [decide_eq_true_eq, decide_eq_false_iff_not] at hf ⊢
        exact fun hc => hf.2 hc.2
      have hsf : successful_off (on_, (twl6040_power h t on_).1) = false := by
        unfold failed_power_up at hf
        unfold successful_off
        simp only [decide_eq_true_eq, decide_eq_false_iff_not] at hf ⊢
        exact fun hc => hf.2 hc.2
      simp only [hso, hsf, Bool.false_eq_true, if_false, Nat.add_zero]
    | false =>
      have hstep := s3 hf
      obtain ⟨i1, ile, i2, i3⟩ := ih (twl6040_power h t on_).2
        (acc ++ [(on_, (twl6040_power h t on_).1)]) s1 (by omega) (by
          rw [hstep, hacc]
          simp only [List.countP_append, List.countP_cons, List.countP_nil, Nat.zero_add]
          split_ifs <;> push_cast <;> omega)
      simp only [Bool.false_eq_true, if_false]
      refine ⟨i1, by omega, i2, ?_⟩
      rw [i3, hstep]
      split_ifs <;> push_cast <;> omega

theorem twl6040_power_calls_append (h : twl6040_hdr) (pre rest : List Int) :
    ∀ t : twl6040,
      (twl6040_power_calls h (pre ++ rest) t).2
        = (twl6040_power_calls h rest (twl6040_power_calls h pre t).2).2 := by
  induction pre with
  | nil =>
    intro t
    rfl
  | cons on_ pre ih =>
    intro t
    show (twl6040_power_calls h (pre ++ rest) (twl6040_power h t on_).2).2 = _
    rw [ih]
    rfl

/-- At `power_count = INT_MAX` the increment of an on-call wraps to `-INT_MAX - 1`, as the
`int` of the code does: the embedding follows the code outside the range of the theorem
below too. -/
theorem twl6040_power_wraps_at_int_max :
    (twl6040_power twl6040_sample_hdr
      { twl6040_scripted (-1) [] with power_count := 2147483647 } 1).2.power_count
      = -2147483648 := by
  decide

/-- C30. Reference counting of `twl6040_power` (for a header whose `EPERM` is not 0), with
`power_count` a C `int` and call sequences of at most `INT_MAX` calls, in which no
`power_count++` overflows.  (1) After every such sequence of calls from `power_count = 0`,
`power_count` is not negative, is at most the number of calls, and equals the number of
calls with a nonzero argument that returned 0 minus the number of calls with argument 0
that returned 0, counted since the last failed power-up, and also counted over all calls;
every call of the sequence starts with `power_count` from 0 to below `INT_MAX`.  (2) An
off-call at `power_count = 0` returns `-EPERM`, leaves `power_count`, `pll`, `sysclk`,
`mclk` unchanged and only locks and unlocks the mutex.  (3) An on-call at a count above 0
and below `INT_MAX` returns 0, adds 1 and only locks and unlocks the mutex; an off-call at
a count above 1 (and at most `INT_MAX`) returns 0, subtracts 1 and only locks and unlocks
the mutex: so the power-up sequence runs only in an on-call at count 0 and the power-down
sequence only in an off-call at count 1.  (4) An on-call at count 0 runs the power-up
sequence, which makes at least one call of a kernel service; when the sequence fails the
call returns its error and leaves `power_count` at 0 and `pll`, `sysclk`, `mclk` unchanged;
when it succeeds the call returns 0 with `power_count = 1`,
`pll = TWL6040_SYSCLK_SEL_LPPLL`, `sysclk = 19200000` and `mclk = 32768`.  (5) An off-call
at count 1 runs the power-down sequence, which makes at least one call of a kernel service,
and returns 0 with `power_count = 0`, `sysclk = 0`, `mclk = 0` and `pll` unchanged. -/
theorem twl6040_power_reference_counting (h : twl6040_hdr) (t : twl6040) (hP : h.EPERM ≠ 0)
    (h0 : t.power_count = 0) :
    (∀ ons : List Int, (ons.length : Int) ≤ INT_MAX →
      0 ≤ (twl6040_power_calls h ons t).2.power_count ∧
      (twl6040_power_calls h ons t).2.power_count ≤ (ons.length : Int) ∧
      (twl6040_power_calls h ons t).2.power_count
        = ((since_last_failed_power_up (twl6040_power_calls h ons t).1).countP successful_on
            : Int)
          - ((since_last_failed_power_up (twl6040_power_calls h ons t).1).countP
              successful_off : Int) ∧
      (twl6040_power_calls h ons t).2.power_count
        = ((twl6040_power_calls h ons t).1.countP successful_on : Int)
          - ((twl6040_power_calls h ons t).1.countP successful_off : Int)) ∧
    (∀ (pre : List Int) (on_ : Int) (rest : List Int),
      ((pre ++ on_ :: rest).length : Int) ≤ INT_MAX →
      0 ≤ (twl6040_power_calls h pre t).2.power_count ∧
      (twl6040_power_calls h pre t).2.power_count < INT_MAX ∧
      (twl6040_power_calls h (pre ++ on_ :: rest) t).2
        = (twl6040_power_calls h rest
            (twl6040_power h (twl6040_power_calls h pre t).2 on_).2).2) ∧
    (∀ s : twl6040, s.power_count = 0 →
      (twl6040_power h s 0).1 = -h.EPERM ∧
      power_fields (twl6040_power h s 0).2 = power_fields s ∧
      (twl6040_power h s 0).2.log = s.log ++ [.mutex_lock, .mutex_unlock]) ∧
    (∀ (s : twl6040) (on_ : Int), on_ ≠ 0 → 0 < s.power_count → s.power_count < INT_MAX →
      (twl6040_power h s on_).1 = 0 ∧
      power_fields (twl6040_power h s on_).2
        = (s.power_count + 1, s.pll, s.sysclk, s.mclk, s.audpwron) ∧
      (twl6040_power h s on_).2.log = s.log ++ [.mutex_lock, .mutex_unlock]) ∧
    (∀ s : twl6040, 1 < s.power_count → s.power_count ≤ INT_MAX →
      (twl6040_power h s 0).1 = 0 ∧
      power_fields (twl6040_power h s 0).2
        = (s.power_count - 1, s.pll, s.sysclk, s.mclk, s.audpwron) ∧
      (twl6040_power h s 0).2.log = s.log ++ [.mutex_lock, .mutex_unlock]) ∧
    (∀ (s : twl6040) (on_ : Int), on_ ≠ 0 → s.power_count = 0 →
      (twl6040_power h s on_).2.log
        = (power_up_sequence h (power_up_entry s)).2.log ++ [.mutex_unlock] ∧
      (s.log ++ [twl6040_event.mutex_lock]).length
        < (power_up_sequence h (power_up_entry s)).2.log.length ∧
      ((power_up_sequence h (power_up_entry s)).1 ≠ 0 →
        (twl6040_power h s on_).1 = (power_up_sequence h (power_up_entry s)).1 ∧
        power_fields (twl6040_power h s on_).2 = power_fields s) ∧
      ((power_up_sequence h (power_up_entry s)).1 = 0 →
        (twl6040_power h s on_).1 = 0 ∧
        power_fields (twl6040_power h s on_).2
          = (1, h.TWL6040_SYSCLK_SEL_LPPLL, 19200000, 32768, s.audpwron))) ∧
    (∀ s : twl6040, s.power_count = 1 →
      (twl6040_power h s 0).1 = 0 ∧
      power_fields (twl6040_power h s 0).2 = (0, s.pll, 0, 0, s.audpwron) ∧
      (twl6040_power h s 0).2.log
        = (power_down_sequence h (power_down_entry s)).log ++ [.mutex_unlock] ∧
      (s.log ++ [twl6040_event.mutex_lock]).length
        < (power_down_sequence h (power_down_entry s)).log.length) := by
  have hseq : ∀ ons : List Int, (ons.length : Int) ≤ INT_MAX →
      0 ≤ (twl6040_power_calls h ons t).2.power_count ∧
      (twl6040_power_calls h ons t).2.power_count ≤ (ons.length : Int) ∧
      (twl6040_power_calls h ons t).2.power_count
        = ((since_last_failed_power_up (twl6040_power_calls h ons t).1).countP successful_on
            : Int)
          - ((since_last_failed_power_up (twl6040_power_calls h ons t).1).countP
              successful_off : Int) ∧
      (twl6040_power_calls h ons t).2.power_count
        = ((twl6040_power_calls h ons t).1.countP successful_on : Int)
          - ((twl6040_power_calls h ons t).1.countP successful_off : Int) := by
    intro ons hlen
    obtain ⟨i1, ile, i2, i3⟩ := twl6040_power_calls_count h hP ons t [] (by rw [h0])
      (by rw [h0]; omega) (by rw [h0]; rfl)
    refine ⟨i1, by omega, i2, ?_⟩
    rw [i3, h0]
    omega
  refine ⟨hseq, ?_, ?_, ?_, ?_, ?_, ?_⟩
  · intro pre on_ rest hlen
    rw [List.length_append, List.length_cons] at hlen
    push_cast at hlen
    obtain ⟨i1, ile, -, -⟩ := hseq pre (by omega)
    refine ⟨i1, by omega, ?_⟩
    rw [twl6040_power_calls_append]
    rfl
  · intro s hc
    rw [twl6040_power_off_at_zero h s hc]
    refine ⟨rfl, rfl, ?_⟩
    show (s.log ++ [.mutex_lock]) ++ [.mutex_unlock] = s.log ++ [.mutex_lock, .mutex_unlock]
    rw [List.append_assoc]
    rfl
  · intro s on_ hon hc hmax
    unfold INT_MAX at hmax
    rw [twl6040_power_on_again h s on_ hon (by omega)]
    refine ⟨rfl, ?_, ?_⟩
    · show (int_wrap (s.power_count + 1), s.pll, s.sysclk, s.mclk, s.audpwron) = _
      rw [int_wrap_of_range _ (by omega) (by omega)]
    · show (s.log ++ [.mutex_lock]) ++ [.mutex_unlock] = s.log ++ [.mutex_lock, .mutex_unlock]
      rw [List.append_assoc]
      rfl
  · intro s hc hmax
    unfold INT_MAX at hmax
    rw [twl6040_power_off_keep h s (by omega) (by omega) (by omega) (by omega)]
    refine ⟨rfl, ?_, ?_⟩
    · show (int_wrap (s.power_count - 1), s.pll, s.sysclk, s.mclk, s.audpwron) = _
      rw [int_wrap_of_range _ (by omega) (by omega)]
    · show (s.log ++ [.mutex_lock]) ++ [.mutex_unlock] = s.log ++ [.mutex_lock, .mutex_unlock]
      rw [List.append_assoc]
      rfl
  · intro s on_ hon hc
    have hf := power_up_sequence_fields h (power_up_entry s)
    have hl := power_up_sequence_log_length h (power_up_entry s)
    have he1 : (power_up_entry s).power_count = 1 := by
      show int_wrap (s.power_count + 1) = 1
      rw [hc]
      rfl
    rw [twl6040_power_on_first h s on_ hon hc]
    refine ⟨?_, hl, ?_, ?_⟩
    · split_ifs <;> rfl
    · intro hr
      rw [if_pos hr]
      refine ⟨rfl, ?_⟩
      unfold power_fields at hf ⊢
      simp only [Prod.mk.injEq] at hf ⊢
      obtain ⟨-, f2, f3, f4, f5⟩ := hf
      exact ⟨hc.symm, f2, f3, f4, f5⟩
    · intro hr
      rw [if_neg (not_not.mpr hr)]
      refine ⟨hr, ?_⟩
      unfold power_fields at hf ⊢
      simp only [Prod.mk.injEq] at hf ⊢
      obtain ⟨f1, -, -, -, f5⟩ := hf
      refine ⟨?_, rfl, rfl, rfl, f5⟩
      show (power_up_sequence h (power_up_entry s)).2.power_count = 1
      rw [f1, he1]
  · intro s hc
    have hf := power_down_sequence_fields h (power_down_entry s)
    have hl := power_down_sequence_log_length h (power_down_entry s)
    have he0 : (power_down_entry s).power_count = 0 := by
      show int_wrap (s.power_count - 1) = 0
      rw [hc]
      rfl
    rw [twl6040_power_off_last h s hc]
    refine ⟨rfl, ?_, rfl, hl⟩
    unfold power_fields at hf ⊢
    simp only [Prod.mk.injEq] at hf ⊢
    obtain ⟨f1, f2, -, -, f5⟩ := hf
    refine ⟨?_, f2, rfl, rfl, f5⟩
    show (power_down_sequence h (power_down_entry s)).power_count = 0
    rw [f1, he0]

theorem twl6040_power_reference_counting_witness :
    (twl6040_power_calls twl6040_sample_hdr [1, 1, 0, 0, 0, 1]
      (twl6040_scripted (-1) [])).2.power_count
      = (((twl6040_power_calls twl6040_sample_hdr [1, 1, 0, 0, 0, 1]
            (twl6040_scripted (-1) [])).1.countP successful_on : Nat) : Int)
        - (((twl6040_power_calls twl6040_sample_hdr [1, 1, 0, 0, 0, 1]
            (twl6040_scripted (-1) [])).1.countP successful_off : Nat) : Int) ∧
    (twl6040_power_calls twl6040_sample_hdr [1, 1, 0, 0, 0, 1]
      (twl6040_scripted (-1) [])).1 = [(1, 0), (1, 0), (0, 0), (0, 0), (0, -1), (1, 0)] :=
  ⟨((twl6040_power_reference_counting twl6040_sample_hdr (twl6040_scripted (-1) [])
      (by decide) rfl).1 [1, 1, 0, 0, 0, 1] (by decide)).2.2.2,
   by decide⟩

end Twl6040
